import Mathlib

/-!
# SNMPv3 USM key derivation, user cache and authentication check

A shallow embedding of the USM part of `asn1/snmp/packet-snmp-template.c`
(password to key, `set_ue_keys`, the user/engine association cache,
`snmp_usm_auth_md5` / `snmp_usm_auth_sha1`) together with the properties
proved about it.

Conventions of the embedding.
* A byte buffer `(data, len)` is a `List Nat`; `len` is the length of the list.
* `guint` / `guint32` arithmetic is arithmetic on `Nat` reduced modulo `U32`.
* A C function that can run into undefined behaviour (division by zero,
  access outside a buffer, null dereference) returns `Option`; `none` is the
  fault.
* The digest and HMAC primitives are not part of the file
  (`epan/crypt/crypt-md5.h`, `epan/crypt/crypt-sha1.h`); they are parameters.
-/

namespace Snmp

/-- Modulus of `guint` and `guint32`. -/
def U32 : Nat := 4294967296

/-- Contents of a byte buffer. -/
abbrev Bytes := List Nat

/-- The C call `memcpy(dst + off, src, n)` with `n = src.length`; a write that
leaves `dst` is a fault. -/
def memWrite (dst : Bytes) (off : Nat) (src : Bytes) : Option Bytes :=
  if off + src.length ≤ dst.length then
    some (dst.take off ++ src ++ dst.drop (off + src.length))
  else none

/-- Reading `n` bytes at `buf + off`; a read that leaves `buf` is a fault. -/
def memRead (buf : Bytes) (off n : Nat) : Option Bytes :=
  if off + n ≤ buf.length then some ((buf.drop off).take n) else none

/-- Interface of an incremental digest of the external crypt library:
`md5_init` / `md5_append` / `md5_finish` and
`sha1_starts` / `sha1_update` / `sha1_finish`. -/
structure HashLib where
  Ctx : Type
  init : Ctx
  update : Ctx → Bytes → Ctx
  finish : Ctx → Bytes

namespace HashLib

/-- One-shot digest `H(m)`: a fresh context fed with `m` once. -/
def hash (H : HashLib) (m : Bytes) : Bytes := H.finish (H.update H.init m)

/-- Feeding a context in pieces is feeding it the concatenation. -/
def Streaming (H : HashLib) : Prop :=
  ∀ (c : H.Ctx) (a b : Bytes), H.update (H.update c a) b = H.update c (a ++ b)

/-- Every digest written by `finish` has `n` bytes. -/
def DigestLen (H : HashLib) (n : Nat) : Prop :=
  ∀ c : H.Ctx, (H.finish c).length = n

end HashLib

/-- The inner loop `for (i = 0; i < 64; i++) *cp++ = password[password_index++ % passwordlen];`
run for `n` more iterations with `cp` at offset `cp` of `password_buf`.  Returns the
buffer and the password index. -/
def fillBuf (password : Bytes) : Nat → Nat → Bytes → Nat → Option (Bytes × Nat)
  | 0, _, password_buf, password_index => some (password_buf, password_index)
  | n + 1, cp, password_buf, password_index =>
    if password.length = 0 then none
    else
      match password[password_index % password.length]? with
      | none => none
      | some b =>
        if cp < password_buf.length then
          fillBuf password n (cp + 1) (password_buf.set cp b) ((password_index + 1) % U32)
        else none

/-- The loop `while (count < 1048576) { fill password_buf; append 64 bytes; count += 64; }`
shared by both password-to-key functions. -/
def keyLoop (H : HashLib) (password : Bytes) (MD : H.Ctx) (password_buf : Bytes)
    (password_index count : Nat) : Option (H.Ctx × Bytes × Nat × Nat) :=
  if count < 1048576 then
    match fillBuf password 64 0 password_buf password_index with
    | none => none
    | some (buf, idx) =>
      keyLoop H password (H.update MD (buf.take 64)) buf idx ((count + 64) % U32)
  else some (MD, password_buf, password_index, count)
termination_by 1048576 - count
decreasing_by simp only [U32]; omega

/-- MD5 password to key (RFC 3414 A.2.1).  `key` is the caller's output buffer;
the result is its contents on return. -/
def snmp_usm_password_to_key_md5 (H : HashLib) (password engineID key : Bytes) :
    Option Bytes := do
  let password_buf := List.replicate 64 0
  let key1 := List.replicate 16 0
  let MD := H.init
  let (MD, _, _, _) ← keyLoop H password MD password_buf 0 0
  let key1 ← memWrite key1 0 (H.finish MD)
  let MD := H.init
  let MD := H.update MD (key1.take 16)
  let MD := H.update MD engineID
  let MD := H.update MD (key1.take 16)
  memWrite key 0 (H.finish MD)

/-- SHA1 password to key (RFC 3414 A.2.2).  `key` is the caller's output buffer;
the result is its contents on return. -/
def snmp_usm_password_to_key_sha1 (H : HashLib) (password engineID key : Bytes) :
    Option Bytes := do
  let password_buf := List.replicate 72 0
  let SH := H.init
  let (SH, password_buf, _, _) ← keyLoop H password SH password_buf 0 0
  let key ← memWrite key 0 (H.finish SH)
  let password_buf ← memWrite password_buf 0 (← memRead key 0 20)
  let password_buf ← memWrite password_buf 20 engineID
  let password_buf ← memWrite password_buf (20 + engineID.length) (← memRead key 0 20)
  let SH := H.init
  let SH := H.update SH (← memRead password_buf 0 (40 + engineID.length))
  memWrite key 0 (H.finish SH)

/-- The spec's virtual stream: `n` bytes, byte `i` is `password[i mod passwordlen]`. -/
def passwordStream (password : Bytes) (n : Nat) : Bytes :=
  (List.range n).map fun i => password.getD (i % password.length) 0

/-- Bytes `start .. start + n` of the cyclic repetition of the password. -/
def streamPiece (password : Bytes) (start n : Nat) : Bytes :=
  (List.range' start n).map fun i => password.getD (i % password.length) 0

/-- The successive 64-byte blocks of the cyclic repetition, `k` of them from `start`. -/
def streamBlocks (password : Bytes) (start : Nat) : Nat → List Bytes
  | 0 => []
  | k + 1 => streamPiece password start 64 :: streamBlocks password (start + 64) k

/-- A digest library that only records the calls of `update`, in order. -/
def traceLib : HashLib where
  Ctx := List Bytes
  init := []
  update c b := c ++ [b]
  finish c := c.flatten

/-- C `memcmp(s1, s2, n)`: zero when the first `n` bytes agree, otherwise the
difference of the first pair of bytes that differ. -/
def memcmp : Bytes → Bytes → Nat → Int
  | _, _, 0 => 0
  | x :: s1, y :: s2, n + 1 => if x = y then memcmp s1 s2 n else (x : Int) - (y : Int)
  | [], _ :: _, _ + 1 => -1
  | _ :: _, [], _ + 1 => 1
  | [], [], _ + 1 => 0

/-- The external primitives of `epan/crypt`: the two incremental digests and
the two HMAC functions, `md5_hmac(msg, msg_len, key, key_len, digest)` and
`sha1_hmac(key, key_len, msg, msg_len, digest)`, each giving the digest it writes. -/
structure Crypt where
  md5 : HashLib
  sha1 : HashLib
  md5_hmac : Bytes → Bytes → Bytes
  sha1_hmac : Bytes → Bytes → Bytes

/-- Value of a `snmp_usm_auth_model_t*`: one of the two static models. -/
inductive AuthModelRef where
  | model_md5
  | model_sha1
  deriving DecidableEq, Repr

/-- Value of a `snmp_usm_decoder_t`: one of the two decryption functions. -/
inductive PrivProtoRef where
  | snmp_usm_priv_des
  | snmp_usm_priv_aes
  deriving DecidableEq, Repr

/-- The record `snmp_user_t`.  A password with a null `data` is the empty
password; a key with a null `data` is `none`. -/
structure snmp_user_t where
  userName : Bytes
  authModel : AuthModelRef
  authPassword : Bytes
  authKey : Option Bytes
  privProtocol : PrivProtoRef
  privPassword : Bytes
  privKey : Option Bytes
  deriving DecidableEq, Repr

/-- The record `snmp_ue_assoc_t`; the `next` pointer is the tail of the list that
holds the association. -/
structure snmp_ue_assoc_t where
  user : snmp_user_t
  engine : Bytes
  auth_model : Nat
  priv_proto : Nat
  deriving DecidableEq, Repr

/-- The record `snmp_usm_params_t` (without the display item `auth_item`).  A
null `tvbuff_t*` is `none`. -/
structure snmp_usm_params_t where
  authenticated : Bool
  encrypted : Bool
  start_offset : Nat
  auth_offset : Nat
  boots : Nat
  time : Nat
  engine_tvb : Option Bytes
  user_tvb : Option Bytes
  auth_tvb : Option Bytes
  priv_tvb : Option Bytes
  msg_tvb : Option Bytes
  user_assoc : Option snmp_ue_assoc_t
  authOK : Bool
  deriving DecidableEq, Repr

/-- What an `authenticate` function hands back: the returned `gboolean` and the
values stored through the three out-pointers (`none`: nothing stored). -/
structure AuthResult where
  ret : Bool
  error : Option String
  calc_auth : Option Bytes
  calc_auth_len : Option Nat
  deriving DecidableEq, Repr

/-- The loop `for (i = start; i < end; i++) msg[i] = 0;` with `n` iterations left;
a store outside `msg` is a fault. -/
def zeroFill (msg : Bytes) : Nat → Nat → Option Bytes
  | _, 0 => some msg
  | i, n + 1 => if i < msg.length then zeroFill (msg.set i 0) (i + 1) n else none

/-- Body shared by `snmp_usm_auth_md5` and `snmp_usm_auth_sha1`; `hmac key msg`
is the digest the HMAC call writes to `calc_auth`. -/
def snmp_usm_auth (hmac : Bytes → Bytes → Bytes) (p : snmp_usm_params_t) :
    Option AuthResult :=
  match p.auth_tvb with
  | none => some { ret := false, error := some "No Authenticator",
                   calc_auth := none, calc_auth_len := none }
  | some auth_tvb =>
    match p.user_assoc with
    | none => none
    | some user_assoc =>
      match user_assoc.user.authKey with
      | none => some { ret := false, error := some "User has no authKey",
                       calc_auth := none, calc_auth_len := none }
      | some key =>
        let auth_len := auth_tvb.length
        if auth_len ≠ 12 then
          some { ret := false, error := some "Authenticator length wrong",
                 calc_auth := none, calc_auth_len := none }
        else
          match p.msg_tvb with
          | none => none
          | some msg_tvb =>
            let auth := auth_tvb
            let start := (p.auth_offset % U32 + (U32 - p.start_offset % U32)) % U32
            let end_ := (start + auth_len) % U32
            match zeroFill msg_tvb start (end_ - start) with
            | none => none
            | some msg =>
              let calc_auth := hmac key msg
              some { ret := if memcmp auth calc_auth 12 ≠ 0 then false else true,
                     error := none,
                     calc_auth := some calc_auth, calc_auth_len := some 12 }

/-- `snmp_usm_auth_md5`: the HMAC call is `md5_hmac(msg, msg_len, key, key_len, calc_auth)`. -/
def snmp_usm_auth_md5 (L : Crypt) (p : snmp_usm_params_t) : Option AuthResult :=
  snmp_usm_auth (fun key msg => L.md5_hmac msg key) p

/-- `snmp_usm_auth_sha1`: the HMAC call is `sha1_hmac(key, key_len, msg, msg_len, calc_auth)`. -/
def snmp_usm_auth_sha1 (L : Crypt) (p : snmp_usm_params_t) : Option AuthResult :=
  snmp_usm_auth (fun key msg => L.sha1_hmac key msg) p

/-- The record `snmp_usm_auth_model_t`. -/
structure snmp_usm_auth_model_t where
  pass2key : Bytes → Bytes → Bytes → Option Bytes
  authenticate : snmp_usm_params_t → Option AuthResult
  key_size : Nat

/-- The static `model_md5 = {snmp_usm_password_to_key_md5, snmp_usm_auth_md5, 16}`. -/
def model_md5 (L : Crypt) : snmp_usm_auth_model_t :=
  { pass2key := snmp_usm_password_to_key_md5 L.md5,
    authenticate := snmp_usm_auth_md5 L, key_size := 16 }

/-- The static `model_sha1 = {snmp_usm_password_to_key_sha1, snmp_usm_auth_sha1, 20}`. -/
def model_sha1 (L : Crypt) : snmp_usm_auth_model_t :=
  { pass2key := snmp_usm_password_to_key_sha1 L.sha1,
    authenticate := snmp_usm_auth_sha1 L, key_size := 20 }

/-- Dereference of an `authModel` pointer. -/
def AuthModelRef.deref (L : Crypt) : AuthModelRef → snmp_usm_auth_model_t
  | .model_md5 => Snmp.model_md5 L
  | .model_sha1 => Snmp.model_sha1 L

/-- `se_alloc(n)`: a fresh buffer of `n` bytes (its contents are unspecified; zero here). -/
def se_alloc (n : Nat) : Bytes := List.replicate n 0

/-- `set_ue_keys`: both keys are allocated with the auth model's `key_size` and
filled by the auth model's `pass2key`. -/
def set_ue_keys (L : Crypt) (n : snmp_ue_assoc_t) : Option snmp_ue_assoc_t := do
  let key_size := (n.user.authModel.deref L).key_size
  let authKey ← (n.user.authModel.deref L).pass2key n.user.authPassword n.engine
    (se_alloc key_size)
  let privKey ← (n.user.authModel.deref L).pass2key n.user.privPassword n.engine
    (se_alloc key_size)
  pure { n with user := { n.user with authKey := some authKey, privKey := some privKey } }

/-- The module state of the cache: the two lists `localized_ues` and
`unlocalized_ues`, and the number of `set_ue_keys` calls made so far.  The counter
is not a program variable: it records the calls so that statements about how
often keys are derived can be made (`pass2key` is called by `set_ue_keys` only). -/
structure UeCache where
  localized_ues : List snmp_ue_assoc_t
  unlocalized_ues : List snmp_ue_assoc_t
  set_ue_keys_calls : Nat
  deriving DecidableEq, Repr

/-- `ue_se_dup`: a copy of `o`, with keys when it has an engine ID.  The second
component counts the `set_ue_keys` calls. -/
def ue_se_dup (L : Crypt) (o : snmp_ue_assoc_t) (calls : Nat) :
    Option (snmp_ue_assoc_t × Nat) :=
  let d := o
  if d.engine.length ≠ 0 then
    match set_ue_keys L d with
    | none => none
    | some d => some (d, calls + 1)
  else some (d, calls)

/-- The macro `CACHE_INSERT(c, a)`: `a` becomes the head of the list `c`. -/
def CACHE_INSERT (c : List snmp_ue_assoc_t) (a : snmp_ue_assoc_t) : List snmp_ue_assoc_t :=
  match c with
  | [] => [a]
  | t => a :: t

/-- The `for` loop of `renew_ue_cache` over the configured associations. -/
def renew_loop (L : Crypt) : List snmp_ue_assoc_t → UeCache → Option UeCache
  | [], g => some g
  | u :: rest, g =>
    match ue_se_dup L u g.set_ue_keys_calls with
    | none => none
    | some (a, calls) =>
      if a.engine.length ≠ 0 then
        renew_loop L rest { g with localized_ues := CACHE_INSERT g.localized_ues a,
                                   set_ue_keys_calls := calls }
      else
        renew_loop L rest { g with unlocalized_ues := CACHE_INSERT g.unlocalized_ues a,
                                   set_ue_keys_calls := calls }

/-- `renew_ue_cache` for the configured associations `ueas` (`num_ueas` is their number). -/
def renew_ue_cache (L : Crypt) (ueas : List snmp_ue_assoc_t) (g : UeCache) : Option UeCache :=
  if ueas.length ≠ 0 then
    renew_loop L ueas { g with localized_ues := [], unlocalized_ues := [] }
  else some { g with localized_ues := [], unlocalized_ues := [] }

/-- `localize_ue`: a copy of `o` bound to the given engine ID, with keys. -/
def localize_ue (L : Crypt) (o : snmp_ue_assoc_t) (engine : Bytes) :
    Option snmp_ue_assoc_t :=
  let n := { o with engine := engine }
  set_ue_keys L n

/-- The macro `localized_match(a, u, ul, e, el)`. -/
def localized_match (a : snmp_ue_assoc_t) (u : Bytes) (ul : Nat) (e : Bytes) (el : Nat) :
    Bool :=
  a.user.userName.length == ul
  && a.engine.length == el
  && memcmp a.user.userName u
       (if a.user.userName.length < ul then a.user.userName.length else ul) == 0
  && memcmp a.engine e (if a.engine.length < el then a.engine.length else el) == 0

/-- The macro `unlocalized_match(a, u, l)`. -/
def unlocalized_match (a : snmp_ue_assoc_t) (u : Bytes) (l : Nat) : Bool :=
  a.user.userName.length == l
  && memcmp a.user.userName u
       (if a.user.userName.length < l then a.user.userName.length else l) == 0

/-- `get_user_assoc`: the returned pointer (`none` is `NULL`) and the new state. -/
def get_user_assoc (L : Crypt) (g : UeCache) (engine_tvb user_tvb : Option Bytes) :
    Option (Option snmp_ue_assoc_t × UeCache) :=
  if g.localized_ues.isEmpty && g.unlocalized_ues.isEmpty then some (none, g)
  else
    match user_tvb, engine_tvb with
    | some given_username, some given_engine =>
      let given_username_len := given_username.length
      let given_engine_len := given_engine.length
      match g.localized_ues.find? fun a =>
          localized_match a given_username given_username_len given_engine given_engine_len with
      | some a => some (some a, g)
      | none =>
        match g.unlocalized_ues.find? fun a =>
            unlocalized_match a given_username given_username_len with
        | some a =>
          match localize_ue L a given_engine with
          | none => none
          | some n =>
            some (some n, { g with localized_ues := CACHE_INSERT g.localized_ues n,
                                   set_ue_keys_calls := g.set_ue_keys_calls + 1 })
        | none => some (none, g)
    | _, _ => some (none, g)

/-! ## The digest library

`md5_*`, `sha1_*` and the two HMAC functions come from `epan/crypt`, which is not
part of this file.  The definitions below model them from their standards
(RFC 1321, FIPS 180-1, RFC 2104) so that the parameters of the embedding can be
instantiated. -/

/-- Modelled from the spec: the MD5 digest of `epan/crypt/crypt-md5.c` is not in this
file; this is MD5 as RFC 1321 defines it.  Round 1 step
`a = b + ((a + F(b,c,d) + X[k] + t) <<< s)` with `F(b,c,d) = (b and c) or (not b and d)`.
`m` is the 64-byte block read as a little-endian number and `g = 32 k`, so `X[k]` is
`(m >>> g) mod 2^32`; `r` is `32 - s`.  The arithmetic is written with the primitive
operations of `Nat`; the bits above bit 31 that the left shift leaves are dropped by
the final reduction. -/
def md5FF (a b c d m g s r t : Nat) : Nat :=
  let x := Nat.mod (Nat.add (Nat.add (Nat.add a
    (Nat.lor (Nat.land b c) (Nat.land (Nat.xor b 4294967295) d)))
    (Nat.mod (Nat.shiftRight m g) 4294967296)) t) 4294967296
  Nat.mod (Nat.add b (Nat.lor (Nat.shiftLeft x s) (Nat.shiftRight x r))) 4294967296

/-- Modelled from the spec: MD5 round 2 step (RFC 1321),
`G(b,c,d) = (b and d) or (c and not d)`. -/
def md5GG (a b c d m g s r t : Nat) : Nat :=
  let x := Nat.mod (Nat.add (Nat.add (Nat.add a
    (Nat.lor (Nat.land b d) (Nat.land c (Nat.xor d 4294967295))))
    (Nat.mod (Nat.shiftRight m g) 4294967296)) t) 4294967296
  Nat.mod (Nat.add b (Nat.lor (Nat.shiftLeft x s) (Nat.shiftRight x r))) 4294967296

/-- Modelled from the spec: MD5 round 3 step (RFC 1321), `H(b,c,d) = b xor c xor d`. -/
def md5HH (a b c d m g s r t : Nat) : Nat :=
  let x := Nat.mod (Nat.add (Nat.add (Nat.add a
    (Nat.xor (Nat.xor b c) d))
    (Nat.mod (Nat.shiftRight m g) 4294967296)) t) 4294967296
  Nat.mod (Nat.add b (Nat.lor (Nat.shiftLeft x s) (Nat.shiftRight x r))) 4294967296

/-- Modelled from the spec: MD5 round 4 step (RFC 1321), `I(b,c,d) = c xor (b or not d)`. -/
def md5II (a b c d m g s r t : Nat) : Nat :=
  let x := Nat.mod (Nat.add (Nat.add (Nat.add a
    (Nat.xor c (Nat.lor b (Nat.xor d 4294967295))))
    (Nat.mod (Nat.shiftRight m g) 4294967296)) t) 4294967296
  Nat.mod (Nat.add b (Nat.lor (Nat.shiftLeft x s) (Nat.shiftRight x r))) 4294967296

/-- Modelled from the spec: the MD5 compression of one block (RFC 1321, section 3.4):
the 64 steps in the order of the reference code, then the addition of the input state.
A step is given the bit offset of its message word, the shift `s`, `32 - s` and the
constant `T[i]`. -/
def md5Compress (m a b c d : Nat) : Nat × Nat × Nat × Nat :=
  let a1 := md5FF a b c d m 0 7 25 0xd76aa478
  let d1 := md5FF d a1 b c m 32 12 20 0xe8c7b756
  let c1 := md5FF c d1 a1 b m 64 17 15 0x242070db
  let b1 := md5FF b c1 d1 a1 m 96 22 10 0xc1bdceee
  let a2 := md5FF a1 b1 c1 d1 m 128 7 25 0xf57c0faf
  let d2 := md5FF d1 a2 b1 c1 m 160 12 20 0x4787c62a
  let c2 := md5FF c1 d2 a2 b1 m 192 17 15 0xa8304613
  let b2 := md5FF b1 c2 d2 a2 m 224 22 10 0xfd469501
  let a3 := md5FF a2 b2 c2 d2 m 256 7 25 0x698098d8
  let d3 := md5FF d2 a3 b2 c2 m 288 12 20 0x8b44f7af
  let c3 := md5FF c2 d3 a3 b2 m 320 17 15 0xffff5bb1
  let b3 := md5FF b2 c3 d3 a3 m 352 22 10 0x895cd7be
  let a4 := md5FF a3 b3 c3 d3 m 384 7 25 0x6b901122
  let d4 := md5FF d3 a4 b3 c3 m 416 12 20 0xfd987193
  let c4 := md5FF c3 d4 a4 b3 m 448 17 15 0xa679438e
  let b4 := md5FF b3 c4 d4 a4 m 480 22 10 0x49b40821
  let a5 := md5GG a4 b4 c4 d4 m 32 5 27 0xf61e2562
  let d5 := md5GG d4 a5 b4 c4 m 192 9 23 0xc040b340
  let c5 := md5GG c4 d5 a5 b4 m 352 14 18 0x265e5a51
  let b5 := md5GG b4 c5 d5 a5 m 0 20 12 0xe9b6c7aa
  let a6 := md5GG a5 b5 c5 d5 m 160 5 27 0xd62f105d
  let d6 := md5GG d5 a6 b5 c5 m 320 9 23 0x02441453
  let c6 := md5GG c5 d6 a6 b5 m 480 14 18 0xd8a1e681
  let b6 := md5GG b5 c6 d6 a6 m 128 20 12 0xe7d3fbc8
  let a7 := md5GG a6 b6 c6 d6 m 288 5 27 0x21e1cde6
  let d7 := md5GG d6 a7 b6 c6 m 448 9 23 0xc33707d6
  let c7 := md5GG c6 d7 a7 b6 m 96 14 18 0xf4d50d87
  let b7 := md5GG b6 c7 d7 a7 m 256 20 12 0x455a14ed
  let a8 := md5GG a7 b7 c7 d7 m 416 5 27 0xa9e3e905
  let d8 := md5GG d7 a8 b7 c7 m 64 9 23 0xfcefa3f8
  let c8 := md5GG c7 d8 a8 b7 m 224 14 18 0x676f02d9
  let b8 := md5GG b7 c8 d8 a8 m 384 20 12 0x8d2a4c8a
  let a9 := md5HH a8 b8 c8 d8 m 160 4 28 0xfffa3942
  let d9 := md5HH d8 a9 b8 c8 m 256 11 21 0x8771f681
  let c9 := md5HH c8 d9 a9 b8 m 352 16 16 0x6d9d6122
  let b9 := md5HH b8 c9 d9 a9 m 448 23 9 0xfde5380c
  let a10 := md5HH a9 b9 c9 d9 m 32 4 28 0xa4beea44
  let d10 := md5HH d9 a10 b9 c9 m 128 11 21 0x4bdecfa9
  let c10 := md5HH c9 d10 a10 b9 m 224 16 16 0xf6bb4b60
  let b10 := md5HH b9 c10 d10 a10 m 320 23 9 0xbebfbc70
  let a11 := md5HH a10 b10 c10 d10 m 416 4 28 0x289b7ec6
  let d11 := md5HH d10 a11 b10 c10 m 0 11 21 0xeaa127fa
  let c11 := md5HH c10 d11 a11 b10 m 96 16 16 0xd4ef3085
  let b11 := md5HH b10 c11 d11 a11 m 192 23 9 0x04881d05
  let a12 := md5HH a11 b11 c11 d11 m 288 4 28 0xd9d4d039
  let d12 := md5HH d11 a12 b11 c11 m 384 11 21 0xe6db99e5
  let c12 := md5HH c11 d12 a12 b11 m 480 16 16 0x1fa27cf8
  let b12 := md5HH b11 c12 d12 a12 m 64 23 9 0xc4ac5665
  let a13 := md5II a12 b12 c12 d12 m 0 6 26 0xf4292244
  let d13 := md5II d12 a13 b12 c12 m 224 10 22 0x432aff97
  let c13 := md5II c12 d13 a13 b12 m 448 15 17 0xab9423a7
  let b13 := md5II b12 c13 d13 a13 m 160 21 11 0xfc93a039
  let a14 := md5II a13 b13 c13 d13 m 384 6 26 0x655b59c3
  let d14 := md5II d13 a14 b13 c13 m 96 10 22 0x8f0ccc92
  let c14 := md5II c13 d14 a14 b13 m 320 15 17 0xffeff47d
  let b14 := md5II b13 c14 d14 a14 m 32 21 11 0x85845dd1
  let a15 := md5II a14 b14 c14 d14 m 256 6 26 0x6fa87e4f
  let d15 := md5II d14 a15 b14 c14 m 480 10 22 0xfe2ce6e0
  let c15 := md5II c14 d15 a15 b14 m 192 15 17 0xa3014314
  let b15 := md5II b14 c15 d15 a15 m 416 21 11 0x4e0811a1
  let a16 := md5II a15 b15 c15 d15 m 128 6 26 0xf7537e82
  let d16 := md5II d15 a16 b15 c15 m 352 10 22 0xbd3af235
  let c16 := md5II c15 d16 a16 b15 m 64 15 17 0x2ad7d2bb
  let b16 := md5II b15 c16 d16 a16 m 288 21 11 0xeb86d391
  (Nat.mod (Nat.add a a16) 4294967296, Nat.mod (Nat.add b b16) 4294967296,
   Nat.mod (Nat.add c c16) 4294967296, Nat.mod (Nat.add d d16) 4294967296)

/-- Modelled from the spec: the SHA-1 digest of `epan/crypt/crypt-sha1.c` is not in this
file; this is SHA-1 as FIPS 180-1 / RFC 3174 define it.  A word of the message
schedule, `W[t] = (W[t-3] xor W[t-8] xor W[t-14] xor W[t-16]) <<< 1`. -/
def sha1W (w3 w8 w14 w16 : Nat) : Nat :=
  let x := Nat.xor (Nat.xor (Nat.xor w3 w8) w14) w16
  Nat.mod (Nat.lor (Nat.shiftLeft x 1) (Nat.shiftRight x 31)) 4294967296

/-- Modelled from the spec: SHA-1 step value `(a <<< 5) + f + e + W[t] + k` for
`0 <= t <= 19`, where `f(b,c,d) = (b and c) or (not b and d)` and `k = 5A827999`.
`ws` holds the 80 schedule words, `W[t]` at bit offset `g = 32 t`.  The bits above
bit 31 that the left shift leaves are dropped by the final reduction. -/
def sha1F0 (a b c d e ws g : Nat) : Nat :=
  Nat.mod (Nat.add (Nat.add (Nat.add (Nat.add
    (Nat.lor (Nat.shiftLeft a 5) (Nat.shiftRight a 27))
    (Nat.lor (Nat.land b c) (Nat.land (Nat.xor b 4294967295) d))) e)
    (Nat.mod (Nat.shiftRight ws g) 4294967296)) 0x5a827999) 4294967296

/-- Modelled from the spec: SHA-1 step value for `20 <= t <= 39`,
`f(b,c,d) = b xor c xor d` and `k = 6ED9EBA1`. -/
def sha1F1 (a b c d e ws g : Nat) : Nat :=
  Nat.mod (Nat.add (Nat.add (Nat.add (Nat.add
    (Nat.lor (Nat.shiftLeft a 5) (Nat.shiftRight a 27))
    (Nat.xor (Nat.xor b c) d)) e)
    (Nat.mod (Nat.shiftRight ws g) 4294967296)) 0x6ed9eba1) 4294967296

/-- Modelled from the spec: SHA-1 step value for `40 <= t <= 59`,
`f(b,c,d) = (b and c) or (b and d) or (c and d)` and `k = 8F1BBCDC`. -/
def sha1F2 (a b c d e ws g : Nat) : Nat :=
  Nat.mod (Nat.add (Nat.add (Nat.add (Nat.add
    (Nat.lor (Nat.shiftLeft a 5) (Nat.shiftRight a 27))
    (Nat.lor (Nat.lor (Nat.land b c) (Nat.land b d)) (Nat.land c d))) e)
    (Nat.mod (Nat.shiftRight ws g) 4294967296)) 0x8f1bbcdc) 4294967296

/-- Modelled from the spec: SHA-1 step value for `60 <= t <= 79`,
`f(b,c,d) = b xor c xor d` and `k = CA62C1D6`. -/
def sha1F3 (a b c d e ws g : Nat) : Nat :=
  Nat.mod (Nat.add (Nat.add (Nat.add (Nat.add
    (Nat.lor (Nat.shiftLeft a 5) (Nat.shiftRight a 27))
    (Nat.xor (Nat.xor b c) d)) e)
    (Nat.mod (Nat.shiftRight ws g) 4294967296)) 0xca62c1d6) 4294967296

/-- Modelled from the spec: the rotation `b <<< 30` of a SHA-1 step. -/
def sha1R30 (b : Nat) : Nat :=
  Nat.mod (Nat.lor (Nat.shiftLeft b 30) (Nat.shiftRight b 2)) 4294967296

/-- Modelled from the spec: the SHA-1 message schedule of one block (FIPS 180-1,
section 7): the 80 words `W[0..79]`, returned as one number with `W[t]` at bit offset
`32 t`.  `m` is the 64-byte block read as a big-endian number. -/
def sha1Schedule (m : Nat) : Nat :=
  let w0 := Nat.mod (Nat.shiftRight m 480) 4294967296
  let w1 := Nat.mod (Nat.shiftRight m 448) 4294967296
  let w2 := Nat.mod (Nat.shiftRight m 416) 4294967296
  let w3 := Nat.mod (Nat.shiftRight m 384) 4294967296
  let w4 := Nat.mod (Nat.shiftRight m 352) 4294967296
  let w5 := Nat.mod (Nat.shiftRight m 320) 4294967296
  let w6 := Nat.mod (Nat.shiftRight m 288) 4294967296
  let w7 := Nat.mod (Nat.shiftRight m 256) 4294967296
  let w8 := Nat.mod (Nat.shiftRight m 224) 4294967296
  let w9 := Nat.mod (Nat.shiftRight m 192) 4294967296
  let w10 := Nat.mod (Nat.shiftRight m 160) 4294967296
  let w11 := Nat.mod (Nat.shiftRight m 128) 4294967296
  let w12 := Nat.mod (Nat.shiftRight m 96) 4294967296
  let w13 := Nat.mod (Nat.shiftRight m 64) 4294967296
  let w14 := Nat.mod (Nat.shiftRight m 32) 4294967296
  let w15 := Nat.mod (Nat.shiftRight m 0) 4294967296
  let w16 := sha1W w13 w8 w2 w0
  let w17 := sha1W w14 w9 w3 w1
  let w18 := sha1W w15 w10 w4 w2
  let w19 := sha1W w16 w11 w5 w3
  let w20 := sha1W w17 w12 w6 w4
  let w21 := sha1W w18 w13 w7 w5
  let w22 := sha1W w19 w14 w8 w6
  let w23 := sha1W w20 w15 w9 w7
  let w24 := sha1W w21 w16 w10 w8
  let w25 := sha1W w22 w17 w11 w9
  let w26 := sha1W w23 w18 w12 w10
  let w27 := sha1W w24 w19 w13 w11
  let w28 := sha1W w25 w20 w14 w12
  let w29 := sha1W w26 w21 w15 w13
  let w30 := sha1W w27 w22 w16 w14
  let w31 := sha1W w28 w23 w17 w15
  let w32 := sha1W w29 w24 w18 w16
  let w33 := sha1W w30 w25 w19 w17
  let w34 := sha1W w31 w26 w20 w18
  let w35 := sha1W w32 w27 w21 w19
  let w36 := sha1W w33 w28 w22 w20
  let w37 := sha1W w34 w29 w23 w21
  let w38 := sha1W w35 w30 w24 w22
  let w39 := sha1W w36 w31 w25 w23
  let w40 := sha1W w37 w32 w26 w24
  let w41 := sha1W w38 w33 w27 w25
  let w42 := sha1W w39 w34 w28 w26
  let w43 := sha1W w40 w35 w29 w27
  let w44 := sha1W w41 w36 w30 w28
  let w45 := sha1W w42 w37 w31 w29
  let w46 := sha1W w43 w38 w32 w30
  let w47 := sha1W w44 w39 w33 w31
  let w48 := sha1W w45 w40 w34 w32
  let w49 := sha1W w46 w41 w35 w33
  let w50 := sha1W w47 w42 w36 w34
  let w51 := sha1W w48 w43 w37 w35
  let w52 := sha1W w49 w44 w38 w36
  let w53 := sha1W w50 w45 w39 w37
  let w54 := sha1W w51 w46 w40 w38
  let w55 := sha1W w52 w47 w41 w39
  let w56 := sha1W w53 w48 w42 w40
  let w57 := sha1W w54 w49 w43 w41
  let w58 := sha1W w55 w50 w44 w42
  let w59 := sha1W w56 w51 w45 w43
  let w60 := sha1W w57 w52 w46 w44
  let w61 := sha1W w58 w53 w47 w45
  let w62 := sha1W w59 w54 w48 w46
  let w63 := sha1W w60 w55 w49 w47
  let w64 := sha1W w61 w56 w50 w48
  let w65 := sha1W w62 w57 w51 w49
  let w66 := sha1W w63 w58 w52 w50
  let w67 := sha1W w64 w59 w53 w51
  let w68 := sha1W w65 w60 w54 w52
  let w69 := sha1W w66 w61 w55 w53
  let w70 := sha1W w67 w62 w56 w54
  let w71 := sha1W w68 w63 w57 w55
  let w72 := sha1W w69 w64 w58 w56
  let w73 := sha1W w70 w65 w59 w57
  let w74 := sha1W w71 w66 w60 w58
  let w75 := sha1W w72 w67 w61 w59
  let w76 := sha1W w73 w68 w62 w60
  let w77 := sha1W w74 w69 w63 w61
  let w78 := sha1W w75 w70 w64 w62
  let w79 := sha1W w76 w71 w65 w63
  Nat.lor w0 (Nat.shiftLeft (Nat.lor w1 (Nat.shiftLeft (Nat.lor w2 (Nat.shiftLeft (Nat.lor w3
    (Nat.shiftLeft (Nat.lor w4 (Nat.shiftLeft (Nat.lor w5 (Nat.shiftLeft (Nat.lor w6
    (Nat.shiftLeft (Nat.lor w7 (Nat.shiftLeft (Nat.lor w8 (Nat.shiftLeft (Nat.lor w9
    (Nat.shiftLeft (Nat.lor w10 (Nat.shiftLeft (Nat.lor w11 (Nat.shiftLeft (Nat.lor w12
    (Nat.shiftLeft (Nat.lor w13 (Nat.shiftLeft (Nat.lor w14 (Nat.shiftLeft (Nat.lor w15
    (Nat.shiftLeft (Nat.lor w16 (Nat.shiftLeft (Nat.lor w17 (Nat.shiftLeft (Nat.lor w18
    (Nat.shiftLeft (Nat.lor w19 (Nat.shiftLeft (Nat.lor w20 (Nat.shiftLeft (Nat.lor w21
    (Nat.shiftLeft (Nat.lor w22 (Nat.shiftLeft (Nat.lor w23 (Nat.shiftLeft (Nat.lor w24
    (Nat.shiftLeft (Nat.lor w25 (Nat.shiftLeft (Nat.lor w26 (Nat.shiftLeft (Nat.lor w27
    (Nat.shiftLeft (Nat.lor w28 (Nat.shiftLeft (Nat.lor w29 (Nat.shiftLeft (Nat.lor w30
    (Nat.shiftLeft (Nat.lor w31 (Nat.shiftLeft (Nat.lor w32 (Nat.shiftLeft (Nat.lor w33
    (Nat.shiftLeft (Nat.lor w34 (Nat.shiftLeft (Nat.lor w35 (Nat.shiftLeft (Nat.lor w36
    (Nat.shiftLeft (Nat.lor w37 (Nat.shiftLeft (Nat.lor w38 (Nat.shiftLeft (Nat.lor w39
    (Nat.shiftLeft (Nat.lor w40 (Nat.shiftLeft (Nat.lor w41 (Nat.shiftLeft (Nat.lor w42
    (Nat.shiftLeft (Nat.lor w43 (Nat.shiftLeft (Nat.lor w44 (Nat.shiftLeft (Nat.lor w45
    (Nat.shiftLeft (Nat.lor w46 (Nat.shiftLeft (Nat.lor w47 (Nat.shiftLeft (Nat.lor w48
    (Nat.shiftLeft (Nat.lor w49 (Nat.shiftLeft (Nat.lor w50 (Nat.shiftLeft (Nat.lor w51
    (Nat.shiftLeft (Nat.lor w52 (Nat.shiftLeft (Nat.lor w53 (Nat.shiftLeft (Nat.lor w54
    (Nat.shiftLeft (Nat.lor w55 (Nat.shiftLeft (Nat.lor w56 (Nat.shiftLeft (Nat.lor w57
    (Nat.shiftLeft (Nat.lor w58 (Nat.shiftLeft (Nat.lor w59 (Nat.shiftLeft (Nat.lor w60
    (Nat.shiftLeft (Nat.lor w61 (Nat.shiftLeft (Nat.lor w62 (Nat.shiftLeft (Nat.lor w63
    (Nat.shiftLeft (Nat.lor w64 (Nat.shiftLeft (Nat.lor w65 (Nat.shiftLeft (Nat.lor w66
    (Nat.shiftLeft (Nat.lor w67 (Nat.shiftLeft (Nat.lor w68 (Nat.shiftLeft (Nat.lor w69
    (Nat.shiftLeft (Nat.lor w70 (Nat.shiftLeft (Nat.lor w71 (Nat.shiftLeft (Nat.lor w72
    (Nat.shiftLeft (Nat.lor w73 (Nat.shiftLeft (Nat.lor w74 (Nat.shiftLeft (Nat.lor w75
    (Nat.shiftLeft (Nat.lor w76 (Nat.shiftLeft (Nat.lor w77 (Nat.shiftLeft (Nat.lor w78
    (Nat.shiftLeft (w79) 32)) 32)) 32)) 32)) 32)) 32)) 32)) 32)) 32)) 32)) 32)) 32)) 32)) 32))
    32)) 32)) 32)) 32)) 32)) 32)) 32)) 32)) 32)) 32)) 32)) 32)) 32)) 32)) 32)) 32)) 32)) 32))
    32)) 32)) 32)) 32)) 32)) 32)) 32)) 32)) 32)) 32)) 32)) 32)) 32)) 32)) 32)) 32)) 32)) 32))
    32)) 32)) 32)) 32)) 32)) 32)) 32)) 32)) 32)) 32)) 32)) 32)) 32)) 32)) 32)) 32)) 32)) 32))
    32)) 32)) 32)) 32)) 32)) 32)) 32)) 32)) 32)) 32)) 32)

/-- Modelled from the spec: the 80 steps of SHA-1 on the schedule `ws`, then the
addition of the input state (FIPS 180-1, section 7). -/
def sha1Rounds (ws a b c d e : Nat) : Nat × Nat × Nat × Nat × Nat :=
  let a1 := sha1F0 a b c d e ws 0
  let c1 := sha1R30 b
  let a2 := sha1F0 a1 a c1 c d ws 32
  let c2 := sha1R30 a
  let a3 := sha1F0 a2 a1 c2 c1 c ws 64
  let c3 := sha1R30 a1
  let a4 := sha1F0 a3 a2 c3 c2 c1 ws 96
  let c4 := sha1R30 a2
  let a5 := sha1F0 a4 a3 c4 c3 c2 ws 128
  let c5 := sha1R30 a3
  let a6 := sha1F0 a5 a4 c5 c4 c3 ws 160
  let c6 := sha1R30 a4
  let a7 := sha1F0 a6 a5 c6 c5 c4 ws 192
  let c7 := sha1R30 a5
  let a8 := sha1F0 a7 a6 c7 c6 c5 ws 224
  let c8 := sha1R30 a6
  let a9 := sha1F0 a8 a7 c8 c7 c6 ws 256
  let c9 := sha1R30 a7
  let a10 := sha1F0 a9 a8 c9 c8 c7 ws 288
  let c10 := sha1R30 a8
  let a11 := sha1F0 a10 a9 c10 c9 c8 ws 320
  let c11 := sha1R30 a9
  let a12 := sha1F0 a11 a10 c11 c10 c9 ws 352
  let c12 := sha1R30 a10
  let a13 := sha1F0 a12 a11 c12 c11 c10 ws 384
  let c13 := sha1R30 a11
  let a14 := sha1F0 a13 a12 c13 c12 c11 ws 416
  let c14 := sha1R30 a12
  let a15 := sha1F0 a14 a13 c14 c13 c12 ws 448
  let c15 := sha1R30 a13
  let a16 := sha1F0 a15 a14 c15 c14 c13 ws 480
  let c16 := sha1R30 a14
  let a17 := sha1F0 a16 a15 c16 c15 c14 ws 512
  let c17 := sha1R30 a15
  let a18 := sha1F0 a17 a16 c17 c16 c15 ws 544
  let c18 := sha1R30 a16
  let a19 := sha1F0 a18 a17 c18 c17 c16 ws 576
  let c19 := sha1R30 a17
  let a20 := sha1F0 a19 a18 c19 c18 c17 ws 608
  let c20 := sha1R30 a18
  let a21 := sha1F1 a20 a19 c20 c19 c18 ws 640
  let c21 := sha1R30 a19
  let a22 := sha1F1 a21 a20 c21 c20 c19 ws 672
  let c22 := sha1R30 a20
  let a23 := sha1F1 a22 a21 c22 c21 c20 ws 704
  let c23 := sha1R30 a21
  let a24 := sha1F1 a23 a22 c23 c22 c21 ws 736
  let c24 := sha1R30 a22
  let a25 := sha1F1 a24 a23 c24 c23 c22 ws 768
  let c25 := sha1R30 a23
  let a26 := sha1F1 a25 a24 c25 c24 c23 ws 800
  let c26 := sha1R30 a24
  let a27 := sha1F1 a26 a25 c26 c25 c24 ws 832
  let c27 := sha1R30 a25
  let a28 := sha1F1 a27 a26 c27 c26 c25 ws 864
  let c28 := sha1R30 a26
  let a29 := sha1F1 a28 a27 c28 c27 c26 ws 896
  let c29 := sha1R30 a27
  let a30 := sha1F1 a29 a28 c29 c28 c27 ws 928
  let c30 := sha1R30 a28
  let a31 := sha1F1 a30 a29 c30 c29 c28 ws 960
  let c31 := sha1R30 a29
  let a32 := sha1F1 a31 a30 c31 c30 c29 ws 992
  let c32 := sha1R30 a30
  let a33 := sha1F1 a32 a31 c32 c31 c30 ws 1024
  let c33 := sha1R30 a31
  let a34 := sha1F1 a33 a32 c33 c32 c31 ws 1056
  let c34 := sha1R30 a32
  let a35 := sha1F1 a34 a33 c34 c33 c32 ws 1088
  let c35 := sha1R30 a33
  let a36 := sha1F1 a35 a34 c35 c34 c33 ws 1120
  let c36 := sha1R30 a34
  let a37 := sha1F1 a36 a35 c36 c35 c34 ws 1152
  let c37 := sha1R30 a35
  let a38 := sha1F1 a37 a36 c37 c36 c35 ws 1184
  let c38 := sha1R30 a36
  let a39 := sha1F1 a38 a37 c38 c37 c36 ws 1216
  let c39 := sha1R30 a37
  let a40 := sha1F1 a39 a38 c39 c38 c37 ws 1248
  let c40 := sha1R30 a38
  let a41 := sha1F2 a40 a39 c40 c39 c38 ws 1280
  let c41 := sha1R30 a39
  let a42 := sha1F2 a41 a40 c41 c40 c39 ws 1312
  let c42 := sha1R30 a40
  let a43 := sha1F2 a42 a41 c42 c41 c40 ws 1344
  let c43 := sha1R30 a41
  let a44 := sha1F2 a43 a42 c43 c42 c41 ws 1376
  let c44 := sha1R30 a42
  let a45 := sha1F2 a44 a43 c44 c43 c42 ws 1408
  let c45 := sha1R30 a43
  let a46 := sha1F2 a45 a44 c45 c44 c43 ws 1440
  let c46 := sha1R30 a44
  let a47 := sha1F2 a46 a45 c46 c45 c44 ws 1472
  let c47 := sha1R30 a45
  let a48 := sha1F2 a47 a46 c47 c46 c45 ws 1504
  let c48 := sha1R30 a46
  let a49 := sha1F2 a48 a47 c48 c47 c46 ws 1536
  let c49 := sha1R30 a47
  let a50 := sha1F2 a49 a48 c49 c48 c47 ws 1568
  let c50 := sha1R30 a48
  let a51 := sha1F2 a50 a49 c50 c49 c48 ws 1600
  let c51 := sha1R30 a49
  let a52 := sha1F2 a51 a50 c51 c50 c49 ws 1632
  let c52 := sha1R30 a50
  let a53 := sha1F2 a52 a51 c52 c51 c50 ws 1664
  let c53 := sha1R30 a51
  let a54 := sha1F2 a53 a52 c53 c52 c51 ws 1696
  let c54 := sha1R30 a52
  let a55 := sha1F2 a54 a53 c54 c53 c52 ws 1728
  let c55 := sha1R30 a53
  let a56 := sha1F2 a55 a54 c55 c54 c53 ws 1760
  let c56 := sha1R30 a54
  let a57 := sha1F2 a56 a55 c56 c55 c54 ws 1792
  let c57 := sha1R30 a55
  let a58 := sha1F2 a57 a56 c57 c56 c55 ws 1824
  let c58 := sha1R30 a56
  let a59 := sha1F2 a58 a57 c58 c57 c56 ws 1856
  let c59 := sha1R30 a57
  let a60 := sha1F2 a59 a58 c59 c58 c57 ws 1888
  let c60 := sha1R30 a58
  let a61 := sha1F3 a60 a59 c60 c59 c58 ws 1920
  let c61 := sha1R30 a59
  let a62 := sha1F3 a61 a60 c61 c60 c59 ws 1952
  let c62 := sha1R30 a60
  let a63 := sha1F3 a62 a61 c62 c61 c60 ws 1984
  let c63 := sha1R30 a61
  let a64 := sha1F3 a63 a62 c63 c62 c61 ws 2016
  let c64 := sha1R30 a62
  let a65 := sha1F3 a64 a63 c64 c63 c62 ws 2048
  let c65 := sha1R30 a63
  let a66 := sha1F3 a65 a64 c65 c64 c63 ws 2080
  let c66 := sha1R30 a64
  let a67 := sha1F3 a66 a65 c66 c65 c64 ws 2112
  let c67 := sha1R30 a65
  let a68 := sha1F3 a67 a66 c67 c66 c65 ws 2144
  let c68 := sha1R30 a66
  let a69 := sha1F3 a68 a67 c68 c67 c66 ws 2176
  let c69 := sha1R30 a67
  let a70 := sha1F3 a69 a68 c69 c68 c67 ws 2208
  let c70 := sha1R30 a68
  let a71 := sha1F3 a70 a69 c70 c69 c68 ws 2240
  let c71 := sha1R30 a69
  let a72 := sha1F3 a71 a70 c71 c70 c69 ws 2272
  let c72 := sha1R30 a70
  let a73 := sha1F3 a72 a71 c72 c71 c70 ws 2304
  let c73 := sha1R30 a71
  let a74 := sha1F3 a73 a72 c73 c72 c71 ws 2336
  let c74 := sha1R30 a72
  let a75 := sha1F3 a74 a73 c74 c73 c72 ws 2368
  let c75 := sha1R30 a73
  let a76 := sha1F3 a75 a74 c75 c74 c73 ws 2400
  let c76 := sha1R30 a74
  let a77 := sha1F3 a76 a75 c76 c75 c74 ws 2432
  let c77 := sha1R30 a75
  let a78 := sha1F3 a77 a76 c77 c76 c75 ws 2464
  let c78 := sha1R30 a76
  let a79 := sha1F3 a78 a77 c78 c77 c76 ws 2496
  let c79 := sha1R30 a77
  let a80 := sha1F3 a79 a78 c79 c78 c77 ws 2528
  let c80 := sha1R30 a78
  (Nat.mod (Nat.add a a80) 4294967296, Nat.mod (Nat.add b a79) 4294967296,
   Nat.mod (Nat.add c c80) 4294967296, Nat.mod (Nat.add d c79) 4294967296,
   Nat.mod (Nat.add e c78) 4294967296)

/-- Little-endian value of a byte string. -/
def leNat : Bytes → Nat
  | [] => 0
  | b :: bs => b + 256 * leNat bs

/-- Big-endian value of a byte string. -/
def beNat (bs : Bytes) : Nat := bs.foldl (fun acc b => 256 * acc + b) 0

/-- The `n` low-order bytes of `x`, least significant first. -/
def leBytes : Nat → Nat → Bytes
  | 0, _ => []
  | n + 1, x => x % 256 :: leBytes n (x / 256)

/-- The `n` low-order bytes of `x`, most significant first. -/
def beBytes (n x : Nat) : Bytes := (leBytes n x).reverse

/-- Modelled from the spec: number of zero bytes of the MD5 / SHA-1 padding of a
message of `len` bytes: after the byte `0x80` the length is 56 modulo 64. -/
def padZeros (len : Nat) : Nat := (119 - len % 64) % 64

/-- Modelled from the spec: MD5 padding (RFC 1321, 3.1 and 3.2): `0x80`, zeros, the bit
length on 8 bytes, least significant byte first. -/
def md5Pad (len : Nat) : Bytes :=
  128 :: List.replicate (padZeros len) 0 ++ leBytes 8 (8 * len)

/-- Modelled from the spec: SHA-1 padding (FIPS 180-1, section 4): `0x80`, zeros, the bit
length on 8 bytes, most significant byte first. -/
def sha1Pad (len : Nat) : Bytes :=
  128 :: List.replicate (padZeros len) 0 ++ beBytes 8 (8 * len)

/-- The first `n` consecutive 64-byte blocks of a byte string. -/
def blocks64 : Nat → Bytes → List Bytes
  | 0, _ => []
  | n + 1, bs => bs.take 64 :: blocks64 n (bs.drop 64)

/-- Modelled from the spec: MD5 chaining state and its initial value (RFC 1321, 3.3). -/
abbrev Md5State := Nat × Nat × Nat × Nat

/-- Modelled from the spec: initial MD5 state (RFC 1321, 3.3). -/
def md5IV : Md5State := (0x67452301, 0xefcdab89, 0x98badcfe, 0x10325476)

/-- Modelled from the spec: one MD5 block, given as the number `m`, absorbed into a state. -/
def md5Step (st : Md5State) (m : Nat) : Md5State :=
  md5Compress m st.1 st.2.1 st.2.2.1 st.2.2.2

/-- Modelled from the spec: the 16 digest bytes of an MD5 state (RFC 1321, 3.5). -/
def md5Out (st : Md5State) : Bytes :=
  leBytes 4 st.1 ++ leBytes 4 st.2.1 ++ leBytes 4 st.2.2.1 ++ leBytes 4 st.2.2.2

/-- Modelled from the spec: the MD5 digest of a message (RFC 1321). -/
def md5 (msg : Bytes) : Bytes :=
  let padded := msg ++ md5Pad msg.length
  md5Out (((blocks64 (padded.length / 64) padded).map leNat).foldl md5Step md5IV)

/-- Modelled from the spec: SHA-1 chaining state. -/
abbrev Sha1State := Nat × Nat × Nat × Nat × Nat

/-- Modelled from the spec: initial SHA-1 state (FIPS 180-1, section 7). -/
def sha1IV : Sha1State := (0x67452301, 0xefcdab89, 0x98badcfe, 0x10325476, 0xc3d2e1f0)

/-- Modelled from the spec: one SHA-1 block with message schedule `ws` absorbed into a state. -/
def sha1Step (st : Sha1State) (ws : Nat) : Sha1State :=
  sha1Rounds ws st.1 st.2.1 st.2.2.1 st.2.2.2.1 st.2.2.2.2

/-- Modelled from the spec: the 20 digest bytes of a SHA-1 state. -/
def sha1Out (st : Sha1State) : Bytes :=
  beBytes 4 st.1 ++ beBytes 4 st.2.1 ++ beBytes 4 st.2.2.1 ++ beBytes 4 st.2.2.2.1
    ++ beBytes 4 st.2.2.2.2

/-- Modelled from the spec: the SHA-1 digest of a message (FIPS 180-1). -/
def sha1 (msg : Bytes) : Bytes :=
  let padded := msg ++ sha1Pad msg.length
  sha1Out (((blocks64 (padded.length / 64) padded).map fun b => sha1Schedule (beNat b)).foldl
    sha1Step sha1IV)

/-- Modelled from the spec: the MD5 functions of the crypt library, as a context that holds
the bytes appended so far. -/
def md5Lib : HashLib where
  Ctx := Bytes
  init := []
  update c b := c ++ b
  finish c := md5 c

/-- Modelled from the spec: the SHA-1 functions of the crypt library, as a context that
holds the bytes appended so far. -/
def sha1Lib : HashLib where
  Ctx := Bytes
  init := []
  update c b := c ++ b
  finish c := sha1 c

/-- Modelled from the spec: HMAC (RFC 2104) over a digest `H` with 64-byte blocks. -/
def hmac (H : Bytes → Bytes) (key msg : Bytes) : Bytes :=
  let k0 := if 64 < key.length then H key else key
  let k := k0 ++ List.replicate (64 - k0.length) 0
  H (k.map (fun b => b ^^^ 0x5c) ++ H (k.map (fun b => b ^^^ 0x36) ++ msg))

/-- Modelled from the spec: the crypt library of the dissector: MD5, SHA-1, HMAC-MD5 and
HMAC-SHA1. -/
def stdCrypt : Crypt where
  md5 := md5Lib
  sha1 := sha1Lib
  md5_hmac msg key := hmac md5 key msg
  sha1_hmac key msg := hmac sha1 key msg

/-- Evaluation aid: `k n`, computed with `n` evaluated first. -/
def forceNat (β : Type) (n : Nat) (k : Nat → β) : β :=
  Nat.rec (k 0) (fun i _ => k (Nat.succ i)) n

/-- Evaluation aid: the MD5 state after the blocks `ms`, passed to `k`; every
intermediate state is evaluated before the next block is absorbed. -/
def md5RunBlocks : List Nat → Md5State → (Md5State → Md5State) → Md5State
  | [], st, k => k st
  | m :: ms, st, k =>
    match md5Step st m with
    | (a, b, c, d) =>
      forceNat _ a fun a => forceNat _ b fun b => forceNat _ c fun c => forceNat _ d fun d =>
        md5RunBlocks ms (a, b, c, d) k

/-- Evaluation aid: the MD5 state after `n` repetitions of the blocks `sb`. -/
def md5RunRep (sb : List Nat) : Nat → Md5State → Md5State
  | 0, st => st
  | n + 1, st => md5RunBlocks sb st (md5RunRep sb n)

/-- Evaluation aid: the SHA-1 state after the blocks `ms`, passed to `k`. -/
def sha1RunBlocks : List Nat → Sha1State → (Sha1State → Sha1State) → Sha1State
  | [], st, k => k st
  | m :: ms, st, k =>
    match sha1Step st m with
    | (a, b, c, d, e) =>
      forceNat _ a fun a => forceNat _ b fun b => forceNat _ c fun c => forceNat _ d fun d =>
        forceNat _ e fun e => sha1RunBlocks ms (a, b, c, d, e) k

/-- Evaluation aid: the SHA-1 state after `n` repetitions of the blocks `sb`. -/
def sha1RunRep (sb : List Nat) : Nat → Sha1State → Sha1State
  | 0, st => st
  | n + 1, st => sha1RunBlocks sb st (sha1RunRep sb n)

/-! ## Example data -/

/-- The password `"maplesyrupmaplesyrup"` of RFC 3414 A.3. -/
def examplePassword : Bytes :=
  [109, 97, 112, 108, 101, 115, 121, 114, 117, 112,
   109, 97, 112, 108, 101, 115, 121, 114, 117, 112]

/-- The engine ID `00 00 00 00 00 00 00 00 00 00 00 02` of RFC 3414 A.3. -/
def exampleEngine : Bytes := [0, 0, 0, 0, 0, 0, 0, 0, 0, 0, 0, 2]

/-- An unlocalized association: user `"user"`, MD5 and DES, no engine ID, no keys. -/
def exampleTemplate : snmp_ue_assoc_t :=
  { user := { userName := [117, 115, 101, 114], authModel := .model_md5,
              authPassword := examplePassword, authKey := none,
              privProtocol := .snmp_usm_priv_des, privPassword := examplePassword,
              privKey := none },
    engine := [], auth_model := 0, priv_proto := 0 }

/-- A 20-byte message whose bytes 4 to 15 are the authenticator field. -/
def exampleMsg : Bytes :=
  [48, 18, 2, 1, 1, 2, 3, 4, 5, 6, 7, 8, 9, 10, 11, 12, 4, 2, 97, 98]

/-- The association `exampleTemplate` bound to `exampleEngine`, with a 16-byte
authentication key. -/
def exampleLocalized : snmp_ue_assoc_t :=
  { exampleTemplate with
    engine := exampleEngine,
    user := { exampleTemplate.user with
              authKey := some [1, 2, 3, 4, 5, 6, 7, 8, 9, 10, 11, 12, 13, 14, 15, 16] } }

/-- Parameters of a message `exampleMsg` of the user `exampleLocalized`. -/
def exampleParams : snmp_usm_params_t :=
  { authenticated := true, encrypted := false, start_offset := 0, auth_offset := 4,
    boots := 0, time := 0, engine_tvb := some exampleEngine,
    user_tvb := some [117, 115, 101, 114],
    auth_tvb := some [1, 2, 3, 4, 5, 6, 7, 8, 9, 10, 11, 12], priv_tvb := none,
    msg_tvb := some exampleMsg, user_assoc := some exampleLocalized, authOK := false }

/-- Parameters of a message that carries a 12-byte authenticator but whose user was
not resolved (`user_assoc` is null). -/
def exampleParamsNoUser : snmp_usm_params_t :=
  { exampleParams with user_assoc := none }

/-- The message `exampleMsg` with bit 0 of its authenticator byte 1 (index 5) flipped. -/
def exampleMsgFlipped : Bytes :=
  [48, 18, 2, 1, 1, 3, 3, 4, 5, 6, 7, 8, 9, 10, 11, 12, 4, 2, 97, 98]

/-- A cache state with one unlocalized template and nothing localized. -/
def exampleCache : UeCache :=
  { localized_ues := [], unlocalized_ues := [exampleTemplate], set_ue_keys_calls := 0 }

/-- A cache state in which `exampleLocalized` has been localized. -/
def exampleCacheHit : UeCache :=
  { localized_ues := [exampleLocalized], unlocalized_ues := [exampleTemplate],
    set_ue_keys_calls := 1 }

/-- The five blocks of the period of the stream of `examplePassword`, each read as a
little-endian number. -/
def md5Period : List Nat :=
  [5679410565601759056743169652538119434846682891298839873287823602909425626155111080464116416485598485337647829101584516230112118709098958216359080446943597,
   5995511706171043046086185319908408183871049874239120011694407886583305078137801444754041475043515921310007905692483967593307338850577684591859446115300197,
   5102692070386058545432398543906783285014784515929770184741962555948360859695693276302953686943182412803744744590083956420024859872543954310599762001096821,
   6043788657669065287438553095117972390309185674881152215747146857186699533661328221935800670754470516294503307655579925732223107364905131862576489019305072,
   5889944122418572981913493222941101266055104578535593445912098767260626952619407374825956927664215489131006426593573599273625394281188665464362643137852025]

/-- The SHA-1 message schedules of the five blocks of the period of the stream of
`examplePassword`. -/
def sha1Period : List Nat :=
  [933280129392453640673650416231227929291651851589500436654394055867460236741164636869824094220967492727453356416078643119986448512415165665771318639747992080699583992937773777850938804780890087013523773054465211640655146491533651976005886897983096390038181783115040241920771639359652562127669564496796985584470123030212075511632941362410417325812516416074927196739191531996700005017585219107188127985688693747770978444320461155085235327806702285654333907073929687355176152981475151662107462278233349892706044008865274962680178068239351810432408968046648941721018392013584147671378224106932450801794516939430679844188443351028730741573254388024778628526091600194996711748008173283284929542979090038068631604718684499398417498454679134819636444087246984033937019101081708,
   29511682984312004987155510068819165291492652876848718258092246133443962165490620531980193842090545819062427343106028040681654363284505894824674843026114860983635657648688699746498961336154881220122810966915224726553591088974650011136168072219258314234735474183925429899126676920164319297282261772824477648331015138099726769056463313927205749845955200951065141441842072688919421193359320060445989289957451657679716921295815452650021750385910883831284976648041983486450879584406693895023844274778511432843828131631835176332837131115336128038122015218852545673980895313777391528506495050631873974178667882539935184569750157177485381460192327697483189552949576755261945528098780224572136581005558682876405890649837031882498175163005253072703648512255280384639210496984316274,
   25355989312494281251815119799392476646912256334509552877400423416962516160984433246944916846468215575635593404652309027273475886467047726076253597449764693715472493145679103989066609702977602047905891429704248042701365401026278234554398674297777886603594494302298435050245825285664693975093733011341912471268932030426429732947928240817539812827891588172452317844279425694789514513650255351102419774739696780331556896534799710675178583745538278594282574890209170918646743672724408831873661765554698264619940692192027113082389681086091941798780526227369319667526431803169414472848302109292152728468626757635842921346836996869136636832706471694343597929334163421789531450333262427221914575642728963896430837263953390470136260357212428314547382013306248715097422586612575585,
   201047173791567770467991193493078159054448054895108676850626052110156921774112424341009365287155768082265910235425567678495425156207588926185306709131888657253968938772809924426299855382286413782214964514625764953570907316103898338837482451946100030910429270809064071779944138960259081290652785098888592129100902409906330828057618141172698797815326425515807560192148744309985922062911527840994586329482146956671928255957557304545863514040404347610199086805826865182206978322474906251121738526975577920741633860068735011452925975135106898271129516172503304116705529041224468968546146862157279775146399393843587410538778024113138652542890839595171089149139326957731095714775860387768642274980143763448725743750706572658695700931624622921548750866526030885207919459392316787,
   69210080842948222732462767538990807282188093821155383328380592739365927828943580035034482414732989673800079388334481795026947043492575073355337218853390627923531921836263452345313294248216620079022944261800101401956339989748006306800091085051776362814407318082766909996737730591454754543836740575305786908419840515906112225339730696119189875058262461903722733305036765373735770775919346578253448446318735873147839060620676666990044795603972994798426255469379675314942800873546067828760539483515586116594010484034973374356769435608796600576404187393031254218508088055053587847815211239589466383650826169608380808499924031814022730743070100967742912074209885087974618788728059144455389674225326503328464103761428058106085255072873860552755124024219519304920152126533039472]

/-- The states of the cache that the program can reach: a `renew_ue_cache` from any
state for any configured list, followed by `get_user_assoc` calls and further
`renew_ue_cache` calls.  `P` restricts the engine ID ranges that the
`get_user_assoc` calls are given. -/
inductive Reachable (L : Crypt) (P : Option Bytes → Prop) : UeCache → Prop where
  | renew (ueas : List snmp_ue_assoc_t) (g0 g : UeCache) :
      renew_ue_cache L ueas g0 = some g → Reachable L P g
  | get (g g2 : UeCache) (engine_tvb user_tvb : Option Bytes)
      (r : Option snmp_ue_assoc_t) :
      Reachable L P g → P engine_tvb →
      get_user_assoc L g engine_tvb user_tvb = some (r, g2) → Reachable L P g2

/-! ## The VarBind decoder

`dissect_snmp_VarBind` reads its input through functions of `epan` that are not in
this file (the BER header readers, the raw BER decoder, the OID registry); they are
taken as parameters.  What the function adds to the protocol tree is kept as the
list of the calls it makes, in order. -/

/-- Conversion to `int` (32 bits, two's complement). -/
def toInt32 (x : Int) : Int := (x + 2147483648) % 4294967296 - 2147483648

/-- Conversion to `guint32`. -/
def toU32 (x : Int) : Nat := (x % 4294967296).toNat

/-- Modelled from the spec: `packet-ber.h` is not in this file; the class numbers of
BER (X.690) and the wildcard `BER_CLASS_ANY`. -/
def BER_CLASS_UNI : Int := 0

/-- Modelled from the spec: `packet-ber.h` is not in this file; application class. -/
def BER_CLASS_APP : Int := 1

/-- Modelled from the spec: `packet-ber.h` is not in this file; context-specific class. -/
def BER_CLASS_CON : Int := 2

/-- Modelled from the spec: `packet-ber.h` is not in this file; private class. -/
def BER_CLASS_PRI : Int := 3

/-- Modelled from the spec: `packet-ber.h` is not in this file; the wildcard class of a
value type descriptor. -/
def BER_CLASS_ANY : Int := 99

/-- Modelled from the spec: `packet-ber.h` is not in this file; universal tag numbers of
X.690. -/
def BER_UNI_TAG_INTEGER : Int := 2

/-- Modelled from the spec: `packet-ber.h` is not in this file; tag of OCTET STRING. -/
def BER_UNI_TAG_OCTETSTRING : Int := 4

/-- Modelled from the spec: `packet-ber.h` is not in this file; tag of NULL. -/
def BER_UNI_TAG_NULL : Int := 5

/-- Modelled from the spec: `packet-ber.h` is not in this file; tag of OBJECT IDENTIFIER. -/
def BER_UNI_TAG_OID : Int := 6

/-- Modelled from the spec: `packet-ber.h` is not in this file; tag of SEQUENCE. -/
def BER_UNI_TAG_SEQUENCE : Int := 16

/-- Modelled from the spec: `packet-ber.h` is not in this file; the wildcard tag of a
value type descriptor. -/
def BER_TAG_ANY : Int := -1

/-- `SNMP_IPA`: IP Address. -/
def SNMP_IPA : Int := 0

/-- `SNMP_CNT`: Counter (Counter32). -/
def SNMP_CNT : Int := 1

/-- `SNMP_GGE`: Gauge (Gauge32). -/
def SNMP_GGE : Int := 2

/-- `SNMP_TIT`: TimeTicks. -/
def SNMP_TIT : Int := 3

/-- `SNMP_OPQ`: Opaque. -/
def SNMP_OPQ : Int := 4

/-- `SNMP_NSP`: NsapAddress. -/
def SNMP_NSP : Int := 5

/-- `SNMP_C64`: Counter64. -/
def SNMP_C64 : Int := 6

/-- `SNMP_U32`: Uinteger32. -/
def SNMP_U32 : Int := 7

/-- `SERR_NSO`. -/
def SERR_NSO : Int := 0

/-- `SERR_NSI`. -/
def SERR_NSI : Int := 1

/-- `SERR_EOM`. -/
def SERR_EOM : Int := 2

/-- What `get_ber_identifier` gives: the offset after the identifier octets and the
values stored through `class`, `pc` and `tag` (`gint8`, `gboolean`, `gint32`). -/
structure BerIdentifier where
  offset : Int
  ber_class : Int
  pc : Bool
  tag : Int
  deriving DecidableEq, Repr

/-- What `get_ber_length` gives: the offset after the length octets and the values
stored through `length` (`guint32`) and `ind`. -/
structure BerLength where
  offset : Int
  length : Nat
  ind : Bool
  deriving DecidableEq, Repr

/-- The fields of `oid_value_type_t` that the decoder reads. -/
structure oid_value_type_t where
  ber_class : Int
  ber_tag : Int
  min_len : Int
  max_len : Int
  deriving DecidableEq, Repr

/-- The fields of `oid_info_t` that the decoder reads.  The registry gives every node a
value type, so `value_type` is not null. -/
structure oid_info_t where
  value_type : oid_value_type_t
  value_hfid : Int
  deriving DecidableEq, Repr

/-- What `oid_get_from_encoded` gives: the node and the values stored through
`matched` and `left`. -/
structure OidLookup where
  oid_info : oid_info_t
  oid_matched : Nat
  oid_left : Nat
  deriving DecidableEq, Repr

/-- The functions of `epan` that `dissect_snmp_VarBind` calls.  `dissect_unknown_ber`
is given by the offset it returns. -/
structure Epan where
  get_ber_identifier : Bytes → Int → BerIdentifier
  get_ber_length : Bytes → Int → BerLength
  dissect_unknown_ber : Bytes → Int → Int
  ep_tvb_memdup : Bytes → Int → Nat → Bytes
  oid_get_from_encoded : Bytes → Nat → OidLookup

/-- The header fields that the decoder uses for a value: the static `hf_snmp_...`
variables, and a field of the registry (`oid_info->value_hfid`). -/
inductive Hf where
  | hf_snmp_objectname
  | hf_snmp_noSuchObject_value
  | hf_snmp_noSuchInstance_value
  | hf_snmp_endOfMibView_value
  | hf_snmp_integer32_value
  | hf_snmp_octestring_value
  | hf_snmp_oid_value
  | hf_snmp_null_value
  | hf_snmp_ipv4_value
  | hf_snmp_ipv6_value
  | hf_snmp_anyaddress_value
  | hf_snmp_unsigned32_value
  | hf_snmp_gauge32_value
  | hf_snmp_counter_value
  | hf_snmp_timeticks_value
  | hf_snmp_opaque_value
  | hf_snmp_nsap_value
  | hf_snmp_big_counter_value
  | hf_snmp_unknown_value
  | registered (value_hfid : Int)
  deriving DecidableEq, Repr

/-- One call that adds to the protocol tree.
`text start length format args` is `proto_tree_add_text`,
`expert_info message` is `expert_add_info_format` (always `PI_MALFORMED`, `PI_WARN`),
`item hf start length` is `proto_tree_add_item`,
`unknown_ber offset` is `dissect_unknown_ber` started at `offset`,
`set_text` is the `proto_item_set_text` that relabels the VarBind. -/
inductive Item where
  | text (start : Int) (length : Nat) (format : String) (args : List Int)
  | expert_info (message : String)
  | item (hf : Hf) (start : Int) (length : Nat)
  | unknown_ber (offset : Int)
  | set_text
  deriving DecidableEq, Repr

/-- The result of `dissect_snmp_VarBind`: the returned offset and the calls made. -/
structure VarBindOut where
  ret : Int
  items : List Item
  deriving DecidableEq, Repr

/-- The shape shared by the error exits: a text item, an expert info, and the raw
decode from `at_offset`, whose result is returned. -/
def structural_error (B : Epan) (tvb : Bytes) (items : List Item) (start : Int)
    (length : Nat) (format : String) (args : List Int) (message : String)
    (at_offset : Int) : VarBindOut :=
  { ret := B.dissect_unknown_ber tvb at_offset,
    items := items ++ [.text start length format args, .expert_info message,
                       .unknown_ber at_offset] }

/-- The label `expected_other_size`. -/
def expected_other_size (B : Epan) (tvb : Bytes) (items : List Item) (value_start : Int)
    (value_len : Nat) (min_len max_len : Int) : VarBindOut :=
  structural_error B tvb items 0 0 "Wrong value length: %u  expecting: %u <= len <= %u"
    [value_len, min_len, if max_len = -1 then 0xFFFFFF else max_len]
    "Wrong length for SNMP VarBind/value" value_start

/-- The label `expected_different`. -/
def expected_different (B : Epan) (tvb : Bytes) (items : List Item) (value_start : Int)
    (oid_info : oid_info_t) (ber_class tag : Int) : VarBindOut :=
  structural_error B tvb items 0 0 "Wrong class/tag for Value expected: %d,%d got: %d,%d"
    [oid_info.value_type.ber_class, oid_info.value_type.ber_tag, ber_class, tag]
    "Wrong class/tag for SNMP VarBind/value" value_start

/-- The value of the `switch` expression `ber_class|(tag<<4)`, as the 32-bit pattern
of the `int` (the shift is taken modulo `2^32`). -/
def switchKey (ber_class tag : Int) : Nat :=
  Nat.lor (toU32 ber_class) (toU32 (tag * 16))

/-- The end of `dissect_snmp_VarBind` on the path without error: the value item
`pi_value`, the new label of the VarBind when the OID is not one sub-identifier
short of a registered node, and `return seq_offset + seq_len`. -/
def emit_value (items : List Item) (hfid : Hf) (seq_offset : Int) (seq_len : Nat)
    (value_offset : Int) (value_len : Nat) (oid_left : Nat) : VarBindOut :=
  { ret := toInt32 (seq_offset + seq_len),
    items := items ++ [.item hfid value_offset value_len]
               ++ (if oid_left ≠ 1 then [.set_text] else []) }

/-- The part of `dissect_snmp_VarBind` from `if (ber_class == BER_CLASS_CON)` on: the
exception values of the context class, and the `switch` on class and tag.  `min_len`
and `max_len` are the values the two variables have at that point. -/
def dissect_value (B : Epan) (tvb : Bytes) (items : List Item) (seq_offset : Int)
    (seq_len : Nat) (value_start value_offset : Int) (value_len : Nat)
    (ber_class tag : Int) (min_len max_len : Int) (oid_left : Nat) : VarBindOut :=
  if ber_class = BER_CLASS_CON then
    if value_len ≠ 0 then
      expected_other_size B tvb items value_start value_len min_len max_len
    else if tag = SERR_NSO then
      emit_value items .hf_snmp_noSuchObject_value seq_offset seq_len value_offset value_len
        oid_left
    else if tag = SERR_NSI then
      emit_value items .hf_snmp_noSuchInstance_value seq_offset seq_len value_offset
        value_len oid_left
    else if tag = SERR_EOM then
      emit_value items .hf_snmp_endOfMibView_value seq_offset seq_len value_offset value_len
        oid_left
    else
      structural_error B tvb items 0 0 "Wrong tag for Error Value: expected [0,1,2] got: %d"
        [tag] "Wrong tag for SNMP VarBind error value" value_start
  else
    let key := switchKey ber_class tag
    if key = switchKey BER_CLASS_UNI BER_UNI_TAG_INTEGER then
      if value_len > toU32 4 ∧ value_len < toU32 1 then
        expected_other_size B tvb items value_start value_len 1 4
      else
        emit_value items .hf_snmp_integer32_value seq_offset seq_len value_offset value_len
          oid_left
    else if key = switchKey BER_CLASS_UNI BER_UNI_TAG_OCTETSTRING then
      emit_value items .hf_snmp_octestring_value seq_offset seq_len value_offset value_len
        oid_left
    else if key = switchKey BER_CLASS_UNI BER_UNI_TAG_OID then
      if value_len < toU32 2 then
        expected_other_size B tvb items value_start value_len 2 (-1)
      else
        emit_value items .hf_snmp_oid_value seq_offset seq_len value_offset value_len oid_left
    else if key = switchKey BER_CLASS_UNI BER_UNI_TAG_NULL then
      if value_len ≠ 0 then
        expected_other_size B tvb items value_start value_len 0 0
      else
        emit_value items .hf_snmp_null_value seq_offset seq_len value_offset value_len oid_left
    else if key = toU32 BER_CLASS_APP then
      if value_len = 4 then
        emit_value items .hf_snmp_ipv4_value seq_offset seq_len value_offset value_len oid_left
      else if value_len = 16 then
        emit_value items .hf_snmp_ipv6_value seq_offset seq_len value_offset value_len oid_left
      else
        emit_value items .hf_snmp_anyaddress_value seq_offset seq_len value_offset value_len
          oid_left
    else if key = switchKey BER_CLASS_APP SNMP_U32 then
      emit_value items .hf_snmp_unsigned32_value seq_offset seq_len value_offset value_len
        oid_left
    else if key = switchKey BER_CLASS_APP SNMP_GGE then
      emit_value items .hf_snmp_gauge32_value seq_offset seq_len value_offset value_len
        oid_left
    else if key = switchKey BER_CLASS_APP SNMP_CNT then
      emit_value items .hf_snmp_counter_value seq_offset seq_len value_offset value_len
        oid_left
    else if key = switchKey BER_CLASS_APP SNMP_TIT then
      emit_value items .hf_snmp_timeticks_value seq_offset seq_len value_offset value_len
        oid_left
    else if key = switchKey BER_CLASS_APP SNMP_OPQ then
      emit_value items .hf_snmp_opaque_value seq_offset seq_len value_offset value_len
        oid_left
    else if key = switchKey BER_CLASS_APP SNMP_NSP then
      emit_value items .hf_snmp_nsap_value seq_offset seq_len value_offset value_len oid_left
    else if key = switchKey BER_CLASS_APP SNMP_C64 then
      emit_value items .hf_snmp_big_counter_value seq_offset seq_len value_offset value_len
        oid_left
    else
      emit_value items .hf_snmp_unknown_value seq_offset seq_len value_offset value_len
        oid_left

/-- The part of `dissect_snmp_VarBind` from the registry lookup on: the check of the
value against the value type of the registry, then `dissect_value`.  `vid` and `vln`
are the header of the value. -/
def dissect_checked (B : Epan) (tvb : Bytes) (seq_offset : Int) (seq_len : Nat)
    (name_offset : Int) (name_len : Nat) (value_start : Int) (vid : BerIdentifier)
    (vln : BerLength) : VarBindOut :=
  let value_offset := vln.offset
  let value_len := vln.length
  let ber_class := vid.ber_class
  let tag := vid.tag
  let oid_bytes := B.ep_tvb_memdup tvb name_offset name_len
  let r := B.oid_get_from_encoded oid_bytes name_len
  let oid_info := r.oid_info
  let oid_left := r.oid_left
  if oid_left = 1 ∧ ber_class ≠ BER_CLASS_CON ∧ tag ≠ BER_UNI_TAG_NULL then
    if oid_info.value_type.ber_class ≠ BER_CLASS_ANY
        ∧ ber_class ≠ oid_info.value_type.ber_class then
      expected_different B tvb [] value_start oid_info ber_class tag
    else if oid_info.value_type.ber_tag ≠ BER_TAG_ANY
        ∧ tag ≠ oid_info.value_type.ber_tag then
      expected_different B tvb [] value_start oid_info ber_class tag
    else
      let max_len := if oid_info.value_type.max_len = -1 then 0xffffff
                     else oid_info.value_type.max_len
      let min_len := oid_info.value_type.min_len
      if toInt32 value_len < min_len ∨ toInt32 value_len > max_len then
        expected_other_size B tvb [] value_start value_len min_len max_len
      else
        dissect_value B tvb
          [.item (.registered oid_info.value_hfid) value_offset value_len,
           .item .hf_snmp_objectname name_offset name_len]
          seq_offset seq_len value_start value_offset value_len ber_class tag min_len max_len
          oid_left
  else
    dissect_value B tvb
      [.text seq_offset seq_len "VarBind" [],
       .item .hf_snmp_objectname name_offset name_len]
      seq_offset seq_len value_start value_offset value_len ber_class tag 0 0 oid_left

/-- `dissect_snmp_VarBind(implicit_tag, tvb, offset, actx, tree, hf_index)`: the three
headers and their checks, then `dissect_checked`. -/
def dissect_snmp_VarBind (B : Epan) (tvb : Bytes) (offset : Int) : VarBindOut :=
  let seq_offset := offset
  let sid := B.get_ber_identifier tvb offset
  let sln := B.get_ber_length tvb sid.offset
  let offset := sln.offset
  let seq_len := toU32 (sln.length + (offset - seq_offset))
  if sid.pc = false ∧ sid.ber_class = BER_CLASS_UNI ∧ sid.tag = BER_UNI_TAG_SEQUENCE then
    structural_error B tvb [] seq_offset seq_len
      "VarBind must be an universal class sequence" []
      "VarBind is not an universal class sequence" seq_offset
  else if sln.ind = true then
    structural_error B tvb [] seq_offset seq_len "Indicator must be clear in VarBind" []
      "VarBind has indicator set" seq_offset
  else
    let nid := B.get_ber_identifier tvb offset
    let nln := B.get_ber_length tvb nid.offset
    let name_offset := nln.offset
    let name_len := nln.length
    if ¬ (nid.pc = false ∧ nid.ber_class = BER_CLASS_UNI ∧ nid.tag = BER_UNI_TAG_OID) then
      structural_error B tvb [] seq_offset seq_len
        "ObjectName must be an OID in primitive encoding" [] "ObjectName not an OID"
        seq_offset
    else if nln.ind = true then
      structural_error B tvb [] seq_offset seq_len "Indicator must be clear in ObjectName" []
        "ObjectName has indicator set" seq_offset
    else
      let offset := toInt32 (name_offset + name_len)
      let value_start := offset
      let vid := B.get_ber_identifier tvb offset
      let vln := B.get_ber_length tvb vid.offset
      if ¬ (vid.pc = false) then
        structural_error B tvb [] seq_offset seq_len "the value must be in primitive encoding"
          [] "value not in primitive encoding" seq_offset
      else
        dissect_checked B tvb seq_offset seq_len name_offset name_len value_start vid vln

/-- An instance of `Epan` for the examples.  Headers have one identifier octet (class
in bits 7 and 6, the constructed bit 5, the tag in the low five bits) and one length
octet (`0x80` is the indefinite form); the raw decoder returns the offset after the
element it is started at (header and contents); the registry knows the
object `1.3.6.1.2.1.2.1` as a universal INTEGER of 1 to 4 bytes and resolves its
instance `1.3.6.1.2.1.2.1.0` with one sub-identifier left. -/
def exampleEpan : Epan where
  get_ber_identifier tvb offset :=
    let b := tvb.getD offset.toNat 0
    { offset := offset + 1, ber_class := (b / 64 : Nat), pc := b / 32 % 2 == 1,
      tag := (b % 32 : Nat) }
  get_ber_length tvb offset :=
    let l := tvb.getD offset.toNat 0
    { offset := offset + 1, length := if l = 128 then 0 else l, ind := l == 128 }
  dissect_unknown_ber tvb offset := offset + 2 + tvb.getD (offset.toNat + 1) 0
  ep_tvb_memdup tvb offset n := (tvb.drop offset.toNat).take n
  oid_get_from_encoded oid_bytes _ :=
    if oid_bytes = [43, 6, 1, 2, 1, 2, 1, 0] then
      { oid_info := { value_type := { ber_class := BER_CLASS_UNI,
                                      ber_tag := BER_UNI_TAG_INTEGER,
                                      min_len := 1, max_len := 4 },
                      value_hfid := 7 },
        oid_matched := 7, oid_left := 1 }
    else
      { oid_info := { value_type := { ber_class := BER_CLASS_ANY, ber_tag := BER_TAG_ANY,
                                      min_len := 0, max_len := -1 },
                      value_hfid := -2 },
        oid_matched := 0, oid_left := oid_bytes.length }

/-- A VarBind with the name `1.3.6.1.2.1.2.1.0` and a two-byte INTEGER value. -/
def exampleVarBind2 : Bytes := [48, 14, 6, 8, 43, 6, 1, 2, 1, 2, 1, 0, 2, 2, 1, 0]

/-- A VarBind with the name `1.3.6.1.2.1.2.1.0` and a five-byte INTEGER value. -/
def exampleVarBind5 : Bytes :=
  [48, 17, 6, 8, 43, 6, 1, 2, 1, 2, 1, 0, 2, 5, 1, 0, 0, 0, 0]

/-- A VarBind whose SEQUENCE declares 8 content bytes: the name `0.0`, a context
class value `[0]` with one content byte, and two more bytes. -/
def exampleVarBindTrailing : Bytes := [48, 8, 6, 1, 0, 128, 1, 0, 5, 0]

/-- The identifier of the VarBind's own header, as `dissect_snmp_VarBind` reads it. -/
def seqId (B : Epan) (tvb : Bytes) (offset : Int) : BerIdentifier :=
  B.get_ber_identifier tvb offset

/-- The length octets of the VarBind's own header. -/
def seqLn (B : Epan) (tvb : Bytes) (offset : Int) : BerLength :=
  B.get_ber_length tvb (seqId B tvb offset).offset

/-- The variable `seq_len` after `seq_len += offset - seq_offset`: the declared
content length plus the length of the header. -/
def seqLen (B : Epan) (tvb : Bytes) (offset : Int) : Nat :=
  toU32 ((seqLn B tvb offset).length + ((seqLn B tvb offset).offset - offset))

/-- The identifier of the ObjectName. -/
def nameId (B : Epan) (tvb : Bytes) (offset : Int) : BerIdentifier :=
  B.get_ber_identifier tvb (seqLn B tvb offset).offset

/-- The length octets of the ObjectName; their `offset` is `name_offset` and their
`length` is `name_len`. -/
def nameLn (B : Epan) (tvb : Bytes) (offset : Int) : BerLength :=
  B.get_ber_length tvb (nameId B tvb offset).offset

/-- The variable `value_start`: the offset of the header of the value. -/
def valueStart (B : Epan) (tvb : Bytes) (offset : Int) : Int :=
  toInt32 ((nameLn B tvb offset).offset + (nameLn B tvb offset).length)

/-- The identifier of the value: its class, constructed bit and tag. -/
def valueId (B : Epan) (tvb : Bytes) (offset : Int) : BerIdentifier :=
  B.get_ber_identifier tvb (valueStart B tvb offset)

/-- The length octets of the value; their `offset` is `value_offset` and their `length`
is `value_len`. -/
def valueLn (B : Epan) (tvb : Bytes) (offset : Int) : BerLength :=
  B.get_ber_length tvb (valueId B tvb offset).offset

/-- What the registry answers for the ObjectName of the VarBind. -/
def oidLookup (B : Epan) (tvb : Bytes) (offset : Int) : OidLookup :=
  B.oid_get_from_encoded
    (B.ep_tvb_memdup tvb (nameLn B tvb offset).offset (nameLn B tvb offset).length)
    (nameLn B tvb offset).length

/-- None of the five checks on the three headers fires: the code goes on to the
registry lookup. -/
abbrev headersOk (B : Epan) (tvb : Bytes) (offset : Int) : Prop :=
  ¬ ((seqId B tvb offset).pc = false ∧ (seqId B tvb offset).ber_class = BER_CLASS_UNI
      ∧ (seqId B tvb offset).tag = BER_UNI_TAG_SEQUENCE)
  ∧ (seqLn B tvb offset).ind = false
  ∧ ((nameId B tvb offset).pc = false ∧ (nameId B tvb offset).ber_class = BER_CLASS_UNI
      ∧ (nameId B tvb offset).tag = BER_UNI_TAG_OID)
  ∧ (nameLn B tvb offset).ind = false
  ∧ (valueId B tvb offset).pc = false

/-- The condition of the `if` that guards the check against the registry's value
type. -/
abbrev validationApplies (B : Epan) (tvb : Bytes) (offset : Int) : Prop :=
  (oidLookup B tvb offset).oid_left = 1
  ∧ (valueId B tvb offset).ber_class ≠ BER_CLASS_CON
  ∧ (valueId B tvb offset).tag ≠ BER_UNI_TAG_NULL

/-- An item of an error exit: the expert info that every error exit adds. -/
def Item.isExpert : Item → Bool
  | .expert_info _ => true
  | _ => false

/-- Whether the decoder reported a structural error. -/
def VarBindOut.hasError (out : VarBindOut) : Bool := out.items.any Item.isExpert

/-- The acceptance condition of the value type check in the words of the
specification: the class and the tag of the descriptor are the wildcard or those of the
value, and the length of the value is between `min_len` and `max_len`, a `max_len` of
`-1` standing for `0xffffff`. -/
def descriptorAccepts (d : oid_value_type_t) (ber_class tag : Int) (value_len : Nat) : Prop :=
  (d.ber_class = BER_CLASS_ANY ∨ d.ber_class = ber_class)
  ∧ (d.ber_tag = BER_TAG_ANY ∨ d.ber_tag = tag)
  ∧ d.min_len ≤ value_len
  ∧ (value_len : Int) ≤ (if d.max_len = -1 then 0xffffff else d.max_len)

/-- A VarBind with an empty ObjectName, which the registry of `exampleEpan` resolves
with no sub-identifier left, and an empty INTEGER value. -/
def exampleVarBindEmptyName : Bytes := [48, 4, 6, 0, 2, 0]

/-- The three fields of the exception values `noSuchObject`, `noSuchInstance` and
`endOfMibView`. -/
def Hf.isException : Hf → Bool
  | .hf_snmp_noSuchObject_value => true
  | .hf_snmp_noSuchInstance_value => true
  | .hf_snmp_endOfMibView_value => true
  | _ => false

/-- Some item of the list is an exception value. -/
def emitsException (items : List Item) : Prop :=
  ∃ hf start length, hf.isException = true ∧ Item.item hf start length ∈ items

/-- A VarBind with the name `0.0` and the exception value `noSuchInstance`. -/
def exampleVarBindNoSuchInstance : Bytes := [48, 5, 6, 1, 0, 129, 0]

/-- The value kind of a class and tag pair in the words of the specification:
universal INTEGER is Integer32, universal OCTET STRING is OctetString, universal OID
is OID, universal NULL is Null, application 0 is IpAddress (IPv4 for 4 bytes, IPv6 for
16 bytes, otherwise any address), application 1 to 7 are Counter32, Gauge32,
TimeTicks, Opaque, NsapAddress, Counter64 and Unsigned32, and every other pair is
Unknown. -/
def valueKind (ber_class tag : Int) (value_len : Nat) : Hf :=
  if ber_class = BER_CLASS_UNI ∧ tag = BER_UNI_TAG_INTEGER then .hf_snmp_integer32_value
  else if ber_class = BER_CLASS_UNI ∧ tag = BER_UNI_TAG_OCTETSTRING then
    .hf_snmp_octestring_value
  else if ber_class = BER_CLASS_UNI ∧ tag = BER_UNI_TAG_OID then .hf_snmp_oid_value
  else if ber_class = BER_CLASS_UNI ∧ tag = BER_UNI_TAG_NULL then .hf_snmp_null_value
  else if ber_class = BER_CLASS_APP ∧ tag = 0 then
    if value_len = 4 then .hf_snmp_ipv4_value
    else if value_len = 16 then .hf_snmp_ipv6_value
    else .hf_snmp_anyaddress_value
  else if ber_class = BER_CLASS_APP ∧ tag = 1 then .hf_snmp_counter_value
  else if ber_class = BER_CLASS_APP ∧ tag = 2 then .hf_snmp_gauge32_value
  else if ber_class = BER_CLASS_APP ∧ tag = 3 then .hf_snmp_timeticks_value
  else if ber_class = BER_CLASS_APP ∧ tag = 4 then .hf_snmp_opaque_value
  else if ber_class = BER_CLASS_APP ∧ tag = 5 then .hf_snmp_nsap_value
  else if ber_class = BER_CLASS_APP ∧ tag = 6 then .hf_snmp_big_counter_value
  else if ber_class = BER_CLASS_APP ∧ tag = 7 then .hf_snmp_unsigned32_value
  else .hf_snmp_unknown_value

/-- A VarBind with the name `1.3.6.2`, which the registry of `exampleEpan` does not
know, and a five-byte INTEGER value. -/
def exampleVarBindInt5 : Bytes := [48, 11, 6, 2, 43, 6, 2, 5, 1, 2, 3, 4, 5]

/-- The decoder reports the text `f`: some `proto_tree_add_text` call has this format. -/
def reportsText (out : VarBindOut) (f : String) : Prop :=
  ∃ start length args, Item.text start length f args ∈ out.items

/-- Every text that the decoder adds has its format in `S`. -/
def textsIn (S : List String) (out : VarBindOut) : Prop :=
  ∀ start length f args, Item.text start length f args ∈ out.items → f ∈ S

/-- The formats of the texts that the decoder adds after the header checks. -/
def valueTexts : List String :=
  ["VarBind", "Wrong value length: %u  expecting: %u <= len <= %u",
   "Wrong class/tag for Value expected: %d,%d got: %d,%d",
   "Wrong tag for Error Value: expected [0,1,2] got: %d"]

/-- A VarBind whose outer header is a universal constructed SET (tag 17), with the
name `0.0` and a NULL value. -/
def exampleVarBindSet : Bytes := [49, 5, 6, 1, 0, 5, 0]

/-- A VarBind whose outer header is a universal primitive SEQUENCE. -/
def exampleVarBindPrimitive : Bytes := [16, 5, 6, 1, 0, 5, 0]

/-! ## Decryption

The two decryption functions call `libgcrypt`, which is not in this file; its
functions are taken as parameters. -/

/-- The cipher algorithms that the program opens. -/
inductive GcryCipher where
  | GCRY_CIPHER_DES
  | GCRY_CIPHER_AES
  deriving DecidableEq, Repr

/-- The cipher modes that the program opens. -/
inductive GcryMode where
  | GCRY_CIPHER_MODE_CBC
  | GCRY_CIPHER_MODE_CFB
  deriving DecidableEq, Repr

/-- What a `gcry_cipher_hd_t` has been given so far: the algorithm and the mode of
`gcry_cipher_open`, the IV of `gcry_cipher_setiv` and the key of `gcry_cipher_setkey`
(empty before the call). -/
structure CipherHd where
  algo : GcryCipher
  mode : GcryMode
  iv : Bytes
  key : Bytes
  deriving DecidableEq, Repr

/-- The functions of `libgcrypt` that the program calls.  The first three give their
error code (`0` is `GPG_ERR_NO_ERROR`); `gcry_cipher_decrypt hd outsize in` gives the
error code and the bytes that the call writes to `out`. -/
structure Gcrypt where
  gcry_cipher_open : GcryCipher → GcryMode → Nat
  gcry_cipher_setiv : CipherHd → Bytes → Nat
  gcry_cipher_setkey : CipherHd → Bytes → Nat
  gcry_cipher_decrypt : CipherHd → Nat → Bytes → Nat × Bytes
  gpg_strerror : Nat → String

/-- What a decryption function hands back: the returned `tvbuff_t*` (`none` is `NULL`)
and the value stored through `error` (`none`: nothing stored). -/
structure PrivResult where
  clear_tvb : Option Bytes
  error : Option String
  deriving DecidableEq, Repr

/-- The label `on_gcry_error`. -/
def on_gcry_error (G : Gcrypt) (err : Nat) : PrivResult :=
  { clear_tvb := none, error := some (G.gpg_strerror err) }

/-- The common end of `snmp_usm_priv_des` and `snmp_usm_priv_aes`, from
`cleartext = ep_alloc(cryptgrm_len)` to the return: the cipher is opened, given the IV
(`ivlen` bytes of `iv`) and the key (`keylen` bytes of `key`, `none` being a null
pointer), and run on the cryptogram; the cleartext buffer becomes the returned tvb.
`none` is a read or write outside a buffer. -/
def cipher_decrypt (G : Gcrypt) (algo : GcryCipher) (mode : GcryMode) (iv : Bytes)
    (ivlen : Nat) (key : Option Bytes) (keylen : Nat) (cryptgrm : Bytes) :
    Option PrivResult :=
  let cryptgrm_len := cryptgrm.length
  let cleartext := se_alloc cryptgrm_len
  let err := G.gcry_cipher_open algo mode
  if err ≠ 0 then some (on_gcry_error G err)
  else do
    let iv_read ← memRead iv 0 ivlen
    let hd : CipherHd := { algo := algo, mode := mode, iv := [], key := [] }
    let err := G.gcry_cipher_setiv hd iv_read
    if err ≠ 0 then pure (on_gcry_error G err)
    else
      let hd := { hd with iv := iv_read }
      let key_read ← (key.bind fun k => memRead k 0 keylen)
      let err := G.gcry_cipher_setkey hd key_read
      if err ≠ 0 then pure (on_gcry_error G err)
      else
        let hd := { hd with key := key_read }
        let r := G.gcry_cipher_decrypt hd cryptgrm_len cryptgrm
        let cleartext ← memWrite cleartext 0 r.2
        if r.1 ≠ 0 then pure (on_gcry_error G r.1)
        else pure { clear_tvb := some cleartext, error := none }

/-- The loop `for (i=0; i<8; i++) iv[i] = pre_iv[i] ^ salt[i]` of `snmp_usm_priv_des`,
with `n` iterations left; `pre_iv` is `privKey.data + 8`. -/
def des_iv_loop (privKey salt : Bytes) : Nat → Nat → Bytes → Option Bytes
  | 0, _, iv => some iv
  | n + 1, i, iv => do
    let a ← privKey[8 + i]?
    let b ← salt[i]?
    if i < iv.length then des_iv_loop privKey salt n (i + 1) (iv.set i (a ^^^ b)) else none

/-- The function `snmp_usm_priv_des`.  `HAVE_LIBGCRYPT` tells whether the program was
built with `libgcrypt`.  `none` is a fault: a null `user_assoc` or `priv_tvb`, or a
read outside the private key. -/
def snmp_usm_priv_des (HAVE_LIBGCRYPT : Bool) (G : Gcrypt) (p : snmp_usm_params_t)
    (encryptedData : Bytes) : Option PrivResult :=
  if HAVE_LIBGCRYPT then do
    let user_assoc ← p.user_assoc
    let des_key := user_assoc.user.privKey
    let priv_tvb ← p.priv_tvb
    let salt_len := priv_tvb.length
    if salt_len ≠ 8 then
      pure { clear_tvb := none,
             error := some "decryptionError: msgPrivacyParameters length != 8" }
    else
      let salt := priv_tvb
      let privKey ← user_assoc.user.privKey
      let iv ← des_iv_loop privKey salt 8 0 (se_alloc 8)
      let cryptgrm_len := encryptedData.length
      if cryptgrm_len % 8 ≠ 0 then
        pure { clear_tvb := none,
               error := some
                 "decryptionError: the length of the encrypted data is not a mutiple of 8 octets" }
      else
        cipher_decrypt G .GCRY_CIPHER_DES .GCRY_CIPHER_MODE_CBC iv 8 des_key 8 encryptedData
  else
    some { clear_tvb := none, error := some "libgcrypt not present, cannot decrypt" }

/-- The value stored in a `guint8`. -/
def toU8 (x : Nat) : Nat := x % 256

/-- The function `snmp_usm_priv_aes`. -/
def snmp_usm_priv_aes (HAVE_LIBGCRYPT : Bool) (G : Gcrypt) (p : snmp_usm_params_t)
    (encryptedData : Bytes) : Option PrivResult :=
  if HAVE_LIBGCRYPT then do
    let user_assoc ← p.user_assoc
    let aes_key := user_assoc.user.privKey
    let priv_tvb ← p.priv_tvb
    let priv_len := priv_tvb.length
    if priv_len ≠ 8 then
      pure { clear_tvb := none,
             error := some "decryptionError: msgPrivacyParameters length != 8" }
    else
      let iv := se_alloc 16
      let iv := iv.set 0 (toU8 ((p.boots &&& 0xff000000) >>> 24))
      let iv := iv.set 1 (toU8 ((p.boots &&& 0x00ff0000) >>> 16))
      let iv := iv.set 2 (toU8 ((p.boots &&& 0x0000ff00) >>> 8))
      let iv := iv.set 3 (toU8 (p.boots &&& 0x000000ff))
      let iv := iv.set 4 (toU8 ((p.time &&& 0xff000000) >>> 24))
      let iv := iv.set 5 (toU8 ((p.time &&& 0x00ff0000) >>> 16))
      let iv := iv.set 6 (toU8 ((p.time &&& 0x0000ff00) >>> 8))
      let iv := iv.set 7 (toU8 (p.time &&& 0x000000ff))
      let salt ← memRead priv_tvb 0 8
      let iv ← memWrite iv 8 salt
      cipher_decrypt G .GCRY_CIPHER_AES .GCRY_CIPHER_MODE_CFB iv 16 aes_key 16 encryptedData
  else
    some { clear_tvb := none, error := some "libgcrypt not present, cannot decrypt" }

/-- A cipher library for the examples: every call succeeds and decryption writes the
cryptogram with every byte XORed with the first byte of the key. -/
def exampleGcrypt : Gcrypt where
  gcry_cipher_open _ _ := 0
  gcry_cipher_setiv _ _ := 0
  gcry_cipher_setkey _ _ := 0
  gcry_cipher_decrypt hd outsize inp := (0, (inp.take outsize).map fun b => b ^^^ hd.key.headD 0)
  gpg_strerror _ := "error"

/-- Parameters of an encrypted message of the user `exampleLocalized` with a 16-byte
privacy key and the salt `1 .. 8`. -/
def examplePrivParams : snmp_usm_params_t :=
  { exampleParams with
    encrypted := true, boots := 0x01020304, time := 0x0a0b0c0d,
    priv_tvb := some [1, 2, 3, 4, 5, 6, 7, 8],
    user_assoc := some { exampleLocalized with
      user := { exampleLocalized.user with
        privKey := some [16, 17, 18, 19, 20, 21, 22, 23, 24, 25, 26, 27, 28, 29, 30, 31] } } }

/-- The DES IV in the words of the specification: byte `i` is
`privKey[8 + i] XOR salt[i]` for `i = 0 .. 7`. -/
def spec_des_iv (privKey salt : Bytes) : Bytes :=
  (List.range 8).map fun i => privKey.getD (8 + i) 0 ^^^ salt.getD i 0

/-- The AES IV in the words of the specification: the big-endian four bytes
of `boots`, the big-endian four bytes of `time`, then the salt. -/
def spec_aes_iv (boots time : Nat) (salt : Bytes) : Bytes :=
  beBytes 4 boots ++ beBytes 4 time ++ salt

/-- The parameters `examplePrivParams` with a salt of three bytes. -/
def examplePrivParamsShortSalt : snmp_usm_params_t :=
  { examplePrivParams with priv_tvb := some [1, 2, 3] }

/-! ## The engine ID decoder

`dissect_snmp_engineid` reads the buffer through the tvbuff accessors of epan and adds
items to the protocol tree.  The accessors are modelled on a byte list with offsets
counted from its start; a read outside the buffer raises an exception, which is `none`
here.  The calls that add to the tree are kept as a log.  Offsets and lengths are C
`int`s, kept as exact integers: they stay within the buffer. -/

/-- Modelled from the spec: `tvb_get_guint8` of epan, the byte at `offset`. -/
def tvb_get_guint8 (tvb : Bytes) (offset : Int) : Option Nat :=
  if 0 ≤ offset then tvb[offset.toNat]? else none

/-- Modelled from the spec: `tvb_bytes_to_str` of epan reads `len` bytes at `offset` to
print them in hexadecimal; the model returns the bytes read. -/
def tvb_bytes_to_str (tvb : Bytes) (offset len : Int) : Option Bytes :=
  if 0 ≤ offset ∧ 0 ≤ len then memRead tvb offset.toNat len.toNat else none

/-- Modelled from the spec: `tvb_get_ntohl` of epan, the big-endian 32-bit value of the
four bytes at `offset`. -/
def tvb_get_ntohl (tvb : Bytes) (offset : Int) : Option Nat :=
  (tvb_bytes_to_str tvb offset 4).map beNat

/-- Modelled from the spec: `tvb_get_letohl` of epan, the little-endian 32-bit value of
the four bytes at `offset`. -/
def tvb_get_letohl (tvb : Bytes) (offset : Int) : Option Nat :=
  (tvb_bytes_to_str tvb offset 4).map leNat

def F_SNMP_ENGINEID_CONFORM : Nat := 0x80
def SNMP_ENGINEID_RFC1910 : Nat := 0x00
def SNMP_ENGINEID_RFC3411 : Nat := 0x01

def SNMP_ENGINEID_FORMAT_IPV4 : Nat := 0x01
def SNMP_ENGINEID_FORMAT_IPV6 : Nat := 0x02
def SNMP_ENGINEID_FORMAT_MACADDRESS : Nat := 0x03
def SNMP_ENGINEID_FORMAT_TEXT : Nat := 0x04
def SNMP_ENGINEID_FORMAT_OCTETS : Nat := 0x05

def snmp_engineid_format_vals : List (Nat × String) :=
  [ (SNMP_ENGINEID_FORMAT_IPV4, "IPv4 address"),
    (SNMP_ENGINEID_FORMAT_IPV6, "IPv6 address"),
    (SNMP_ENGINEID_FORMAT_MACADDRESS, "MAC address"),
    (SNMP_ENGINEID_FORMAT_TEXT, "Text, administratively assigned"),
    (SNMP_ENGINEID_FORMAT_OCTETS, "Octets, administratively assigned") ]

/-- Modelled from the spec: `val_to_str` of epan, the string of `val` in the table `vs`,
or the text `fmt` when `val` is not in the table. -/
def val_to_str (val : Nat) (vs : List (Nat × String)) (fmt : String) : String :=
  match vs.find? fun e => e.1 == val with
  | some e => e.2
  | none => fmt

/-- The header fields of the engine ID. -/
inductive EngineHf where
  | hf_snmp_engineid_conform
  | hf_snmp_engineid_enterprise
  | hf_snmp_engineid_format
  | hf_snmp_engineid_ipv4
  | hf_snmp_engineid_ipv6
  | hf_snmp_engineid_mac
  | hf_snmp_engineid_text
  | hf_snmp_engineid_data
  | hf_snmp_engineid_time
  deriving DecidableEq, Repr

/-- One call of `dissect_snmp_engineid` that adds to the protocol tree:
`proto_tree_add_item`, `proto_tree_add_uint`, `proto_tree_add_uint_format` (with the
string of its `%s`), `proto_tree_add_text` (with the bytes of its `%s`, if any),
`proto_tree_add_time_format` (with the seconds) and `proto_item_append_text`. -/
inductive EngineItem where
  | add_item (hf : EngineHf) (start length : Int)
  | add_uint (hf : EngineHf) (start length : Int) (value : Nat)
  | add_uint_format (hf : EngineHf) (start length : Int) (value : Nat) (format : String)
      (str : String)
  | add_text (start length : Int) (format : String) (bytes : Bytes)
  | add_time_format (hf : EngineHf) (start length : Int) (secs : Nat) (format : String)
  | append_text (text : String)
  deriving DecidableEq, Repr

/-- The result of `dissect_snmp_engineid`: the returned offset and the log of the tree. -/
structure EngineIdOut where
  ret : Int
  items : List EngineItem
  deriving DecidableEq, Repr

/-- The value of `conformance = ((tvb_get_guint8(tvb, offset)>>7) && 0x01)`: the logical
AND of two C values is 1 when both are nonzero, else 0. -/
def engineid_conformance (byte0 : Nat) : Nat :=
  if byte0 >>> 7 ≠ 0 ∧ (0x01 : Nat) ≠ 0 then 1 else 0

/-- The value of `enterpriseid` that is reported: a `guint32`, decremented by
`0x80000000` modulo `2 ^ 32` when `conformance` is nonzero. -/
def engineid_enterprise (conformance word : Nat) : Nat :=
  if conformance ≠ 0 then toU32 ((word : Int) - 0x80000000) else word

/-- The end of `dissect_snmp_engineid`, after the `switch`: bytes that are left are
reported and skipped. -/
def engineid_rest (items : List EngineItem) (offset len_remain : Int) : EngineIdOut :=
  if len_remain > 0 then
    { ret := offset + len_remain,
      items := items ++ [.add_text offset len_remain "<Data not conforming to RFC3411>" []] }
  else
    { ret := offset, items := items }

/-- The inner `switch (format)` of `dissect_snmp_engineid`, followed by the end of the
function. -/
def engineid_format (tvb : Bytes) (items : List EngineItem) (enterpriseid format : Nat)
    (offset len_remain : Int) : Option EngineIdOut :=
  if format = SNMP_ENGINEID_FORMAT_IPV4 then
    if len_remain = 4 then
      some (engineid_rest (items ++ [.add_item .hf_snmp_engineid_ipv4 offset 4]) (offset + 4) 0)
    else some (engineid_rest items offset len_remain)
  else if format = SNMP_ENGINEID_FORMAT_IPV6 then
    if len_remain = 16 then
      some (engineid_rest (items ++ [.add_item .hf_snmp_engineid_ipv6 offset 16])
        (offset + 16) 0)
    else some (engineid_rest items offset len_remain)
  else if format = SNMP_ENGINEID_FORMAT_MACADDRESS then
    if len_remain = 6 then
      some (engineid_rest (items ++ [.add_item .hf_snmp_engineid_mac offset 6]) (offset + 6) 0)
    else some (engineid_rest items offset len_remain)
  else if format = SNMP_ENGINEID_FORMAT_TEXT then
    if len_remain ≤ 27 then
      some (engineid_rest (items ++ [.add_item .hf_snmp_engineid_text offset len_remain])
        (offset + len_remain) 0)
    else some (engineid_rest items offset len_remain)
  else if format = 128 then
    if enterpriseid = 2021 ∨ enterpriseid = 8072 then
      let items := items ++ [.append_text
        (if enterpriseid = 2021 then ": UCD-SNMP Random" else ": Net-SNMP Random")]
      if len_remain = 8 then do
        let items := items ++ [.add_item .hf_snmp_engineid_data offset 4]
        let seconds ← tvb_get_letohl tvb (offset + 4)
        let items := items ++ [.add_time_format .hf_snmp_engineid_time (offset + 4) 4 seconds
          "Engine ID Data: Creation Time: %s"]
        pure (engineid_rest items (offset + 8) 0)
      else some (engineid_rest items offset len_remain)
    else some (engineid_rest items offset len_remain)
  else
    if len_remain ≤ 27 then
      some (engineid_rest (items ++ [.add_item .hf_snmp_engineid_data offset len_remain])
        (offset + len_remain) 0)
    else some (engineid_rest items offset len_remain)

/-- The function `dissect_snmp_engineid (tree, tvb, offset, len)`. -/
def dissect_snmp_engineid (tvb : Bytes) (offset len : Int) : Option EngineIdOut :=
  let len_remain := len
  if len_remain < 4 then some { ret := offset, items := [] }
  else do
    let byte0 ← tvb_get_guint8 tvb offset
    let conformance := engineid_conformance byte0
    let items : List EngineItem := [.add_item .hf_snmp_engineid_conform offset 1]
    if len_remain < 4 then pure { ret := offset, items := items }
    else
      let word ← tvb_get_ntohl tvb offset
      let enterpriseid := engineid_enterprise conformance word
      let items := items ++ [.add_uint .hf_snmp_engineid_enterprise offset 4 enterpriseid]
      let offset := offset + 4
      let len_remain := len_remain - 4
      if conformance = SNMP_ENGINEID_RFC1910 then
        if len_remain = 8 then do
          let trailer ← tvb_bytes_to_str tvb offset 8
          let items := items ++ [.add_text offset 8 "AgentID Trailer: 0x%s" trailer]
          pure (engineid_rest items (offset + 8) (len_remain - 8))
        else
          pure { ret := offset,
                 items := items ++ [.add_text offset len_remain
                   "<Data not conforming to RFC1910>" []] }
      else if conformance = SNMP_ENGINEID_RFC3411 then
        if len_remain < 1 then pure { ret := offset, items := items }
        else do
          let format ← tvb_get_guint8 tvb offset
          let items := items ++ [.add_uint_format .hf_snmp_engineid_format offset 1 format
            "Engine ID Format: %s (%d)"
            (val_to_str format snmp_engineid_format_vals "Reserved/Enterprise-specific")]
          engineid_format tvb items enterpriseid format (offset + 1) (len_remain - 1)
      else
        pure (engineid_rest items offset len_remain)

/-- A legacy engine ID of 12 bytes: enterprise 9, then the 8-byte trailer. -/
def exampleEngineLegacy : Bytes := [0, 0, 0, 9, 1, 2, 3, 4, 5, 6, 7, 8]

/-- A legacy engine ID of 5 bytes: enterprise 9, then one byte. -/
def exampleEngineLegacyShort : Bytes := [0, 0, 0, 9, 1]

/-- An RFC 3411 engine ID of 9 bytes: enterprise 9, format IPv4, address 10.0.0.1. -/
def exampleEngineIPv4 : Bytes := [128, 0, 0, 9, 1, 10, 0, 0, 1]

/-- An RFC 3411 engine ID of 21 bytes: enterprise 9, format IPv6. -/
def exampleEngineIPv6 : Bytes :=
  [128, 0, 0, 9, 2, 32, 1, 13, 184, 0, 0, 0, 0, 0, 0, 0, 0, 0, 0, 0, 1]

/-- An RFC 3411 engine ID of 11 bytes: enterprise 9, format MAC address. -/
def exampleEngineMac : Bytes := [128, 0, 0, 9, 3, 0, 17, 34, 51, 68, 85]

/-- An RFC 3411 engine ID of 13 bytes of Net-SNMP: enterprise 8072, format 128, four
random bytes and the creation time. -/
def exampleEngineNetSnmp : Bytes := [128, 0, 31, 136, 128, 1, 2, 3, 4, 0, 0, 0, 1]

/-- The log of `out` holds the text `format`, without arguments, over `length` bytes from
`start`. -/
abbrev reportsData (out : EngineIdOut) (format : String) (start length : Int) : Prop :=
  EngineItem.add_text start length format [] ∈ out.items

/-- A VarBind with the name `1.3.6.1.2.1.2.1.0`, which the registry of `exampleEpan`
resolves with one sub-identifier left as a universal INTEGER, and a value of the
application class with tag 5 (NsapAddress) of two bytes. -/
def exampleVarBindNsap : Bytes := [48, 14, 6, 8, 43, 6, 1, 2, 1, 2, 1, 0, 69, 2, 1, 0]

/-! ## The callback of the user table -/

/-- Modelled from the spec: `g_string_truncate` of GLib cuts a string to its first `len`
bytes; the strings of the callback are ASCII, one byte for each character. -/
def g_string_truncate (s : String) (len : Nat) : String := ⟨s.data.take len⟩

/-- The text that the conversion `%d` prints for a `guint` argument `x < 2 ^ 32`: the
value read as an `int`, so values from `2 ^ 31` on print as negative numbers. -/
def printf_d (x : Nat) : String :=
  if x < 2147483648 then toString x else "-" ++ toString (4294967296 - x)

/-- The function `snmp_users_update_cb (p, err)`.  The record is only read; the result is
the record as the call leaves it and the value stored in `*err` (`none` is `NULL`). -/
def snmp_users_update_cb (ue : snmp_ue_assoc_t) : snmp_ue_assoc_t × Option String :=
  let es := ""
  let es := if ue.user.userName.length = 0 then es ++ "no userName, " else es
  let es := if ue.user.authPassword.length < 8 then
      es ++ ("short authPassword (" ++ printf_d ue.user.authPassword.length ++ "), ")
    else es
  let es := if ue.user.privPassword.length < 8 then
      es ++ ("short privPassword (" ++ printf_d ue.user.privPassword.length ++ "), ")
    else es
  if es.length ≠ 0 then (ue, some (g_string_truncate es (es.length - 2)))
  else (ue, none)

/-- The checks of the user table callback that fail, in the words of the
specification and in its order. -/
def spec_failing_checks (ue : snmp_ue_assoc_t) : List String :=
  (if ue.user.userName = [] then ["no userName"] else [])
  ++ (if ue.user.authPassword.length < 8 then
        ["short authPassword (" ++ toString ue.user.authPassword.length ++ ")"] else [])
  ++ (if ue.user.privPassword.length < 8 then
        ["short privPassword (" ++ toString ue.user.privPassword.length ++ ")"] else [])

/-- A row with an empty user name, an authentication password of three bytes and an
empty privacy password. -/
def exampleRowShort : snmp_ue_assoc_t :=
  { exampleTemplate with
    user := { exampleTemplate.user with
              userName := [], authPassword := [97, 98, 99], privPassword := [] } }

/-- The template `exampleTemplate` with an empty privacy password. -/
def exampleTemplateEmptyPriv : snmp_ue_assoc_t :=
  { exampleTemplate with user := { exampleTemplate.user with privPassword := [] } }

/-- The template `exampleTemplate` with the SHA1 authentication model. -/
def exampleTemplateSha1 : snmp_ue_assoc_t :=
  { exampleTemplate with user := { exampleTemplate.user with authModel := .model_sha1 } }

/-- The password `"maplesyrup"`, half of `examplePassword`. -/
def examplePasswordOnce : Bytes := [109, 97, 112, 108, 101, 115, 121, 114, 117, 112]

/-- Both keys of an association are present and have the `key_size` of its
authentication model. -/
abbrev hasSizedKeys (L : Crypt) (a : snmp_ue_assoc_t) : Prop :=
  a.user.authKey.map List.length = some (a.user.authModel.deref L).key_size
  ∧ a.user.privKey.map List.length = some (a.user.authModel.deref L).key_size

/-- The formats of the five errors on the headers of a VarBind: its own header and
length, the header and length of the ObjectName, and the encoding of the value. -/
def headerErrorTexts : List String :=
  ["VarBind must be an universal class sequence", "Indicator must be clear in VarBind",
   "ObjectName must be an OID in primitive encoding", "Indicator must be clear in ObjectName",
   "the value must be in primitive encoding"]

/-- The formats of the three errors on the value of a VarBind: wrong length, wrong class
or tag, and wrong tag of an exception value. -/
def valueErrorTexts : List String :=
  ["Wrong value length: %u  expecting: %u <= len <= %u",
   "Wrong class/tag for Value expected: %d,%d got: %d,%d",
   "Wrong tag for Error Value: expected [0,1,2] got: %d"]

/-! # Theorems -/

/-! ## The first stage: one megabyte of repeated password -/

theorem set_take_drop (buf : Bytes) (cp : Nat) (b : Nat) (h : cp < buf.length) :
    buf.set cp b = buf.take cp ++ b :: buf.drop (cp + 1) := by
  rw [List.set_eq_take_append_cons_drop]; simp [h]

theorem streamPiece_succ (pw : Bytes) (s n : Nat) :
    streamPiece pw s (n + 1) = pw.getD (s % pw.length) 0 :: streamPiece pw (s + 1) n := by
  simp [streamPiece, List.range'_succ]

theorem streamPiece_length (pw : Bytes) (s n : Nat) : (streamPiece pw s n).length = n := by
  simp [streamPiece]

theorem fillBuf_eq (pw : Bytes) (hpw : pw ≠ []) :
    ∀ (n cp : Nat) (buf : Bytes) (idx : Nat), cp + n ≤ buf.length → idx + n < U32 →
      fillBuf pw n cp buf idx
        = some (buf.take cp ++ streamPiece pw idx n ++ buf.drop (cp + n), idx + n) := by
  intro n
  induction n with
  | zero =>
    intro cp buf idx _ _
    simp [fillBuf, streamPiece]
  | succ n ih =>
    intro cp buf idx hcp hidx
    have hlen : 0 < pw.length := List.length_pos.mpr hpw
    have hlt : idx % pw.length < pw.length := Nat.mod_lt _ hlen
    have hcp1 : cp < buf.length := by omega
    have hmod : (idx + 1) % U32 = idx + 1 := Nat.mod_eq_of_lt (by omega)
    rw [fillBuf]
    simp only [Nat.pos_iff_ne_zero.mp hlen, if_false, List.getElem?_eq_getElem hlt, hcp1,
      if_true, hmod]
    rw [ih (cp + 1) (buf.set cp pw[idx % pw.length]) (idx + 1) (by simp; omega) (by omega)]
    rw [streamPiece_succ, List.getD_eq_getElem _ _ hlt]
    simp only [Option.some.injEq, Prod.mk.injEq]
    refine ⟨?_, by omega⟩
    rw [set_take_drop buf cp _ hcp1]
    have h1 : (List.take cp buf).length = cp := by simp; omega
    have e1 : List.take (cp + 1) (List.take cp buf) = List.take cp buf :=
      List.take_of_length_le (by omega)
    have e2 : List.drop (cp + 1 + n) (List.take cp buf) = [] :=
      List.drop_of_length_le (by omega)
    have e3 : cp + 1 + n - cp = n + 1 := by omega
    have e4 : cp + 1 - cp = 1 := by omega
    rw [List.take_append_eq_append_take, List.drop_append_eq_append_drop, h1, e1, e2, e3, e4]
    simp [List.drop_drop]
    congr 1
    omega

theorem keyLoop_eq (H : HashLib) (pw : Bytes) (hpw : pw ≠ []) :
    ∀ (k : Nat) (MD : H.Ctx) (buf : Bytes) (count : Nat), 64 ≤ buf.length →
      count + 64 * k = 1048576 →
      ∃ buf2, keyLoop H pw MD buf count count
          = some (List.foldl H.update MD (streamBlocks pw count k), buf2, 1048576, 1048576)
        ∧ buf2.length = buf.length := by
  intro k
  induction k with
  | zero =>
    intro MD buf count _ hc
    refine ⟨buf, ?_, rfl⟩
    have : count = 1048576 := by omega
    subst this
    rw [keyLoop]
    simp [streamBlocks]
  | succ k ih =>
    intro MD buf count hbuf hc
    have hlt : count < 1048576 := by omega
    have hmod : (count + 64) % U32 = count + 64 := Nat.mod_eq_of_lt (by simp only [U32]; omega)
    rw [keyLoop]
    rw [fillBuf_eq pw hpw 64 0 buf count (by omega) (by simp only [U32]; omega)]
    simp only [hlt, if_true, hmod]
    have hp : (streamPiece pw count 64).length = 64 := streamPiece_length _ _ _
    have htake : (List.take 0 buf ++ streamPiece pw count 64 ++ List.drop (0 + 64) buf).take 64
        = streamPiece pw count 64 := by
      simp [List.take_append_eq_append_take, hp]
    obtain ⟨buf2, h2, hl2⟩ := ih (H.update MD (streamPiece pw count 64))
      (List.take 0 buf ++ streamPiece pw count 64 ++ List.drop (0 + 64) buf) (count + 64)
      (by simp [hp]) (by omega)
    refine ⟨buf2, ?_, ?_⟩
    · rw [htake, h2]; simp [streamBlocks]
    · rw [hl2]; simp [hp]; omega

theorem foldl_update_streaming (H : HashLib) (hs : H.Streaming) :
    ∀ (bs : List Bytes) (MD : H.Ctx) (x : Bytes),
      List.foldl H.update (H.update MD x) bs = H.update MD (x ++ bs.flatten) := by
  intro bs
  induction bs with
  | nil => intro MD x; simp
  | cons b bs ih =>
    intro MD x
    rw [List.foldl_cons, hs, ih]
    simp

theorem streamPiece_append (pw : Bytes) (s n m : Nat) :
    streamPiece pw s n ++ streamPiece pw (s + n) m = streamPiece pw s (n + m) := by
  simp only [streamPiece, ← List.map_append, List.range'_append_1, Nat.add_comm m n]

theorem streamBlocks_flatten (pw : Bytes) :
    ∀ (k s : Nat), (streamBlocks pw s k).flatten = streamPiece pw s (64 * k) := by
  intro k
  induction k with
  | zero => intro s; simp [streamBlocks, streamPiece]
  | succ k ih =>
    intro s
    rw [streamBlocks, List.flatten_cons, ih, streamPiece_append]
    congr 1
    omega

theorem streamBlocks_length (pw : Bytes) :
    ∀ (k s : Nat), (streamBlocks pw s k).length = k := by
  intro k
  induction k with
  | zero => intro s; rfl
  | succ k ih => intro s; simp [streamBlocks, ih]

theorem streamBlocks_mem (pw : Bytes) :
    ∀ (k s : Nat) (b : Bytes), b ∈ streamBlocks pw s k →
      ∃ j, j < k ∧ b = streamPiece pw (s + 64 * j) 64 := by
  intro k
  induction k with
  | zero => intro s b hb; simp [streamBlocks] at hb
  | succ k ih =>
    intro s b hb
    rw [streamBlocks, List.mem_cons] at hb
    rcases hb with hb | hb
    · exact ⟨0, by omega, by simpa using hb⟩
    · obtain ⟨j, hj, hbj⟩ := ih (s + 64) b hb
      refine ⟨j + 1, by omega, ?_⟩
      rw [hbj]
      congr 1
      omega

theorem streamPiece_zero (pw : Bytes) (n : Nat) : streamPiece pw 0 n = passwordStream pw n := by
  simp [streamPiece, passwordStream, List.range_eq_range']

theorem passwordStream_length (pw : Bytes) (n : Nat) : (passwordStream pw n).length = n := by
  simp [passwordStream]

theorem passwordStream_getElem? (pw : Bytes) (hpw : pw ≠ []) (n i : Nat) (hi : i < n) :
    (passwordStream pw n)[i]? = pw[i % pw.length]? := by
  have hlt : i % pw.length < pw.length := Nat.mod_lt _ (List.length_pos.mpr hpw)
  simp [passwordStream, hi, List.getElem?_eq_getElem hlt, List.getD_eq_getElem _ _ hlt]

/-- The whole stage-one loop from its initial state: the context has been fed the
16384 blocks, in order. -/
theorem keyLoop_run (H : HashLib) (pw : Bytes) (hpw : pw ≠ []) (buf : Bytes)
    (hbuf : 64 ≤ buf.length) :
    ∃ buf2, keyLoop H pw H.init buf 0 0
        = some (List.foldl H.update H.init (streamBlocks pw 0 16384), buf2, 1048576, 1048576)
      ∧ buf2.length = buf.length :=
  keyLoop_eq H pw hpw 16384 H.init buf 0 hbuf (by norm_num)

theorem foldl_blocks_eq_update (H : HashLib) (hs : H.Streaming) (pw : Bytes) :
    List.foldl H.update H.init (streamBlocks pw 0 16384)
      = H.update H.init (passwordStream pw 1048576) := by
  have h : streamBlocks pw 0 16384
      = streamPiece pw 0 64 :: streamBlocks pw (0 + 64) 16383 := by
    rw [show (16384 : Nat) = 16383 + 1 from rfl, streamBlocks]
  rw [h, List.foldl_cons, foldl_update_streaming H hs, streamBlocks_flatten,
    streamPiece_append, streamPiece_zero]

/-! ## The second stage: localization with the engine ID -/

theorem memWrite_append (a rest src : Bytes) (h : src.length ≤ rest.length) :
    memWrite (a ++ rest) a.length src = some (a ++ src ++ rest.drop src.length) := by
  unfold memWrite
  have h1 : a.length + src.length ≤ (a ++ rest).length := by simp; omega
  rw [if_pos h1]
  simp [List.take_append_eq_append_take, List.drop_append_eq_append_drop]

theorem memWrite_zero (dst src : Bytes) (h : src.length ≤ dst.length) :
    memWrite dst 0 src = some (src ++ dst.drop src.length) := by
  simpa using memWrite_append [] dst src h

theorem memWrite_full (dst src : Bytes) (h : src.length = dst.length) :
    memWrite dst 0 src = some src := by
  rw [memWrite_zero dst src (by omega), List.drop_of_length_le (by omega)]
  simp

theorem memRead_prefix (a rest : Bytes) : memRead (a ++ rest) 0 a.length = some a := by
  unfold memRead
  simp

theorem memRead_full (a : Bytes) (n : Nat) (h : a.length = n) : memRead a 0 n = some a := by
  subst h
  simpa using memRead_prefix a []

/-- The MD5 function under the two laws of the digest library. -/
theorem password_to_key_md5_eq (H : HashLib) (hs : H.Streaming) (hd : H.DigestLen 16)
    (pw engineID key : Bytes) (hpw : pw ≠ []) (hkey : key.length = 16) :
    snmp_usm_password_to_key_md5 H pw engineID key
      = some (H.hash (H.hash (passwordStream pw 1048576) ++ engineID
                ++ H.hash (passwordStream pw 1048576))) := by
  obtain ⟨buf2, hrun, _⟩ := keyLoop_run H pw hpw (List.replicate 64 0) (by simp)
  have hlen := hd (H.update H.init (passwordStream pw 1048576))
  have hlen2 := hd (H.update (H.update (H.update H.init
    ((H.finish (H.update H.init (passwordStream pw 1048576))).take 16)) engineID)
    ((H.finish (H.update H.init (passwordStream pw 1048576))).take 16))
  unfold snmp_usm_password_to_key_md5
  simp only [hrun, foldl_blocks_eq_update H hs, Option.bind_eq_bind, Option.some_bind,
    Option.pure_def]
  rw [memWrite_full _ _ (by simp [hlen])]
  simp only [Option.some_bind]
  rw [memWrite_full _ _ (by rw [hlen2, hkey])]
  rw [List.take_of_length_le (by omega), hs, hs]
  simp [HashLib.hash]

/-- The SHA1 function under the two laws of the digest library, for an engine ID
that fits the 72-byte working buffer. -/
theorem password_to_key_sha1_eq (H : HashLib) (hs : H.Streaming) (hd : H.DigestLen 20)
    (pw engineID key : Bytes) (hpw : pw ≠ []) (hkey : key.length = 20)
    (heng : engineID.length ≤ 32) :
    snmp_usm_password_to_key_sha1 H pw engineID key
      = some (H.hash (H.hash (passwordStream pw 1048576) ++ engineID
                ++ H.hash (passwordStream pw 1048576))) := by
  obtain ⟨buf2, hrun, hbuf2⟩ := keyLoop_run H pw hpw (List.replicate 72 0) (by simp)
  have hb : buf2.length = 72 := by simpa using hbuf2
  have hlen := hd (H.update H.init (passwordStream pw 1048576))
  unfold snmp_usm_password_to_key_sha1
  simp only [hrun, foldl_blocks_eq_update H hs, Option.bind_eq_bind, Option.some_bind,
    Option.pure_def]
  generalize hdg : H.finish (H.update H.init (passwordStream pw 1048576)) = d at hlen ⊢
  rw [memWrite_full key d (by omega)]
  simp only [Option.some_bind]
  rw [memRead_full d 20 hlen]
  simp only [Option.some_bind]
  rw [memWrite_zero buf2 d (by omega), hlen]
  simp only [Option.some_bind]
  have w2 := memWrite_append d (buf2.drop d.length) engineID (by simp; omega)
  rw [hlen] at w2
  rw [w2]
  simp only [Option.some_bind]
  have w3 := memWrite_append (d ++ engineID) ((buf2.drop 20).drop engineID.length) d
    (by simp; omega)
  rw [List.length_append, hlen] at w3
  rw [w3]
  simp only [Option.some_bind]
  have r4 := memRead_prefix (d ++ engineID ++ d)
    (((buf2.drop 20).drop engineID.length).drop 20)
  have hl4 : (d ++ engineID ++ d).length = 40 + engineID.length := by simp; omega
  rw [hl4] at r4
  rw [r4]
  simp only [Option.some_bind]
  rw [memWrite_full _ _ (by rw [hd, hlen])]
  simp [HashLib.hash, hdg]

/-! ## Laws of the modelled digest library -/

theorem leBytes_length : ∀ (n x : Nat), (leBytes n x).length = n := by
  intro n
  induction n with
  | zero => intro x; rfl
  | succ n ih => intro x; simp [leBytes, ih]

theorem beBytes_length (n x : Nat) : (beBytes n x).length = n := by
  simp [beBytes, leBytes_length]

theorem md5_length (msg : Bytes) : (md5 msg).length = 16 := by
  simp [md5, md5Out, leBytes_length]

theorem sha1_length (msg : Bytes) : (sha1 msg).length = 20 := by
  simp [sha1, sha1Out, beBytes_length]

theorem md5Lib_streaming : md5Lib.Streaming := by
  intro c a b
  exact List.append_assoc c a b

theorem sha1Lib_streaming : sha1Lib.Streaming := by
  intro c a b
  exact List.append_assoc c a b

theorem md5Lib_digestLen : md5Lib.DigestLen 16 := fun c => md5_length c

theorem sha1Lib_digestLen : sha1Lib.DigestLen 20 := fun c => sha1_length c

/-! ## Claims on the password to key functions -/

theorem streamPiece_drop_take (pw : Bytes) (a b n : Nat) (h : a + b ≤ n) :
    ((passwordStream pw n).drop a).take b = streamPiece pw a b := by
  obtain ⟨c, rfl⟩ : ∃ c, n = a + (b + c) := ⟨n - a - b, by omega⟩
  rw [← streamPiece_zero, ← streamPiece_append pw 0 a (b + c), Nat.zero_add,
    ← streamPiece_append pw a b c]
  rw [List.drop_append_of_le_length (by simp [streamPiece_length]),
    List.drop_of_length_le (by simp [streamPiece_length]), List.nil_append,
    List.take_append_of_le_length (by simp [streamPiece_length]),
    List.take_of_length_le (by simp [streamPiece_length])]

theorem streamBlocks_getElem? (pw : Bytes) :
    ∀ (k s j : Nat), j < k → (streamBlocks pw s k)[j]? = some (streamPiece pw (s + 64 * j) 64) := by
  intro k
  induction k with
  | zero => intro s j hj; omega
  | succ k ih =>
    intro s j hj
    cases j with
    | zero => simp [streamBlocks]
    | succ j =>
      rw [streamBlocks, List.getElem?_cons_succ, ih (s + 64) j (by omega)]
      congr 2
      omega

/-- C1.  For a non-empty password, the first-stage loop of
`snmp_usm_password_to_key_md5` (64-byte buffer) and of `snmp_usm_password_to_key_sha1`
(72-byte buffer) terminates with `count = password_index = 1048576`, having called the
digest's append exactly 16384 times; call `j` appends the 64 bytes
`S[64 j .. 64 j + 64)` of the stream `S` with `S[i] = password[i mod passwordlen]`
(the index carries over between blocks), and for a digest whose append is streaming
the resulting `digest1` is `H(S)`. -/
theorem C1_first_stage_hashes_stream (H : HashLib) (password : Bytes) (hpw : password ≠ []) :
    (∃ buf, keyLoop H password H.init (List.replicate 64 0) 0 0
        = some (List.foldl H.update H.init (streamBlocks password 0 16384),
                buf, 1048576, 1048576))
    ∧ (∃ buf, keyLoop H password H.init (List.replicate 72 0) 0 0
        = some (List.foldl H.update H.init (streamBlocks password 0 16384),
                buf, 1048576, 1048576))
    ∧ (streamBlocks password 0 16384).length = 16384
    ∧ (∀ j, j < 16384 → (streamBlocks password 0 16384)[j]?
          = some (((passwordStream password 1048576).drop (64 * j)).take 64))
    ∧ (∀ b ∈ streamBlocks password 0 16384, b.length = 64)
    ∧ (streamBlocks password 0 16384).flatten = passwordStream password 1048576
    ∧ (passwordStream password 1048576).length = 1048576
    ∧ (∀ i, i < 1048576 →
          (passwordStream password 1048576)[i]? = password[i % password.length]?)
    ∧ (H.Streaming →
          H.finish (List.foldl H.update H.init (streamBlocks password 0 16384))
            = H.hash (passwordStream password 1048576)) := by
  refine ⟨?_, ?_, streamBlocks_length _ _ _, ?_, ?_, ?_, passwordStream_length _ _,
    fun i hi => passwordStream_getElem? password hpw _ i hi, ?_⟩
  · obtain ⟨buf, h, _⟩ := keyLoop_run H password hpw (List.replicate 64 0) (by simp)
    exact ⟨buf, h⟩
  · obtain ⟨buf, h, _⟩ := keyLoop_run H password hpw (List.replicate 72 0) (by simp)
    exact ⟨buf, h⟩
  · intro j hj
    rw [streamBlocks_getElem? password 16384 0 j hj,
      streamPiece_drop_take password (64 * j) 64 1048576 (by omega), Nat.zero_add]
  · intro b hb
    obtain ⟨j, _, rfl⟩ := streamBlocks_mem password 16384 0 b hb
    exact streamPiece_length _ _ _
  · rw [streamBlocks_flatten, streamPiece_zero]
  · intro hs
    rw [foldl_blocks_eq_update H hs]
    rfl

/-- Witness of C1 with the MD5 model and the password `"ab"`. -/
theorem C1_first_stage_hashes_stream_witness :
    ([97, 98] : Bytes) ≠ [] ∧ md5Lib.Streaming ∧
    ((∃ buf, keyLoop md5Lib [97, 98] md5Lib.init (List.replicate 64 0) 0 0
        = some (List.foldl md5Lib.update md5Lib.init (streamBlocks [97, 98] 0 16384),
                buf, 1048576, 1048576))
    ∧ (∃ buf, keyLoop md5Lib [97, 98] md5Lib.init (List.replicate 72 0) 0 0
        = some (List.foldl md5Lib.update md5Lib.init (streamBlocks [97, 98] 0 16384),
                buf, 1048576, 1048576))
    ∧ (streamBlocks [97, 98] 0 16384).length = 16384
    ∧ (∀ j, j < 16384 → (streamBlocks [97, 98] 0 16384)[j]?
          = some (((passwordStream [97, 98] 1048576).drop (64 * j)).take 64))
    ∧ (∀ b ∈ streamBlocks [97, 98] 0 16384, b.length = 64)
    ∧ (streamBlocks [97, 98] 0 16384).flatten = passwordStream [97, 98] 1048576
    ∧ (passwordStream [97, 98] 1048576).length = 1048576
    ∧ (∀ i, i < 1048576 →
          (passwordStream [97, 98] 1048576)[i]? = ([97, 98] : Bytes)[i % 2]?)
    ∧ (md5Lib.Streaming →
          md5Lib.finish (List.foldl md5Lib.update md5Lib.init (streamBlocks [97, 98] 0 16384))
            = md5Lib.hash (passwordStream [97, 98] 1048576))) :=
  ⟨by decide, md5Lib_streaming, C1_first_stage_hashes_stream md5Lib [97, 98] (by decide)⟩

/-- C2.  For a non-empty password the key written by password-to-key is
`H(digest1 ++ engineID ++ digest1)` with `digest1 = H(S)`, `S` the one-megabyte password
stream: for the MD5 function (three appends) with every engine ID, and for the SHA1
function (one update over the assembled buffer) with every engine ID of at most 32
bytes, the limit of its 72-byte working buffer.  `H` is a digest library whose append
is streaming and whose digests have 16 (resp. 20) bytes; the key buffers are the
16 (resp. 20) bytes the caller allocates. -/
theorem C2_key_is_localized_digest (H5 H1 : HashLib) (password engineID key5 key1 : Bytes)
    (hpw : password ≠ [])
    (h5s : H5.Streaming) (h5d : H5.DigestLen 16) (h1s : H1.Streaming) (h1d : H1.DigestLen 20)
    (hk5 : key5.length = 16) (hk1 : key1.length = 20) :
    snmp_usm_password_to_key_md5 H5 password engineID key5
        = some (H5.hash (H5.hash (passwordStream password 1048576) ++ engineID
                  ++ H5.hash (passwordStream password 1048576)))
    ∧ (engineID.length ≤ 32 →
        snmp_usm_password_to_key_sha1 H1 password engineID key1
          = some (H1.hash (H1.hash (passwordStream password 1048576) ++ engineID
                    ++ H1.hash (passwordStream password 1048576)))) :=
  ⟨password_to_key_md5_eq H5 h5s h5d password engineID key5 hpw hk5,
   fun heng => password_to_key_sha1_eq H1 h1s h1d password engineID key1 hpw hk1 heng⟩

/-- Witness of C2 with the modelled MD5 and SHA-1, the password `"ab"` and a 12-byte
engine ID. -/
theorem C2_key_is_localized_digest_witness :
    ([97, 98] : Bytes) ≠ [] ∧ md5Lib.Streaming ∧ md5Lib.DigestLen 16 ∧ sha1Lib.Streaming
    ∧ sha1Lib.DigestLen 20 ∧ (se_alloc 16).length = 16 ∧ (se_alloc 20).length = 20
    ∧ ([0, 0, 0, 0, 0, 0, 0, 0, 0, 0, 0, 2] : Bytes).length ≤ 32
    ∧ (snmp_usm_password_to_key_md5 md5Lib [97, 98] [0, 0, 0, 0, 0, 0, 0, 0, 0, 0, 0, 2]
          (se_alloc 16)
        = some (md5Lib.hash (md5Lib.hash (passwordStream [97, 98] 1048576)
                  ++ [0, 0, 0, 0, 0, 0, 0, 0, 0, 0, 0, 2]
                  ++ md5Lib.hash (passwordStream [97, 98] 1048576)))
      ∧ (([0, 0, 0, 0, 0, 0, 0, 0, 0, 0, 0, 2] : Bytes).length ≤ 32 →
          snmp_usm_password_to_key_sha1 sha1Lib [97, 98] [0, 0, 0, 0, 0, 0, 0, 0, 0, 0, 0, 2]
            (se_alloc 20)
          = some (sha1Lib.hash (sha1Lib.hash (passwordStream [97, 98] 1048576)
                    ++ [0, 0, 0, 0, 0, 0, 0, 0, 0, 0, 0, 2]
                    ++ sha1Lib.hash (passwordStream [97, 98] 1048576))))) :=
  ⟨by decide, md5Lib_streaming, md5Lib_digestLen, sha1Lib_streaming, sha1Lib_digestLen,
   by decide, by decide, by decide,
   C2_key_is_localized_digest md5Lib sha1Lib [97, 98] [0, 0, 0, 0, 0, 0, 0, 0, 0, 0, 0, 2]
     (se_alloc 16) (se_alloc 20) (by decide) md5Lib_streaming md5Lib_digestLen
     sha1Lib_streaming sha1Lib_digestLen (by decide) (by decide)⟩

/-! ## Key sizes -/

theorem memWrite_length (dst src r : Bytes) (off : Nat) (h : memWrite dst off src = some r) :
    r.length = dst.length := by
  unfold memWrite at h
  split at h
  · cases h
    simp
    omega
  · cases h

theorem password_to_key_md5_length (H : HashLib) (pw engineID key k : Bytes)
    (h : snmp_usm_password_to_key_md5 H pw engineID key = some k) : k.length = key.length := by
  unfold snmp_usm_password_to_key_md5 at h
  simp only [Option.bind_eq_bind, Option.bind_eq_some] at h
  obtain ⟨_, _, _, _, h⟩ := h
  exact memWrite_length _ _ _ _ h

theorem password_to_key_sha1_length (H : HashLib) (pw engineID key k : Bytes)
    (h : snmp_usm_password_to_key_sha1 H pw engineID key = some k) : k.length = key.length := by
  unfold snmp_usm_password_to_key_sha1 at h
  simp only [Option.bind_eq_bind, Option.bind_eq_some] at h
  obtain ⟨_, _, key1, hk1, _, _, _, _, _, _, _, _, _, _, _, _, h⟩ := h
  rw [memWrite_length _ _ _ _ h, memWrite_length _ _ _ _ hk1]

theorem pass2key_length (L : Crypt) (m : AuthModelRef) (pw engineID key k : Bytes)
    (h : (m.deref L).pass2key pw engineID key = some k) : k.length = key.length := by
  cases m
  · exact password_to_key_md5_length _ _ _ _ _ h
  · exact password_to_key_sha1_length _ _ _ _ _ h

theorem set_ue_keys_eq_some (L : Crypt) (n n2 : snmp_ue_assoc_t)
    (h : set_ue_keys L n = some n2) :
    ∃ authKey privKey,
      (n.user.authModel.deref L).pass2key n.user.authPassword n.engine
          (se_alloc (n.user.authModel.deref L).key_size) = some authKey
      ∧ (n.user.authModel.deref L).pass2key n.user.privPassword n.engine
          (se_alloc (n.user.authModel.deref L).key_size) = some privKey
      ∧ n2 = { n with user := { n.user with authKey := some authKey,
                                            privKey := some privKey } } := by
  unfold set_ue_keys at h
  simp only [Option.bind_eq_bind, Option.bind_eq_some, Option.pure_def, Option.some.injEq] at h
  obtain ⟨ak, hak, pk, hpk, rfl⟩ := h
  exact ⟨ak, pk, hak, hpk, rfl⟩

theorem pass2key_returns (L : Crypt) (m : AuthModelRef) (pw engineID : Bytes)
    (h5s : L.md5.Streaming) (h5d : L.md5.DigestLen 16)
    (h1s : L.sha1.Streaming) (h1d : L.sha1.DigestLen 20)
    (hpw : pw ≠ []) (heng : m = .model_sha1 → engineID.length ≤ 32) :
    ∃ k, (m.deref L).pass2key pw engineID (se_alloc (m.deref L).key_size) = some k := by
  cases m
  · exact ⟨_, password_to_key_md5_eq L.md5 h5s h5d pw engineID _ hpw (by simp [se_alloc,
      AuthModelRef.deref, model_md5])⟩
  · exact ⟨_, password_to_key_sha1_eq L.sha1 h1s h1d pw engineID _ hpw (by simp [se_alloc,
      AuthModelRef.deref, model_sha1]) (heng rfl)⟩

theorem set_ue_keys_returns (L : Crypt) (n : snmp_ue_assoc_t)
    (h5s : L.md5.Streaming) (h5d : L.md5.DigestLen 16)
    (h1s : L.sha1.Streaming) (h1d : L.sha1.DigestLen 20)
    (ha : n.user.authPassword ≠ []) (hp : n.user.privPassword ≠ [])
    (heng : n.user.authModel = .model_sha1 → n.engine.length ≤ 32) :
    ∃ n2, set_ue_keys L n = some n2 := by
  obtain ⟨ak, hak⟩ := pass2key_returns L n.user.authModel n.user.authPassword n.engine
    h5s h5d h1s h1d ha heng
  obtain ⟨pk, hpk⟩ := pass2key_returns L n.user.authModel n.user.privPassword n.engine
    h5s h5d h1s h1d hp heng
  refine ⟨{ n with user := { n.user with authKey := some ak, privKey := some pk } }, ?_⟩
  unfold set_ue_keys
  simp only [Option.bind_eq_bind, hak, hpk, Option.some_bind, Option.pure_def]

/-- C4.  Whenever `set_ue_keys` returns, the association it yields differs from its
argument in the two keys only; `authKey` is `pass2key(authPassword, engine)` and
`privKey` is `pass2key(privPassword, engine)`, both computed by the `pass2key` of the
association's authentication model into a buffer of that model's `key_size`, and both
have exactly `key_size` bytes: 16 for `model_md5`, 20 for `model_sha1`, whatever the
privacy protocol.  With a lawful digest library, non-empty passwords and (for SHA1) an
engine ID of at most 32 bytes, `set_ue_keys` does return. -/
theorem C4_keys_sized_by_auth_model (L : Crypt) (n : snmp_ue_assoc_t) :
    (∀ n2, set_ue_keys L n = some n2 →
      ∃ authKey privKey,
        n2 = { n with user := { n.user with authKey := some authKey,
                                            privKey := some privKey } }
        ∧ (n.user.authModel.deref L).pass2key n.user.authPassword n.engine
            (se_alloc (n.user.authModel.deref L).key_size) = some authKey
        ∧ (n.user.authModel.deref L).pass2key n.user.privPassword n.engine
            (se_alloc (n.user.authModel.deref L).key_size) = some privKey
        ∧ authKey.length = (n.user.authModel.deref L).key_size
        ∧ privKey.length = (n.user.authModel.deref L).key_size)
    ∧ (n.user.authModel = .model_md5 →
        (n.user.authModel.deref L).key_size = 16
        ∧ (n.user.authModel.deref L).pass2key = snmp_usm_password_to_key_md5 L.md5)
    ∧ (n.user.authModel = .model_sha1 →
        (n.user.authModel.deref L).key_size = 20
        ∧ (n.user.authModel.deref L).pass2key = snmp_usm_password_to_key_sha1 L.sha1)
    ∧ (L.md5.Streaming → L.md5.DigestLen 16 → L.sha1.Streaming → L.sha1.DigestLen 20 →
        n.user.authPassword ≠ [] → n.user.privPassword ≠ [] →
        (n.user.authModel = .model_sha1 → n.engine.length ≤ 32) →
        ∃ n2, set_ue_keys L n = some n2) := by
  refine ⟨?_, ?_, ?_, set_ue_keys_returns L n⟩
  · intro n2 h
    obtain ⟨ak, pk, hak, hpk, rfl⟩ := set_ue_keys_eq_some L n n2 h
    refine ⟨ak, pk, rfl, hak, hpk, ?_, ?_⟩
    · rw [pass2key_length L _ _ _ _ _ hak]; simp [se_alloc]
    · rw [pass2key_length L _ _ _ _ _ hpk]; simp [se_alloc]
  · intro h; rw [h]; exact ⟨rfl, rfl⟩
  · intro h; rw [h]; exact ⟨rfl, rfl⟩

/-- Witness of C4: the RFC 3414 user bound to the RFC engine ID, with the modelled
library: `set_ue_keys` returns and both keys have 16 bytes. -/
theorem C4_keys_sized_by_auth_model_witness :
    ∃ n2 authKey privKey,
      set_ue_keys stdCrypt { exampleTemplate with engine := exampleEngine } = some n2
      ∧ n2.user.authKey = some authKey ∧ n2.user.privKey = some privKey
      ∧ authKey.length = 16 ∧ privKey.length = 16 := by
  have hC := C4_keys_sized_by_auth_model stdCrypt { exampleTemplate with engine := exampleEngine }
  obtain ⟨n2, hn2⟩ := hC.2.2.2 md5Lib_streaming md5Lib_digestLen sha1Lib_streaming
    sha1Lib_digestLen (by decide) (by decide) (by decide)
  obtain ⟨ak, pk, rfl, _, _, hak, hpk⟩ := hC.1 n2 hn2
  exact ⟨_, ak, pk, hn2, rfl, rfl, hak, hpk⟩

/-! ## The authentication check -/

theorem memcmp_eq_zero_iff : ∀ (n : Nat) (a b : Bytes),
    memcmp a b n = 0 ↔ a.take n = b.take n := by
  intro n
  induction n with
  | zero => intro a b; simp [memcmp]
  | succ n ih =>
    intro a b
    cases a with
    | nil =>
      cases b with
      | nil => simp [memcmp]
      | cons y b => simp [memcmp]
    | cons x a =>
      cases b with
      | nil => simp [memcmp]
      | cons y b =>
        by_cases hxy : x = y
        · subst hxy
          simp [memcmp, ih]
        · have : (x : Int) - (y : Int) ≠ 0 := by omega
          simp [memcmp, hxy, this]

theorem zeroFill_eq : ∀ (n i : Nat) (msg : Bytes), i + n ≤ msg.length →
    zeroFill msg i n = some (msg.take i ++ List.replicate n 0 ++ msg.drop (i + n)) := by
  intro n
  induction n with
  | zero => intro i msg _; simp [zeroFill]
  | succ n ih =>
    intro i msg h
    have hi : i < msg.length := by omega
    rw [zeroFill, if_pos hi, ih (i + 1) (msg.set i 0) (by simp; omega)]
    rw [set_take_drop msg i 0 hi]
    have h1 : (List.take i msg).length = i := by simp; omega
    have e1 : List.take (i + 1) (List.take i msg) = List.take i msg :=
      List.take_of_length_le (by omega)
    have e2 : List.drop (i + 1 + n) (List.take i msg) = [] :=
      List.drop_of_length_le (by omega)
    have e3 : i + 1 + n - i = n + 1 := by omega
    have e4 : i + 1 - i = 1 := by omega
    rw [List.take_append_eq_append_take, List.drop_append_eq_append_drop, h1, e1, e2, e3, e4]
    simp [List.drop_drop, List.replicate_succ]
    congr 1
    omega

theorem zeroFill_fault (n i : Nat) (msg : Bytes) (h : msg.length ≤ i) :
    zeroFill msg i (n + 1) = none := by
  rw [zeroFill, if_neg (by omega)]

/-- The message with the `n` bytes from index `s` replaced by zeros is the only list
of the same length that is zero there and agrees with the message elsewhere. -/
theorem zeroed_unique (msg Z : Bytes) (s n : Nat) (hs : s + n ≤ msg.length)
    (hlen : Z.length = msg.length)
    (hz : ∀ i, s ≤ i → i < s + n → Z[i]? = some 0)
    (he : ∀ i, ¬ (s ≤ i ∧ i < s + n) → Z[i]? = msg[i]?) :
    Z = msg.take s ++ List.replicate n 0 ++ msg.drop (s + n) := by
  have hA : (List.take s msg).length = s := by simp; omega
  apply List.ext_getElem?
  intro i
  by_cases h1 : i < s
  · rw [he i (by omega), List.append_assoc, List.getElem?_append_left (by omega),
      List.getElem?_take_of_lt h1]
  · by_cases h2 : i < s + n
    · rw [hz i (by omega) h2, List.append_assoc,
        List.getElem?_append_right (by omega),
        List.getElem?_append_left (by simp; omega), hA,
        List.getElem?_replicate, if_pos (by omega)]
    · rw [he i (by omega), List.getElem?_append_right (by simp; omega),
        List.getElem?_drop, List.length_append, hA, List.length_replicate]
      congr 1
      omega

/-- The value of the verifier on its main path: authenticator of 12 bytes, resolved
user with a key, authenticator field inside the message. -/
theorem snmp_usm_auth_main (hmac : Bytes → Bytes → Bytes) (p : snmp_usm_params_t)
    (auth key msg : Bytes) (ua : snmp_ue_assoc_t)
    (hml : msg.length < U32) (hle : p.start_offset ≤ p.auth_offset)
    (hauth : p.auth_tvb = some auth) (hlen : auth.length = 12)
    (hua : p.user_assoc = some ua) (hkey : ua.user.authKey = some key)
    (hmsg : p.msg_tvb = some msg)
    (hin : p.auth_offset - p.start_offset + 12 ≤ msg.length) :
    snmp_usm_auth hmac p
      = some { ret := decide ((hmac key (msg.take (p.auth_offset - p.start_offset)
                        ++ List.replicate 12 0
                        ++ msg.drop (p.auth_offset - p.start_offset + 12))).take 12 = auth),
               error := none,
               calc_auth := some (hmac key (msg.take (p.auth_offset - p.start_offset)
                        ++ List.replicate 12 0
                        ++ msg.drop (p.auth_offset - p.start_offset + 12))),
               calc_auth_len := some 12 } := by
  have hstart : (p.auth_offset % U32 + (U32 - p.start_offset % U32)) % U32
      = p.auth_offset - p.start_offset := by
    simp only [U32] at *
    omega
  have hend : (p.auth_offset - p.start_offset + 12) % U32
      = p.auth_offset - p.start_offset + 12 := by
    simp only [U32] at *
    omega
  unfold snmp_usm_auth
  simp only [hauth, hua, hkey, hmsg, hlen, ne_eq, not_true_eq_false, if_false, hstart, hend]
  rw [show p.auth_offset - p.start_offset + 12 - (p.auth_offset - p.start_offset) = 12 by omega,
    zeroFill_eq 12 _ msg hin]
  simp only [Option.some.injEq, AuthResult.mk.injEq, and_true, true_and]
  generalize hmac key (msg.take (p.auth_offset - p.start_offset) ++ List.replicate 12 0
      ++ msg.drop (p.auth_offset - p.start_offset + 12)) = c
  have hc := memcmp_eq_zero_iff 12 auth c
  rw [List.take_of_length_le (by omega : auth.length ≤ 12)] at hc
  by_cases hm : memcmp auth c 12 = 0
  · rw [if_neg (not_not.mpr hm)]
    exact (decide_eq_true (hc.mp hm).symm).symm
  · rw [if_pos hm]
    exact (decide_eq_false (fun h => hm (hc.mpr h.symm))).symm

theorem zeroed_getElem? (msg : Bytes) (s n i : Nat) (hs : s + n ≤ msg.length) :
    (msg.take s ++ List.replicate n 0 ++ msg.drop (s + n))[i]?
      = if s ≤ i ∧ i < s + n then some 0 else msg[i]? := by
  have hA : (List.take s msg).length = s := by simp; omega
  by_cases h1 : i < s
  · rw [if_neg (by omega), List.append_assoc, List.getElem?_append_left (by omega),
      List.getElem?_take_of_lt h1]
  · by_cases h2 : i < s + n
    · rw [if_pos (by omega), List.append_assoc, List.getElem?_append_right (by omega),
        List.getElem?_append_left (by simp; omega), hA,
        List.getElem?_replicate, if_pos (by omega)]
    · rw [if_neg (by omega), List.getElem?_append_right (by simp; omega),
        List.getElem?_drop, List.length_append, hA, List.length_replicate]
      congr 1
      omega

/-- C5.  For a 12-byte authenticator and a resolved user with an authKey, and `Z` the
copy of the message (same length) that is zero at the 12 indices
`[auth_offset - start_offset, auth_offset - start_offset + 12)` and equals the message
at every other index: `snmp_usm_auth_md5` (resp. `snmp_usm_auth_sha1`) returns, and
returns TRUE if and only if the first 12 bytes of HMAC-MD5 (resp. HMAC-SHA1) of `Z`
under authKey are the 12 authenticator bytes.  The message length is a `guint`. -/
theorem C5_auth_true_iff_mac_equal (L : Crypt) (p : snmp_usm_params_t)
    (auth key msg Z : Bytes) (ua : snmp_ue_assoc_t)
    (hml : msg.length < U32)
    (hauth : p.auth_tvb = some auth) (hlen : auth.length = 12)
    (hua : p.user_assoc = some ua) (hkey : ua.user.authKey = some key)
    (hmsg : p.msg_tvb = some msg)
    (hZlen : Z.length = msg.length)
    (hZzero : ∀ k : Nat, k < 12 →
      ∃ i : Nat, (i : Int) = (p.auth_offset : Int) - p.start_offset + k ∧ Z[i]? = some 0)
    (hZeq : ∀ i : Nat, ¬ ((p.auth_offset : Int) - p.start_offset ≤ i
        ∧ (i : Int) < (p.auth_offset : Int) - p.start_offset + 12) → Z[i]? = msg[i]?) :
    (∃ r, snmp_usm_auth_md5 L p = some r
        ∧ (r.ret = true ↔ (L.md5_hmac Z key).take 12 = auth))
    ∧ (∃ r, snmp_usm_auth_sha1 L p = some r
        ∧ (r.ret = true ↔ (L.sha1_hmac key Z).take 12 = auth)) := by
  obtain ⟨i0, hi0, _⟩ := hZzero 0 (by omega)
  obtain ⟨i11, hi11, hz11⟩ := hZzero 11 (by omega)
  have hle : p.start_offset ≤ p.auth_offset := by omega
  have h11 : i11 < Z.length := by
    by_contra hcon
    rw [List.getElem?_eq_none (by omega)] at hz11
    cases hz11
  have hin : p.auth_offset - p.start_offset + 12 ≤ msg.length := by omega
  have hZ : Z = msg.take (p.auth_offset - p.start_offset) ++ List.replicate 12 0
      ++ msg.drop (p.auth_offset - p.start_offset + 12) := by
    apply zeroed_unique msg Z _ 12 hin hZlen
    · intro i h1 h2
      obtain ⟨j, hj, hzj⟩ := hZzero (i - (p.auth_offset - p.start_offset)) (by omega)
      have : j = i := by omega
      rw [← this]
      exact hzj
    · intro i hi
      apply hZeq i
      omega
  constructor
  · refine ⟨_, snmp_usm_auth_main _ p auth key msg ua hml hle hauth hlen hua hkey hmsg hin, ?_⟩
    simp only [decide_eq_true_eq, ← hZ]
  · refine ⟨_, snmp_usm_auth_main _ p auth key msg ua hml hle hauth hlen hua hkey hmsg hin, ?_⟩
    simp only [decide_eq_true_eq, ← hZ]

/-- Witness of C5: the message `exampleMsg` with its authenticator field at bytes 4 to 15
and the copy with those bytes zeroed. -/
theorem C5_auth_true_iff_mac_equal_witness :
    (∃ r, snmp_usm_auth_md5 stdCrypt exampleParams = some r
        ∧ (r.ret = true ↔
            (stdCrypt.md5_hmac [48, 18, 2, 1, 0, 0, 0, 0, 0, 0, 0, 0, 0, 0, 0, 0, 4, 2, 97, 98]
              [1, 2, 3, 4, 5, 6, 7, 8, 9, 10, 11, 12, 13, 14, 15, 16]).take 12
            = [1, 2, 3, 4, 5, 6, 7, 8, 9, 10, 11, 12]))
    ∧ (∃ r, snmp_usm_auth_sha1 stdCrypt exampleParams = some r
        ∧ (r.ret = true ↔
            (stdCrypt.sha1_hmac [1, 2, 3, 4, 5, 6, 7, 8, 9, 10, 11, 12, 13, 14, 15, 16]
              [48, 18, 2, 1, 0, 0, 0, 0, 0, 0, 0, 0, 0, 0, 0, 0, 4, 2, 97, 98]).take 12
            = [1, 2, 3, 4, 5, 6, 7, 8, 9, 10, 11, 12])) :=
  C5_auth_true_iff_mac_equal stdCrypt exampleParams [1, 2, 3, 4, 5, 6, 7, 8, 9, 10, 11, 12]
    [1, 2, 3, 4, 5, 6, 7, 8, 9, 10, 11, 12, 13, 14, 15, 16] exampleMsg
    [48, 18, 2, 1, 0, 0, 0, 0, 0, 0, 0, 0, 0, 0, 0, 0, 4, 2, 97, 98] exampleLocalized
    (by decide) rfl rfl rfl rfl rfl rfl
    (by
      intro k hk
      refine ⟨4 + k, by simp [exampleParams], ?_⟩
      interval_cases k <;> rfl)
    (by
      intro i hi
      have hi2 : i < 4 ∨ 16 ≤ i := by
        simp only [exampleParams] at hi
        omega
      by_cases h20 : i < 20
      · rcases hi2 with h | h
        · interval_cases i <;> rfl
        · interval_cases i <;> rfl
      · rw [List.getElem?_eq_none (by simp; omega), List.getElem?_eq_none (by
          simp [exampleMsg]; omega)])

/-- Counterexample to C6 as stated: with an authenticator present and no user
association, neither verifier returns FALSE with "User has no authKey"; both
dereference the null `user_assoc`. -/
theorem C6_unresolved_user_counterexample :
    snmp_usm_auth_md5 stdCrypt exampleParamsNoUser = none
    ∧ snmp_usm_auth_sha1 stdCrypt exampleParamsNoUser = none
    ∧ ¬ (∃ r, snmp_usm_auth_md5 stdCrypt exampleParamsNoUser = some r
          ∧ r.ret = false ∧ r.error = some "User has no authKey") := by
  refine ⟨rfl, rfl, ?_⟩
  rintro ⟨r, hr, _⟩
  have h : snmp_usm_auth_md5 stdCrypt exampleParamsNoUser = none := rfl
  rw [h] at hr
  cases hr

theorem snmp_usm_auth_cases (hmac : Bytes → Bytes → Bytes) (p : snmp_usm_params_t) :
    (p.auth_tvb = none →
      snmp_usm_auth hmac p = some { ret := false, error := some "No Authenticator",
                                    calc_auth := none, calc_auth_len := none })
    ∧ (∀ auth ua, p.auth_tvb = some auth → p.user_assoc = some ua →
        ua.user.authKey = none →
        snmp_usm_auth hmac p = some { ret := false, error := some "User has no authKey",
                                      calc_auth := none, calc_auth_len := none })
    ∧ (∀ auth ua key, p.auth_tvb = some auth → p.user_assoc = some ua →
        ua.user.authKey = some key → auth.length ≠ 12 →
        snmp_usm_auth hmac p = some { ret := false, error := some "Authenticator length wrong",
                                      calc_auth := none, calc_auth_len := none })
    ∧ (∀ auth ua key r, p.auth_tvb = some auth → p.user_assoc = some ua →
        ua.user.authKey = some key → auth.length = 12 →
        snmp_usm_auth hmac p = some r →
        r.error = none ∧ r.calc_auth_len = some 12)
    ∧ (∀ auth, p.auth_tvb = some auth → p.user_assoc = none → snmp_usm_auth hmac p = none) := by
  refine ⟨?_, ?_, ?_, ?_, ?_⟩
  · intro h
    simp [snmp_usm_auth, h]
  · intro auth ua h1 h2 h3
    simp [snmp_usm_auth, h1, h2, h3]
  · intro auth ua key h1 h2 h3 h4
    simp [snmp_usm_auth, h1, h2, h3, h4]
  · intro auth ua key r h1 h2 h3 h4 h5
    simp only [snmp_usm_auth, h1, h2, h3, h4, ne_eq, not_true_eq_false, if_false] at h5
    split at h5
    · cases h5
    · split at h5
      · cases h5
      · cases h5
        exact ⟨rfl, rfl⟩
  · intro auth h1 h2
    simp [snmp_usm_auth, h1, h2]

/-- C6 (amended).  Both verifiers check their failure causes in this order, each
returning FALSE with nothing stored in `calc_auth` (the HMAC is a parameter the
result does not depend on): no authenticator range gives "No Authenticator"; a
resolved user whose authKey is absent gives "User has no authKey"; an authenticator
whose length is not 12 gives "Authenticator length wrong".  On the remaining path
(12-byte authenticator, key present) a returned result carries no error, so a digest
mismatch is distinguishable from the three.  With an authenticator present and no user
association the verifiers do not return: they dereference the null association. -/
theorem C6_auth_failure_order (L : Crypt) (p : snmp_usm_params_t) :
    (p.auth_tvb = none →
      snmp_usm_auth_md5 L p = some { ret := false, error := some "No Authenticator",
                                     calc_auth := none, calc_auth_len := none }
      ∧ snmp_usm_auth_sha1 L p = some { ret := false, error := some "No Authenticator",
                                        calc_auth := none, calc_auth_len := none })
    ∧ (∀ auth ua, p.auth_tvb = some auth → p.user_assoc = some ua →
        ua.user.authKey = none →
        snmp_usm_auth_md5 L p = some { ret := false, error := some "User has no authKey",
                                       calc_auth := none, calc_auth_len := none }
        ∧ snmp_usm_auth_sha1 L p = some { ret := false, error := some "User has no authKey",
                                          calc_auth := none, calc_auth_len := none })
    ∧ (∀ auth ua key, p.auth_tvb = some auth → p.user_assoc = some ua →
        ua.user.authKey = some key → auth.length ≠ 12 →
        snmp_usm_auth_md5 L p
            = some { ret := false, error := some "Authenticator length wrong",
                     calc_auth := none, calc_auth_len := none }
        ∧ snmp_usm_auth_sha1 L p
            = some { ret := false, error := some "Authenticator length wrong",
                     calc_auth := none, calc_auth_len := none })
    ∧ (∀ auth ua key r, p.auth_tvb = some auth → p.user_assoc = some ua →
        ua.user.authKey = some key → auth.length = 12 →
        (snmp_usm_auth_md5 L p = some r ∨ snmp_usm_auth_sha1 L p = some r) →
        r.error = none)
    ∧ (∀ auth, p.auth_tvb = some auth → p.user_assoc = none →
        snmp_usm_auth_md5 L p = none ∧ snmp_usm_auth_sha1 L p = none) := by
  have h5 := snmp_usm_auth_cases (fun key msg => L.md5_hmac msg key) p
  have h1 := snmp_usm_auth_cases (fun key msg => L.sha1_hmac key msg) p
  refine ⟨fun h => ⟨h5.1 h, h1.1 h⟩,
    fun auth ua ha hu hk => ⟨h5.2.1 auth ua ha hu hk, h1.2.1 auth ua ha hu hk⟩,
    fun auth ua key ha hu hk hl =>
      ⟨h5.2.2.1 auth ua key ha hu hk hl, h1.2.2.1 auth ua key ha hu hk hl⟩,
    ?_, fun auth ha hu => ⟨h5.2.2.2.2 auth ha hu, h1.2.2.2.2 auth ha hu⟩⟩
  intro auth ua key r ha hu hk hl hr
  rcases hr with hr | hr
  · exact (h5.2.2.2.1 auth ua key r ha hu hk hl hr).1
  · exact (h1.2.2.2.1 auth ua key r ha hu hk hl hr).1

/-- Witness of C6 (amended): the three error results and the fault at concrete
parameters. -/
theorem C6_auth_failure_order_witness :
    snmp_usm_auth_md5 stdCrypt { exampleParams with auth_tvb := none }
        = some { ret := false, error := some "No Authenticator",
                 calc_auth := none, calc_auth_len := none }
    ∧ snmp_usm_auth_md5 stdCrypt { exampleParams with user_assoc := some exampleTemplate }
        = some { ret := false, error := some "User has no authKey",
                 calc_auth := none, calc_auth_len := none }
    ∧ snmp_usm_auth_sha1 stdCrypt { exampleParams with auth_tvb := some [1, 2, 3] }
        = some { ret := false, error := some "Authenticator length wrong",
                 calc_auth := none, calc_auth_len := none }
    ∧ snmp_usm_auth_sha1 stdCrypt exampleParamsNoUser = none :=
  ⟨((C6_auth_failure_order stdCrypt { exampleParams with auth_tvb := none }).1 rfl).1,
   ((C6_auth_failure_order stdCrypt
      { exampleParams with user_assoc := some exampleTemplate }).2.1
      [1, 2, 3, 4, 5, 6, 7, 8, 9, 10, 11, 12] exampleTemplate rfl rfl rfl).1,
   ((C6_auth_failure_order stdCrypt
      { exampleParams with auth_tvb := some [1, 2, 3] }).2.2.1
      [1, 2, 3] exampleLocalized [1, 2, 3, 4, 5, 6, 7, 8, 9, 10, 11, 12, 13, 14, 15, 16]
      rfl rfl rfl (by decide)).2,
   ((C6_auth_failure_order stdCrypt exampleParamsNoUser).2.2.2.2
      [1, 2, 3, 4, 5, 6, 7, 8, 9, 10, 11, 12] rfl rfl).2⟩

theorem xor_pow_ne (b k : Nat) : b ^^^ 2 ^ k ≠ b := by
  intro h
  have h2 : b ^^^ 2 ^ k = b ^^^ 0 := by rw [h, Nat.xor_zero]
  have h3 := Nat.xor_right_injective h2
  exact absurd h3 (by positivity)

theorem slice_length (msg : Bytes) (s : Nat) (h : s + 12 ≤ msg.length) :
    ((msg.drop s).take 12).length = 12 := by
  simp
  omega

/-- The recomputed MAC is a function of the message outside the authenticator field. -/
theorem snmp_usm_auth_pair (hmac : Bytes → Bytes → Bytes) (p : snmp_usm_params_t)
    (msg msg2 auth auth2 key : Bytes) (ua : snmp_ue_assoc_t)
    (hml : msg.length < U32) (hle : p.start_offset ≤ p.auth_offset)
    (hin : p.auth_offset - p.start_offset + 12 ≤ msg.length)
    (hmsg : p.msg_tvb = some msg) (hauth : p.auth_tvb = some auth) (hlen : auth.length = 12)
    (hua : p.user_assoc = some ua) (hkey : ua.user.authKey = some key)
    (hl2 : msg2.length = msg.length) (hlen2 : auth2.length = 12)
    (hsame : ∀ i, ¬ (p.auth_offset - p.start_offset ≤ i
        ∧ i < p.auth_offset - p.start_offset + 12) → msg2[i]? = msg[i]?) :
    ∃ c, snmp_usm_auth hmac p
          = some { ret := decide (c.take 12 = auth), error := none,
                   calc_auth := some c, calc_auth_len := some 12 }
      ∧ snmp_usm_auth hmac { p with msg_tvb := some msg2, auth_tvb := some auth2 }
          = some { ret := decide (c.take 12 = auth2), error := none,
                   calc_auth := some c, calc_auth_len := some 12 } := by
  refine ⟨_, snmp_usm_auth_main hmac p auth key msg ua hml hle hauth hlen hua hkey hmsg hin, ?_⟩
  have hZ : msg2.take (p.auth_offset - p.start_offset) ++ List.replicate 12 0
      ++ msg2.drop (p.auth_offset - p.start_offset + 12)
      = msg.take (p.auth_offset - p.start_offset) ++ List.replicate 12 0
      ++ msg.drop (p.auth_offset - p.start_offset + 12) := by
    apply zeroed_unique msg _ _ 12 hin
    · simp
      omega
    · intro i h1 h2
      rw [zeroed_getElem? msg2 _ 12 i (by omega), if_pos ⟨h1, h2⟩]
    · intro i hi
      rw [zeroed_getElem? msg2 _ 12 i (by omega), if_neg hi]
      exact hsame i hi
  have h2 := snmp_usm_auth_main hmac { p with msg_tvb := some msg2, auth_tvb := some auth2 }
    auth2 key msg2 ua (by omega) hle rfl hlen2 hua hkey rfl (by simpa [hl2] using hin)
  rw [h2]
  simp only [hZ]

theorem flipped_slice_ne (msg : Bytes) (s j k : Nat) (hj : j < 12) (h : s + 12 ≤ msg.length) :
    ((msg.set (s + j) (msg.getD (s + j) 0 ^^^ 2 ^ k)).drop s).take 12
      ≠ (msg.drop s).take 12 := by
  intro heq
  have h1 := congrArg (fun l => l[j]?) heq
  simp only [List.getElem?_take_of_lt hj, List.getElem?_drop] at h1
  rw [List.getElem?_set_self (by omega), List.getElem?_eq_getElem (by omega),
    List.getD_eq_getElem _ _ (by omega)] at h1
  exact xor_pow_ne _ _ (Option.some.inj h1)

/-- C7.  Assume the authenticator range lies inside the message and the authenticator
bytes are the message bytes at that range.  (a) For every message of the same length
that agrees with it outside the authenticator field (its authenticator taken from its
own field), both verifiers recompute the same MAC.  (b) Hence if a verifier accepts the
message, then after flipping any single bit `k` of any authenticator byte `j` (message
otherwise unchanged) it rejects. -/
theorem C7_mac_independent_of_authenticator (L : Crypt) (p : snmp_usm_params_t)
    (msg key : Bytes) (ua : snmp_ue_assoc_t)
    (hml : msg.length < U32) (hle : p.start_offset ≤ p.auth_offset)
    (hin : p.auth_offset - p.start_offset + 12 ≤ msg.length)
    (hmsg : p.msg_tvb = some msg)
    (hauth : p.auth_tvb = some ((msg.drop (p.auth_offset - p.start_offset)).take 12))
    (hua : p.user_assoc = some ua) (hkey : ua.user.authKey = some key) :
    (∀ msg2 : Bytes, msg2.length = msg.length →
      (∀ i, ¬ (p.auth_offset - p.start_offset ≤ i
          ∧ i < p.auth_offset - p.start_offset + 12) → msg2[i]? = msg[i]?) →
      (∃ r r2 c, snmp_usm_auth_md5 L p = some r
          ∧ snmp_usm_auth_md5 L { p with
              msg_tvb := some msg2,
              auth_tvb := some ((msg2.drop (p.auth_offset - p.start_offset)).take 12) }
            = some r2
          ∧ r.calc_auth = some c ∧ r2.calc_auth = some c)
      ∧ (∃ r r2 c, snmp_usm_auth_sha1 L p = some r
          ∧ snmp_usm_auth_sha1 L { p with
              msg_tvb := some msg2,
              auth_tvb := some ((msg2.drop (p.auth_offset - p.start_offset)).take 12) }
            = some r2
          ∧ r.calc_auth = some c ∧ r2.calc_auth = some c))
    ∧ (∀ j k : Nat, j < 12 → k < 8 →
      (∀ r, snmp_usm_auth_md5 L p = some r → r.ret = true →
        ∃ r2, snmp_usm_auth_md5 L { p with
            msg_tvb := some (msg.set (p.auth_offset - p.start_offset + j)
              (msg.getD (p.auth_offset - p.start_offset + j) 0 ^^^ 2 ^ k)),
            auth_tvb := some (((msg.set (p.auth_offset - p.start_offset + j)
              (msg.getD (p.auth_offset - p.start_offset + j) 0 ^^^ 2 ^ k)).drop
                (p.auth_offset - p.start_offset)).take 12) }
          = some r2 ∧ r2.ret = false)
      ∧ (∀ r, snmp_usm_auth_sha1 L p = some r → r.ret = true →
        ∃ r2, snmp_usm_auth_sha1 L { p with
            msg_tvb := some (msg.set (p.auth_offset - p.start_offset + j)
              (msg.getD (p.auth_offset - p.start_offset + j) 0 ^^^ 2 ^ k)),
            auth_tvb := some (((msg.set (p.auth_offset - p.start_offset + j)
              (msg.getD (p.auth_offset - p.start_offset + j) 0 ^^^ 2 ^ k)).drop
                (p.auth_offset - p.start_offset)).take 12) }
          = some r2 ∧ r2.ret = false)) := by
  have hlen := slice_length msg (p.auth_offset - p.start_offset) hin
  have key_fact : ∀ (hmac : Bytes → Bytes → Bytes) (msg2 : Bytes), msg2.length = msg.length →
      (∀ i, ¬ (p.auth_offset - p.start_offset ≤ i
          ∧ i < p.auth_offset - p.start_offset + 12) → msg2[i]? = msg[i]?) →
      ∃ c, snmp_usm_auth hmac p
            = some { ret := decide (c.take 12
                        = (msg.drop (p.auth_offset - p.start_offset)).take 12),
                     error := none, calc_auth := some c, calc_auth_len := some 12 }
        ∧ snmp_usm_auth hmac { p with
              msg_tvb := some msg2,
              auth_tvb := some ((msg2.drop (p.auth_offset - p.start_offset)).take 12) }
            = some { ret := decide (c.take 12
                        = (msg2.drop (p.auth_offset - p.start_offset)).take 12),
                     error := none, calc_auth := some c, calc_auth_len := some 12 } := by
    intro hmac msg2 hl2 hsame
    exact snmp_usm_auth_pair hmac p msg msg2 _ _ key ua hml hle hin hmsg hauth hlen hua hkey
      hl2 (slice_length msg2 _ (by omega)) hsame
  have flip_fact : ∀ (hmac : Bytes → Bytes → Bytes) (j k : Nat), j < 12 →
      ∀ r, snmp_usm_auth hmac p = some r → r.ret = true →
        ∃ r2, snmp_usm_auth hmac { p with
            msg_tvb := some (msg.set (p.auth_offset - p.start_offset + j)
              (msg.getD (p.auth_offset - p.start_offset + j) 0 ^^^ 2 ^ k)),
            auth_tvb := some (((msg.set (p.auth_offset - p.start_offset + j)
              (msg.getD (p.auth_offset - p.start_offset + j) 0 ^^^ 2 ^ k)).drop
                (p.auth_offset - p.start_offset)).take 12) }
          = some r2 ∧ r2.ret = false := by
    intro hmac j k hj r hr hret
    obtain ⟨c, h1, h2⟩ := key_fact hmac (msg.set (p.auth_offset - p.start_offset + j)
      (msg.getD (p.auth_offset - p.start_offset + j) 0 ^^^ 2 ^ k)) (by simp)
      (by
        intro i hi
        rw [List.getElem?_set_ne (by omega)])
    rw [h1] at hr
    cases hr
    simp only [decide_eq_true_eq] at hret
    refine ⟨_, h2, ?_⟩
    simp only [decide_eq_false_iff_not]
    rw [hret]
    exact fun h => flipped_slice_ne msg _ j k hj hin h.symm
  refine ⟨fun msg2 hl2 hsame => ⟨?_, ?_⟩, fun j k hj _ => ⟨?_, ?_⟩⟩
  · obtain ⟨c, h1, h2⟩ := key_fact (fun key msg => L.md5_hmac msg key) msg2 hl2 hsame
    exact ⟨_, _, c, h1, h2, rfl, rfl⟩
  · obtain ⟨c, h1, h2⟩ := key_fact (fun key msg => L.sha1_hmac key msg) msg2 hl2 hsame
    exact ⟨_, _, c, h1, h2, rfl, rfl⟩
  · exact flip_fact (fun key msg => L.md5_hmac msg key) j k hj
  · exact flip_fact (fun key msg => L.sha1_hmac key msg) j k hj

/-- Witness of C7: `exampleMsg` and the message with one authenticator bit flipped give
the same recomputed MAC. -/
theorem C7_mac_independent_of_authenticator_witness :
    ∃ r r2 c, snmp_usm_auth_md5 stdCrypt exampleParams = some r
      ∧ snmp_usm_auth_md5 stdCrypt { exampleParams with
            msg_tvb := some exampleMsgFlipped,
            auth_tvb := some [1, 3, 3, 4, 5, 6, 7, 8, 9, 10, 11, 12] } = some r2
      ∧ r.calc_auth = some c ∧ r2.calc_auth = some c :=
  ((C7_mac_independent_of_authenticator stdCrypt exampleParams exampleMsg
      [1, 2, 3, 4, 5, 6, 7, 8, 9, 10, 11, 12, 13, 14, 15, 16] exampleLocalized
      (by decide) (by decide) (by decide) rfl rfl rfl rfl).1 exampleMsgFlipped rfl
      (by
        intro i hi
        have hi2 : i < 4 ∨ 16 ≤ i := by
          simp only [exampleParams] at hi
          omega
        by_cases h20 : i < 20
        · rcases hi2 with h | h
          · interval_cases i <;> rfl
          · interval_cases i <;> rfl
        · rw [List.getElem?_eq_none (by simp [exampleMsgFlipped]; omega),
            List.getElem?_eq_none (by simp [exampleMsg]; omega)])).1

/-! ## The user / engine association cache -/

theorem memcmp_self_length (a u : Bytes) (h : a.length = u.length) :
    memcmp a u (if a.length < u.length then a.length else u.length) = 0 ↔ a = u := by
  rw [if_neg (by omega), memcmp_eq_zero_iff, List.take_of_length_le (by omega),
    List.take_of_length_le (by omega)]

theorem unlocalized_match_iff (a : snmp_ue_assoc_t) (u : Bytes) :
    unlocalized_match a u u.length = true ↔ a.user.userName = u := by
  unfold unlocalized_match
  simp only [Bool.and_eq_true, beq_iff_eq]
  constructor
  · rintro ⟨hl, hm⟩
    exact (memcmp_self_length _ _ hl).mp hm
  · intro h
    have hl : a.user.userName.length = u.length := by rw [h]
    exact ⟨hl, (memcmp_self_length _ _ hl).mpr h⟩

theorem localized_match_iff (a : snmp_ue_assoc_t) (u e : Bytes) :
    localized_match a u u.length e e.length = true
      ↔ a.user.userName = u ∧ a.engine = e := by
  unfold localized_match
  simp only [Bool.and_eq_true, beq_iff_eq]
  constructor
  · rintro ⟨⟨⟨hl, hel⟩, hm⟩, hem⟩
    exact ⟨(memcmp_self_length _ _ hl).mp hm, (memcmp_self_length _ _ hel).mp hem⟩
  · rintro ⟨h, he⟩
    have hl : a.user.userName.length = u.length := by rw [h]
    have hel : a.engine.length = e.length := by rw [he]
    exact ⟨⟨⟨hl, hel⟩, (memcmp_self_length _ _ hl).mpr h⟩, (memcmp_self_length _ _ hel).mpr he⟩

theorem unlocalized_match_fun (u : Bytes) :
    (fun a => unlocalized_match a u u.length)
      = fun a : snmp_ue_assoc_t => decide (a.user.userName = u) := by
  funext a
  rw [Bool.eq_iff_iff, unlocalized_match_iff, decide_eq_true_iff]

theorem localized_match_fun (u e : Bytes) :
    (fun a => localized_match a u u.length e e.length)
      = fun a : snmp_ue_assoc_t => decide (a.user.userName = u ∧ a.engine = e) := by
  funext a
  rw [Bool.eq_iff_iff, localized_match_iff, decide_eq_true_iff]

theorem CACHE_INSERT_eq (c : List snmp_ue_assoc_t) (a : snmp_ue_assoc_t) :
    CACHE_INSERT c a = a :: c := by
  cases c <;> rfl

/-- `get_user_assoc` with both byte ranges present, in terms of the two searches. -/
theorem get_user_assoc_eq (L : Crypt) (g : UeCache) (E U : Bytes) :
    get_user_assoc L g (some E) (some U)
      = match g.localized_ues.find? fun a => decide (a.user.userName = U ∧ a.engine = E) with
        | some a => some (some a, g)
        | none =>
          match g.unlocalized_ues.find? fun a => decide (a.user.userName = U) with
          | some a =>
            match set_ue_keys L { a with engine := E } with
            | none => none
            | some n =>
              some (some n, { g with localized_ues := n :: g.localized_ues,
                                     set_ue_keys_calls := g.set_ue_keys_calls + 1 })
          | none => some (none, g) := by
  unfold get_user_assoc
  simp only [localized_match_fun, unlocalized_match_fun, localize_ue, CACHE_INSERT_eq]
  by_cases hl : g.localized_ues = []
  · by_cases hu : g.unlocalized_ues = []
    · simp [hl, hu]
    · simp [hl, hu]
  · simp [hl]

/-- C9.  If `a` is the first entry of `localized` that matches `(U, E)`, then
`get_user_assoc` returns `a` and leaves the state as it was: both lists and the count
of `set_ue_keys` calls (no key is derived); the same holds with any other
`unlocalized` list in the state, which is not consulted. -/
theorem C9_hit_returns_first_match (L : Crypt) (g : UeCache) (E U : Bytes)
    (a : snmp_ue_assoc_t)
    (hfirst : g.localized_ues.find? (fun x => decide (x.user.userName = U ∧ x.engine = E))
      = some a) :
    get_user_assoc L g (some E) (some U) = some (some a, g)
    ∧ ∀ ul : List snmp_ue_assoc_t,
        get_user_assoc L { g with unlocalized_ues := ul } (some E) (some U)
          = some (some a, { g with unlocalized_ues := ul }) := by
  constructor
  · rw [get_user_assoc_eq, hfirst]
  · intro ul
    rw [get_user_assoc_eq]
    simp only [hfirst]

/-- Witness of C9: a hit on `exampleLocalized` in `exampleCacheHit`. -/
theorem C9_hit_returns_first_match_witness :
    get_user_assoc stdCrypt exampleCacheHit (some exampleEngine) (some [117, 115, 101, 114])
        = some (some exampleLocalized, exampleCacheHit)
    ∧ ∀ ul : List snmp_ue_assoc_t,
        get_user_assoc stdCrypt { exampleCacheHit with unlocalized_ues := ul }
            (some exampleEngine) (some [117, 115, 101, 114])
          = some (some exampleLocalized, { exampleCacheHit with unlocalized_ues := ul }) :=
  C9_hit_returns_first_match stdCrypt exampleCacheHit exampleEngine [117, 115, 101, 114]
    exampleLocalized (by decide)

/-- C10.  `get_user_assoc` returns NULL if and only if there are no user name and
engine ID byte ranges `U`, `E` such that some `localized` entry matches `(U, E)` or
some `unlocalized` entry has user name `U` (so also when a range is missing or both
lists are empty); and whenever it returns NULL the state is unchanged. -/
theorem C10_null_iff_no_match (L : Crypt) (g : UeCache) (engine_tvb user_tvb : Option Bytes) :
    ((∃ g2, get_user_assoc L g engine_tvb user_tvb = some (none, g2))
      ↔ ¬ ∃ U E, user_tvb = some U ∧ engine_tvb = some E
          ∧ ((∃ x ∈ g.localized_ues, x.user.userName = U ∧ x.engine = E)
             ∨ (∃ x ∈ g.unlocalized_ues, x.user.userName = U)))
    ∧ (∀ g2, get_user_assoc L g engine_tvb user_tvb = some (none, g2) → g2 = g) := by
  cases user_tvb with
  | none =>
    have h : get_user_assoc L g engine_tvb none = some (none, g) := by
      unfold get_user_assoc
      split <;> rfl
    rw [h]
    refine ⟨⟨fun _ => by simp, fun _ => ⟨g, rfl⟩⟩, ?_⟩
    intro g2 h2
    cases h2
    rfl
  | some U =>
    cases engine_tvb with
    | none =>
      have h : get_user_assoc L g none (some U) = some (none, g) := by
        unfold get_user_assoc
        split <;> rfl
      rw [h]
      refine ⟨⟨fun _ => by simp, fun _ => ⟨g, rfl⟩⟩, ?_⟩
      intro g2 h2
      cases h2
      rfl
    | some E =>
      rw [get_user_assoc_eq]
      cases hl : g.localized_ues.find? (fun a => decide (a.user.userName = U ∧ a.engine = E)) with
      | some a =>
        have hmem := List.mem_of_find?_eq_some hl
        have hp : a.user.userName = U ∧ a.engine = E := by simpa using List.find?_some hl
        simp only [Option.some.injEq, Prod.mk.injEq, false_and, exists_false, false_iff,
          not_not, reduceCtorEq, IsEmpty.forall_iff, implies_true, and_true]
        exact ⟨U, E, rfl, rfl, Or.inl ⟨a, hmem, hp⟩⟩
      | none =>
        rw [List.find?_eq_none] at hl
        cases hu : g.unlocalized_ues.find? (fun a => decide (a.user.userName = U)) with
        | some a =>
          have hmem := List.mem_of_find?_eq_some hu
          have hp : a.user.userName = U := by simpa using List.find?_some hu
          have hex : ∃ U2 E2, some U = some U2 ∧ some E = some E2
              ∧ ((∃ x ∈ g.localized_ues, x.user.userName = U2 ∧ x.engine = E2)
                 ∨ (∃ x ∈ g.unlocalized_ues, x.user.userName = U2)) :=
            ⟨U, E, rfl, rfl, Or.inr ⟨a, hmem, hp⟩⟩
          have himp : ∀ g2 : UeCache,
              (match set_ue_keys L { a with engine := E } with
                | none => none
                | some n =>
                  some (some n, { g with localized_ues := n :: g.localized_ues,
                                         set_ue_keys_calls := g.set_ue_keys_calls + 1 }))
                = some (none, g2) → False := by
            intro g2 h
            split at h
            · cases h
            · cases h
          exact ⟨⟨fun ⟨g2, h2⟩ => (himp g2 h2).elim, fun hneg => absurd hex hneg⟩,
            fun g2 h2 => (himp g2 h2).elim⟩
        | none =>
          rw [List.find?_eq_none] at hu
          refine ⟨⟨fun _ => ?_, fun _ => ⟨g, rfl⟩⟩, ?_⟩
          · rintro ⟨U2, E2, hU, hE, hm⟩
            cases hU
            cases hE
            rcases hm with ⟨x, hx, hp⟩ | ⟨x, hx, hp⟩
            · exact absurd hp (by simpa using hl x hx)
            · exact absurd hp (by simpa using hu x hx)
          · intro g2 h2
            cases h2
            rfl

/-! ## The reference vectors of RFC 3414 A.3

The two digests are evaluated by the kernel.  The one-megabyte stream of the RFC
password repeats every five blocks, so the work is cut into runs of the five-block
period; each run is checked by evaluation, with every chaining state evaluated
before the next block is absorbed. -/

theorem forceNat_eq (β : Type) (n : Nat) (k : Nat → β) : forceNat β n k = k n := by
  cases n <;> rfl

theorem md5RunBlocks_eq : ∀ (ms : List Nat) (st : Md5State) (k : Md5State → Md5State),
    md5RunBlocks ms st k = k (ms.foldl md5Step st) := by
  intro ms
  induction ms with
  | nil => intro st k; rfl
  | cons m ms ih =>
    intro st k
    rw [md5RunBlocks, List.foldl_cons]
    generalize md5Step st m = x
    obtain ⟨a, b, c, d⟩ := x
    simp only [forceNat_eq, ih]

theorem md5RunRep_eq (sb : List Nat) : ∀ (n : Nat) (st : Md5State),
    md5RunRep sb n st = (List.replicate n sb).flatten.foldl md5Step st := by
  intro n
  induction n with
  | zero => intro st; rfl
  | succ n ih =>
    intro st
    rw [md5RunRep, md5RunBlocks_eq, ih, List.replicate_succ, List.flatten_cons,
      List.foldl_append]

theorem md5RunRep_add (sb : List Nat) (n1 n2 : Nat) (st : Md5State) :
    md5RunRep sb (n1 + n2) st = md5RunRep sb n2 (md5RunRep sb n1 st) := by
  rw [md5RunRep_eq, md5RunRep_eq, md5RunRep_eq, List.replicate_add, List.flatten_append,
    List.foldl_append]

theorem sha1RunBlocks_eq : ∀ (ms : List Nat) (st : Sha1State) (k : Sha1State → Sha1State),
    sha1RunBlocks ms st k = k (ms.foldl sha1Step st) := by
  intro ms
  induction ms with
  | nil => intro st k; rfl
  | cons m ms ih =>
    intro st k
    rw [sha1RunBlocks, List.foldl_cons]
    generalize sha1Step st m = x
    obtain ⟨a, b, c, d, e⟩ := x
    simp only [forceNat_eq, ih]

theorem sha1RunRep_eq (sb : List Nat) : ∀ (n : Nat) (st : Sha1State),
    sha1RunRep sb n st = (List.replicate n sb).flatten.foldl sha1Step st := by
  intro n
  induction n with
  | zero => intro st; rfl
  | succ n ih =>
    intro st
    rw [sha1RunRep, sha1RunBlocks_eq, ih, List.replicate_succ, List.flatten_cons,
      List.foldl_append]

theorem sha1RunRep_add (sb : List Nat) (n1 n2 : Nat) (st : Sha1State) :
    sha1RunRep sb (n1 + n2) st = sha1RunRep sb n2 (sha1RunRep sb n1 st) := by
  rw [sha1RunRep_eq, sha1RunRep_eq, sha1RunRep_eq, List.replicate_add, List.flatten_append,
    List.foldl_append]

theorem blocks64_flatten : ∀ (bs : List Bytes) (n : Nat) (rest : Bytes),
    (∀ b ∈ bs, b.length = 64) →
    blocks64 (bs.length + n) (bs.flatten ++ rest) = bs ++ blocks64 n rest := by
  intro bs
  induction bs with
  | nil => intro n rest _; simp
  | cons b bs ih =>
    intro n rest h
    have hb : b.length = 64 := h b (List.mem_cons_self _ _)
    have e : (b :: bs).length + n = (bs.length + n) + 1 := by simp; omega
    rw [e, blocks64, List.flatten_cons, List.append_assoc,
      List.take_append_of_le_length (by omega), List.take_of_length_le (by omega),
      List.drop_append_of_le_length (by omega), List.drop_of_length_le (by omega),
      List.nil_append, ih n rest (fun x hx => h x (List.mem_cons_of_mem _ hx))]
    rfl

theorem streamPiece_shift (pw : Bytes) (d : Nat) (hd : d % pw.length = 0) :
    ∀ (n s : Nat), streamPiece pw (s + d) n = streamPiece pw s n := by
  intro n
  induction n with
  | zero => intro s; rfl
  | succ n ih =>
    intro s
    rw [streamPiece_succ, streamPiece_succ, show s + d + 1 = (s + 1) + d by omega, ih,
      Nat.add_mod, hd, Nat.add_zero, Nat.mod_mod]

theorem streamBlocks_shift (pw : Bytes) (d : Nat) (hd : d % pw.length = 0) :
    ∀ (k s : Nat), streamBlocks pw (s + d) k = streamBlocks pw s k := by
  intro k
  induction k with
  | zero => intro s; rfl
  | succ k ih =>
    intro s
    rw [streamBlocks, streamBlocks, streamPiece_shift pw d hd 64 s,
      show s + d + 64 = (s + 64) + d by omega, ih]

theorem streamBlocks_add (pw : Bytes) : ∀ (k1 k2 s : Nat),
    streamBlocks pw s (k1 + k2) = streamBlocks pw s k1 ++ streamBlocks pw (s + 64 * k1) k2 := by
  intro k1
  induction k1 with
  | zero => intro k2 s; simp [streamBlocks]
  | succ k1 ih =>
    intro k2 s
    rw [show k1 + 1 + k2 = (k1 + k2) + 1 by omega, streamBlocks, streamBlocks, ih,
      List.cons_append, show s + 64 + 64 * k1 = s + 64 * (k1 + 1) by omega]

theorem streamBlocks_rep (pw : Bytes) (q : Nat) (hq : (64 * q) % pw.length = 0) :
    ∀ n : Nat, streamBlocks pw 0 (q * n) = (List.replicate n (streamBlocks pw 0 q)).flatten := by
  intro n
  induction n with
  | zero => rfl
  | succ n ih =>
    rw [show q * (n + 1) = q + q * n by ring, streamBlocks_add, List.replicate_succ,
      List.flatten_cons, ← ih]
    congr 1
    exact streamBlocks_shift pw (64 * q) hq (q * n) 0

/-- The 16384 blocks of the RFC password stream: 3276 periods of five blocks, then the
first four blocks of the period. -/
theorem exampleBlocks_eq :
    streamBlocks examplePassword 0 16384
      = (List.replicate 3276 (streamBlocks examplePassword 0 5)).flatten
          ++ streamBlocks examplePassword 0 4 := by
  rw [show (16384 : Nat) = 5 * 3276 + 4 from rfl, streamBlocks_add,
    streamBlocks_rep examplePassword 5 (by decide)]
  exact congrArg _ (streamBlocks_shift examplePassword (64 * (5 * 3276)) (by decide) 4 0)

theorem md5_run_1 :
    md5RunRep md5Period 64 md5IV
      = (3983480878, 1691701750, 1822453704, 4112834965) := by
  decide!

theorem md5_run_2 :
    md5RunRep md5Period 128 md5IV
      = (3752430285, 2245985010, 1951524666, 3535054800) := by
  rw [show (128 : Nat) = 64 + 64 from rfl, md5RunRep_add, md5_run_1]
  decide!

theorem md5_run_3 :
    md5RunRep md5Period 192 md5IV
      = (83131392, 2660077353, 499806242, 1491785516) := by
  rw [show (192 : Nat) = 128 + 64 from rfl, md5RunRep_add, md5_run_2]
  decide!

theorem md5_run_4 :
    md5RunRep md5Period 256 md5IV
      = (3018379540, 2567781703, 4239997377, 908432468) := by
  rw [show (256 : Nat) = 192 + 64 from rfl, md5RunRep_add, md5_run_3]
  decide!

theorem md5_run_5 :
    md5RunRep md5Period 320 md5IV
      = (375809603, 3931184694, 2848878287, 4178674187) := by
  rw [show (320 : Nat) = 256 + 64 from rfl, md5RunRep_add, md5_run_4]
  decide!

theorem md5_run_6 :
    md5RunRep md5Period 384 md5IV
      = (356231165, 1546025981, 366923196, 1501625732) := by
  rw [show (384 : Nat) = 320 + 64 from rfl, md5RunRep_add, md5_run_5]
  decide!

theorem md5_run_7 :
    md5RunRep md5Period 448 md5IV
      = (5135847, 1647717843, 3993391161, 2090582519) := by
  rw [show (448 : Nat) = 384 + 64 from rfl, md5RunRep_add, md5_run_6]
  decide!

theorem md5_run_8 :
    md5RunRep md5Period 512 md5IV
      = (1516987967, 2287523822, 3072835709, 3689136172) := by
  rw [show (512 : Nat) = 448 + 64 from rfl, md5RunRep_add, md5_run_7]
  decide!

theorem md5_run_9 :
    md5RunRep md5Period 576 md5IV
      = (3019614527, 2596972337, 3906076770, 771298696) := by
  rw [show (576 : Nat) = 512 + 64 from rfl, md5RunRep_add, md5_run_8]
  decide!

theorem md5_run_10 :
    md5RunRep md5Period 640 md5IV
      = (657444300, 3056383226, 1282018805, 1365187088) := by
  rw [show (640 : Nat) = 576 + 64 from rfl, md5RunRep_add, md5_run_9]
  decide!

theorem md5_run_11 :
    md5RunRep md5Period 704 md5IV
      = (472693214, 2188781211, 2067785446, 1791327602) := by
  rw [show (704 : Nat) = 640 + 64 from rfl, md5RunRep_add, md5_run_10]
  decide!

theorem md5_run_12 :
    md5RunRep md5Period 768 md5IV
      = (1885422260, 3065128698, 4281027182, 133163448) := by
  rw [show (768 : Nat) = 704 + 64 from rfl, md5RunRep_add, md5_run_11]
  decide!

theorem md5_run_13 :
    md5RunRep md5Period 832 md5IV
      = (1878570929, 36999004, 2025648191, 2609563909) := by
  rw [show (832 : Nat) = 768 + 64 from rfl, md5RunRep_add, md5_run_12]
  decide!

theorem md5_run_14 :
    md5RunRep md5Period 896 md5IV
      = (1759986331, 3970104468, 3369283652, 2591451555) := by
  rw [show (896 : Nat) = 832 + 64 from rfl, md5RunRep_add, md5_run_13]
  decide!

theorem md5_run_15 :
    md5RunRep md5Period 960 md5IV
      = (705088100, 4275015237, 3654988311, 3180814287) := by
  rw [show (960 : Nat) = 896 + 64 from rfl, md5RunRep_add, md5_run_14]
  decide!

theorem md5_run_16 :
    md5RunRep md5Period 1024 md5IV
      = (3399678257, 1158378369, 2344903018, 260868401) := by
  rw [show (1024 : Nat) = 960 + 64 from rfl, md5RunRep_add, md5_run_15]
  decide!

theorem md5_run_17 :
    md5RunRep md5Period 1088 md5IV
      = (3233109232, 4091609757, 3040186974, 2674333709) := by
  rw [show (1088 : Nat) = 1024 + 64 from rfl, md5RunRep_add, md5_run_16]
  decide!

theorem md5_run_18 :
    md5RunRep md5Period 1152 md5IV
      = (1164644195, 790955707, 1935470737, 4038557221) := by
  rw [show (1152 : Nat) = 1088 + 64 from rfl, md5RunRep_add, md5_run_17]
  decide!

theorem md5_run_19 :
    md5RunRep md5Period 1216 md5IV
      = (3216573852, 2414304214, 2188097970, 3803526196) := by
  rw [show (1216 : Nat) = 1152 + 64 from rfl, md5RunRep_add, md5_run_18]
  decide!

theorem md5_run_20 :
    md5RunRep md5Period 1280 md5IV
      = (1750780777, 2256436346, 2296405464, 1008134322) := by
  rw [show (1280 : Nat) = 1216 + 64 from rfl, md5RunRep_add, md5_run_19]
  decide!

theorem md5_run_21 :
    md5RunRep md5Period 1344 md5IV
      = (3819241189, 4007343633, 3688928746, 4054414558) := by
  rw [show (1344 : Nat) = 1280 + 64 from rfl, md5RunRep_add, md5_run_20]
  decide!

theorem md5_run_22 :
    md5RunRep md5Period 1408 md5IV
      = (706006483, 245983343, 1434462308, 3897178006) := by
  rw [show (1408 : Nat) = 1344 + 64 from rfl, md5RunRep_add, md5_run_21]
  decide!

theorem md5_run_23 :
    md5RunRep md5Period 1472 md5IV
      = (3017153408, 1251154329, 3797069933, 1403974622) := by
  rw [show (1472 : Nat) = 1408 + 64 from rfl, md5RunRep_add, md5_run_22]
  decide!

theorem md5_run_24 :
    md5RunRep md5Period 1536 md5IV
      = (140912214, 711820083, 2652502816, 2168013011) := by
  rw [show (1536 : Nat) = 1472 + 64 from rfl, md5RunRep_add, md5_run_23]
  decide!

theorem md5_run_25 :
    md5RunRep md5Period 1600 md5IV
      = (984511552, 728797695, 552777445, 4118406002) := by
  rw [show (1600 : Nat) = 1536 + 64 from rfl, md5RunRep_add, md5_run_24]
  decide!

theorem md5_run_26 :
    md5RunRep md5Period 1664 md5IV
      = (571234733, 324360011, 2896653493, 3170345097) := by
  rw [show (1664 : Nat) = 1600 + 64 from rfl, md5RunRep_add, md5_run_25]
  decide!

theorem md5_run_27 :
    md5RunRep md5Period 1728 md5IV
      = (509034956, 3238162625, 2381162029, 1899065913) := by
  rw [show (1728 : Nat) = 1664 + 64 from rfl, md5RunRep_add, md5_run_26]
  decide!

theorem md5_run_28 :
    md5RunRep md5Period 1792 md5IV
      = (1427407437, 1301775395, 1556566454, 2636326789) := by
  rw [show (1792 : Nat) = 1728 + 64 from rfl, md5RunRep_add, md5_run_27]
  decide!

theorem md5_run_29 :
    md5RunRep md5Period 1856 md5IV
      = (1572637869, 667322942, 2940668310, 2501432090) := by
  rw [show (1856 : Nat) = 1792 + 64 from rfl, md5RunRep_add, md5_run_28]
  decide!

theorem md5_run_30 :
    md5RunRep md5Period 1920 md5IV
      = (2874479267, 3025972157, 394125508, 199485793) := by
  rw [show (1920 : Nat) = 1856 + 64 from rfl, md5RunRep_add, md5_run_29]
  decide!

theorem md5_run_31 :
    md5RunRep md5Period 1984 md5IV
      = (969621704, 4098319104, 1107200219, 401929475) := by
  rw [show (1984 : Nat) = 1920 + 64 from rfl, md5RunRep_add, md5_run_30]
  decide!

theorem md5_run_32 :
    md5RunRep md5Period 2048 md5IV
      = (778235355, 3173757036, 320344743, 1996953793) := by
  rw [show (2048 : Nat) = 1984 + 64 from rfl, md5RunRep_add, md5_run_31]
  decide!

theorem md5_run_33 :
    md5RunRep md5Period 2112 md5IV
      = (1928856802, 3337066100, 2995597382, 1280793568) := by
  rw [show (2112 : Nat) = 2048 + 64 from rfl, md5RunRep_add, md5_run_32]
  decide!

theorem md5_run_34 :
    md5RunRep md5Period 2176 md5IV
      = (2925397944, 1598957809, 2316507867, 2243882721) := by
  rw [show (2176 : Nat) = 2112 + 64 from rfl, md5RunRep_add, md5_run_33]
  decide!

theorem md5_run_35 :
    md5RunRep md5Period 2240 md5IV
      = (395306748, 3456889089, 3066134641, 1677104154) := by
  rw [show (2240 : Nat) = 2176 + 64 from rfl, md5RunRep_add, md5_run_34]
  decide!

theorem md5_run_36 :
    md5RunRep md5Period 2304 md5IV
      = (2121676293, 1662749094, 130998413, 1950386556) := by
  rw [show (2304 : Nat) = 2240 + 64 from rfl, md5RunRep_add, md5_run_35]
  decide!

theorem md5_run_37 :
    md5RunRep md5Period 2368 md5IV
      = (255329465, 4284713262, 2636132219, 1833405392) := by
  rw [show (2368 : Nat) = 2304 + 64 from rfl, md5RunRep_add, md5_run_36]
  decide!

theorem md5_run_38 :
    md5RunRep md5Period 2432 md5IV
      = (19929033, 2204805669, 2777235920, 4198543550) := by
  rw [show (2432 : Nat) = 2368 + 64 from rfl, md5RunRep_add, md5_run_37]
  decide!

theorem md5_run_39 :
    md5RunRep md5Period 2496 md5IV
      = (104125668, 3990813187, 3403519099, 2345917921) := by
  rw [show (2496 : Nat) = 2432 + 64 from rfl, md5RunRep_add, md5_run_38]
  decide!

theorem md5_run_40 :
    md5RunRep md5Period 2560 md5IV
      = (292216651, 1406969733, 2936949931, 2207516019) := by
  rw [show (2560 : Nat) = 2496 + 64 from rfl, md5RunRep_add, md5_run_39]
  decide!

theorem md5_run_41 :
    md5RunRep md5Period 2624 md5IV
      = (657426744, 1294448706, 3484350298, 131184704) := by
  rw [show (2624 : Nat) = 2560 + 64 from rfl, md5RunRep_add, md5_run_40]
  decide!

theorem md5_run_42 :
    md5RunRep md5Period 2688 md5IV
      = (227603712, 2727435900, 3547810026, 306627770) := by
  rw [show (2688 : Nat) = 2624 + 64 from rfl, md5RunRep_add, md5_run_41]
  decide!

theorem md5_run_43 :
    md5RunRep md5Period 2752 md5IV
      = (6732198, 3317779317, 1334983345, 1922413846) := by
  rw [show (2752 : Nat) = 2688 + 64 from rfl, md5RunRep_add, md5_run_42]
  decide!

theorem md5_run_44 :
    md5RunRep md5Period 2816 md5IV
      = (1950111178, 3252627806, 634565309, 276233915) := by
  rw [show (2816 : Nat) = 2752 + 64 from rfl, md5RunRep_add, md5_run_43]
  decide!

theorem md5_run_45 :
    md5RunRep md5Period 2880 md5IV
      = (3917306877, 1791995938, 2445617518, 2308228096) := by
  rw [show (2880 : Nat) = 2816 + 64 from rfl, md5RunRep_add, md5_run_44]
  decide!

theorem md5_run_46 :
    md5RunRep md5Period 2944 md5IV
      = (985840000, 3818942743, 3214000656, 3407279892) := by
  rw [show (2944 : Nat) = 2880 + 64 from rfl, md5RunRep_add, md5_run_45]
  decide!

theorem md5_run_47 :
    md5RunRep md5Period 3008 md5IV
      = (466916456, 4062743970, 2914440749, 3169474270) := by
  rw [show (3008 : Nat) = 2944 + 64 from rfl, md5RunRep_add, md5_run_46]
  decide!

theorem md5_run_48 :
    md5RunRep md5Period 3072 md5IV
      = (1463510120, 528097956, 661988520, 1874680131) := by
  rw [show (3072 : Nat) = 3008 + 64 from rfl, md5RunRep_add, md5_run_47]
  decide!

theorem md5_run_49 :
    md5RunRep md5Period 3136 md5IV
      = (2438373204, 3339101258, 281851323, 2024011530) := by
  rw [show (3136 : Nat) = 3072 + 64 from rfl, md5RunRep_add, md5_run_48]
  decide!

theorem md5_run_50 :
    md5RunRep md5Period 3200 md5IV
      = (2731885672, 1888522384, 1149487738, 1095524063) := by
  rw [show (3200 : Nat) = 3136 + 64 from rfl, md5RunRep_add, md5_run_49]
  decide!

theorem md5_run_51 :
    md5RunRep md5Period 3264 md5IV
      = (541372101, 2490814794, 950900982, 2225231959) := by
  rw [show (3264 : Nat) = 3200 + 64 from rfl, md5RunRep_add, md5_run_50]
  decide!

theorem md5_run_52 :
    md5RunRep md5Period 3276 md5IV
      = (870423636, 671832713, 2977536145, 453389961) := by
  rw [show (3276 : Nat) = 3264 + 12 from rfl, md5RunRep_add, md5_run_51]
  decide!

theorem sha1_run_1 :
    sha1RunRep sha1Period 64 sha1IV
      = (3088531480, 333913755, 3122544091, 1970215330, 320227964) := by
  decide!

theorem sha1_run_2 :
    sha1RunRep sha1Period 128 sha1IV
      = (3924868586, 1370381122, 1956012227, 458119540, 2930475561) := by
  rw [show (128 : Nat) = 64 + 64 from rfl, sha1RunRep_add, sha1_run_1]
  decide!

theorem sha1_run_3 :
    sha1RunRep sha1Period 192 sha1IV
      = (2562575855, 890306854, 3619633957, 3165017767, 1851586309) := by
  rw [show (192 : Nat) = 128 + 64 from rfl, sha1RunRep_add, sha1_run_2]
  decide!

theorem sha1_run_4 :
    sha1RunRep sha1Period 256 sha1IV
      = (1503063458, 1390799785, 824184067, 3322680061, 1588415027) := by
  rw [show (256 : Nat) = 192 + 64 from rfl, sha1RunRep_add, sha1_run_3]
  decide!

theorem sha1_run_5 :
    sha1RunRep sha1Period 320 sha1IV
      = (3173939605, 746901625, 1756142887, 2993076563, 1880324621) := by
  rw [show (320 : Nat) = 256 + 64 from rfl, sha1RunRep_add, sha1_run_4]
  decide!

theorem sha1_run_6 :
    sha1RunRep sha1Period 384 sha1IV
      = (3980593709, 1357272123, 2688763712, 849781138, 2645465327) := by
  rw [show (384 : Nat) = 320 + 64 from rfl, sha1RunRep_add, sha1_run_5]
  decide!

theorem sha1_run_7 :
    sha1RunRep sha1Period 448 sha1IV
      = (1345107818, 3061103248, 3025188214, 3409208053, 3250479218) := by
  rw [show (448 : Nat) = 384 + 64 from rfl, sha1RunRep_add, sha1_run_6]
  decide!

theorem sha1_run_8 :
    sha1RunRep sha1Period 512 sha1IV
      = (2991123604, 1810763875, 534987829, 3573999473, 1310340004) := by
  rw [show (512 : Nat) = 448 + 64 from rfl, sha1RunRep_add, sha1_run_7]
  decide!

theorem sha1_run_9 :
    sha1RunRep sha1Period 576 sha1IV
      = (1047165296, 4250694694, 4215758671, 1093952256, 2523508100) := by
  rw [show (576 : Nat) = 512 + 64 from rfl, sha1RunRep_add, sha1_run_8]
  decide!

theorem sha1_run_10 :
    sha1RunRep sha1Period 640 sha1IV
      = (2945864930, 2272094337, 553065119, 672828659, 3317942443) := by
  rw [show (640 : Nat) = 576 + 64 from rfl, sha1RunRep_add, sha1_run_9]
  decide!

theorem sha1_run_11 :
    sha1RunRep sha1Period 704 sha1IV
      = (883895307, 742782262, 1821385580, 2306955606, 3556460701) := by
  rw [show (704 : Nat) = 640 + 64 from rfl, sha1RunRep_add, sha1_run_10]
  decide!

theorem sha1_run_12 :
    sha1RunRep sha1Period 768 sha1IV
      = (1562213171, 3468317101, 3995615347, 1227857591, 2596896166) := by
  rw [show (768 : Nat) = 704 + 64 from rfl, sha1RunRep_add, sha1_run_11]
  decide!

theorem sha1_run_13 :
    sha1RunRep sha1Period 832 sha1IV
      = (3810177607, 2667286619, 2140969141, 4059886681, 2858898480) := by
  rw [show (832 : Nat) = 768 + 64 from rfl, sha1RunRep_add, sha1_run_12]
  decide!

theorem sha1_run_14 :
    sha1RunRep sha1Period 896 sha1IV
      = (56951168, 1702837474, 1660593849, 3724257208, 2239248034) := by
  rw [show (896 : Nat) = 832 + 64 from rfl, sha1RunRep_add, sha1_run_13]
  decide!

theorem sha1_run_15 :
    sha1RunRep sha1Period 960 sha1IV
      = (3291708754, 457298069, 2012552295, 1670791852, 2832898039) := by
  rw [show (960 : Nat) = 896 + 64 from rfl, sha1RunRep_add, sha1_run_14]
  decide!

theorem sha1_run_16 :
    sha1RunRep sha1Period 1024 sha1IV
      = (1160879765, 3958068503, 3417708039, 3954702454, 576483681) := by
  rw [show (1024 : Nat) = 960 + 64 from rfl, sha1RunRep_add, sha1_run_15]
  decide!

theorem sha1_run_17 :
    sha1RunRep sha1Period 1088 sha1IV
      = (2676389952, 1992417430, 1988954307, 1204572778, 903659427) := by
  rw [show (1088 : Nat) = 1024 + 64 from rfl, sha1RunRep_add, sha1_run_16]
  decide!

theorem sha1_run_18 :
    sha1RunRep sha1Period 1152 sha1IV
      = (2211322709, 1092432486, 1610881834, 2283605801, 3646412815) := by
  rw [show (1152 : Nat) = 1088 + 64 from rfl, sha1RunRep_add, sha1_run_17]
  decide!

theorem sha1_run_19 :
    sha1RunRep sha1Period 1216 sha1IV
      = (3887377368, 814049599, 242325569, 1138630955, 2381728281) := by
  rw [show (1216 : Nat) = 1152 + 64 from rfl, sha1RunRep_add, sha1_run_18]
  decide!

theorem sha1_run_20 :
    sha1RunRep sha1Period 1280 sha1IV
      = (448497175, 3261067414, 699554716, 4290039438, 2545043912) := by
  rw [show (1280 : Nat) = 1216 + 64 from rfl, sha1RunRep_add, sha1_run_19]
  decide!

theorem sha1_run_21 :
    sha1RunRep sha1Period 1344 sha1IV
      = (2653433991, 399620547, 1513980424, 2585676096, 3195949270) := by
  rw [show (1344 : Nat) = 1280 + 64 from rfl, sha1RunRep_add, sha1_run_20]
  decide!

theorem sha1_run_22 :
    sha1RunRep sha1Period 1408 sha1IV
      = (4044371522, 1523585022, 3116603361, 73657286, 1258035494) := by
  rw [show (1408 : Nat) = 1344 + 64 from rfl, sha1RunRep_add, sha1_run_21]
  decide!

theorem sha1_run_23 :
    sha1RunRep sha1Period 1472 sha1IV
      = (3701130305, 154546772, 3823775178, 2473284595, 3378899258) := by
  rw [show (1472 : Nat) = 1408 + 64 from rfl, sha1RunRep_add, sha1_run_22]
  decide!

theorem sha1_run_24 :
    sha1RunRep sha1Period 1536 sha1IV
      = (863844659, 1539551458, 987510150, 4094622279, 2296556495) := by
  rw [show (1536 : Nat) = 1472 + 64 from rfl, sha1RunRep_add, sha1_run_23]
  decide!

theorem sha1_run_25 :
    sha1RunRep sha1Period 1600 sha1IV
      = (1995350472, 4125799108, 972272154, 1254485522, 2063622198) := by
  rw [show (1600 : Nat) = 1536 + 64 from rfl, sha1RunRep_add, sha1_run_24]
  decide!

theorem sha1_run_26 :
    sha1RunRep sha1Period 1664 sha1IV
      = (2713332104, 3289302510, 1833450779, 2224988978, 417453885) := by
  rw [show (1664 : Nat) = 1600 + 64 from rfl, sha1RunRep_add, sha1_run_25]
  decide!

theorem sha1_run_27 :
    sha1RunRep sha1Period 1728 sha1IV
      = (1773342260, 3318700887, 2487114018, 3312748832, 1188711716) := by
  rw [show (1728 : Nat) = 1664 + 64 from rfl, sha1RunRep_add, sha1_run_26]
  decide!

theorem sha1_run_28 :
    sha1RunRep sha1Period 1792 sha1IV
      = (2374622509, 358210053, 240851042, 782034317, 546823632) := by
  rw [show (1792 : Nat) = 1728 + 64 from rfl, sha1RunRep_add, sha1_run_27]
  decide!

theorem sha1_run_29 :
    sha1RunRep sha1Period 1856 sha1IV
      = (424834039, 4100200523, 2468753030, 1247853823, 3841839230) := by
  rw [show (1856 : Nat) = 1792 + 64 from rfl, sha1RunRep_add, sha1_run_28]
  decide!

theorem sha1_run_30 :
    sha1RunRep sha1Period 1920 sha1IV
      = (2476828325, 3656015387, 1991068076, 1851508979, 1812098036) := by
  rw [show (1920 : Nat) = 1856 + 64 from rfl, sha1RunRep_add, sha1_run_29]
  decide!

theorem sha1_run_31 :
    sha1RunRep sha1Period 1984 sha1IV
      = (705026772, 977229922, 3297570068, 3608052997, 1333093640) := by
  rw [show (1984 : Nat) = 1920 + 64 from rfl, sha1RunRep_add, sha1_run_30]
  decide!

theorem sha1_run_32 :
    sha1RunRep sha1Period 2048 sha1IV
      = (1968545828, 2300672280, 1049749171, 285469682, 1098662866) := by
  rw [show (2048 : Nat) = 1984 + 64 from rfl, sha1RunRep_add, sha1_run_31]
  decide!

theorem sha1_run_33 :
    sha1RunRep sha1Period 2112 sha1IV
      = (384147718, 2954861811, 2996074880, 2057845774, 2172628645) := by
  rw [show (2112 : Nat) = 2048 + 64 from rfl, sha1RunRep_add, sha1_run_32]
  decide!

theorem sha1_run_34 :
    sha1RunRep sha1Period 2176 sha1IV
      = (4015263479, 125611116, 2292585220, 201438869, 1778946844) := by
  rw [show (2176 : Nat) = 2112 + 64 from rfl, sha1RunRep_add, sha1_run_33]
  decide!

theorem sha1_run_35 :
    sha1RunRep sha1Period 2240 sha1IV
      = (3857919659, 1889290714, 1791865763, 2515346705, 2965775217) := by
  rw [show (2240 : Nat) = 2176 + 64 from rfl, sha1RunRep_add, sha1_run_34]
  decide!

theorem sha1_run_36 :
    sha1RunRep sha1Period 2304 sha1IV
      = (421177838, 3693916545, 1060626652, 3541517241, 1932410108) := by
  rw [show (2304 : Nat) = 2240 + 64 from rfl, sha1RunRep_add, sha1_run_35]
  decide!

theorem sha1_run_37 :
    sha1RunRep sha1Period 2368 sha1IV
      = (1114644220, 1146278368, 353972312, 1507692233, 3517408447) := by
  rw [show (2368 : Nat) = 2304 + 64 from rfl, sha1RunRep_add, sha1_run_36]
  decide!

theorem sha1_run_38 :
    sha1RunRep sha1Period 2432 sha1IV
      = (2196062252, 3296730274, 3918773332, 1554217842, 107099547) := by
  rw [show (2432 : Nat) = 2368 + 64 from rfl, sha1RunRep_add, sha1_run_37]
  decide!

theorem sha1_run_39 :
    sha1RunRep sha1Period 2496 sha1IV
      = (1916097050, 711485909, 858488741, 3286771512, 1817698883) := by
  rw [show (2496 : Nat) = 2432 + 64 from rfl, sha1RunRep_add, sha1_run_38]
  decide!

theorem sha1_run_40 :
    sha1RunRep sha1Period 2560 sha1IV
      = (2379405036, 1566331720, 996508892, 2487601689, 2718455316) := by
  rw [show (2560 : Nat) = 2496 + 64 from rfl, sha1RunRep_add, sha1_run_39]
  decide!

theorem sha1_run_41 :
    sha1RunRep sha1Period 2624 sha1IV
      = (897139915, 3320517306, 2758181506, 673605364, 1003054483) := by
  rw [show (2624 : Nat) = 2560 + 64 from rfl, sha1RunRep_add, sha1_run_40]
  decide!

theorem sha1_run_42 :
    sha1RunRep sha1Period 2688 sha1IV
      = (12969649, 3445637810, 1528977219, 2406028472, 1664025931) := by
  rw [show (2688 : Nat) = 2624 + 64 from rfl, sha1RunRep_add, sha1_run_41]
  decide!

theorem sha1_run_43 :
    sha1RunRep sha1Period 2752 sha1IV
      = (3779449075, 634973347, 3538601053, 139895038, 1898458546) := by
  rw [show (2752 : Nat) = 2688 + 64 from rfl, sha1RunRep_add, sha1_run_42]
  decide!

theorem sha1_run_44 :
    sha1RunRep sha1Period 2816 sha1IV
      = (2037864939, 1793849719, 967652993, 2494193115, 1907356899) := by
  rw [show (2816 : Nat) = 2752 + 64 from rfl, sha1RunRep_add, sha1_run_43]
  decide!

theorem sha1_run_45 :
    sha1RunRep sha1Period 2880 sha1IV
      = (3838862555, 1760518642, 3205352312, 3768944487, 3287341780) := by
  rw [show (2880 : Nat) = 2816 + 64 from rfl, sha1RunRep_add, sha1_run_44]
  decide!

theorem sha1_run_46 :
    sha1RunRep sha1Period 2944 sha1IV
      = (742215367, 3022249222, 2340072927, 3777565160, 1117107793) := by
  rw [show (2944 : Nat) = 2880 + 64 from rfl, sha1RunRep_add, sha1_run_45]
  decide!

theorem sha1_run_47 :
    sha1RunRep sha1Period 3008 sha1IV
      = (572122333, 3199558670, 4005782185, 1754193366, 110385307) := by
  rw [show (3008 : Nat) = 2944 + 64 from rfl, sha1RunRep_add, sha1_run_46]
  decide!

theorem sha1_run_48 :
    sha1RunRep sha1Period 3072 sha1IV
      = (750465024, 2525446528, 2183553545, 3304019442, 1607423215) := by
  rw [show (3072 : Nat) = 3008 + 64 from rfl, sha1RunRep_add, sha1_run_47]
  decide!

theorem sha1_run_49 :
    sha1RunRep sha1Period 3136 sha1IV
      = (1180686510, 2635440714, 2842973906, 2265899341, 1555174984) := by
  rw [show (3136 : Nat) = 3072 + 64 from rfl, sha1RunRep_add, sha1_run_48]
  decide!

theorem sha1_run_50 :
    sha1RunRep sha1Period 3200 sha1IV
      = (788493372, 884469002, 2637697278, 238927176, 4088264777) := by
  rw [show (3200 : Nat) = 3136 + 64 from rfl, sha1RunRep_add, sha1_run_49]
  decide!

theorem sha1_run_51 :
    sha1RunRep sha1Period 3264 sha1IV
      = (1772046083, 1845882272, 997077787, 665445340, 3173478019) := by
  rw [show (3264 : Nat) = 3200 + 64 from rfl, sha1RunRep_add, sha1_run_50]
  decide!

theorem sha1_run_52 :
    sha1RunRep sha1Period 3276 sha1IV
      = (1730184150, 4182116871, 304789548, 2895345695, 3005790826) := by
  rw [show (3276 : Nat) = 3264 + 12 from rfl, sha1RunRep_add, sha1_run_51]
  decide!

theorem flatten_length_64 : ∀ (bs : List Bytes), (∀ b ∈ bs, b.length = 64) →
    bs.flatten.length = 64 * bs.length := by
  intro bs
  induction bs with
  | nil => intro _; rfl
  | cons b bs ih =>
    intro h
    rw [List.flatten_cons, List.length_append, h b (List.mem_cons_self _ _),
      ih (fun x hx => h x (List.mem_cons_of_mem _ hx)), List.length_cons]
    omega

theorem md5Pad_length (n : Nat) : (md5Pad (64 * n)).length = 64 := by
  simp [md5Pad, padZeros, leBytes_length]

theorem sha1Pad_length (n : Nat) : (sha1Pad (64 * n)).length = 64 := by
  simp [sha1Pad, padZeros, beBytes_length]

theorem blocks64_one (b : Bytes) (h : b.length = 64) : blocks64 1 b = [b] := by
  rw [blocks64, blocks64, List.take_of_length_le (by omega)]

/-- MD5 of a message made of whole blocks: the blocks, then the padding block. -/
theorem md5_flatten (bs : List Bytes) (h : ∀ b ∈ bs, b.length = 64) :
    md5 bs.flatten
      = md5Out (md5Step ((bs.map leNat).foldl md5Step md5IV)
          (leNat (md5Pad (64 * bs.length)))) := by
  have hl := flatten_length_64 bs h
  have hp := md5Pad_length bs.length
  unfold md5
  simp only [hl, List.length_append, hp]
  rw [show (64 * bs.length + 64) / 64 = bs.length + 1 by omega, blocks64_flatten bs 1 _ h,
    blocks64_one _ hp, List.map_append, List.foldl_append, List.map_cons, List.map_nil,
    List.foldl_cons, List.foldl_nil]

/-- SHA-1 of a message made of whole blocks: the blocks, then the padding block. -/
theorem sha1_flatten (bs : List Bytes) (h : ∀ b ∈ bs, b.length = 64) :
    sha1 bs.flatten
      = sha1Out (sha1Step ((bs.map fun b => sha1Schedule (beNat b)).foldl sha1Step sha1IV)
          (sha1Schedule (beNat (sha1Pad (64 * bs.length))))) := by
  have hl := flatten_length_64 bs h
  have hp := sha1Pad_length bs.length
  unfold sha1
  simp only [hl, List.length_append, hp]
  rw [show (64 * bs.length + 64) / 64 = bs.length + 1 by omega, blocks64_flatten bs 1 _ h,
    blocks64_one _ hp, List.map_append, List.foldl_append, List.map_cons, List.map_nil,
    List.foldl_cons, List.foldl_nil]

theorem map_flatten_replicate {α β : Type} (f : α → β) (n : Nat) (l : List α) :
    (List.replicate n l).flatten.map f = (List.replicate n (l.map f)).flatten := by
  induction n with
  | zero => rfl
  | succ n ih => rw [List.replicate_succ, List.flatten_cons, List.map_append, ih,
      List.replicate_succ, List.flatten_cons]

theorem exampleBlocks_length64 : ∀ b ∈ streamBlocks examplePassword 0 16384, b.length = 64 := by
  intro b hb
  obtain ⟨j, _, rfl⟩ := streamBlocks_mem examplePassword 16384 0 b hb
  exact streamPiece_length _ _ _

theorem md5Period_eq : (streamBlocks examplePassword 0 5).map leNat = md5Period := by
  decide!

theorem sha1Period_eq :
    (streamBlocks examplePassword 0 5).map (fun b => sha1Schedule (beNat b)) = sha1Period := by
  decide!

theorem md5_tail :
    md5Out (md5Step (((streamBlocks examplePassword 0 4).map leNat).foldl md5Step
        (870423636, 671832713, 2977536145, 453389961))
      (leNat (md5Pad (64 * 16384))))
      = [0x9f, 0xaf, 0x32, 0x83, 0x88, 0x4e, 0x92, 0x83, 0x4e, 0xbc, 0x98, 0x47, 0xd8, 0xed, 0xd9, 0x63] := by
  decide!

theorem sha1_tail :
    sha1Out (sha1Step (((streamBlocks examplePassword 0 4).map
          fun b => sha1Schedule (beNat b)).foldl sha1Step
        (1730184150, 4182116871, 304789548, 2895345695, 3005790826))
      (sha1Schedule (beNat (sha1Pad (64 * 16384)))))
      = [0x9f, 0xb5, 0xcc, 0x03, 0x81, 0x49, 0x7b, 0x37, 0x93, 0x52, 0x89, 0x39, 0xff, 0x78, 0x8d, 0x5d, 0x79, 0x14, 0x52, 0x11] := by
  decide!

/-- The MD5 digest of the one-megabyte stream of the RFC password (the intermediate key
of RFC 3414 A.3.1). -/
theorem md5_stream_digest :
    md5 (passwordStream examplePassword 1048576)
      = [0x9f, 0xaf, 0x32, 0x83, 0x88, 0x4e, 0x92, 0x83, 0x4e, 0xbc, 0x98, 0x47, 0xd8, 0xed, 0xd9, 0x63] := by
  rw [← streamPiece_zero, show (1048576 : Nat) = 64 * 16384 from rfl, ← streamBlocks_flatten,
    md5_flatten _ exampleBlocks_length64, streamBlocks_length, exampleBlocks_eq,
    List.map_append, map_flatten_replicate, md5Period_eq, List.foldl_append,
    ← md5RunRep_eq, md5_run_52]
  exact md5_tail

/-- The SHA-1 digest of the one-megabyte stream of the RFC password (the intermediate
key of RFC 3414 A.3.2). -/
theorem sha1_stream_digest :
    sha1 (passwordStream examplePassword 1048576)
      = [0x9f, 0xb5, 0xcc, 0x03, 0x81, 0x49, 0x7b, 0x37, 0x93, 0x52, 0x89, 0x39, 0xff, 0x78, 0x8d, 0x5d, 0x79, 0x14, 0x52, 0x11] := by
  rw [← streamPiece_zero, show (1048576 : Nat) = 64 * 16384 from rfl, ← streamBlocks_flatten,
    sha1_flatten _ exampleBlocks_length64, streamBlocks_length, exampleBlocks_eq,
    List.map_append, map_flatten_replicate, sha1Period_eq, List.foldl_append,
    ← sha1RunRep_eq, sha1_run_52]
  exact sha1_tail

theorem md5_localized :
    md5 ([0x9f, 0xaf, 0x32, 0x83, 0x88, 0x4e, 0x92, 0x83, 0x4e, 0xbc, 0x98, 0x47, 0xd8, 0xed, 0xd9, 0x63] ++ exampleEngine
        ++ [0x9f, 0xaf, 0x32, 0x83, 0x88, 0x4e, 0x92, 0x83, 0x4e, 0xbc, 0x98, 0x47, 0xd8, 0xed, 0xd9, 0x63])
      = [0x52, 0x6f, 0x5e, 0xed, 0x9f, 0xcc, 0xe2, 0x6f, 0x89, 0x64, 0xc2, 0x93, 0x07, 0x87, 0xd8, 0x2b] := by
  decide!

theorem sha1_localized :
    sha1 ([0x9f, 0xb5, 0xcc, 0x03, 0x81, 0x49, 0x7b, 0x37, 0x93, 0x52, 0x89, 0x39, 0xff, 0x78, 0x8d, 0x5d, 0x79, 0x14, 0x52, 0x11]
        ++ exampleEngine
        ++ [0x9f, 0xb5, 0xcc, 0x03, 0x81, 0x49, 0x7b, 0x37, 0x93, 0x52, 0x89, 0x39, 0xff, 0x78, 0x8d, 0x5d, 0x79, 0x14, 0x52, 0x11])
      = [0x66, 0x95, 0xfe, 0xbc, 0x92, 0x88, 0xe3, 0x62, 0x82, 0x23, 0x5f, 0xc7, 0x15, 0x1f, 0x12, 0x84, 0x97, 0xb3, 0x8f, 0x3f] := by
  decide!

theorem md5Lib_hash (m : Bytes) : md5Lib.hash m = md5 m := by
  simp [HashLib.hash, md5Lib]

theorem sha1Lib_hash (m : Bytes) : sha1Lib.hash m = sha1 m := by
  simp [HashLib.hash, sha1Lib]

/-- C3.  The reference vectors of RFC 3414 A.3.1 and A.3.2: for the password
`"maplesyrupmaplesyrup"` and the engine ID `00 00 00 00 00 00 00 00 00 00 00 02`,
`snmp_usm_password_to_key_md5` yields the 16-byte key
`52 6f 5e ed 9f cc e2 6f 89 64 c2 93 07 87 d8 2b` and `snmp_usm_password_to_key_sha1`
the 20-byte key `66 95 fe bc 92 88 e3 62 82 23 5f c7 15 1f 12 84 97 b3 8f 3f`, with
MD5 and SHA-1 as their standards define them. -/
theorem C3_rfc3414_reference_keys :
    snmp_usm_password_to_key_md5 md5Lib examplePassword exampleEngine (se_alloc 16)
        = some [0x52, 0x6f, 0x5e, 0xed, 0x9f, 0xcc, 0xe2, 0x6f, 0x89, 0x64, 0xc2, 0x93, 0x07, 0x87, 0xd8, 0x2b]
    ∧ snmp_usm_password_to_key_sha1 sha1Lib examplePassword exampleEngine (se_alloc 20)
        = some [0x66, 0x95, 0xfe, 0xbc, 0x92, 0x88, 0xe3, 0x62, 0x82, 0x23, 0x5f, 0xc7, 0x15, 0x1f, 0x12, 0x84, 0x97, 0xb3, 0x8f, 0x3f] := by
  constructor
  · rw [password_to_key_md5_eq md5Lib md5Lib_streaming md5Lib_digestLen examplePassword
      exampleEngine (se_alloc 16) (by decide) (by decide)]
    simp only [md5Lib_hash]
    rw [md5_stream_digest, md5_localized]
  · rw [password_to_key_sha1_eq sha1Lib sha1Lib_streaming sha1Lib_digestLen examplePassword
      exampleEngine (se_alloc 20) (by decide) (by decide) (by decide)]
    simp only [sha1Lib_hash]
    rw [sha1_stream_digest, sha1_localized]

/-! ## Memoization and the cache invariant -/

/-- C11.  Memoization.  Start from a cache whose `localized` list is empty and whose
`unlocalized` list holds one credential `t` of user `U`, and let `E1` be any engine
ID.  Whenever the first `get_user_assoc(E1, U)` returns, it returns an association
`n` with engine `E1` (the keyed copy of `t`), has made exactly one `set_ue_keys` call
and has added exactly the entry `n` to `localized`; the second `get_user_assoc(E1, U)`
returns the same `n` (so the same engine and keys) and leaves the whole state as it
was: no `set_ue_keys` call, `localized` of the same length.  With a lawful digest
library, non-empty passwords and (for SHA1) at most 32 bytes of engine ID, the first
call does return. -/
theorem C11_second_resolve_is_cached (L : Crypt) (t : snmp_ue_assoc_t) (c : Nat)
    (E1 U : Bytes) (hU : t.user.userName = U) :
    (∀ r g1,
      get_user_assoc L { localized_ues := [], unlocalized_ues := [t], set_ue_keys_calls := c }
          (some E1) (some U) = some (r, g1) →
      ∃ n, r = some n
        ∧ set_ue_keys L { t with engine := E1 } = some n
        ∧ n.engine = E1 ∧ n.user.userName = U
        ∧ g1.set_ue_keys_calls = c + 1
        ∧ g1.localized_ues = [n]
        ∧ g1.unlocalized_ues = [t]
        ∧ get_user_assoc L g1 (some E1) (some U) = some (some n, g1))
    ∧ (L.md5.Streaming → L.md5.DigestLen 16 → L.sha1.Streaming → L.sha1.DigestLen 20 →
        t.user.authPassword ≠ [] → t.user.privPassword ≠ [] →
        (t.user.authModel = .model_sha1 → E1.length ≤ 32) →
        ∃ n g1,
          get_user_assoc L
              { localized_ues := [], unlocalized_ues := [t], set_ue_keys_calls := c }
              (some E1) (some U) = some (some n, g1)) := by
  have key : ∀ n, set_ue_keys L { t with engine := E1 } = some n →
      get_user_assoc L { localized_ues := [], unlocalized_ues := [t], set_ue_keys_calls := c }
          (some E1) (some U)
        = some (some n, { localized_ues := [n], unlocalized_ues := [t],
                          set_ue_keys_calls := c + 1 }) := by
    intro n hn
    rw [get_user_assoc_eq]
    simp [hU, hn]
  constructor
  · intro r g1 h
    cases hk : set_ue_keys L { t with engine := E1 } with
    | none =>
      rw [get_user_assoc_eq] at h
      simp [hU, hk] at h
    | some n =>
      rw [key n hk] at h
      simp only [Option.some.injEq, Prod.mk.injEq] at h
      obtain ⟨rfl, rfl⟩ := h
      obtain ⟨ak, pk, _, _, hn⟩ := set_ue_keys_eq_some L _ n hk
      have hE : n.engine = E1 := by rw [hn]
      have hN : n.user.userName = U := by rw [hn]; exact hU
      refine ⟨n, rfl, rfl, hE, hN, rfl, rfl, rfl, ?_⟩
      rw [get_user_assoc_eq]
      simp [hE, hN]
  · intro h5s h5d h1s h1d ha hp heng
    obtain ⟨n, hn⟩ := set_ue_keys_returns L { t with engine := E1 } h5s h5d h1s h1d ha hp heng
    exact ⟨n, _, key n hn⟩

/-- Witness of C11: `exampleTemplate` resolved twice with `exampleEngine`. -/
theorem C11_second_resolve_is_cached_witness :
    ∃ n g1,
      get_user_assoc stdCrypt exampleCache (some exampleEngine) (some [117, 115, 101, 114])
        = some (some n, g1)
      ∧ g1.set_ue_keys_calls = 1 ∧ g1.localized_ues = [n]
      ∧ get_user_assoc stdCrypt g1 (some exampleEngine) (some [117, 115, 101, 114])
        = some (some n, g1) := by
  have h := C11_second_resolve_is_cached stdCrypt exampleTemplate 0 exampleEngine
    [117, 115, 101, 114] rfl
  obtain ⟨n, g1, hg⟩ := h.2 md5Lib_streaming md5Lib_digestLen sha1Lib_streaming
    sha1Lib_digestLen (by decide) (by decide) (by decide)
  obtain ⟨m, hm, _, _, _, hc, hl, _, h2⟩ := h.1 _ _ hg
  cases hm
  exact ⟨n, g1, hg, hc, hl, h2⟩

theorem set_ue_keys_engine (L : Crypt) (n n2 : snmp_ue_assoc_t)
    (h : set_ue_keys L n = some n2) : n2.engine = n.engine := by
  obtain ⟨ak, pk, _, _, rfl⟩ := set_ue_keys_eq_some L n n2 h
  rfl

/-- The loop of `renew_ue_cache`: it returns exactly when every `set_ue_keys` call on
a configured association with an engine ID returns, and then it has put the keyed
copies in front of `localized` and the others in front of `unlocalized`, each in
reverse order. -/
theorem renew_loop_iff (L : Crypt) : ∀ (ueas : List snmp_ue_assoc_t) (g g2 : UeCache),
    renew_loop L ueas g = some g2 ↔
      ∃ ks, List.Forall₂ (fun u k => set_ue_keys L u = some k)
              (ueas.filter fun u => decide (u.engine.length ≠ 0)) ks
        ∧ g2 = { localized_ues := ks.reverse ++ g.localized_ues,
                 unlocalized_ues :=
                   (ueas.filter fun u => decide (u.engine.length = 0)).reverse
                     ++ g.unlocalized_ues,
                 set_ue_keys_calls := g.set_ue_keys_calls + ks.length } := by
  intro ueas
  induction ueas with
  | nil =>
    intro g g2
    simp only [renew_loop, Option.some.injEq, List.filter_nil, List.forall₂_nil_left_iff,
      List.reverse_nil, List.nil_append, exists_eq_left, List.length_nil, Nat.add_zero]
    exact eq_comm
  | cons u rest ih =>
    intro g g2
    by_cases hu : u.engine.length = 0
    · have hdup : ue_se_dup L u g.set_ue_keys_calls = some (u, g.set_ue_keys_calls) := by
        simp [ue_se_dup, hu]
      rw [renew_loop, hdup]
      simp only [hu, ne_eq, not_true_eq_false, if_false, ih, CACHE_INSERT_eq,
        decide_False, decide_True, List.filter_cons_of_pos, List.filter_cons_of_neg,
        Bool.false_eq_true, not_false_eq_true, List.reverse_cons, List.append_assoc,
        List.singleton_append]
    · cases hk : set_ue_keys L u with
      | none =>
        have hdup : ue_se_dup L u g.set_ue_keys_calls = none := by
          simp [ue_se_dup, hu, hk]
        rw [renew_loop, hdup]
        simp only [hu, ne_eq, not_false_eq_true, decide_True, List.filter_cons_of_pos,
          decide_False, false_iff, not_exists, not_and, reduceCtorEq]
        intro ks hks
        cases hks with
        | cons h1 _ => rw [hk] at h1; cases h1
      | some k =>
        have hke : k.engine.length ≠ 0 := by rw [set_ue_keys_engine L u k hk]; exact hu
        have hdup : ue_se_dup L u g.set_ue_keys_calls
            = some (k, g.set_ue_keys_calls + 1) := by
          simp [ue_se_dup, hu, hk]
        rw [renew_loop, hdup]
        simp only [hke, ne_eq, not_false_eq_true, if_true, ih, CACHE_INSERT_eq, hu,
          decide_True, decide_False, List.filter_cons_of_pos, List.filter_cons_of_neg,
          Bool.false_eq_true]
        constructor
        · rintro ⟨ks, hks, rfl⟩
          refine ⟨k :: ks, List.Forall₂.cons hk hks, ?_⟩
          simp only [List.reverse_cons, List.append_assoc, List.singleton_append,
            List.length_cons, UeCache.mk.injEq, true_and]
          omega
        · rintro ⟨ks2, hks, rfl⟩
          cases hks with
          | cons h1 h2 =>
            rw [hk] at h1
            cases h1
            refine ⟨_, h2, ?_⟩
            simp only [List.reverse_cons, List.append_assoc, List.singleton_append,
              List.length_cons, UeCache.mk.injEq, true_and]
            omega

/-- The function `renew_ue_cache` in terms of the configured list. -/
theorem renew_ue_cache_iff (L : Crypt) (ueas : List snmp_ue_assoc_t) (g g2 : UeCache) :
    renew_ue_cache L ueas g = some g2 ↔
      ∃ ks, List.Forall₂ (fun u k => set_ue_keys L u = some k)
              (ueas.filter fun u => decide (u.engine.length ≠ 0)) ks
        ∧ g2 = { localized_ues := ks.reverse,
                 unlocalized_ues :=
                   (ueas.filter fun u => decide (u.engine.length = 0)).reverse,
                 set_ue_keys_calls := g.set_ue_keys_calls + ks.length } := by
  unfold renew_ue_cache
  by_cases h : ueas.length = 0
  · have h0 : ueas = [] := List.length_eq_zero.mp h
    subst h0
    simp only [List.length_nil, ne_eq, not_true_eq_false, if_false, Option.some.injEq,
      List.filter_nil, List.forall₂_nil_left_iff, List.reverse_nil, exists_eq_left,
      Nat.add_zero]
    exact eq_comm
  · rw [if_pos h, renew_loop_iff]
    simp only [List.append_nil]

theorem forall₂_mem_right {α β : Type} (R : α → β → Prop) :
    ∀ (l : List α) (ks : List β), List.Forall₂ R l ks → ∀ k ∈ ks, ∃ u ∈ l, R u k := by
  intro l ks h
  induction h with
  | nil => intro k hk; cases hk
  | cons h1 _ ih =>
    intro k hk
    rcases List.mem_cons.mp hk with rfl | hk
    · exact ⟨_, List.mem_cons_self _ _, h1⟩
    · obtain ⟨u, hu, hr⟩ := ih k hk
      exact ⟨u, List.mem_cons_of_mem _ hu, hr⟩

/-- What a returning `get_user_assoc` does to the state: nothing, or one association
with the given engine ID is put in front of `localized`. -/
theorem get_user_assoc_state (L : Crypt) (g g2 : UeCache) (engine_tvb user_tvb : Option Bytes)
    (r : Option snmp_ue_assoc_t)
    (h : get_user_assoc L g engine_tvb user_tvb = some (r, g2)) :
    g2 = g ∨ ∃ E n, engine_tvb = some E ∧ n.engine = E
      ∧ g2 = { g with localized_ues := n :: g.localized_ues,
                      set_ue_keys_calls := g.set_ue_keys_calls + 1 } := by
  cases user_tvb with
  | none =>
    have h0 : get_user_assoc L g engine_tvb none = some (none, g) := by
      unfold get_user_assoc
      split <;> rfl
    rw [h0] at h
    cases h
    exact Or.inl rfl
  | some U =>
    cases engine_tvb with
    | none =>
      have h0 : get_user_assoc L g none (some U) = some (none, g) := by
        unfold get_user_assoc
        split <;> rfl
      rw [h0] at h
      cases h
      exact Or.inl rfl
    | some E =>
      rw [get_user_assoc_eq] at h
      split at h
      · cases h
        exact Or.inl rfl
      · split at h
        · rename_i a _
          cases hk : set_ue_keys L { a with engine := E } with
          | none => rw [hk] at h; cases h
          | some n =>
            rw [hk] at h
            cases h
            exact Or.inr ⟨E, n, rfl, set_ue_keys_engine L _ n hk, rfl⟩
        · cases h
          exact Or.inl rfl

/-- A miss in `localized` followed by a hit in `unlocalized`. -/
theorem get_user_assoc_miss (L : Crypt) (g : UeCache) (E U : Bytes) (a n : snmp_ue_assoc_t)
    (hno : g.localized_ues.find? (fun x => decide (x.user.userName = U ∧ x.engine = E)) = none)
    (hfirst : g.unlocalized_ues.find? (fun x => decide (x.user.userName = U)) = some a)
    (hkeys : set_ue_keys L { a with engine := E } = some n) :
    get_user_assoc L g (some E) (some U)
      = some (some n, { g with localized_ues := n :: g.localized_ues,
                               set_ue_keys_calls := g.set_ue_keys_calls + 1 }) := by
  rw [get_user_assoc_eq, hno]
  simp only [hfirst, hkeys]

/-- Counterexample to C12 as stated: after `renew_ue_cache` with the one template
`exampleTemplate`, a `get_user_assoc` with the empty engine ID and the template's
user name puts an association with an empty engine ID in `localized`. -/
theorem C12_empty_engine_counterexample :
    ∃ g, Reachable stdCrypt (fun _ => True) g ∧ ∃ a ∈ g.localized_ues, a.engine = [] := by
  obtain ⟨n, hn⟩ := set_ue_keys_returns stdCrypt { exampleTemplate with engine := [] }
    md5Lib_streaming md5Lib_digestLen sha1Lib_streaming sha1Lib_digestLen
    (by decide) (by decide) (by decide)
  have h0 : Reachable stdCrypt (fun _ => True) exampleCache :=
    Reachable.renew [exampleTemplate] exampleCache exampleCache (by decide)
  have h1 : get_user_assoc stdCrypt exampleCache (some []) (some [117, 115, 101, 114])
      = some (some n, { exampleCache with localized_ues := [n], set_ue_keys_calls := 1 }) :=
    get_user_assoc_miss _ _ _ _ exampleTemplate n (by decide) (by decide) hn
  exact ⟨_, Reachable.get _ _ _ _ _ h0 trivial h1, n, List.mem_cons_self _ _,
    set_ue_keys_engine _ _ _ hn⟩

/-- C12, amended.  In every state reachable by `renew_ue_cache` and `get_user_assoc`
calls, every entry of `unlocalized` has an empty engine ID; and when no
`get_user_assoc` call is given an empty engine ID (the engine range is absent or has at
least one byte), every entry of `localized` has a non-empty engine ID. -/
theorem C12_cache_invariant (L : Crypt) (P : Option Bytes → Prop) (g : UeCache)
    (h : Reachable L P g) :
    (∀ a ∈ g.unlocalized_ues, a.engine = [])
    ∧ ((∀ E, P E → E ≠ some []) → ∀ a ∈ g.localized_ues, a.engine ≠ []) := by
  induction h with
  | renew ueas g0 g hr =>
    obtain ⟨ks, hks, rfl⟩ := (renew_ue_cache_iff L ueas g0 g).mp hr
    constructor
    · intro a ha
      have ha2 := List.mem_reverse.mp ha
      have := (List.mem_filter.mp ha2).2
      exact List.length_eq_zero.mp (of_decide_eq_true this)
    · intro _ a ha
      obtain ⟨u, hu, hk⟩ := forall₂_mem_right _ _ _ hks a (List.mem_reverse.mp ha)
      have hne : u.engine.length ≠ 0 := of_decide_eq_true (List.mem_filter.mp hu).2
      rw [set_ue_keys_engine L u a hk]
      exact fun h0 => hne (by rw [h0]; rfl)
  | get g g2 engine_tvb user_tvb r _ hP hget ih =>
    rcases get_user_assoc_state L g g2 engine_tvb user_tvb r hget with rfl | ⟨E, n, rfl, hE, rfl⟩
    · exact ih
    · refine ⟨ih.1, fun hPne a ha => ?_⟩
      rcases List.mem_cons.mp ha with rfl | ha
      · rw [hE]
        intro h0
        exact hPne _ hP (by rw [h0])
      · exact ih.2 hPne a ha

/-- Witness of C12: the state after `exampleTemplate` has been resolved with
`exampleEngine`. -/
theorem C12_cache_invariant_witness :
    ∃ n g1,
      get_user_assoc stdCrypt exampleCache (some exampleEngine) (some [117, 115, 101, 114])
        = some (some n, g1)
      ∧ g1.localized_ues = [n]
      ∧ (∀ a ∈ g1.unlocalized_ues, a.engine = [])
      ∧ (∀ a ∈ g1.localized_ues, a.engine ≠ []) := by
  obtain ⟨n, hn⟩ := set_ue_keys_returns stdCrypt
    { exampleTemplate with engine := exampleEngine }
    md5Lib_streaming md5Lib_digestLen sha1Lib_streaming sha1Lib_digestLen
    (by decide) (by decide) (by decide)
  have h0 : Reachable stdCrypt (fun E => E ≠ some []) exampleCache :=
    Reachable.renew [exampleTemplate] exampleCache exampleCache (by decide)
  have h1 : get_user_assoc stdCrypt exampleCache (some exampleEngine)
      (some [117, 115, 101, 114])
      = some (some n, { exampleCache with localized_ues := [n], set_ue_keys_calls := 1 }) :=
    get_user_assoc_miss _ _ _ _ exampleTemplate n (by decide) (by decide) hn
  have h := C12_cache_invariant stdCrypt (fun E => E ≠ some []) _
    (Reachable.get _ _ _ _ _ h0 (by decide) h1)
  exact ⟨n, _, h1, rfl, h.1, h.2 (fun E hE => hE)⟩

/-! ## Rebuilding the cache -/

theorem forall₂_of_forall_exists {α β : Type} (R : α → β → Prop) :
    ∀ (l : List α), (∀ u ∈ l, ∃ k, R u k) → ∃ ks, List.Forall₂ R l ks := by
  intro l
  induction l with
  | nil => intro _; exact ⟨[], List.Forall₂.nil⟩
  | cons u rest ih =>
    intro h
    obtain ⟨k, hk⟩ := h u (List.mem_cons_self _ _)
    obtain ⟨ks, hks⟩ := ih (fun v hv => h v (List.mem_cons_of_mem _ hv))
    exact ⟨k :: ks, List.Forall₂.cons hk hks⟩

/-- C13.  `renew_ue_cache` returns the state `g2` exactly when `set_ue_keys` returns a
keyed copy `k` for each configured association with a non-empty engine ID (`ks` lists
these copies in configuration order), and then, whatever the two lists held before,
`localized` is `ks` reversed, `unlocalized` is the configured associations with an
empty engine ID, unchanged and reversed, and the number of `set_ue_keys` calls has
grown by the length of `ks` (no call for an `unlocalized` entry).  With no configured
association both lists are empty.  With a lawful digest library, `renew_ue_cache`
returns when the configured associations with an engine ID have non-empty passwords
and (for SHA1) an engine ID of at most 32 bytes. -/
theorem C13_renew_rebuilds_from_config (L : Crypt) (ueas : List snmp_ue_assoc_t)
    (g : UeCache) :
    (∀ g2, renew_ue_cache L ueas g = some g2 ↔
      ∃ ks, List.Forall₂ (fun u k => set_ue_keys L u = some k)
              (ueas.filter fun u => decide (u.engine.length ≠ 0)) ks
        ∧ g2 = { localized_ues := ks.reverse,
                 unlocalized_ues :=
                   (ueas.filter fun u => decide (u.engine.length = 0)).reverse,
                 set_ue_keys_calls := g.set_ue_keys_calls + ks.length })
    ∧ renew_ue_cache L [] g
        = some { localized_ues := [], unlocalized_ues := [],
                 set_ue_keys_calls := g.set_ue_keys_calls }
    ∧ (L.md5.Streaming → L.md5.DigestLen 16 → L.sha1.Streaming → L.sha1.DigestLen 20 →
        (∀ u ∈ ueas, u.engine.length ≠ 0 →
          u.user.authPassword ≠ [] ∧ u.user.privPassword ≠ []
          ∧ (u.user.authModel = .model_sha1 → u.engine.length ≤ 32)) →
        ∃ g2, renew_ue_cache L ueas g = some g2) := by
  refine ⟨fun g2 => renew_ue_cache_iff L ueas g g2, rfl, ?_⟩
  intro h5s h5d h1s h1d hall
  obtain ⟨ks, hks⟩ := forall₂_of_forall_exists (fun u k => set_ue_keys L u = some k)
    (ueas.filter fun u => decide (u.engine.length ≠ 0)) (by
      intro u hu
      have hmem := (List.mem_filter.mp hu).1
      have hne : u.engine.length ≠ 0 := of_decide_eq_true (List.mem_filter.mp hu).2
      obtain ⟨ha, hp, he⟩ := hall u hmem hne
      exact set_ue_keys_returns L u h5s h5d h1s h1d ha hp he)
  exact ⟨_, (renew_ue_cache_iff L ueas g _).mpr ⟨ks, hks, rfl⟩⟩

/-- Witness of C13: the cache `exampleCacheHit` rebuilt from the configuration that
holds `exampleTemplate` with and without `exampleEngine`. -/
theorem C13_renew_rebuilds_from_config_witness :
    ∃ k, set_ue_keys stdCrypt { exampleTemplate with engine := exampleEngine } = some k
      ∧ renew_ue_cache stdCrypt
          [exampleTemplate, { exampleTemplate with engine := exampleEngine }] exampleCacheHit
        = some { localized_ues := [k], unlocalized_ues := [exampleTemplate],
                 set_ue_keys_calls := 2 } := by
  have h := C13_renew_rebuilds_from_config stdCrypt
    [exampleTemplate, { exampleTemplate with engine := exampleEngine }] exampleCacheHit
  obtain ⟨g2, hg⟩ := h.2.2 md5Lib_streaming md5Lib_digestLen sha1Lib_streaming
    sha1Lib_digestLen (by decide)
  obtain ⟨ks, hks, rfl⟩ := (h.1 g2).mp hg
  have hf : ([exampleTemplate, { exampleTemplate with engine := exampleEngine }].filter
      fun u => decide (u.engine.length ≠ 0))
      = [{ exampleTemplate with engine := exampleEngine }] := by decide
  rw [hf] at hks
  cases hks with
  | cons h1 h2 =>
    cases h2
    exact ⟨_, h1, hg⟩

/-! ## Matching -/

theorem append_ne_self (u x : Bytes) (hx : x ≠ []) : u ++ x ≠ u := by
  intro h
  have hl := congrArg List.length h
  rw [List.length_append] at hl
  have : x.length = 0 := by omega
  exact hx (List.length_eq_zero.mp this)

/-- C14.  Matching is byte equality.  With the lengths that `get_user_assoc` passes,
`localized_match(a, U, E)` holds exactly when the stored user name is `U` and the
stored engine ID is `E`, and `unlocalized_match(a, U)` exactly when the stored user
name is `U`.  So neither matches when the given user name is a proper prefix of the
stored one or the stored one a proper prefix of the given one, and `localized_match`
fails likewise on engine IDs one of which is a proper prefix of the other. -/
theorem C14_match_is_byte_equality (a : snmp_ue_assoc_t) (U E : Bytes) :
    (localized_match a U U.length E E.length = true ↔ a.user.userName = U ∧ a.engine = E)
    ∧ (unlocalized_match a U U.length = true ↔ a.user.userName = U)
    ∧ (∀ x : Bytes, x ≠ [] → (a.user.userName = U ++ x ∨ U = a.user.userName ++ x) →
        unlocalized_match a U U.length = false
        ∧ localized_match a U U.length E E.length = false)
    ∧ (∀ x : Bytes, x ≠ [] → (a.engine = E ++ x ∨ E = a.engine ++ x) →
        localized_match a U U.length E E.length = false) := by
  refine ⟨localized_match_iff a U E, unlocalized_match_iff a U, ?_, ?_⟩
  · intro x hx h
    have hne : a.user.userName ≠ U := by
      rcases h with h | h
      · rw [h]; exact append_ne_self U x hx
      · intro h2
        rw [← h2] at h
        exact append_ne_self _ x hx h.symm
    constructor
    · rw [← Bool.not_eq_true, unlocalized_match_iff]
      exact hne
    · rw [← Bool.not_eq_true, localized_match_iff]
      exact fun h2 => hne h2.1
  · intro x hx h
    have hne : a.engine ≠ E := by
      rcases h with h | h
      · rw [h]; exact append_ne_self E x hx
      · intro h2
        rw [← h2] at h
        exact append_ne_self _ x hx h.symm
    rw [← Bool.not_eq_true, localized_match_iff]
    exact fun h2 => hne h2.2

/-! ## The VarBind decoder -/

theorem toInt32_of_lt (n : Nat) (h : n < 2147483648) : toInt32 n = n := by
  unfold toInt32
  omega

theorem toU32_natCast (n : Nat) (h : n < 4294967296) : toU32 n = n := by
  unfold toU32
  omega

/-- When no header check fires, `dissect_snmp_VarBind` is `dissect_checked` on the
values read from the three headers. -/
theorem dissect_snmp_VarBind_ok (B : Epan) (tvb : Bytes) (offset : Int)
    (h : headersOk B tvb offset) :
    dissect_snmp_VarBind B tvb offset
      = dissect_checked B tvb offset (seqLen B tvb offset) (nameLn B tvb offset).offset
          (nameLn B tvb offset).length (valueStart B tvb offset) (valueId B tvb offset)
          (valueLn B tvb offset) := by
  obtain ⟨h1, h2, h3, h4, h5⟩ := h
  unfold dissect_snmp_VarBind
  simp only [seqId, seqLn, nameId, nameLn, valueStart, valueId, valueLn, seqLen] at h1 h2 h3 h4 h5 ⊢
  simp only [h1, h2, h3, h4, h5, if_false, not_true_eq_false, not_false_eq_true, and_self,
    Bool.false_eq_true, Bool.not_eq_true, if_true]

theorem structural_error_getLast (B : Epan) (tvb : Bytes) (items : List Item) (s : Int)
    (l : Nat) (f : String) (a : List Int) (m : String) (at_offset : Int) :
    (structural_error B tvb items s l f a m at_offset).items.getLast?
      = some (.unknown_ber at_offset) := by
  simp [structural_error]

theorem structural_error_hasError (B : Epan) (tvb : Bytes) (items : List Item) (s : Int)
    (l : Nat) (f : String) (a : List Int) (m : String) (at_offset : Int) :
    (structural_error B tvb items s l f a m at_offset).hasError = true := by
  simp [structural_error, VarBindOut.hasError, Item.isExpert]

theorem emit_value_hasError (items : List Item) (hf : Hf) (so : Int) (sl : Nat) (vo : Int)
    (vl ol : Nat) (h : ∀ i ∈ items, i.isExpert = false) :
    (emit_value items hf so sl vo vl ol).hasError = false := by
  unfold emit_value VarBindOut.hasError
  rw [Bool.eq_false_iff]
  intro hany
  obtain ⟨i, hi, he⟩ := List.any_eq_true.mp hany
  rcases List.mem_append.mp hi with hi | hi
  · rcases List.mem_append.mp hi with hi | hi
    · rw [h i hi] at he
      cases he
    · rw [List.mem_singleton.mp hi] at he
      cases he
  · split at hi
    · rw [List.mem_singleton.mp hi] at he
      cases he
    · cases hi

theorem ite_ind {α : Type} (P : α → Prop) (c : Prop) [Decidable c] (a b : α)
    (ha : P a) (hb : P b) : P (if c then a else b) := by
  by_cases h : c
  · rw [if_pos h]; exact ha
  · rw [if_neg h]; exact hb

/-- The two ways `dissect_value` ends: with the value item, or with an error exit whose
raw decode starts at the header of the value. -/
theorem dissect_value_ind (P : VarBindOut → Prop) (B : Epan) (tvb : Bytes)
    (items : List Item) (so : Int) (sl : Nat) (vs vo : Int) (vl : Nat) (c t mn mx : Int)
    (ol : Nat)
    (hemit : ∀ hf, P (emit_value items hf so sl vo vl ol))
    (herr : ∀ f a m, P (structural_error B tvb items 0 0 f a m vs)) :
    P (dissect_value B tvb items so sl vs vo vl c t mn mx ol) := by
  unfold dissect_value
  dsimp only
  repeat' apply ite_ind
  all_goals
    first
      | exact hemit _
      | exact herr _ _ _

theorem two_items_not_expert (hf1 hf2 : Hf) (a b : Int) (c d : Nat) :
    ∀ i ∈ [Item.item hf1 a c, Item.item hf2 b d], i.isExpert = false := by
  intro i hi
  simp only [List.mem_cons, List.mem_singleton, List.not_mem_nil, or_false] at hi
  rcases hi with rfl | rfl <;> rfl

theorem text_item_not_expert (hf2 : Hf) (a b : Int) (c d : Nat) (f : String)
    (args : List Int) :
    ∀ i ∈ [Item.text a c f args, Item.item hf2 b d], i.isExpert = false := by
  intro i hi
  simp only [List.mem_cons, List.mem_singleton, List.not_mem_nil, or_false] at hi
  rcases hi with rfl | rfl <;> rfl

/-- The two ways `dissect_checked` ends. -/
theorem dissect_checked_ind (P : VarBindOut → Prop) (B : Epan) (tvb : Bytes) (so : Int)
    (sl : Nat) (no : Int) (nl : Nat) (vs : Int) (vid : BerIdentifier) (vln : BerLength)
    (hemit : ∀ items hf ol, (∀ i ∈ items, i.isExpert = false) →
      P (emit_value items hf so sl vln.offset vln.length ol))
    (herr : ∀ items f a m, P (structural_error B tvb items 0 0 f a m vs)) :
    P (dissect_checked B tvb so sl no nl vs vid vln) := by
  unfold dissect_checked
  dsimp only
  repeat' apply ite_ind
  all_goals
    first
      | exact herr _ _ _ _
      | exact hemit _ _ _ (two_items_not_expert _ _ _ _ _ _)
      | exact hemit _ _ _ (text_item_not_expert _ _ _ _ _ _ _)

/-- The two ways `dissect_snmp_VarBind` ends: with the value item and the offset
`seq_offset + seq_len`, or with an error exit whose raw decode starts at the VarBind or
at the header of the value. -/
theorem dissect_snmp_VarBind_ind (P : VarBindOut → Prop) (B : Epan) (tvb : Bytes)
    (offset : Int)
    (hemit : ∀ items hf vo vl ol, (∀ i ∈ items, i.isExpert = false) →
      P (emit_value items hf offset (seqLen B tvb offset) vo vl ol))
    (herr : ∀ items s l f a m at_offset,
      (at_offset = offset ∨ at_offset = valueStart B tvb offset) →
      P (structural_error B tvb items s l f a m at_offset)) :
    P (dissect_snmp_VarBind B tvb offset) := by
  unfold dissect_snmp_VarBind
  dsimp only
  repeat' apply ite_ind
  all_goals
    first
      | exact herr _ _ _ _ _ _ _ (Or.inl rfl)
      | exact herr _ _ _ _ _ _ _ (Or.inr rfl)
      | exact hemit _ _ _ _ _ (two_items_not_expert _ _ _ _ _ _)
      | exact hemit _ _ _ _ _ (text_item_not_expert _ _ _ _ _ _ _)

theorem emit_value_ret (items : List Item) (hf : Hf) (so : Int) (sl : Nat) (vo : Int)
    (vl ol : Nat) : (emit_value items hf so sl vo vl ol).ret = toInt32 (so + sl) := rfl

/-- Counterexample to C15 as stated: in `exampleVarBindTrailing` the VarBind starts at
offset 0, its header has 2 bytes and declares 8 content bytes, so the offset past it is
10; its value has a wrong length, and the decoder returns what the raw decode started
at the header of the value returns, the offset 8 past the value. -/
theorem C15_trailing_bytes_counterexample :
    (dissect_snmp_VarBind exampleEpan exampleVarBindTrailing 0).ret = 8
    ∧ (seqLn exampleEpan exampleVarBindTrailing 0).offset = 2
    ∧ (seqLn exampleEpan exampleVarBindTrailing 0).length = 8
    ∧ (dissect_snmp_VarBind exampleEpan exampleVarBindTrailing 0).ret
        ≠ 0 + ((seqLn exampleEpan exampleVarBindTrailing 0).offset - 0
               + (seqLn exampleEpan exampleVarBindTrailing 0).length) := by
  decide

/-- The decoder on a VarBind whose headers pass and whose value is checked against the
value type of the registry. -/
theorem dissect_snmp_VarBind_validated (B : Epan) (tvb : Bytes) (offset : Int)
    (hok : headersOk B tvb offset) (happ : validationApplies B tvb offset) :
    dissect_snmp_VarBind B tvb offset
      = if ((oidLookup B tvb offset).oid_info.value_type.ber_class ≠ BER_CLASS_ANY
              ∧ (valueId B tvb offset).ber_class
                  ≠ (oidLookup B tvb offset).oid_info.value_type.ber_class)
            ∨ ((oidLookup B tvb offset).oid_info.value_type.ber_tag ≠ BER_TAG_ANY
              ∧ (valueId B tvb offset).tag
                  ≠ (oidLookup B tvb offset).oid_info.value_type.ber_tag) then
          expected_different B tvb [] (valueStart B tvb offset)
            (oidLookup B tvb offset).oid_info (valueId B tvb offset).ber_class
            (valueId B tvb offset).tag
        else if toInt32 (valueLn B tvb offset).length
                  < (oidLookup B tvb offset).oid_info.value_type.min_len
              ∨ toInt32 (valueLn B tvb offset).length
                  > (if (oidLookup B tvb offset).oid_info.value_type.max_len = -1 then 0xffffff
                     else (oidLookup B tvb offset).oid_info.value_type.max_len) then
          expected_other_size B tvb [] (valueStart B tvb offset)
            (valueLn B tvb offset).length
            (oidLookup B tvb offset).oid_info.value_type.min_len
            (if (oidLookup B tvb offset).oid_info.value_type.max_len = -1 then 0xffffff
             else (oidLookup B tvb offset).oid_info.value_type.max_len)
        else
          dissect_value B tvb
            [.item (.registered (oidLookup B tvb offset).oid_info.value_hfid)
               (valueLn B tvb offset).offset (valueLn B tvb offset).length,
             .item .hf_snmp_objectname (nameLn B tvb offset).offset
               (nameLn B tvb offset).length]
            offset (seqLen B tvb offset) (valueStart B tvb offset)
            (valueLn B tvb offset).offset (valueLn B tvb offset).length
            (valueId B tvb offset).ber_class (valueId B tvb offset).tag
            (oidLookup B tvb offset).oid_info.value_type.min_len
            (if (oidLookup B tvb offset).oid_info.value_type.max_len = -1 then 0xffffff
             else (oidLookup B tvb offset).oid_info.value_type.max_len)
            (oidLookup B tvb offset).oid_left := by
  rw [dissect_snmp_VarBind_ok B tvb offset hok]
  unfold dissect_checked
  simp only [validationApplies, oidLookup] at happ ⊢
  generalize B.oid_get_from_encoded _ _ = r at happ ⊢
  rw [if_pos happ]
  by_cases h1 : r.oid_info.value_type.ber_class ≠ BER_CLASS_ANY
      ∧ (valueId B tvb offset).ber_class ≠ r.oid_info.value_type.ber_class
  · rw [if_pos (Or.inl h1)]
    exact if_pos h1
  · by_cases h2 : r.oid_info.value_type.ber_tag ≠ BER_TAG_ANY
        ∧ (valueId B tvb offset).tag ≠ r.oid_info.value_type.ber_tag
    · rw [if_pos (Or.inr h2)]
      exact (if_neg h1).trans (if_pos h2)
    · rw [if_neg (not_or.mpr ⟨h1, h2⟩)]
      exact (if_neg h1).trans (if_neg h2)

/-- The decoder on a VarBind whose headers pass and whose value is not checked against
the registry. -/
theorem dissect_snmp_VarBind_unvalidated (B : Epan) (tvb : Bytes) (offset : Int)
    (hok : headersOk B tvb offset) (happ : ¬ validationApplies B tvb offset) :
    dissect_snmp_VarBind B tvb offset
      = dissect_value B tvb
          [.text offset (seqLen B tvb offset) "VarBind" [],
           .item .hf_snmp_objectname (nameLn B tvb offset).offset
             (nameLn B tvb offset).length]
          offset (seqLen B tvb offset) (valueStart B tvb offset)
          (valueLn B tvb offset).offset (valueLn B tvb offset).length
          (valueId B tvb offset).ber_class (valueId B tvb offset).tag 0 0
          (oidLookup B tvb offset).oid_left := by
  rw [dissect_snmp_VarBind_ok B tvb offset hok]
  unfold dissect_checked
  simp only [validationApplies, oidLookup] at happ ⊢
  exact if_neg happ

/-- What `dissect_value` adds comes after the items it is given. -/
theorem dissect_value_items (B : Epan) (tvb : Bytes) (items : List Item) (so : Int)
    (sl : Nat) (vs vo : Int) (vl : Nat) (c t mn mx : Int) (ol : Nat) :
    ∃ rest, rest ≠ []
      ∧ (dissect_value B tvb items so sl vs vo vl c t mn mx ol).items = items ++ rest := by
  apply dissect_value_ind
    (fun out => ∃ rest, rest ≠ [] ∧ out.items = items ++ rest)
  · intro hf
    refine ⟨[.item hf vo vl] ++ (if ol ≠ 1 then [.set_text] else []), by simp, ?_⟩
    simp [emit_value]
  · intro f a m
    exact ⟨_, by simp, rfl⟩

theorem len_check_iff (n : Nat) (mn mx : Int)
    (h : n < 2147483648 ∨ (n < 4294967296 ∧ 0 ≤ mn ∧ mx < 2147483648)) :
    (toInt32 n < mn ∨ toInt32 n > mx) ↔ ¬ (mn ≤ n ∧ (n : Int) ≤ mx) := by
  unfold toInt32
  omega

theorem head_text_ne_item (B : Epan) (tvb : Bytes) (s : Int) (l : Nat) (f : String)
    (a : List Int) (m : String) (at_offset : Int) (i : Item)
    (hne : ∀ s2 l2 f2 a2, i ≠ .text s2 l2 f2 a2) :
    (structural_error B tvb [] s l f a m at_offset).items.head? ≠ some i := by
  intro h
  simp only [structural_error, List.nil_append, List.head?_cons, Option.some.injEq] at h
  exact hne _ _ _ _ h.symm

/-- C16.  Let the headers of a VarBind pass and the value be checked against the
value type `d` of the registry, the value length being below `2^31` (or below `2^32`
with `0 <= min_len` and `max_len < 2^31`).  The value passes, that is, the decoder goes
on with the item of the registry field at `(value_offset, value_len)`, exactly when `d`
accepts it: class and tag of `d` are the wildcard or those of the value, and
`min_len <= value_len <= max_len` with `-1` read as `0xffffff`.  A class or tag
violation gives the exit `expected_different`, a length violation the exit
`expected_other_size`; both start the raw decode at the header of the value.  For the
registered INTEGER of 1 to 4 bytes, the two-byte value of `exampleVarBind2` is emitted
at `(14, 2)` and the five-byte value of `exampleVarBind5` gives the wrong length
error. -/
theorem C16_descriptor_validation (B : Epan) (tvb : Bytes) (offset : Int)
    (hok : headersOk B tvb offset) (happ : validationApplies B tvb offset)
    (hlen : (valueLn B tvb offset).length < 2147483648
      ∨ ((valueLn B tvb offset).length < 4294967296
          ∧ 0 ≤ (oidLookup B tvb offset).oid_info.value_type.min_len
          ∧ (oidLookup B tvb offset).oid_info.value_type.max_len < 2147483648)) :
    (descriptorAccepts (oidLookup B tvb offset).oid_info.value_type
        (valueId B tvb offset).ber_class (valueId B tvb offset).tag
        (valueLn B tvb offset).length
      ↔ (dissect_snmp_VarBind B tvb offset).items.head?
          = some (.item (.registered (oidLookup B tvb offset).oid_info.value_hfid)
              (valueLn B tvb offset).offset (valueLn B tvb offset).length))
    ∧ (¬ ((((oidLookup B tvb offset).oid_info.value_type.ber_class = BER_CLASS_ANY
              ∨ (oidLookup B tvb offset).oid_info.value_type.ber_class
                  = (valueId B tvb offset).ber_class))
          ∧ ((oidLookup B tvb offset).oid_info.value_type.ber_tag = BER_TAG_ANY
              ∨ (oidLookup B tvb offset).oid_info.value_type.ber_tag
                  = (valueId B tvb offset).tag)) →
        dissect_snmp_VarBind B tvb offset
          = expected_different B tvb [] (valueStart B tvb offset)
              (oidLookup B tvb offset).oid_info (valueId B tvb offset).ber_class
              (valueId B tvb offset).tag)
    ∧ ((((oidLookup B tvb offset).oid_info.value_type.ber_class = BER_CLASS_ANY
              ∨ (oidLookup B tvb offset).oid_info.value_type.ber_class
                  = (valueId B tvb offset).ber_class))
          ∧ ((oidLookup B tvb offset).oid_info.value_type.ber_tag = BER_TAG_ANY
              ∨ (oidLookup B tvb offset).oid_info.value_type.ber_tag
                  = (valueId B tvb offset).tag) →
        ¬ ((oidLookup B tvb offset).oid_info.value_type.min_len
              ≤ (valueLn B tvb offset).length
            ∧ ((valueLn B tvb offset).length : Int)
              ≤ (if (oidLookup B tvb offset).oid_info.value_type.max_len = -1 then 0xffffff
                 else (oidLookup B tvb offset).oid_info.value_type.max_len)) →
        dissect_snmp_VarBind B tvb offset
          = expected_other_size B tvb [] (valueStart B tvb offset)
              (valueLn B tvb offset).length
              (oidLookup B tvb offset).oid_info.value_type.min_len
              (if (oidLookup B tvb offset).oid_info.value_type.max_len = -1 then 0xffffff
               else (oidLookup B tvb offset).oid_info.value_type.max_len))
    ∧ dissect_snmp_VarBind exampleEpan exampleVarBind2 0
        = { ret := 16,
            items := [.item (.registered 7) 14 2, .item .hf_snmp_objectname 4 8,
                      .item .hf_snmp_integer32_value 14 2] }
    ∧ dissect_snmp_VarBind exampleEpan exampleVarBind5 0
        = expected_other_size exampleEpan exampleVarBind5 [] 12 5 1 4 := by
  have hmx : (valueLn B tvb offset).length < 2147483648
      ∨ ((valueLn B tvb offset).length < 4294967296
          ∧ 0 ≤ (oidLookup B tvb offset).oid_info.value_type.min_len
          ∧ (if (oidLookup B tvb offset).oid_info.value_type.max_len = -1 then
               (0xffffff : Int)
             else (oidLookup B tvb offset).oid_info.value_type.max_len) < 2147483648) := by
    rcases hlen with h | ⟨h1, h2, h3⟩
    · exact Or.inl h
    · refine Or.inr ⟨h1, h2, ?_⟩
      split
      · decide
      · exact h3
  have hL := len_check_iff _ _ _ hmx
  rw [dissect_snmp_VarBind_validated B tvb offset hok happ]
  generalize oidLookup B tvb offset = r at hL ⊢
  generalize valueId B tvb offset = vid at hL ⊢
  generalize valueLn B tvb offset = vln at hL ⊢
  unfold descriptorAccepts
  by_cases hct : (r.oid_info.value_type.ber_class ≠ BER_CLASS_ANY
        ∧ vid.ber_class ≠ r.oid_info.value_type.ber_class)
      ∨ (r.oid_info.value_type.ber_tag ≠ BER_TAG_ANY
        ∧ vid.tag ≠ r.oid_info.value_type.ber_tag)
  · rw [if_pos hct]
    have hnot : ¬ ((r.oid_info.value_type.ber_class = BER_CLASS_ANY
          ∨ r.oid_info.value_type.ber_class = vid.ber_class)
        ∧ (r.oid_info.value_type.ber_tag = BER_TAG_ANY
          ∨ r.oid_info.value_type.ber_tag = vid.tag)) := by
      rintro ⟨h1, h2⟩
      rcases hct with ⟨a, b⟩ | ⟨a, b⟩
      · rcases h1 with h1 | h1
        · exact a h1
        · exact b h1.symm
      · rcases h2 with h2 | h2
        · exact a h2
        · exact b h2.symm
    refine ⟨⟨fun h => absurd ⟨h.1, h.2.1⟩ hnot, fun h => ?_⟩, fun _ => rfl,
      fun h => absurd h hnot, by decide, by decide⟩
    exact absurd h (head_text_ne_item _ _ _ _ _ _ _ _ _ (fun _ _ _ _ => by simp))
  · rw [if_neg hct]
    have hyes : (r.oid_info.value_type.ber_class = BER_CLASS_ANY
          ∨ r.oid_info.value_type.ber_class = vid.ber_class)
        ∧ (r.oid_info.value_type.ber_tag = BER_TAG_ANY
          ∨ r.oid_info.value_type.ber_tag = vid.tag) := by
      rw [not_or] at hct
      obtain ⟨h1, h2⟩ := hct
      constructor
      · by_cases ha : r.oid_info.value_type.ber_class = BER_CLASS_ANY
        · exact Or.inl ha
        · by_cases hb : vid.ber_class = r.oid_info.value_type.ber_class
          · exact Or.inr hb.symm
          · exact absurd ⟨ha, hb⟩ h1
      · by_cases ha : r.oid_info.value_type.ber_tag = BER_TAG_ANY
        · exact Or.inl ha
        · by_cases hb : vid.tag = r.oid_info.value_type.ber_tag
          · exact Or.inr hb.symm
          · exact absurd ⟨ha, hb⟩ h2
    by_cases hl : toInt32 vln.length < r.oid_info.value_type.min_len
        ∨ toInt32 vln.length
            > (if r.oid_info.value_type.max_len = -1 then 0xffffff
               else r.oid_info.value_type.max_len)
    · rw [if_pos hl]
      have hbad := hL.mp hl
      refine ⟨⟨fun h => absurd h.2.2 hbad, fun h => ?_⟩, fun h => absurd hyes h,
        fun _ _ => rfl, by decide, by decide⟩
      exact absurd h (head_text_ne_item _ _ _ _ _ _ _ _ _ (fun _ _ _ _ => by simp))
    · rw [if_neg hl]
      have hgood : r.oid_info.value_type.min_len ≤ vln.length
          ∧ (vln.length : Int) ≤ (if r.oid_info.value_type.max_len = -1 then 0xffffff
                                   else r.oid_info.value_type.max_len) := by
        by_contra hc
        exact hl (hL.mpr hc)
      refine ⟨⟨fun _ => ?_, fun _ => ⟨hyes.1, hyes.2, hgood⟩⟩, fun h => absurd hyes h,
        fun _ h => absurd hgood h, by decide, by decide⟩
      obtain ⟨rest, _, hr⟩ := dissect_value_items B tvb
        [.item (.registered r.oid_info.value_hfid) vln.offset vln.length,
         .item .hf_snmp_objectname (nameLn B tvb offset).offset (nameLn B tvb offset).length]
        offset (seqLen B tvb offset) (valueStart B tvb offset) vln.offset vln.length
        vid.ber_class vid.tag r.oid_info.value_type.min_len
        (if r.oid_info.value_type.max_len = -1 then 0xffffff
         else r.oid_info.value_type.max_len) r.oid_left
      rw [hr]
      rfl

/-- Witness of C16: the VarBind `exampleVarBind2`, whose value the registry of
`exampleEpan` accepts. -/
theorem C16_descriptor_validation_witness :
    descriptorAccepts (oidLookup exampleEpan exampleVarBind2 0).oid_info.value_type
        (valueId exampleEpan exampleVarBind2 0).ber_class
        (valueId exampleEpan exampleVarBind2 0).tag
        (valueLn exampleEpan exampleVarBind2 0).length
      ↔ (dissect_snmp_VarBind exampleEpan exampleVarBind2 0).items.head?
          = some (.item (.registered (oidLookup exampleEpan exampleVarBind2 0).oid_info.value_hfid)
              (valueLn exampleEpan exampleVarBind2 0).offset
              (valueLn exampleEpan exampleVarBind2 0).length) :=
  (C16_descriptor_validation exampleEpan exampleVarBind2 0 (by decide) (by decide)
    (by decide)).1

/-- Counterexample to C17 as stated.  For `exampleVarBind5` the registry reports one
sub-identifier left, not zero, and the value is checked against the value type: the
decoder ends with the length error that carries the bounds 1 and 4 of that type.  For
`exampleVarBindEmptyName` the registry reports no sub-identifier left and the value is
not of the context class, and no check is made: the decoder adds the plain `VarBind`
text, no registry field. -/
theorem C17_one_left_counterexample :
    (headersOk exampleEpan exampleVarBind5 0
      ∧ (oidLookup exampleEpan exampleVarBind5 0).oid_left ≠ 0
      ∧ dissect_snmp_VarBind exampleEpan exampleVarBind5 0
          = expected_other_size exampleEpan exampleVarBind5 [] 12 5 1 4)
    ∧ (headersOk exampleEpan exampleVarBindEmptyName 0
      ∧ (oidLookup exampleEpan exampleVarBindEmptyName 0).oid_left = 0
      ∧ (valueId exampleEpan exampleVarBindEmptyName 0).ber_class ≠ BER_CLASS_CON
      ∧ dissect_snmp_VarBind exampleEpan exampleVarBindEmptyName 0
          = { ret := 6,
              items := [.text 0 6 "VarBind" [], .item .hf_snmp_objectname 4 0,
                        .item .hf_snmp_integer32_value 6 0, .set_text] }) := by
  decide

/-- C17, amended.  On a VarBind whose headers pass, the value is checked against the
value type of the registry exactly when the registry reports one sub-identifier left
(`oid_left = 1`), the class of the value is not the context class and its tag is not
5 (`BER_UNI_TAG_NULL`).  Then the decoder ends in `expected_different`, in
`expected_other_size` with the bounds of the value type, or goes on with the item of
the registry field; otherwise it goes on with the plain `VarBind` text and the value
type is not used. -/
theorem C17_validation_trigger (B : Epan) (tvb : Bytes) (offset : Int)
    (hok : headersOk B tvb offset) :
    (((oidLookup B tvb offset).oid_left = 1
        ∧ (valueId B tvb offset).ber_class ≠ BER_CLASS_CON
        ∧ (valueId B tvb offset).tag ≠ 5)
      ↔ (dissect_snmp_VarBind B tvb offset).items.head?
          ≠ some (.text offset (seqLen B tvb offset) "VarBind" []))
    ∧ (((oidLookup B tvb offset).oid_left = 1
        ∧ (valueId B tvb offset).ber_class ≠ BER_CLASS_CON
        ∧ (valueId B tvb offset).tag ≠ 5) →
      dissect_snmp_VarBind B tvb offset
          = expected_different B tvb [] (valueStart B tvb offset)
              (oidLookup B tvb offset).oid_info (valueId B tvb offset).ber_class
              (valueId B tvb offset).tag
      ∨ dissect_snmp_VarBind B tvb offset
          = expected_other_size B tvb [] (valueStart B tvb offset)
              (valueLn B tvb offset).length
              (oidLookup B tvb offset).oid_info.value_type.min_len
              (if (oidLookup B tvb offset).oid_info.value_type.max_len = -1 then 0xffffff
               else (oidLookup B tvb offset).oid_info.value_type.max_len)
      ∨ dissect_snmp_VarBind B tvb offset
          = dissect_value B tvb
              [.item (.registered (oidLookup B tvb offset).oid_info.value_hfid)
                 (valueLn B tvb offset).offset (valueLn B tvb offset).length,
               .item .hf_snmp_objectname (nameLn B tvb offset).offset
                 (nameLn B tvb offset).length]
              offset (seqLen B tvb offset) (valueStart B tvb offset)
              (valueLn B tvb offset).offset (valueLn B tvb offset).length
              (valueId B tvb offset).ber_class (valueId B tvb offset).tag
              (oidLookup B tvb offset).oid_info.value_type.min_len
              (if (oidLookup B tvb offset).oid_info.value_type.max_len = -1 then 0xffffff
               else (oidLookup B tvb offset).oid_info.value_type.max_len)
              (oidLookup B tvb offset).oid_left)
    ∧ (¬ ((oidLookup B tvb offset).oid_left = 1
        ∧ (valueId B tvb offset).ber_class ≠ BER_CLASS_CON
        ∧ (valueId B tvb offset).tag ≠ 5) →
      dissect_snmp_VarBind B tvb offset
        = dissect_value B tvb
            [.text offset (seqLen B tvb offset) "VarBind" [],
             .item .hf_snmp_objectname (nameLn B tvb offset).offset
               (nameLn B tvb offset).length]
            offset (seqLen B tvb offset) (valueStart B tvb offset)
            (valueLn B tvb offset).offset (valueLn B tvb offset).length
            (valueId B tvb offset).ber_class (valueId B tvb offset).tag 0 0
            (oidLookup B tvb offset).oid_left) := by
  have htri : validationApplies B tvb offset →
      dissect_snmp_VarBind B tvb offset
          = expected_different B tvb [] (valueStart B tvb offset)
              (oidLookup B tvb offset).oid_info (valueId B tvb offset).ber_class
              (valueId B tvb offset).tag
      ∨ dissect_snmp_VarBind B tvb offset
          = expected_other_size B tvb [] (valueStart B tvb offset)
              (valueLn B tvb offset).length
              (oidLookup B tvb offset).oid_info.value_type.min_len
              (if (oidLookup B tvb offset).oid_info.value_type.max_len = -1 then 0xffffff
               else (oidLookup B tvb offset).oid_info.value_type.max_len)
      ∨ dissect_snmp_VarBind B tvb offset
          = dissect_value B tvb
              [.item (.registered (oidLookup B tvb offset).oid_info.value_hfid)
                 (valueLn B tvb offset).offset (valueLn B tvb offset).length,
               .item .hf_snmp_objectname (nameLn B tvb offset).offset
                 (nameLn B tvb offset).length]
              offset (seqLen B tvb offset) (valueStart B tvb offset)
              (valueLn B tvb offset).offset (valueLn B tvb offset).length
              (valueId B tvb offset).ber_class (valueId B tvb offset).tag
              (oidLookup B tvb offset).oid_info.value_type.min_len
              (if (oidLookup B tvb offset).oid_info.value_type.max_len = -1 then 0xffffff
               else (oidLookup B tvb offset).oid_info.value_type.max_len)
              (oidLookup B tvb offset).oid_left := by
    intro happ
    rw [dissect_snmp_VarBind_validated B tvb offset hok happ]
    generalize (if (oidLookup B tvb offset).oid_info.value_type.max_len = -1 then
        (0xffffff : Int) else (oidLookup B tvb offset).oid_info.value_type.max_len) = mx
    generalize expected_different _ _ _ _ _ _ _ = A
    generalize expected_other_size _ _ _ _ _ _ _ = E
    generalize dissect_value _ _ _ _ _ _ _ _ _ _ _ _ _ = D
    by_cases h1 : ((oidLookup B tvb offset).oid_info.value_type.ber_class ≠ BER_CLASS_ANY
              ∧ (valueId B tvb offset).ber_class
                  ≠ (oidLookup B tvb offset).oid_info.value_type.ber_class)
            ∨ ((oidLookup B tvb offset).oid_info.value_type.ber_tag ≠ BER_TAG_ANY
              ∧ (valueId B tvb offset).tag
                  ≠ (oidLookup B tvb offset).oid_info.value_type.ber_tag)
    · rw [if_pos h1]
      exact Or.inl rfl
    · rw [if_neg h1]
      by_cases h2 : toInt32 (valueLn B tvb offset).length
                  < (oidLookup B tvb offset).oid_info.value_type.min_len
              ∨ toInt32 (valueLn B tvb offset).length > mx
      · rw [if_pos h2]
        exact Or.inr (Or.inl rfl)
      · rw [if_neg h2]
        exact Or.inr (Or.inr rfl)
  have hyes : validationApplies B tvb offset →
      (dissect_snmp_VarBind B tvb offset).items.head?
        ≠ some (.text offset (seqLen B tvb offset) "VarBind" []) := by
    intro happ
    rcases htri happ with h | h | h
    · rw [h]
      simp [expected_different, structural_error]
    · rw [h]
      simp [expected_other_size, structural_error]
    · rw [h]
      obtain ⟨rest, _, hr⟩ := dissect_value_items B tvb
        [.item (.registered (oidLookup B tvb offset).oid_info.value_hfid)
           (valueLn B tvb offset).offset (valueLn B tvb offset).length,
         .item .hf_snmp_objectname (nameLn B tvb offset).offset
           (nameLn B tvb offset).length]
        offset (seqLen B tvb offset) (valueStart B tvb offset)
        (valueLn B tvb offset).offset (valueLn B tvb offset).length
        (valueId B tvb offset).ber_class (valueId B tvb offset).tag
        (oidLookup B tvb offset).oid_info.value_type.min_len
        (if (oidLookup B tvb offset).oid_info.value_type.max_len = -1 then 0xffffff
         else (oidLookup B tvb offset).oid_info.value_type.max_len)
        (oidLookup B tvb offset).oid_left
      rw [hr]
      simp
  have hno : ¬ validationApplies B tvb offset →
      (dissect_snmp_VarBind B tvb offset).items.head?
        = some (.text offset (seqLen B tvb offset) "VarBind" []) := by
    intro happ
    rw [dissect_snmp_VarBind_unvalidated B tvb offset hok happ]
    obtain ⟨rest, _, hr⟩ := dissect_value_items B tvb
      [.text offset (seqLen B tvb offset) "VarBind" [],
       .item .hf_snmp_objectname (nameLn B tvb offset).offset (nameLn B tvb offset).length]
      offset (seqLen B tvb offset) (valueStart B tvb offset)
      (valueLn B tvb offset).offset (valueLn B tvb offset).length
      (valueId B tvb offset).ber_class (valueId B tvb offset).tag 0 0
      (oidLookup B tvb offset).oid_left
    rw [hr]
    rfl
  refine ⟨⟨fun h => hyes h, fun h => ?_⟩, fun happ => htri happ,
    fun happ => dissect_snmp_VarBind_unvalidated B tvb offset hok happ⟩
  by_contra hc
  exact h (hno hc)

/-- Witness of C17: the value of `exampleVarBind2` is checked against the registry. -/
theorem C17_validation_trigger_witness :
    ((oidLookup exampleEpan exampleVarBind2 0).oid_left = 1
        ∧ (valueId exampleEpan exampleVarBind2 0).ber_class ≠ BER_CLASS_CON
        ∧ (valueId exampleEpan exampleVarBind2 0).tag ≠ 5)
      ↔ (dissect_snmp_VarBind exampleEpan exampleVarBind2 0).items.head?
          ≠ some (.text 0 (seqLen exampleEpan exampleVarBind2 0) "VarBind" []) :=
  (C17_validation_trigger exampleEpan exampleVarBind2 0 (by decide)).1

theorem not_emitsException_error (B : Epan) (tvb : Bytes) (a b : Int) (c d : Nat)
    (f0 : String) (args0 : List Int) (s : Int) (l : Nat) (f : String) (args : List Int)
    (m : String) (at_offset : Int) :
    ¬ emitsException (structural_error B tvb
        [.text a c f0 args0, .item .hf_snmp_objectname b d] s l f args m at_offset).items := by
  rintro ⟨hf, st, len, hex, hmem⟩
  simp only [structural_error, List.cons_append, List.nil_append, List.mem_cons,
    Item.item.injEq, List.mem_singleton, List.not_mem_nil, or_false, reduceCtorEq,
    false_or] at hmem
  rw [hmem.1] at hex
  cases hex

/-- C18.  On a VarBind whose headers pass and whose value has the context class: if
the value length is 0 and the tag is 0, 1 or 2, the decoder adds the exception value
`noSuchObject`, `noSuchInstance` or `endOfMibView` at `(value_offset, 0)` and returns
`seq_offset + seq_len`; if the length is not 0 it ends in `expected_other_size`; if
the length is 0 and the tag is another one it ends with the wrong tag error; both
errors start the raw decode at the header of the value.  An exception value is among
the items exactly in the first case. -/
theorem C18_exception_values (B : Epan) (tvb : Bytes) (offset : Int)
    (hok : headersOk B tvb offset)
    (hcon : (valueId B tvb offset).ber_class = BER_CLASS_CON) :
    ((valueLn B tvb offset).length = 0 → (valueId B tvb offset).tag = 0 →
      dissect_snmp_VarBind B tvb offset
        = emit_value [.text offset (seqLen B tvb offset) "VarBind" [],
                      .item .hf_snmp_objectname (nameLn B tvb offset).offset
                        (nameLn B tvb offset).length]
            .hf_snmp_noSuchObject_value offset (seqLen B tvb offset)
            (valueLn B tvb offset).offset 0 (oidLookup B tvb offset).oid_left)
    ∧ ((valueLn B tvb offset).length = 0 → (valueId B tvb offset).tag = 1 →
      dissect_snmp_VarBind B tvb offset
        = emit_value [.text offset (seqLen B tvb offset) "VarBind" [],
                      .item .hf_snmp_objectname (nameLn B tvb offset).offset
                        (nameLn B tvb offset).length]
            .hf_snmp_noSuchInstance_value offset (seqLen B tvb offset)
            (valueLn B tvb offset).offset 0 (oidLookup B tvb offset).oid_left)
    ∧ ((valueLn B tvb offset).length = 0 → (valueId B tvb offset).tag = 2 →
      dissect_snmp_VarBind B tvb offset
        = emit_value [.text offset (seqLen B tvb offset) "VarBind" [],
                      .item .hf_snmp_objectname (nameLn B tvb offset).offset
                        (nameLn B tvb offset).length]
            .hf_snmp_endOfMibView_value offset (seqLen B tvb offset)
            (valueLn B tvb offset).offset 0 (oidLookup B tvb offset).oid_left)
    ∧ ((valueLn B tvb offset).length ≠ 0 →
      dissect_snmp_VarBind B tvb offset
        = expected_other_size B tvb
            [.text offset (seqLen B tvb offset) "VarBind" [],
             .item .hf_snmp_objectname (nameLn B tvb offset).offset
               (nameLn B tvb offset).length]
            (valueStart B tvb offset) (valueLn B tvb offset).length 0 0)
    ∧ ((valueLn B tvb offset).length = 0 → (valueId B tvb offset).tag ≠ 0 →
        (valueId B tvb offset).tag ≠ 1 → (valueId B tvb offset).tag ≠ 2 →
      dissect_snmp_VarBind B tvb offset
        = structural_error B tvb
            [.text offset (seqLen B tvb offset) "VarBind" [],
             .item .hf_snmp_objectname (nameLn B tvb offset).offset
               (nameLn B tvb offset).length]
            0 0 "Wrong tag for Error Value: expected [0,1,2] got: %d"
            [(valueId B tvb offset).tag] "Wrong tag for SNMP VarBind error value"
            (valueStart B tvb offset))
    ∧ (emitsException (dissect_snmp_VarBind B tvb offset).items
        ↔ (valueLn B tvb offset).length = 0
          ∧ ((valueId B tvb offset).tag = 0 ∨ (valueId B tvb offset).tag = 1
             ∨ (valueId B tvb offset).tag = 2)) := by
  have hnapp : ¬ validationApplies B tvb offset := fun h => h.2.1 hcon
  rw [dissect_snmp_VarBind_unvalidated B tvb offset hok hnapp]
  unfold dissect_value
  rw [if_pos hcon]
  simp only [SERR_NSO, SERR_NSI, SERR_EOM]
  generalize (valueLn B tvb offset).length = n
  generalize (valueLn B tvb offset).offset = vo
  generalize (valueId B tvb offset).tag = t
  by_cases hn : n = 0
  · subst hn
    rw [if_neg (by simp)]
    by_cases h0 : t = 0
    · subst h0
      rw [if_pos rfl]
      refine ⟨fun _ _ => rfl, fun _ h => absurd h (by decide), fun _ h => absurd h (by decide),
        fun h => absurd rfl h, fun _ h => absurd rfl h, ?_⟩
      refine ⟨fun _ => ⟨rfl, Or.inl rfl⟩, fun _ => ?_⟩
      exact ⟨.hf_snmp_noSuchObject_value, vo, 0, rfl, by simp [emit_value]⟩
    · rw [if_neg h0]
      by_cases h1 : t = 1
      · subst h1
        rw [if_pos rfl]
        refine ⟨fun _ h => absurd h (by decide), fun _ _ => rfl,
          fun _ h => absurd h (by decide), fun h => absurd rfl h,
          fun _ _ h => absurd rfl h, ?_⟩
        refine ⟨fun _ => ⟨rfl, Or.inr (Or.inl rfl)⟩, fun _ => ?_⟩
        exact ⟨.hf_snmp_noSuchInstance_value, vo, 0, rfl, by simp [emit_value]⟩
      · rw [if_neg h1]
        by_cases h2 : t = 2
        · subst h2
          rw [if_pos rfl]
          refine ⟨fun _ h => absurd h (by decide), fun _ h => absurd h (by decide),
            fun _ _ => rfl, fun h => absurd rfl h, fun _ _ _ h => absurd rfl h, ?_⟩
          refine ⟨fun _ => ⟨rfl, Or.inr (Or.inr rfl)⟩, fun _ => ?_⟩
          exact ⟨.hf_snmp_endOfMibView_value, vo, 0, rfl, by simp [emit_value]⟩
        · rw [if_neg h2]
          refine ⟨fun _ h => absurd h h0, fun _ h => absurd h h1, fun _ h => absurd h h2,
            fun h => absurd rfl h, fun _ _ _ _ => rfl, ?_⟩
          refine ⟨fun h => absurd h (not_emitsException_error _ _ _ _ _ _ _ _ _ _ _ _ _ _),
            fun h => ?_⟩
          rcases h.2 with h | h | h
          · exact absurd h h0
          · exact absurd h h1
          · exact absurd h h2
  · rw [if_pos hn]
    refine ⟨fun h => absurd h hn, fun h => absurd h hn, fun h => absurd h hn,
      fun _ => rfl, fun h => absurd h hn, ?_⟩
    exact ⟨fun h => absurd h (not_emitsException_error _ _ _ _ _ _ _ _ _ _ _ _ _ _),
      fun h => absurd h.1 hn⟩

/-- Witness of C18: the exception value of `exampleVarBindNoSuchInstance`. -/
theorem C18_exception_values_witness :
    dissect_snmp_VarBind exampleEpan exampleVarBindNoSuchInstance 0
      = { ret := 7,
          items := [.text 0 7 "VarBind" [], .item .hf_snmp_objectname 4 1,
                    .item .hf_snmp_noSuchInstance_value 7 0] } := by
  have h := (C18_exception_values exampleEpan exampleVarBindNoSuchInstance 0 (by decide)
    (by decide)).2.1 (by decide) (by decide)
  rw [h]
  decide

/-- The `switch` key of a class in `0..3` and a tag in `0..2^27-1` is `class + 16 tag`. -/
theorem switchKey_small (c t : Int) (hc : 0 ≤ c ∧ c ≤ 3) (ht : 0 ≤ t ∧ t < 134217728) :
    switchKey c t = c.toNat + 16 * t.toNat := by
  unfold switchKey toU32
  have h1 : (c % 4294967296).toNat = c.toNat := by omega
  have h2 : (t * 16 % 4294967296).toNat = 2 ^ 4 * t.toNat := by omega
  rw [h1, h2]
  change c.toNat ||| 2 ^ 4 * t.toNat = _
  rw [Nat.or_comm, ← Nat.mul_add_lt_is_or (by omega : c.toNat < 2 ^ 4)]
  omega

theorem key_ne (c t a b : Int) (k : Nat) (hc : 0 ≤ c ∧ c ≤ 3)
    (ht : 0 ≤ t ∧ t < 134217728) (hab : ¬ (c = a ∧ t = b)) (hk : k = a.toNat + 16 * b.toNat)
    (ha : 0 ≤ a ∧ a ≤ 3) (hb : 0 ≤ b) : c.toNat + 16 * t.toNat ≠ k := by
  omega

/-- The generic dispatch in terms of `valueKind`. -/
theorem dissect_value_generic (B : Epan) (tvb : Bytes) (items : List Item) (so : Int)
    (sl : Nat) (vs vo : Int) (vl : Nat) (c t mn mx : Int) (ol : Nat)
    (hc : 0 ≤ c ∧ c ≤ 3) (hnc : c ≠ BER_CLASS_CON) (ht : 0 ≤ t ∧ t < 134217728) :
    dissect_value B tvb items so sl vs vo vl c t mn mx ol
      = if c = BER_CLASS_UNI ∧ t = BER_UNI_TAG_OID ∧ vl < 2 then
          expected_other_size B tvb items vs vl 2 (-1)
        else if c = BER_CLASS_UNI ∧ t = BER_UNI_TAG_NULL ∧ vl ≠ 0 then
          expected_other_size B tvb items vs vl 0 0
        else emit_value items (valueKind c t vl) so sl vo vl ol := by
  unfold dissect_value
  rw [if_neg hnc]
  dsimp only
  rw [switchKey_small c t hc ht]
  simp only [show switchKey BER_CLASS_UNI BER_UNI_TAG_INTEGER = 32 from rfl,
    show switchKey BER_CLASS_UNI BER_UNI_TAG_OCTETSTRING = 64 from rfl,
    show switchKey BER_CLASS_UNI BER_UNI_TAG_OID = 96 from rfl,
    show switchKey BER_CLASS_UNI BER_UNI_TAG_NULL = 80 from rfl,
    show toU32 BER_CLASS_APP = 1 from rfl,
    show switchKey BER_CLASS_APP SNMP_U32 = 113 from rfl,
    show switchKey BER_CLASS_APP SNMP_GGE = 33 from rfl,
    show switchKey BER_CLASS_APP SNMP_CNT = 17 from rfl,
    show switchKey BER_CLASS_APP SNMP_TIT = 49 from rfl,
    show switchKey BER_CLASS_APP SNMP_OPQ = 65 from rfl,
    show switchKey BER_CLASS_APP SNMP_NSP = 81 from rfl,
    show switchKey BER_CLASS_APP SNMP_C64 = 97 from rfl,
    show toU32 4 = 4 from rfl, show toU32 1 = 1 from rfl, show toU32 2 = 2 from rfl]
  unfold valueKind
  simp only [BER_CLASS_UNI, BER_CLASS_APP, BER_CLASS_CON, BER_UNI_TAG_INTEGER,
    BER_UNI_TAG_OCTETSTRING, BER_UNI_TAG_OID, BER_UNI_TAG_NULL] at hnc ⊢
  by_cases h0 : c = 0 ∧ t = 2
  · obtain ⟨rfl, rfl⟩ := h0
    simp
    intro ha hb
    omega
  by_cases h1 : c = 0 ∧ t = 4
  · obtain ⟨rfl, rfl⟩ := h1
    simp
  by_cases h2 : c = 0 ∧ t = 6
  · obtain ⟨rfl, rfl⟩ := h2
    simp
  by_cases h3 : c = 0 ∧ t = 5
  · obtain ⟨rfl, rfl⟩ := h3
    simp
  by_cases h4 : c = 1 ∧ t = 0
  · obtain ⟨rfl, rfl⟩ := h4
    simp
    split_ifs <;> rfl
  by_cases h5 : c = 1 ∧ t = 7
  · obtain ⟨rfl, rfl⟩ := h5
    simp
  by_cases h6 : c = 1 ∧ t = 2
  · obtain ⟨rfl, rfl⟩ := h6
    simp
  by_cases h7 : c = 1 ∧ t = 1
  · obtain ⟨rfl, rfl⟩ := h7
    simp
  by_cases h8 : c = 1 ∧ t = 3
  · obtain ⟨rfl, rfl⟩ := h8
    simp
  by_cases h9 : c = 1 ∧ t = 4
  · obtain ⟨rfl, rfl⟩ := h9
    simp
  by_cases h10 : c = 1 ∧ t = 5
  · obtain ⟨rfl, rfl⟩ := h10
    simp
  by_cases h11 : c = 1 ∧ t = 6
  · obtain ⟨rfl, rfl⟩ := h11
    simp
  simp only [key_ne c t 0 2 32 hc ht h0 rfl (by decide) (by decide), key_ne c t 0 4 64 hc ht h1 rfl (by decide) (by decide), key_ne c t 0 6 96 hc ht h2 rfl (by decide) (by decide), key_ne c t 0 5 80 hc ht h3 rfl (by decide) (by decide), key_ne c t 1 0 1 hc ht h4 rfl (by decide) (by decide), key_ne c t 1 7 113 hc ht h5 rfl (by decide) (by decide), key_ne c t 1 2 33 hc ht h6 rfl (by decide) (by decide), key_ne c t 1 1 17 hc ht h7 rfl (by decide) (by decide), key_ne c t 1 3 49 hc ht h8 rfl (by decide) (by decide), key_ne c t 1 4 65 hc ht h9 rfl (by decide) (by decide), key_ne c t 1 5 81 hc ht h10 rfl (by decide) (by decide), key_ne c t 1 6 97 hc ht h11 rfl (by decide) (by decide),
    h0, h1, h2, h3, h4, h5, h6, h7, h8, h9, h10, h11, if_false]
  have e1 : ¬ (c = 0 ∧ t = 6 ∧ vl < 2) := fun h => h2 ⟨h.1, h.2.1⟩
  have e2 : ¬ (c = 0 ∧ t = 5 ∧ vl ≠ 0) := fun h => h3 ⟨h.1, h.2.1⟩
  rw [if_neg e1, if_neg e2]

/-- C19.  In the generic dispatch, for a value whose class is in `0..3` and not the
context class and whose tag is in `0..2^27-1`: unless it is a universal OID shorter
than 2 bytes or a universal NULL with contents (which give `expected_other_size`), the
decoder adds the value item of the kind `valueKind class tag value_len` at
`(value_offset, value_len)` and returns `seq_offset + seq_len`.  The kind is that of
the specification: Integer32, OctetString, OID and Null for the universal tags,
IpAddress by length for application 0, Counter32, Gauge32, TimeTicks, Opaque,
NsapAddress, Counter64 and Unsigned32 for application 1 to 7, Unknown for every other
pair.  The `switch` key `class | (tag << 4)` is injective on these pairs.  This is
what `dissect_snmp_VarBind` does on a VarBind whose headers pass and whose value is
not checked against the registry. -/
theorem C19_dispatch_by_class_and_tag (B : Epan) (tvb : Bytes) (items : List Item)
    (so : Int) (sl : Nat) (vs vo : Int) (vl : Nat) (c t mn mx : Int) (ol : Nat)
    (hc : 0 ≤ c ∧ c ≤ 3) (hnc : c ≠ BER_CLASS_CON) (ht : 0 ≤ t ∧ t < 134217728) :
    dissect_value B tvb items so sl vs vo vl c t mn mx ol
      = (if c = BER_CLASS_UNI ∧ t = BER_UNI_TAG_OID ∧ vl < 2 then
          expected_other_size B tvb items vs vl 2 (-1)
        else if c = BER_CLASS_UNI ∧ t = BER_UNI_TAG_NULL ∧ vl ≠ 0 then
          expected_other_size B tvb items vs vl 0 0
        else emit_value items (valueKind c t vl) so sl vo vl ol)
    ∧ (emit_value items (valueKind c t vl) so sl vo vl ol).items
        = items ++ [.item (valueKind c t vl) vo vl] ++ (if ol ≠ 1 then [.set_text] else [])
    ∧ (∀ c2 t2 : Int, 0 ≤ c2 ∧ c2 ≤ 3 → 0 ≤ t2 ∧ t2 < 134217728 →
        switchKey c t = switchKey c2 t2 → c = c2 ∧ t = t2)
    ∧ (∀ offset : Int, headersOk B tvb offset → ¬ validationApplies B tvb offset →
        (valueId B tvb offset).ber_class = c → (valueId B tvb offset).tag = t →
        (valueLn B tvb offset).length = vl →
        dissect_snmp_VarBind B tvb offset
          = (if c = BER_CLASS_UNI ∧ t = BER_UNI_TAG_OID ∧ vl < 2 then
              expected_other_size B tvb
                [.text offset (seqLen B tvb offset) "VarBind" [],
                 .item .hf_snmp_objectname (nameLn B tvb offset).offset
                   (nameLn B tvb offset).length]
                (valueStart B tvb offset) vl 2 (-1)
            else if c = BER_CLASS_UNI ∧ t = BER_UNI_TAG_NULL ∧ vl ≠ 0 then
              expected_other_size B tvb
                [.text offset (seqLen B tvb offset) "VarBind" [],
                 .item .hf_snmp_objectname (nameLn B tvb offset).offset
                   (nameLn B tvb offset).length]
                (valueStart B tvb offset) vl 0 0
            else
              emit_value
                [.text offset (seqLen B tvb offset) "VarBind" [],
                 .item .hf_snmp_objectname (nameLn B tvb offset).offset
                   (nameLn B tvb offset).length]
                (valueKind c t vl) offset (seqLen B tvb offset)
                (valueLn B tvb offset).offset vl (oidLookup B tvb offset).oid_left)) := by
  refine ⟨dissect_value_generic B tvb items so sl vs vo vl c t mn mx ol hc hnc ht, rfl, ?_, ?_⟩
  · intro c2 t2 hc2 ht2 h
    rw [switchKey_small c t hc ht, switchKey_small c2 t2 hc2 ht2] at h
    omega
  · intro offset hok hnapp h1 h2 h3
    rw [dissect_snmp_VarBind_unvalidated B tvb offset hok hnapp, h1, h2, h3]
    exact dissect_value_generic B tvb _ _ _ _ _ vl c t 0 0 _ hc hnc ht

/-- Witness of C19: a four-byte value of the application class with tag 0 is an IPv4
address. -/
theorem C19_dispatch_by_class_and_tag_witness :
    dissect_value exampleEpan [] [] 0 6 2 4 4 1 0 0 0 2
      = emit_value [] .hf_snmp_ipv4_value 0 6 4 4 2 := by
  rw [(C19_dispatch_by_class_and_tag exampleEpan [] [] 0 6 2 4 4 1 0 0 0 2 (by decide)
    (by decide) (by decide)).1]
  decide

/-- C20, evaluated.  The five-byte INTEGER value of `exampleVarBindInt5`, whose name the
registry does not resolve, is added as an Integer32 value at `(8, 5)`, with no error.
In the `switch`, a universal INTEGER of any length ends with the Integer32 item: the
test `value_len > 4 && value_len < 1` never holds. -/
theorem C20_integer_length_not_enforced :
    dissect_snmp_VarBind exampleEpan exampleVarBindInt5 0
        = { ret := 13,
            items := [.text 0 13 "VarBind" [], .item .hf_snmp_objectname 4 2,
                      .item .hf_snmp_integer32_value 8 5, .set_text] }
    ∧ ∀ (B : Epan) (tvb : Bytes) (items : List Item) (so : Int) (sl : Nat) (vs vo : Int)
        (vl : Nat) (mn mx : Int) (ol : Nat),
        dissect_value B tvb items so sl vs vo vl BER_CLASS_UNI BER_UNI_TAG_INTEGER mn mx ol
          = emit_value items .hf_snmp_integer32_value so sl vo vl ol := by
  refine ⟨by decide, ?_⟩
  intro B tvb items so sl vs vo vl mn mx ol
  unfold dissect_value
  rw [if_neg (by decide)]
  dsimp only
  rw [if_pos rfl, if_neg]
  rw [show toU32 4 = 4 from rfl, show toU32 1 = 1 from rfl]
  omega

/-! ## The header checks of the VarBind decoder -/

theorem textsIn_emit_value (S : List String) (items : List Item) (hf : Hf) (so : Int)
    (sl : Nat) (vo : Int) (vl ol : Nat)
    (h : ∀ start length f args, Item.text start length f args ∈ items → f ∈ S) :
    textsIn S (emit_value items hf so sl vo vl ol) := by
  intro s l f a hm
  unfold emit_value at hm
  rcases List.mem_append.mp hm with hm | hm
  · rcases List.mem_append.mp hm with hm | hm
    · exact h s l f a hm
    · simp at hm
  · split at hm
    · simp at hm
    · cases hm

theorem textsIn_structural_error (S : List String) (B : Epan) (tvb : Bytes)
    (items : List Item) (s0 : Int) (l0 : Nat) (f0 : String) (a0 : List Int) (m : String)
    (at_offset : Int)
    (h : ∀ start length f args, Item.text start length f args ∈ items → f ∈ S)
    (hf0 : f0 ∈ S) :
    textsIn S (structural_error B tvb items s0 l0 f0 a0 m at_offset) := by
  intro s l f a hm
  unfold structural_error at hm
  rcases List.mem_append.mp hm with hm | hm
  · exact h s l f a hm
  · simp only [List.mem_cons, Item.text.injEq, List.mem_singleton, List.not_mem_nil, or_false,
      reduceCtorEq] at hm
    rw [hm.2.2.1]
    exact hf0

theorem texts_registered (hfid : Int) (vo : Int) (vl : Nat) (no : Int) (nl : Nat) :
    ∀ start length f args, Item.text start length f args
      ∈ [Item.item (.registered hfid) vo vl, Item.item .hf_snmp_objectname no nl] →
      f ∈ valueTexts := by
  intro s l f a h
  simp at h

theorem texts_plain (so : Int) (sl : Nat) (no : Int) (nl : Nat) :
    ∀ start length f args, Item.text start length f args
      ∈ [Item.text so sl "VarBind" [], Item.item .hf_snmp_objectname no nl] →
      f ∈ valueTexts := by
  intro s l f a h
  simp only [List.mem_cons, Item.text.injEq, List.mem_singleton, List.not_mem_nil, or_false,
    reduceCtorEq] at h
  rw [h.2.2.1]
  decide

theorem texts_nil : ∀ (start : Int) (length : Nat) (f : String) (args : List Int),
    Item.text start length f args ∈ ([] : List Item) → f ∈ valueTexts := by
  intro s l f a h
  cases h

/-- After the header checks the decoder adds no text but those of `valueTexts`. -/
theorem dissect_checked_texts (B : Epan) (tvb : Bytes) (so : Int) (sl : Nat) (no : Int)
    (nl : Nat) (vs : Int) (vid : BerIdentifier) (vln : BerLength) :
    textsIn valueTexts (dissect_checked B tvb so sl no nl vs vid vln) := by
  unfold dissect_checked
  dsimp only
  repeat' apply ite_ind
  all_goals
    first
      | exact textsIn_emit_value _ _ _ _ _ _ _ _ (texts_registered _ _ _ _ _)
      | exact textsIn_emit_value _ _ _ _ _ _ _ _ (texts_plain _ _ _ _)
      | exact textsIn_structural_error _ _ _ _ _ _ _ _ _ _ (texts_registered _ _ _ _ _)
          (by decide)
      | exact textsIn_structural_error _ _ _ _ _ _ _ _ _ _ (texts_plain _ _ _ _) (by decide)
      | exact textsIn_structural_error _ _ _ _ _ _ _ _ _ _ texts_nil (by decide)

/-- The five header checks of `dissect_snmp_VarBind` in terms of the three headers. -/
theorem dissect_snmp_VarBind_eq (B : Epan) (tvb : Bytes) (offset : Int) :
    dissect_snmp_VarBind B tvb offset
      = if (seqId B tvb offset).pc = false ∧ (seqId B tvb offset).ber_class = BER_CLASS_UNI
            ∧ (seqId B tvb offset).tag = BER_UNI_TAG_SEQUENCE then
          structural_error B tvb [] offset (seqLen B tvb offset)
            "VarBind must be an universal class sequence" []
            "VarBind is not an universal class sequence" offset
        else if (seqLn B tvb offset).ind = true then
          structural_error B tvb [] offset (seqLen B tvb offset)
            "Indicator must be clear in VarBind" [] "VarBind has indicator set" offset
        else if ¬ ((nameId B tvb offset).pc = false
            ∧ (nameId B tvb offset).ber_class = BER_CLASS_UNI
            ∧ (nameId B tvb offset).tag = BER_UNI_TAG_OID) then
          structural_error B tvb [] offset (seqLen B tvb offset)
            "ObjectName must be an OID in primitive encoding" [] "ObjectName not an OID"
            offset
        else if (nameLn B tvb offset).ind = true then
          structural_error B tvb [] offset (seqLen B tvb offset)
            "Indicator must be clear in ObjectName" [] "ObjectName has indicator set" offset
        else if ¬ ((valueId B tvb offset).pc = false) then
          structural_error B tvb [] offset (seqLen B tvb offset)
            "the value must be in primitive encoding" [] "value not in primitive encoding"
            offset
        else
          dissect_checked B tvb offset (seqLen B tvb offset) (nameLn B tvb offset).offset
            (nameLn B tvb offset).length (valueStart B tvb offset) (valueId B tvb offset)
            (valueLn B tvb offset) := rfl

theorem reportsText_structural_error (B : Epan) (tvb : Bytes) (s0 : Int) (l0 : Nat)
    (f0 : String) (a0 : List Int) (m : String) (at_offset : Int) (f : String) :
    reportsText (structural_error B tvb [] s0 l0 f0 a0 m at_offset) f ↔ f = f0 := by
  unfold reportsText structural_error
  constructor
  · rintro ⟨s, l, a, h⟩
    simp only [List.nil_append, List.mem_cons, Item.text.injEq, List.mem_singleton,
      List.not_mem_nil, or_false, reduceCtorEq] at h
    exact h.2.2.1
  · rintro rfl
    exact ⟨s0, l0, a0, List.mem_cons_self _ _⟩

theorem not_reportsText_checked (B : Epan) (tvb : Bytes) (so : Int) (sl : Nat) (no : Int)
    (nl : Nat) (vs : Int) (vid : BerIdentifier) (vln : BerLength) (f : String)
    (hf : f ∉ valueTexts) :
    ¬ reportsText (dissect_checked B tvb so sl no nl vs vid vln) f := by
  rintro ⟨s, l, a, h⟩
  exact hf (dissect_checked_texts B tvb so sl no nl vs vid vln s l f a h)

/-- Which of the five header errors the decoder reports, for a text `f` that is not one
of the texts added after the header checks. -/
theorem reportsText_iff (B : Epan) (tvb : Bytes) (offset : Int) (f : String)
    (hf : f ∉ valueTexts) :
    reportsText (dissect_snmp_VarBind B tvb offset) f
      ↔ (if (seqId B tvb offset).pc = false ∧ (seqId B tvb offset).ber_class = BER_CLASS_UNI
              ∧ (seqId B tvb offset).tag = BER_UNI_TAG_SEQUENCE then
            f = "VarBind must be an universal class sequence"
          else if (seqLn B tvb offset).ind = true then
            f = "Indicator must be clear in VarBind"
          else if ¬ ((nameId B tvb offset).pc = false
              ∧ (nameId B tvb offset).ber_class = BER_CLASS_UNI
              ∧ (nameId B tvb offset).tag = BER_UNI_TAG_OID) then
            f = "ObjectName must be an OID in primitive encoding"
          else if (nameLn B tvb offset).ind = true then
            f = "Indicator must be clear in ObjectName"
          else if ¬ ((valueId B tvb offset).pc = false) then
            f = "the value must be in primitive encoding"
          else False) := by
  rw [dissect_snmp_VarBind_eq]
  by_cases h1 : (seqId B tvb offset).pc = false
      ∧ (seqId B tvb offset).ber_class = BER_CLASS_UNI
      ∧ (seqId B tvb offset).tag = BER_UNI_TAG_SEQUENCE
  · rw [if_pos h1, if_pos h1, reportsText_structural_error]
  · rw [if_neg h1, if_neg h1]
    by_cases h2 : (seqLn B tvb offset).ind = true
    · rw [if_pos h2, if_pos h2, reportsText_structural_error]
    · rw [if_neg h2, if_neg h2]
      by_cases h3 : ¬ ((nameId B tvb offset).pc = false
          ∧ (nameId B tvb offset).ber_class = BER_CLASS_UNI
          ∧ (nameId B tvb offset).tag = BER_UNI_TAG_OID)
      · rw [if_pos h3, if_pos h3, reportsText_structural_error]
      · rw [if_neg h3, if_neg h3]
        by_cases h4 : (nameLn B tvb offset).ind = true
        · rw [if_pos h4, if_pos h4, reportsText_structural_error]
        · rw [if_neg h4, if_neg h4]
          by_cases h5 : ¬ ((valueId B tvb offset).pc = false)
          · rw [if_pos h5, if_pos h5, reportsText_structural_error]
          · rw [if_neg h5, if_neg h5]
            exact ⟨fun h => not_reportsText_checked _ _ _ _ _ _ _ _ _ f hf h, fun h => h.elim⟩

/-- C21, evaluated.  The VarBind `exampleVarBindSet` has a universal constructed SET
as its outer header, not a SEQUENCE; the decoder reports no error and decodes its name
and value.  The VarBind `exampleVarBindPrimitive` has a universal primitive SEQUENCE
header and is the one reported.  In general the text "VarBind must be an universal
class sequence" is reported exactly when the outer header is primitive, of the
universal class and has the tag SEQUENCE; so a universal constructed SEQUENCE is never
reported with it. -/
theorem C21_sequence_check_inverted :
    ((seqId exampleEpan exampleVarBindSet 0).pc = true
      ∧ (seqId exampleEpan exampleVarBindSet 0).ber_class = BER_CLASS_UNI
      ∧ (seqId exampleEpan exampleVarBindSet 0).tag = 17
      ∧ dissect_snmp_VarBind exampleEpan exampleVarBindSet 0
          = { ret := 7,
              items := [.text 0 7 "VarBind" [], .item .hf_snmp_objectname 4 1,
                        .item .hf_snmp_null_value 7 0] })
    ∧ dissect_snmp_VarBind exampleEpan exampleVarBindPrimitive 0
        = structural_error exampleEpan exampleVarBindPrimitive [] 0 7
            "VarBind must be an universal class sequence" []
            "VarBind is not an universal class sequence" 0
    ∧ ∀ (B : Epan) (tvb : Bytes) (offset : Int),
        reportsText (dissect_snmp_VarBind B tvb offset)
            "VarBind must be an universal class sequence"
          ↔ ((seqId B tvb offset).pc = false
              ∧ (seqId B tvb offset).ber_class = BER_CLASS_UNI
              ∧ (seqId B tvb offset).tag = BER_UNI_TAG_SEQUENCE) := by
  refine ⟨by decide, by decide, ?_⟩
  intro B tvb offset
  rw [reportsText_iff B tvb offset _ (by decide)]
  by_cases h1 : (seqId B tvb offset).pc = false
      ∧ (seqId B tvb offset).ber_class = BER_CLASS_UNI
      ∧ (seqId B tvb offset).tag = BER_UNI_TAG_SEQUENCE
  · rw [if_pos h1]
    exact ⟨fun _ => h1, fun _ => rfl⟩
  · rw [if_neg h1]
    refine ⟨fun h => ?_, fun h => absurd h h1⟩
    exfalso
    split at h
    · exact absurd h (by decide)
    · split at h
      · exact absurd h (by decide)
      · split at h
        · exact absurd h (by decide)
        · split at h
          · exact absurd h (by decide)
          · exact h

/-- The two errors on the header of the ObjectName, whatever the registry functions
are. -/
theorem dissect_snmp_VarBind_name_error (B : Epan) (tvb : Bytes) (offset : Int)
    (dup : Bytes → Int → Nat → Bytes) (lookup : Bytes → Nat → OidLookup)
    (hseq : ¬ ((seqId B tvb offset).pc = false ∧ (seqId B tvb offset).ber_class = BER_CLASS_UNI
      ∧ (seqId B tvb offset).tag = BER_UNI_TAG_SEQUENCE))
    (hind2 : ¬ (seqLn B tvb offset).ind = true) :
    (¬ ((nameId B tvb offset).pc = false ∧ (nameId B tvb offset).ber_class = BER_CLASS_UNI
          ∧ (nameId B tvb offset).tag = BER_UNI_TAG_OID) →
      dissect_snmp_VarBind
          { B with ep_tvb_memdup := dup, oid_get_from_encoded := lookup } tvb offset
        = structural_error B tvb [] offset (seqLen B tvb offset)
            "ObjectName must be an OID in primitive encoding" [] "ObjectName not an OID"
            offset)
    ∧ (((nameId B tvb offset).pc = false ∧ (nameId B tvb offset).ber_class = BER_CLASS_UNI
          ∧ (nameId B tvb offset).tag = BER_UNI_TAG_OID) →
        (nameLn B tvb offset).ind = true →
      dissect_snmp_VarBind
          { B with ep_tvb_memdup := dup, oid_get_from_encoded := lookup } tvb offset
        = structural_error B tvb [] offset (seqLen B tvb offset)
            "Indicator must be clear in ObjectName" [] "ObjectName has indicator set"
            offset) := by
  constructor
  · intro h3
    rw [dissect_snmp_VarBind_eq]
    show (if (seqId B tvb offset).pc = false
          ∧ (seqId B tvb offset).ber_class = BER_CLASS_UNI
          ∧ (seqId B tvb offset).tag = BER_UNI_TAG_SEQUENCE then _
        else if (seqLn B tvb offset).ind = true then _
        else if ¬ ((nameId B tvb offset).pc = false
          ∧ (nameId B tvb offset).ber_class = BER_CLASS_UNI
          ∧ (nameId B tvb offset).tag = BER_UNI_TAG_OID) then _
        else _) = _
    rw [if_neg hseq, if_neg hind2, if_pos h3]
    rfl
  · intro h3 h4
    rw [dissect_snmp_VarBind_eq]
    show (if (seqId B tvb offset).pc = false
          ∧ (seqId B tvb offset).ber_class = BER_CLASS_UNI
          ∧ (seqId B tvb offset).tag = BER_UNI_TAG_SEQUENCE then _
        else if (seqLn B tvb offset).ind = true then _
        else if ¬ ((nameId B tvb offset).pc = false
          ∧ (nameId B tvb offset).ber_class = BER_CLASS_UNI
          ∧ (nameId B tvb offset).tag = BER_UNI_TAG_OID) then _
        else if (nameLn B tvb offset).ind = true then _
        else _) = _
    rw [if_neg hseq, if_neg hind2, if_neg (not_not.mpr h3), if_pos h4]
    rfl

/-- C22.  Let the VarBind pass the two checks on its own header.  If the header of the
ObjectName is primitive, of the universal class, with the tag OID and a clear
indicator, the name is accepted: the decoder goes on to the value.  Otherwise it ends
with the error "ObjectName must be an OID in primitive encoding" or, for a set
indicator, "Indicator must be clear in ObjectName", with the raw decode started at
the start of the VarBind; one of these two texts is reported exactly when the name is
not accepted.  In the error case the items are the text, the expert info and the raw
decode only (no name or value field), and the result does not depend on the registry
functions `ep_tvb_memdup` and `oid_get_from_encoded`. -/
theorem C22_object_name_check (B : Epan) (tvb : Bytes) (offset : Int)
    (hseq : ¬ ((seqId B tvb offset).pc = false ∧ (seqId B tvb offset).ber_class = BER_CLASS_UNI
      ∧ (seqId B tvb offset).tag = BER_UNI_TAG_SEQUENCE))
    (hind : (seqLn B tvb offset).ind = false) :
    ((((nameId B tvb offset).pc = false ∧ (nameId B tvb offset).ber_class = BER_CLASS_UNI
          ∧ (nameId B tvb offset).tag = BER_UNI_TAG_OID)
        ∧ (nameLn B tvb offset).ind = false) →
      dissect_snmp_VarBind B tvb offset
        = if ¬ ((valueId B tvb offset).pc = false) then
            structural_error B tvb [] offset (seqLen B tvb offset)
              "the value must be in primitive encoding" [] "value not in primitive encoding"
              offset
          else
            dissect_checked B tvb offset (seqLen B tvb offset) (nameLn B tvb offset).offset
              (nameLn B tvb offset).length (valueStart B tvb offset) (valueId B tvb offset)
              (valueLn B tvb offset))
    ∧ (¬ ((nameId B tvb offset).pc = false ∧ (nameId B tvb offset).ber_class = BER_CLASS_UNI
          ∧ (nameId B tvb offset).tag = BER_UNI_TAG_OID) →
      dissect_snmp_VarBind B tvb offset
        = structural_error B tvb [] offset (seqLen B tvb offset)
            "ObjectName must be an OID in primitive encoding" [] "ObjectName not an OID"
            offset)
    ∧ (((nameId B tvb offset).pc = false ∧ (nameId B tvb offset).ber_class = BER_CLASS_UNI
          ∧ (nameId B tvb offset).tag = BER_UNI_TAG_OID) →
        (nameLn B tvb offset).ind = true →
      dissect_snmp_VarBind B tvb offset
        = structural_error B tvb [] offset (seqLen B tvb offset)
            "Indicator must be clear in ObjectName" [] "ObjectName has indicator set"
            offset)
    ∧ ((reportsText (dissect_snmp_VarBind B tvb offset)
            "ObjectName must be an OID in primitive encoding"
          ∨ reportsText (dissect_snmp_VarBind B tvb offset)
            "Indicator must be clear in ObjectName")
        ↔ ¬ (((nameId B tvb offset).pc = false
              ∧ (nameId B tvb offset).ber_class = BER_CLASS_UNI
              ∧ (nameId B tvb offset).tag = BER_UNI_TAG_OID)
            ∧ (nameLn B tvb offset).ind = false))
    ∧ (¬ (((nameId B tvb offset).pc = false
              ∧ (nameId B tvb offset).ber_class = BER_CLASS_UNI
              ∧ (nameId B tvb offset).tag = BER_UNI_TAG_OID)
            ∧ (nameLn B tvb offset).ind = false) →
        (∀ hf start length,
          Item.item hf start length ∉ (dissect_snmp_VarBind B tvb offset).items)
        ∧ (dissect_snmp_VarBind B tvb offset).items.getLast? = some (.unknown_ber offset)
        ∧ ∀ (dup : Bytes → Int → Nat → Bytes) (lookup : Bytes → Nat → OidLookup),
            dissect_snmp_VarBind
                { B with ep_tvb_memdup := dup, oid_get_from_encoded := lookup } tvb offset
              = dissect_snmp_VarBind B tvb offset) := by
  have hind2 : ¬ (seqLn B tvb offset).ind = true := by rw [hind]; decide
  refine ⟨?_, ?_, ?_, ?_, ?_⟩
  · rintro ⟨h3, h4⟩
    have h4b : ¬ (nameLn B tvb offset).ind = true := by rw [h4]; decide
    rw [dissect_snmp_VarBind_eq, if_neg hseq, if_neg hind2, if_neg (not_not.mpr h3),
      if_neg h4b]
  · intro h3
    rw [dissect_snmp_VarBind_eq, if_neg hseq, if_neg hind2, if_pos h3]
  · intro h3 h4
    rw [dissect_snmp_VarBind_eq, if_neg hseq, if_neg hind2, if_neg (not_not.mpr h3),
      if_pos h4]
  · have e1 := reportsText_iff B tvb offset "ObjectName must be an OID in primitive encoding"
      (by decide)
    have e2 := reportsText_iff B tvb offset "Indicator must be clear in ObjectName"
      (by decide)
    rw [if_neg hseq, if_neg hind2] at e1 e2
    rw [e1, e2]
    by_cases h3 : (nameId B tvb offset).pc = false
        ∧ (nameId B tvb offset).ber_class = BER_CLASS_UNI
        ∧ (nameId B tvb offset).tag = BER_UNI_TAG_OID
    · rw [if_neg (not_not.mpr h3), if_neg (not_not.mpr h3)]
      by_cases h4 : (nameLn B tvb offset).ind = true
      · rw [if_pos h4, if_pos h4]
        refine ⟨fun _ hc => ?_, fun _ => Or.inr rfl⟩
        rw [hc.2] at h4
        cases h4
      · rw [if_neg h4, if_neg h4]
        have h4b : (nameLn B tvb offset).ind = false := by simpa using h4
        refine ⟨fun h => ?_, fun h => absurd ⟨h3, h4b⟩ h⟩
        exfalso
        rcases h with h | h
        · split at h
          · exact absurd h (by decide)
          · exact h
        · split at h
          · exact absurd h (by decide)
          · exact h
    · rw [if_pos h3, if_pos h3]
      exact ⟨fun _ hc => h3 hc.1, fun _ => Or.inl rfl⟩
  · intro hbad
    have hcase : ∀ (dup : Bytes → Int → Nat → Bytes) (lookup : Bytes → Nat → OidLookup),
        ∃ f m, dissect_snmp_VarBind
            { B with ep_tvb_memdup := dup, oid_get_from_encoded := lookup } tvb offset
          = structural_error B tvb [] offset (seqLen B tvb offset) f [] m offset := by
      intro dup lookup
      by_cases h3 : (nameId B tvb offset).pc = false
          ∧ (nameId B tvb offset).ber_class = BER_CLASS_UNI
          ∧ (nameId B tvb offset).tag = BER_UNI_TAG_OID
      · have h4 : (nameLn B tvb offset).ind = true := by
          by_contra hc
          exact hbad ⟨h3, by simpa using hc⟩
        exact ⟨_, _, (dissect_snmp_VarBind_name_error B tvb offset dup lookup hseq hind2).2
          h3 h4⟩
      · exact ⟨_, _, (dissect_snmp_VarBind_name_error B tvb offset dup lookup hseq hind2).1
          h3⟩
    have hsame : ∀ (dup : Bytes → Int → Nat → Bytes) (lookup : Bytes → Nat → OidLookup),
        dissect_snmp_VarBind
            { B with ep_tvb_memdup := dup, oid_get_from_encoded := lookup } tvb offset
          = dissect_snmp_VarBind B tvb offset := by
      intro dup lookup
      by_cases h3 : (nameId B tvb offset).pc = false
          ∧ (nameId B tvb offset).ber_class = BER_CLASS_UNI
          ∧ (nameId B tvb offset).tag = BER_UNI_TAG_OID
      · have h4 : (nameLn B tvb offset).ind = true := by
          by_contra hc
          exact hbad ⟨h3, by simpa using hc⟩
        rw [(dissect_snmp_VarBind_name_error B tvb offset dup lookup hseq hind2).2 h3 h4]
        exact ((dissect_snmp_VarBind_name_error B tvb offset B.ep_tvb_memdup
          B.oid_get_from_encoded hseq hind2).2 h3 h4).symm
      · rw [(dissect_snmp_VarBind_name_error B tvb offset dup lookup hseq hind2).1 h3]
        exact ((dissect_snmp_VarBind_name_error B tvb offset B.ep_tvb_memdup
          B.oid_get_from_encoded hseq hind2).1 h3).symm
    obtain ⟨f, m, h0⟩ := hcase B.ep_tvb_memdup B.oid_get_from_encoded
    have h0b : dissect_snmp_VarBind B tvb offset
        = structural_error B tvb [] offset (seqLen B tvb offset) f [] m offset := h0
    refine ⟨?_, ?_, hsame⟩
    · intro hf s l hm
      rw [h0b] at hm
      simp [structural_error] at hm
    · rw [h0b]
      exact structural_error_getLast _ _ _ _ _ _ _ _ _

/-- Witness of C22: the name of `exampleVarBind2` is accepted. -/
theorem C22_object_name_check_witness :
    dissect_snmp_VarBind exampleEpan exampleVarBind2 0
      = dissect_checked exampleEpan exampleVarBind2 0 16 4 8 12
          { offset := 13, ber_class := 0, pc := false, tag := 2 }
          { offset := 14, length := 2, ind := false } := by
  rw [(C22_object_name_check exampleEpan exampleVarBind2 0 (by decide) (by decide)).1
    (by decide)]
  decide

/-! ## Decryption -/

theorem and_mask_shift (b k : Nat) :
    (b &&& ((2 ^ 8 - 1) <<< k)) >>> k = b / 2 ^ k % 2 ^ 8 := by
  apply Nat.eq_of_testBit_eq
  intro i
  rw [Nat.testBit_shiftRight, Nat.testBit_and, Nat.testBit_shiftLeft,
    Nat.testBit_two_pow_sub_one, Nat.testBit_mod_two_pow, ← Nat.shiftRight_eq_div_pow,
    Nat.testBit_shiftRight]
  by_cases h : i < 8
  · simp [h]
  · simp [h]

/-- The four bytes that `snmp_usm_priv_aes` takes from a counter are its big-endian
encoding. -/
theorem aes_counter_bytes (b : Nat) :
    [toU8 ((b &&& 0xff000000) >>> 24), toU8 ((b &&& 0x00ff0000) >>> 16),
     toU8 ((b &&& 0x0000ff00) >>> 8), toU8 (b &&& 0x000000ff)] = beBytes 4 b := by
  have h24 := and_mask_shift b 24
  have h16 := and_mask_shift b 16
  have h8 := and_mask_shift b 8
  have h0 := and_mask_shift b 0
  simp only [Nat.shiftRight_zero, Nat.shiftLeft_zero, Nat.pow_zero, Nat.div_one] at h0
  rw [show ((2 : Nat) ^ 8 - 1) <<< 24 = 0xff000000 from by decide] at h24
  rw [show ((2 : Nat) ^ 8 - 1) <<< 16 = 0x00ff0000 from by decide] at h16
  rw [show ((2 : Nat) ^ 8 - 1) <<< 8 = 0x0000ff00 from by decide] at h8
  rw [show ((2 : Nat) ^ 8 - 1) = 0x000000ff from by decide] at h0
  rw [h24, h16, h8, h0]
  simp only [beBytes, leBytes, toU8, List.reverse_cons, List.reverse_nil, List.nil_append,
    List.cons_append, List.singleton_append]
  have e1 : b / 256 / 256 / 256 = b / 2 ^ 24 := by
    rw [Nat.div_div_eq_div_mul, Nat.div_div_eq_div_mul]
    rfl
  have e2 : b / 256 / 256 = b / 2 ^ 16 := by
    rw [Nat.div_div_eq_div_mul]
    rfl
  have e3 : b / 256 = b / 2 ^ 8 := rfl
  rw [e1, e2, e3]
  simp

/-- The loop of `snmp_usm_priv_des` computes the XOR of the pre-IV with the salt. -/
theorem des_iv_loop_eq (k salt : Bytes) (hk : 16 ≤ k.length) (hs : salt.length = 8) :
    ∀ (n i : Nat) (iv : Bytes), i + n = 8 → iv.length = 8 →
      des_iv_loop k salt n i iv
        = some (iv.take i
            ++ List.zipWith (fun a b => a ^^^ b) ((k.drop (8 + i)).take n) (salt.drop i)) := by
  intro n
  induction n with
  | zero =>
    intro i iv hi hiv
    rw [des_iv_loop, List.take_zero, List.zipWith_nil_left, List.append_nil,
      List.take_of_length_le (by omega)]
  | succ n ih =>
    intro i iv hi hiv
    have hki : 8 + i < k.length := by omega
    have hsi : i < salt.length := by omega
    have hivi : i < iv.length := by omega
    rw [des_iv_loop, List.getElem?_eq_getElem hki, List.getElem?_eq_getElem hsi]
    simp only [Option.bind_eq_bind, Option.some_bind, if_pos hivi]
    rw [ih (i + 1) _ (by omega) (by rw [List.length_set]; exact hiv)]
    rw [List.drop_eq_getElem_cons hki, List.drop_eq_getElem_cons hsi, List.take_succ_cons,
      List.zipWith_cons_cons, set_take_drop iv i _ hivi]
    have ht : (List.take i iv ++ (k[8 + i] ^^^ salt[i]) :: List.drop (i + 1) iv).take (i + 1)
        = List.take i iv ++ [k[8 + i] ^^^ salt[i]] := by
      rw [List.take_append_eq_append_take, List.length_take, Nat.min_eq_left (by omega),
        List.take_of_length_le (by rw [List.length_take]; omega)]
      rw [show i + 1 - i = 1 from by omega]
      rfl
    rw [ht, List.append_assoc, List.singleton_append, Nat.add_assoc]

/-- The calls that `cipher_decrypt` makes when its IV and key buffers are long enough:
the IV goes to `gcry_cipher_setiv`, the first `keylen` bytes of the key to
`gcry_cipher_setkey`, and the cryptogram to `gcry_cipher_decrypt` on the handle that
holds both. -/
theorem cipher_decrypt_eq (G : Gcrypt) (algo : GcryCipher) (mode : GcryMode) (iv k : Bytes)
    (ivlen keylen : Nat) (c : Bytes) (hl : iv.length = ivlen) (hk : keylen ≤ k.length) :
    cipher_decrypt G algo mode iv ivlen (some k) keylen c
      = if G.gcry_cipher_open algo mode ≠ 0 then
          some (on_gcry_error G (G.gcry_cipher_open algo mode))
        else if G.gcry_cipher_setiv { algo := algo, mode := mode, iv := [], key := [] } iv ≠ 0
          then
          some (on_gcry_error G
            (G.gcry_cipher_setiv { algo := algo, mode := mode, iv := [], key := [] } iv))
        else if G.gcry_cipher_setkey { algo := algo, mode := mode, iv := iv, key := [] }
            (k.take keylen) ≠ 0 then
          some (on_gcry_error G
            (G.gcry_cipher_setkey { algo := algo, mode := mode, iv := iv, key := [] }
              (k.take keylen)))
        else
          (memWrite (se_alloc c.length) 0
            (G.gcry_cipher_decrypt
              { algo := algo, mode := mode, iv := iv, key := k.take keylen } c.length c).2).map
            fun cleartext =>
              if (G.gcry_cipher_decrypt
                  { algo := algo, mode := mode, iv := iv, key := k.take keylen } c.length c).1
                  ≠ 0 then
                on_gcry_error G (G.gcry_cipher_decrypt
                  { algo := algo, mode := mode, iv := iv, key := k.take keylen } c.length c).1
              else { clear_tvb := some cleartext, error := none } := by
  unfold cipher_decrypt
  have hiv : memRead iv 0 ivlen = some iv := memRead_full iv _ hl
  have hkr : memRead k 0 keylen = some (k.take keylen) := by
    unfold memRead
    rw [if_pos (by omega)]
    rfl
  simp only [hiv, hkr, Option.bind_eq_bind, Option.some_bind, Option.pure_def]
  split
  · rfl
  · split
    · rfl
    · split
      · rfl
      · cases memWrite (se_alloc c.length) 0
          (G.gcry_cipher_decrypt
            { algo := algo, mode := mode, iv := iv, key := k.take keylen } c.length c).2 with
        | none => rfl
        | some w =>
          simp only [Option.some_bind, Option.map_some']
          split <;> rfl

/-- The XOR of the pre-IV with the salt is the IV of the specification. -/
theorem zipWith_eq_spec_des_iv (k salt : Bytes) (hk : 16 ≤ k.length) (hs : salt.length = 8) :
    List.zipWith (fun a b => a ^^^ b) ((k.drop 8).take 8) salt = spec_des_iv k salt := by
  apply List.ext_getElem
  · simp [spec_des_iv]
    omega
  · intro i h1 h2
    have hi : i < 8 := by simpa [spec_des_iv] using h2
    simp [spec_des_iv, List.getD_eq_getElem?_getD, List.getElem?_eq_getElem,
      show 8 + i < k.length from by omega, show i < salt.length from by omega]

/-- The IV that `snmp_usm_priv_des` computes from a key of at least 16 bytes and a salt
of 8 bytes. -/
theorem des_iv_loop_spec (k salt : Bytes) (hk : 16 ≤ k.length) (hs : salt.length = 8) :
    des_iv_loop k salt 8 0 (se_alloc 8) = some (spec_des_iv k salt) := by
  rw [des_iv_loop_eq k salt hk hs 8 0 (se_alloc 8) rfl (by simp [se_alloc])]
  rw [← zipWith_eq_spec_des_iv k salt hk hs]
  simp

/-- The path of `snmp_usm_priv_des` up to the cipher calls. -/
theorem snmp_usm_priv_des_eq (G : Gcrypt) (p : snmp_usm_params_t) (ua : snmp_ue_assoc_t)
    (k salt enc : Bytes) (hua : p.user_assoc = some ua) (hk : ua.user.privKey = some k)
    (hk16 : 16 ≤ k.length) (hsalt : p.priv_tvb = some salt) (hs : salt.length = 8) :
    snmp_usm_priv_des true G p enc
      = if enc.length % 8 ≠ 0 then
          some { clear_tvb := none,
                 error := some "decryptionError: the length of the encrypted data is not a mutiple of 8 octets" }
        else
          cipher_decrypt G .GCRY_CIPHER_DES .GCRY_CIPHER_MODE_CBC (spec_des_iv k salt) 8
            (some k) 8 enc := by
  unfold snmp_usm_priv_des
  simp only [hua, hk, hsalt, hs, if_true, Option.bind_eq_bind, Option.some_bind, ne_eq,
    not_true_eq_false, if_false, des_iv_loop_spec k salt hk16 hs, Option.pure_def]

/-- The path of `snmp_usm_priv_aes` up to the cipher calls. -/
theorem snmp_usm_priv_aes_eq (G : Gcrypt) (p : snmp_usm_params_t) (ua : snmp_ue_assoc_t)
    (salt enc : Bytes) (hua : p.user_assoc = some ua) (hsalt : p.priv_tvb = some salt)
    (hs : salt.length = 8) :
    snmp_usm_priv_aes true G p enc
      = cipher_decrypt G .GCRY_CIPHER_AES .GCRY_CIPHER_MODE_CFB
          (spec_aes_iv p.boots p.time salt) 16 ua.user.privKey 16 enc := by
  unfold snmp_usm_priv_aes
  have hr : memRead salt 0 8 = some salt := memRead_full salt 8 hs
  have e : ∀ a b c d e f g h : Nat,
      ((((((((se_alloc 16).set 0 a).set 1 b).set 2 c).set 3 d).set 4 e).set 5 f).set 6 g).set 7 h
        = [a, b, c, d] ++ [e, f, g, h] ++ se_alloc 8 := by
    intros
    rfl
  have hw : ∀ l : Bytes, l.length = 8 → memWrite (l ++ se_alloc 8) 8 salt = some (l ++ salt) := by
    intro l hl
    unfold memWrite
    rw [if_pos (by simp [se_alloc, hl, hs])]
    simp [hl, hs, se_alloc]
  simp only [hua, hsalt, hs, if_true, Option.bind_eq_bind, Option.some_bind, ne_eq,
    not_true_eq_false, if_false, hr, e, aes_counter_bytes]
  rw [hw _ (by simp [beBytes_length])]
  rfl

/-- C23: with a privacy key of at least 16 bytes, a salt of 8 bytes and a cryptogram
whose length is a multiple of 8, `snmp_usm_priv_des` opens DES in CBC mode, sets as IV
the 8 bytes `privKey[8 + i] XOR salt[i]`, sets as key the first 8 bytes of the privacy
key, and decrypts with the handle that holds this IV and key. -/
theorem C23_des_key_and_iv (G : Gcrypt) (p : snmp_usm_params_t) (ua : snmp_ue_assoc_t)
    (k salt enc : Bytes) (hua : p.user_assoc = some ua) (hk : ua.user.privKey = some k)
    (hk16 : 16 ≤ k.length) (hsalt : p.priv_tvb = some salt) (hs : salt.length = 8)
    (hc : enc.length % 8 = 0) :
    snmp_usm_priv_des true G p enc
      = if G.gcry_cipher_open .GCRY_CIPHER_DES .GCRY_CIPHER_MODE_CBC ≠ 0 then
          some (on_gcry_error G (G.gcry_cipher_open .GCRY_CIPHER_DES .GCRY_CIPHER_MODE_CBC))
        else if G.gcry_cipher_setiv
            { algo := .GCRY_CIPHER_DES, mode := .GCRY_CIPHER_MODE_CBC, iv := [], key := [] }
            (spec_des_iv k salt) ≠ 0 then
          some (on_gcry_error G (G.gcry_cipher_setiv
            { algo := .GCRY_CIPHER_DES, mode := .GCRY_CIPHER_MODE_CBC, iv := [], key := [] }
            (spec_des_iv k salt)))
        else if G.gcry_cipher_setkey
            { algo := .GCRY_CIPHER_DES, mode := .GCRY_CIPHER_MODE_CBC,
              iv := spec_des_iv k salt, key := [] } (k.take 8) ≠ 0 then
          some (on_gcry_error G (G.gcry_cipher_setkey
            { algo := .GCRY_CIPHER_DES, mode := .GCRY_CIPHER_MODE_CBC,
              iv := spec_des_iv k salt, key := [] } (k.take 8)))
        else
          (memWrite (se_alloc enc.length) 0
            (G.gcry_cipher_decrypt
              { algo := .GCRY_CIPHER_DES, mode := .GCRY_CIPHER_MODE_CBC,
                iv := spec_des_iv k salt, key := k.take 8 } enc.length enc).2).map
            fun cleartext =>
              if (G.gcry_cipher_decrypt
                  { algo := .GCRY_CIPHER_DES, mode := .GCRY_CIPHER_MODE_CBC,
                    iv := spec_des_iv k salt, key := k.take 8 } enc.length enc).1 ≠ 0 then
                on_gcry_error G (G.gcry_cipher_decrypt
                  { algo := .GCRY_CIPHER_DES, mode := .GCRY_CIPHER_MODE_CBC,
                    iv := spec_des_iv k salt, key := k.take 8 } enc.length enc).1
              else { clear_tvb := some cleartext, error := none } := by
  rw [snmp_usm_priv_des_eq G p ua k salt enc hua hk hk16 hsalt hs, if_neg (by simp [hc])]
  exact cipher_decrypt_eq G _ _ _ k 8 8 enc (by simp [spec_des_iv]) (by omega)

/-- Witness of C23 on `examplePrivParams`: the key set is `16 .. 23`, the IV is
`24 XOR 1, .., 31 XOR 8`, and the example cipher returns the cryptogram XORed with the
first key byte. -/
theorem C23_des_key_and_iv_witness :
    spec_des_iv [16, 17, 18, 19, 20, 21, 22, 23, 24, 25, 26, 27, 28, 29, 30, 31]
        [1, 2, 3, 4, 5, 6, 7, 8] = [25, 27, 25, 31, 25, 27, 25, 23]
    ∧ snmp_usm_priv_des true exampleGcrypt examplePrivParams [1, 2, 3, 4, 5, 6, 7, 8]
      = some { clear_tvb := some [17, 18, 19, 20, 21, 22, 23, 24], error := none } :=
  ⟨by decide,
   (C23_des_key_and_iv exampleGcrypt examplePrivParams _
      [16, 17, 18, 19, 20, 21, 22, 23, 24, 25, 26, 27, 28, 29, 30, 31]
      [1, 2, 3, 4, 5, 6, 7, 8] [1, 2, 3, 4, 5, 6, 7, 8] rfl rfl (by decide) rfl rfl
      (by decide)).trans (by decide)⟩

/-- C24, the input that separates the claim from the code: with a valid salt and an
empty cryptogram, `0 % 8 = 0`, so `snmp_usm_priv_des` reports no error and returns an
empty cleartext. -/
theorem C24_empty_ciphertext_counterexample :
    snmp_usm_priv_des true exampleGcrypt examplePrivParams []
      = some { clear_tvb := some [], error := none } := by
  decide

/-- C24, amended: with a privacy key of at least 16 bytes and a salt of 8 bytes,
`snmp_usm_priv_des` returns the length error and no cleartext exactly for the
cryptograms whose length is not a multiple of 8; for every length that is a multiple
of 8, zero included, it runs the cipher, and when all four cipher calls succeed (the
library writing at most `outsize` bytes) it returns a cleartext of exactly the
length of the cryptogram and no error. -/
theorem C24_des_length_check (G : Gcrypt) (p : snmp_usm_params_t) (ua : snmp_ue_assoc_t)
    (k salt : Bytes) (hua : p.user_assoc = some ua) (hk : ua.user.privKey = some k)
    (hk16 : 16 ≤ k.length) (hsalt : p.priv_tvb = some salt) (hs : salt.length = 8) :
    ∀ enc : Bytes,
      (enc.length % 8 ≠ 0 →
        snmp_usm_priv_des true G p enc
          = some { clear_tvb := none,
                   error := some "decryptionError: the length of the encrypted data is not a mutiple of 8 octets" })
      ∧ (enc.length % 8 = 0 →
        snmp_usm_priv_des true G p enc
            = cipher_decrypt G .GCRY_CIPHER_DES .GCRY_CIPHER_MODE_CBC (spec_des_iv k salt) 8
                (some k) 8 enc
        ∧ (G.gcry_cipher_open .GCRY_CIPHER_DES .GCRY_CIPHER_MODE_CBC = 0 →
           (∀ hd iv, G.gcry_cipher_setiv hd iv = 0) →
           (∀ hd key, G.gcry_cipher_setkey hd key = 0) →
           (∀ hd n c, (G.gcry_cipher_decrypt hd n c).1 = 0
              ∧ (G.gcry_cipher_decrypt hd n c).2.length ≤ n) →
           ∃ cleartext : Bytes,
             snmp_usm_priv_des true G p enc
               = some { clear_tvb := some cleartext, error := none }
             ∧ cleartext.length = enc.length)) := by
  intro enc
  have e := snmp_usm_priv_des_eq G p ua k salt enc hua hk hk16 hsalt hs
  refine ⟨fun hc => ?_, fun hc => ?_⟩
  · rw [e, if_pos hc]
  · rw [if_neg (by simp [hc])] at e
    refine ⟨e, fun hopen hiv hkey hdec => ?_⟩
    rw [e, cipher_decrypt_eq G _ _ _ k 8 8 enc (by simp [spec_des_iv]) (by omega)]
    rw [if_neg (by simp [hopen]), if_neg (by simp [hiv]), if_neg (by simp [hkey])]
    obtain ⟨h1, h2⟩ := hdec
      { algo := .GCRY_CIPHER_DES, mode := .GCRY_CIPHER_MODE_CBC,
        iv := spec_des_iv k salt, key := k.take 8 } enc.length enc
    obtain ⟨w, hw⟩ : ∃ w, memWrite (se_alloc enc.length) 0
        (G.gcry_cipher_decrypt
          { algo := .GCRY_CIPHER_DES, mode := .GCRY_CIPHER_MODE_CBC,
            iv := spec_des_iv k salt, key := k.take 8 } enc.length enc).2 = some w := by
      unfold memWrite
      rw [if_pos (by simp [se_alloc]; exact h2)]
      exact ⟨_, rfl⟩
    refine ⟨w, ?_, ?_⟩
    · rw [hw, Option.map_some', if_neg (by simp [h1])]
    · rw [memWrite_length _ _ _ _ hw]
      simp [se_alloc]

/-- Witness of C24 on `examplePrivParams`: a cryptogram of three bytes gives the length
error, a cryptogram of eight bytes gives eight bytes of cleartext. -/
theorem C24_des_length_check_witness :
    snmp_usm_priv_des true exampleGcrypt examplePrivParams [1, 2, 3]
        = some { clear_tvb := none,
                 error := some "decryptionError: the length of the encrypted data is not a mutiple of 8 octets" }
    ∧ snmp_usm_priv_des true exampleGcrypt examplePrivParams [1, 2, 3, 4, 5, 6, 7, 8]
        = some { clear_tvb := some [17, 18, 19, 20, 21, 22, 23, 24], error := none } :=
  ⟨(C24_des_length_check exampleGcrypt examplePrivParams _
      [16, 17, 18, 19, 20, 21, 22, 23, 24, 25, 26, 27, 28, 29, 30, 31]
      [1, 2, 3, 4, 5, 6, 7, 8] rfl rfl (by decide) rfl rfl [1, 2, 3]).1 (by decide),
   ((C24_des_length_check exampleGcrypt examplePrivParams _
      [16, 17, 18, 19, 20, 21, 22, 23, 24, 25, 26, 27, 28, 29, 30, 31]
      [1, 2, 3, 4, 5, 6, 7, 8] rfl rfl (by decide) rfl rfl [1, 2, 3, 4, 5, 6, 7, 8]).2
      (by decide)).1.trans (by decide)⟩

/-- C25: with a salt of 8 bytes, `snmp_usm_priv_aes` opens AES in CFB mode, sets as IV
the 16 bytes `BE32(boots) ++ BE32(time) ++ salt`, sets as key the first 16 bytes of
the privacy key, and decrypts a cryptogram of any length with the handle that holds
this IV and key. -/
theorem C25_aes_iv_and_key (G : Gcrypt) (p : snmp_usm_params_t) (ua : snmp_ue_assoc_t)
    (k salt enc : Bytes) (hua : p.user_assoc = some ua) (hk : ua.user.privKey = some k)
    (hk16 : 16 ≤ k.length) (hsalt : p.priv_tvb = some salt) (hs : salt.length = 8) :
    (spec_aes_iv p.boots p.time salt).length = 16
    ∧ (spec_aes_iv p.boots p.time salt).take 4 = beBytes 4 p.boots
    ∧ ((spec_aes_iv p.boots p.time salt).drop 4).take 4 = beBytes 4 p.time
    ∧ (spec_aes_iv p.boots p.time salt).drop 8 = salt
    ∧ snmp_usm_priv_aes true G p enc
      = if G.gcry_cipher_open .GCRY_CIPHER_AES .GCRY_CIPHER_MODE_CFB ≠ 0 then
          some (on_gcry_error G (G.gcry_cipher_open .GCRY_CIPHER_AES .GCRY_CIPHER_MODE_CFB))
        else if G.gcry_cipher_setiv
            { algo := .GCRY_CIPHER_AES, mode := .GCRY_CIPHER_MODE_CFB, iv := [], key := [] }
            (spec_aes_iv p.boots p.time salt) ≠ 0 then
          some (on_gcry_error G (G.gcry_cipher_setiv
            { algo := .GCRY_CIPHER_AES, mode := .GCRY_CIPHER_MODE_CFB, iv := [], key := [] }
            (spec_aes_iv p.boots p.time salt)))
        else if G.gcry_cipher_setkey
            { algo := .GCRY_CIPHER_AES, mode := .GCRY_CIPHER_MODE_CFB,
              iv := spec_aes_iv p.boots p.time salt, key := [] } (k.take 16) ≠ 0 then
          some (on_gcry_error G (G.gcry_cipher_setkey
            { algo := .GCRY_CIPHER_AES, mode := .GCRY_CIPHER_MODE_CFB,
              iv := spec_aes_iv p.boots p.time salt, key := [] } (k.take 16)))
        else
          (memWrite (se_alloc enc.length) 0
            (G.gcry_cipher_decrypt
              { algo := .GCRY_CIPHER_AES, mode := .GCRY_CIPHER_MODE_CFB,
                iv := spec_aes_iv p.boots p.time salt, key := k.take 16 }
              enc.length enc).2).map
            fun cleartext =>
              if (G.gcry_cipher_decrypt
                  { algo := .GCRY_CIPHER_AES, mode := .GCRY_CIPHER_MODE_CFB,
                    iv := spec_aes_iv p.boots p.time salt, key := k.take 16 }
                  enc.length enc).1 ≠ 0 then
                on_gcry_error G (G.gcry_cipher_decrypt
                  { algo := .GCRY_CIPHER_AES, mode := .GCRY_CIPHER_MODE_CFB,
                    iv := spec_aes_iv p.boots p.time salt, key := k.take 16 }
                  enc.length enc).1
              else { clear_tvb := some cleartext, error := none } := by
  have hl : (spec_aes_iv p.boots p.time salt).length = 16 := by
    simp [spec_aes_iv, beBytes_length, hs]
  refine ⟨hl, ?_, ?_, ?_, ?_⟩
  · simp [spec_aes_iv, beBytes_length]
  · simp [spec_aes_iv, beBytes_length]
  · show List.drop 8 (beBytes 4 p.boots ++ beBytes 4 p.time ++ salt) = salt
    exact List.drop_left' (by simp [beBytes_length])
  · rw [snmp_usm_priv_aes_eq G p ua salt enc hua hsalt hs, hk]
    exact cipher_decrypt_eq G _ _ _ k 16 16 enc hl hk16

/-- Witness of C25 on `examplePrivParams` (boots `0x01020304`, time `0x0a0b0c0d`) with a
cryptogram of three bytes. -/
theorem C25_aes_iv_and_key_witness :
    spec_aes_iv examplePrivParams.boots examplePrivParams.time [1, 2, 3, 4, 5, 6, 7, 8]
        = [1, 2, 3, 4, 10, 11, 12, 13, 1, 2, 3, 4, 5, 6, 7, 8]
    ∧ snmp_usm_priv_aes true exampleGcrypt examplePrivParams [1, 2, 3]
        = some { clear_tvb := some [17, 18, 19], error := none } :=
  ⟨by decide,
   (C25_aes_iv_and_key exampleGcrypt examplePrivParams _
      [16, 17, 18, 19, 20, 21, 22, 23, 24, 25, 26, 27, 28, 29, 30, 31]
      [1, 2, 3, 4, 5, 6, 7, 8] [1, 2, 3] rfl rfl (by decide) rfl rfl).2.2.2.2.trans
      (by decide)⟩

/-- C26: when the cipher library is present and the salt is not exactly 8 bytes long,
both `snmp_usm_priv_des` and `snmp_usm_priv_aes` return the salt error and no
cleartext, whatever the cryptogram, the privacy key and the cipher library are; in
particular for DES a salt of the wrong length with a cryptogram whose length is not
a multiple of 8 reports the salt error. -/
theorem C26_salt_check_first (G : Gcrypt) (p : snmp_usm_params_t) (ua : snmp_ue_assoc_t)
    (salt enc : Bytes) (hua : p.user_assoc = some ua) (hsalt : p.priv_tvb = some salt)
    (hs : salt.length ≠ 8) :
    snmp_usm_priv_des true G p enc
        = some { clear_tvb := none,
                 error := some "decryptionError: msgPrivacyParameters length != 8" }
    ∧ snmp_usm_priv_aes true G p enc
        = some { clear_tvb := none,
                 error := some "decryptionError: msgPrivacyParameters length != 8" } := by
  constructor
  · unfold snmp_usm_priv_des
    simp only [hua, hsalt, if_true, Option.bind_eq_bind, Option.some_bind, ne_eq, hs,
      not_false_eq_true, Option.pure_def]
  · unfold snmp_usm_priv_aes
    simp only [hua, hsalt, if_true, Option.bind_eq_bind, Option.some_bind, ne_eq, hs,
      not_false_eq_true, Option.pure_def]

/-- Witness of C26: a salt of three bytes with a cryptogram of three bytes. -/
theorem C26_salt_check_first_witness :
    ([1, 2, 3] : Bytes).length ≠ 8 ∧ ([1, 2, 3] : Bytes).length % 8 ≠ 0
    ∧ snmp_usm_priv_des true exampleGcrypt examplePrivParamsShortSalt [1, 2, 3]
        = some { clear_tvb := none,
                 error := some "decryptionError: msgPrivacyParameters length != 8" }
    ∧ snmp_usm_priv_aes true exampleGcrypt examplePrivParamsShortSalt [1, 2, 3]
        = some { clear_tvb := none,
                 error := some "decryptionError: msgPrivacyParameters length != 8" } :=
  ⟨by decide, by decide,
   C26_salt_check_first exampleGcrypt examplePrivParamsShortSalt _ [1, 2, 3] [1, 2, 3]
     rfl rfl (by decide)⟩

/-! ## The engine ID decoder -/

/-- A byte read inside the buffer succeeds. -/
theorem tvb_get_guint8_eq (tvb : Bytes) (o : Int) (n : Nat) (ho : o = n)
    (h : n < tvb.length) : tvb_get_guint8 tvb o = some (tvb.getD n 0) := by
  subst ho
  unfold tvb_get_guint8
  rw [if_pos (Int.ofNat_nonneg n), Int.toNat_ofNat, List.getElem?_eq_getElem h,
    List.getD_eq_getElem _ _ h]

/-- A read of `m` bytes inside the buffer succeeds. -/
theorem tvb_bytes_to_str_eq (tvb : Bytes) (o l : Int) (n m : Nat) (ho : o = n) (hl : l = m)
    (h : n + m ≤ tvb.length) : tvb_bytes_to_str tvb o l = some ((tvb.drop n).take m) := by
  subst ho hl
  unfold tvb_bytes_to_str memRead
  rw [if_pos ⟨Int.ofNat_nonneg n, Int.ofNat_nonneg m⟩, Int.toNat_ofNat, Int.toNat_ofNat,
    if_pos h]

/-- The conformance value is 0 or 1. -/
theorem engineid_conformance_cases (b : Nat) :
    engineid_conformance b = 0 ∨ engineid_conformance b = 1 := by
  unfold engineid_conformance
  split
  · exact Or.inr rfl
  · exact Or.inl rfl

/-- The conformance value is 1 exactly when the byte is at least `0x80`. -/
theorem engineid_conformance_eq_one (b : Nat) : engineid_conformance b = 1 ↔ 0x80 ≤ b := by
  unfold engineid_conformance
  rw [Nat.shiftRight_eq_div_pow]
  have h : b / 2 ^ 7 ≠ 0 ↔ 128 ≤ b := by
    have h2 : b / 2 ^ 7 = b / 128 := rfl
    rw [h2]
    omega
  constructor
  · intro h1
    by_contra h2
    rw [if_neg (by rw [h]; exact fun h3 => h2 h3.1)] at h1
    exact absurd h1 (by decide)
  · intro h1
    rw [if_pos ⟨h.2 h1, by decide⟩]

/-- The path of `dissect_snmp_engineid` through its reads, for an engine ID of at least
four bytes that lies in the buffer. -/
theorem dissect_snmp_engineid_eq (tvb : Bytes) (offset len : Int) (n m : Nat)
    (ho : offset = n) (hl : len = m) (h4 : 4 ≤ m) (hin : n + m ≤ tvb.length) :
    dissect_snmp_engineid tvb offset len
      = if engineid_conformance (tvb.getD n 0) = 0 then
          if len - 4 = 8 then
            some (engineid_rest
              ([.add_item .hf_snmp_engineid_conform offset 1]
                ++ [.add_uint .hf_snmp_engineid_enterprise offset 4
                  (engineid_enterprise (engineid_conformance (tvb.getD n 0))
                    (beNat ((tvb.drop n).take 4)))]
                ++ [.add_text (offset + 4) 8 "AgentID Trailer: 0x%s"
                  ((tvb.drop (n + 4)).take 8)])
              (offset + 4 + 8) (len - 4 - 8))
          else
            some { ret := offset + 4,
                   items := [.add_item .hf_snmp_engineid_conform offset 1]
                     ++ [.add_uint .hf_snmp_engineid_enterprise offset 4
                       (engineid_enterprise (engineid_conformance (tvb.getD n 0))
                         (beNat ((tvb.drop n).take 4)))]
                     ++ [.add_text (offset + 4) (len - 4)
                       "<Data not conforming to RFC1910>" []] }
        else if len - 4 < 1 then
          some { ret := offset + 4,
                 items := [.add_item .hf_snmp_engineid_conform offset 1]
                   ++ [.add_uint .hf_snmp_engineid_enterprise offset 4
                     (engineid_enterprise (engineid_conformance (tvb.getD n 0))
                       (beNat ((tvb.drop n).take 4)))] }
        else
          engineid_format tvb
            ([.add_item .hf_snmp_engineid_conform offset 1]
              ++ [.add_uint .hf_snmp_engineid_enterprise offset 4
                (engineid_enterprise (engineid_conformance (tvb.getD n 0))
                  (beNat ((tvb.drop n).take 4)))]
              ++ [.add_uint_format .hf_snmp_engineid_format (offset + 4) 1
                (tvb.getD (n + 4) 0) "Engine ID Format: %s (%d)"
                (val_to_str (tvb.getD (n + 4) 0) snmp_engineid_format_vals
                  "Reserved/Enterprise-specific")])
            (engineid_enterprise (engineid_conformance (tvb.getD n 0))
              (beNat ((tvb.drop n).take 4)))
            (tvb.getD (n + 4) 0) (offset + 4 + 1) (len - 4 - 1) := by
  have hlt : ¬ len < 4 := by omega
  have hb := tvb_get_guint8_eq tvb offset n ho (by omega)
  have hw : tvb_get_ntohl tvb offset = some (beNat ((tvb.drop n).take 4)) := by
    unfold tvb_get_ntohl
    rw [tvb_bytes_to_str_eq tvb offset 4 n 4 ho rfl (by omega)]
    rfl
  unfold dissect_snmp_engineid
  simp only [if_neg hlt, hb, hw, Option.bind_eq_bind, Option.some_bind, Option.pure_def,
    SNMP_ENGINEID_RFC1910, SNMP_ENGINEID_RFC3411]
  rcases engineid_conformance_cases (tvb.getD n 0) with hc | hc
  · rw [if_pos hc, if_pos hc]
    by_cases h8 : len - 4 = 8
    · rw [if_pos h8, if_pos h8,
        tvb_bytes_to_str_eq tvb (offset + 4) 8 (n + 4) 8 (by omega) rfl (by omega)]
      rfl
    · rw [if_neg h8, if_neg h8]
  · have hc0 : ¬ engineid_conformance (tvb.getD n 0) = 0 := by omega
    rw [if_neg hc0, if_neg hc0, if_pos hc]
    by_cases h1 : len - 4 < 1
    · rw [if_pos h1, if_pos h1]
    · rw [if_neg h1, if_neg h1,
        tvb_get_guint8_eq tvb (offset + 4) (n + 4) (by omega) (by omega)]
      rfl

/-- The end of the engine ID decoder returns the offset after the bytes that are left. -/
theorem engineid_rest_ret (items : List EngineItem) (offset r : Int) (hr : 0 ≤ r) :
    (engineid_rest items offset r).ret = offset + r := by
  unfold engineid_rest
  split
  · rfl
  · show offset = offset + r
    omega

/-- The end of the engine ID decoder reports the bytes that are left, if any. -/
theorem engineid_rest_mem (items : List EngineItem) (offset r start length : Int)
    (hitems : EngineItem.add_text start length "<Data not conforming to RFC3411>" [] ∉ items) :
    EngineItem.add_text start length "<Data not conforming to RFC3411>" []
        ∈ (engineid_rest items offset r).items
      ↔ start = offset ∧ length = r ∧ 0 < r := by
  unfold engineid_rest
  split
  · simp [hitems]
    omega
  · simp [hitems]
    omega

/-- The end of the engine ID decoder keeps the log. -/
theorem engineid_rest_subset (items : List EngineItem) (offset r : Int) (x : EngineItem)
    (h : x ∈ items) : x ∈ (engineid_rest items offset r).items := by
  unfold engineid_rest
  split
  · exact List.mem_append_left _ h
  · exact h

/-- The inner switch of the engine ID decoder: it returns the offset after all `r` bytes
that are left, and reports them as not conforming exactly when no branch took them. -/
theorem engineid_format_spec (tvb : Bytes) (items : List EngineItem) (eid format : Nat)
    (offset r : Int) (hr : 0 ≤ r)
    (hread : r = 8 → ∃ s, tvb_get_letohl tvb (offset + 4) = some s)
    (hitems : ∀ start length,
      EngineItem.add_text start length "<Data not conforming to RFC3411>" [] ∉ items) :
    ∃ out, engineid_format tvb items eid format offset r = some out
      ∧ out.ret = offset + r
      ∧ (∀ start length,
          reportsData out "<Data not conforming to RFC3411>" start length
            ↔ start = offset ∧ length = r ∧ 0 < r
              ∧ (format = 1 ∧ r ≠ 4 ∨ format = 2 ∧ r ≠ 16 ∨ format = 3 ∧ r ≠ 6
                ∨ format = 128 ∧ ¬ ((eid = 2021 ∨ eid = 8072) ∧ r = 8)
                ∨ (format ≠ 1 ∧ format ≠ 2 ∧ format ≠ 3 ∧ format ≠ 128) ∧ 27 < r))
      ∧ (format = 4 → r ≤ 27 → .add_item .hf_snmp_engineid_text offset r ∈ out.items)
      ∧ (format = 5 → r ≤ 27 → .add_item .hf_snmp_engineid_data offset r ∈ out.items) := by
  unfold engineid_format
  simp only [SNMP_ENGINEID_FORMAT_IPV4, SNMP_ENGINEID_FORMAT_IPV6,
    SNMP_ENGINEID_FORMAT_MACADDRESS, SNMP_ENGINEID_FORMAT_TEXT]
  generalize tvb_get_letohl tvb (offset + 4) = x at hread ⊢
  by_cases h8 : r = 8
  · obtain ⟨s, rfl⟩ := hread h8
    simp only [Option.bind_eq_bind, Option.some_bind, Option.pure_def]
    split_ifs
    all_goals refine ⟨_, rfl, ?_, fun start length => ?_, fun h1 h2 => ?_, fun h1 h2 => ?_⟩
    all_goals first
      | exact (engineid_rest_ret _ _ _ (by omega)).trans (by omega)
      | exact (engineid_rest_mem _ _ _ _ _ (by simp [hitems])).trans (by omega)
      | omega
      | (apply engineid_rest_subset; simp)
  · split_ifs
    all_goals refine ⟨_, rfl, ?_, fun start length => ?_, fun h1 h2 => ?_, fun h1 h2 => ?_⟩
    all_goals first
      | exact (engineid_rest_ret _ _ _ (by omega)).trans (by omega)
      | exact (engineid_rest_mem _ _ _ _ _ (by simp [hitems])).trans (by omega)
      | omega
      | (apply engineid_rest_subset; simp)

/-- The log at the end of the engine ID decoder. -/
theorem engineid_rest_items (items : List EngineItem) (offset r : Int) :
    (engineid_rest items offset r).items
      = items ++ (if r > 0 then
          [EngineItem.add_text offset r "<Data not conforming to RFC3411>" []] else []) := by
  unfold engineid_rest
  split
  · rfl
  · exact (List.append_nil _).symm

/-- The inner switch of the engine ID decoder only adds to the log. -/
theorem engineid_format_extends (tvb : Bytes) (items : List EngineItem) (eid format : Nat)
    (offset r : Int) (out : EngineIdOut)
    (h : engineid_format tvb items eid format offset r = some out) :
    ∃ extra, out.items = items ++ extra := by
  unfold engineid_format at h
  generalize tvb_get_letohl tvb (offset + 4) = x at h
  cases x with
  | none =>
    simp only [Option.bind_eq_bind, Option.none_bind] at h
    split_ifs at h
    all_goals first
      | (cases h; done)
      | (cases h
         rw [engineid_rest_items]
         try simp only [List.append_assoc]
         exact ⟨_, rfl⟩)
  | some s =>
    simp only [Option.bind_eq_bind, Option.some_bind, Option.pure_def] at h
    split_ifs at h
    all_goals
      cases h
      rw [engineid_rest_items]
      try simp only [List.append_assoc]
      exact ⟨_, rfl⟩

/-- Four bytes of the buffer. -/
theorem take_four (tvb : Bytes) (n : Nat) (h : n + 4 ≤ tvb.length) :
    (tvb.drop n).take 4
      = [tvb.getD n 0, tvb.getD (n + 1) 0, tvb.getD (n + 2) 0, tvb.getD (n + 3) 0] := by
  rw [List.drop_eq_getElem_cons (show n < tvb.length by omega),
    List.drop_eq_getElem_cons (show n + 1 < tvb.length by omega),
    List.drop_eq_getElem_cons (show n + 1 + 1 < tvb.length by omega),
    List.drop_eq_getElem_cons (show n + 1 + 1 + 1 < tvb.length by omega),
    List.getD_eq_getElem _ _ (show n < tvb.length by omega),
    List.getD_eq_getElem _ _ (show n + 1 < tvb.length by omega),
    List.getD_eq_getElem _ _ (show n + 2 < tvb.length by omega),
    List.getD_eq_getElem _ _ (show n + 3 < tvb.length by omega)]
  rfl

/-- A byte of a buffer of bytes is below 256. -/
theorem getD_lt (tvb : Bytes) (hbytes : ∀ b ∈ tvb, b < 256) (i : Nat) : tvb.getD i 0 < 256 := by
  by_cases h : i < tvb.length
  · rw [List.getD_eq_getElem _ _ h]
    exact hbytes _ (List.getElem_mem h)
  · rw [List.getD_eq_default _ _ (by omega)]
    decide

/-- The reported enterprise number is the big-endian word without its high bit. -/
theorem engineid_enterprise_eq (b0 b1 b2 b3 : Nat) (h0 : b0 < 256) (h1 : b1 < 256)
    (h2 : b2 < 256) (h3 : b3 < 256) :
    (engineid_conformance b0 ≠ 0 → (0x80000000 : Int) ≤ beNat [b0, b1, b2, b3])
    ∧ engineid_enterprise (engineid_conformance b0) (beNat [b0, b1, b2, b3])
        = beNat [b0, b1, b2, b3] &&& 0x7fffffff
    ∧ beNat [b0, b1, b2, b3] &&& 0x7fffffff < 2 ^ 31 := by
  have hw : beNat [b0, b1, b2, b3] = 256 * (256 * (256 * (256 * 0 + b0) + b1) + b2) + b3 := rfl
  have hand : beNat [b0, b1, b2, b3] &&& 0x7fffffff = beNat [b0, b1, b2, b3] % 2 ^ 31 :=
    Nat.and_pow_two_sub_one_eq_mod _ 31
  rw [hand]
  generalize beNat [b0, b1, b2, b3] = w at hw ⊢
  have h1c := engineid_conformance_eq_one b0
  rcases engineid_conformance_cases b0 with hc | hc
  · have hb : b0 < 128 := by
      by_contra hb
      have := h1c.2 (by omega)
      omega
    refine ⟨fun h => absurd hc h, ?_, ?_⟩
    · rw [hc]
      unfold engineid_enterprise
      rw [if_neg (by decide)]
      omega
    · omega
  · have hb : 128 ≤ b0 := h1c.1 hc
    refine ⟨fun _ => by omega, ?_, ?_⟩
    · rw [hc]
      unfold engineid_enterprise toU32
      rw [if_pos (by decide)]
      omega
    · omega

/-- The conformance value is 0 exactly when the byte is below `0x80`. -/
theorem engineid_conformance_eq_zero (b : Nat) : engineid_conformance b = 0 ↔ b < 0x80 := by
  have h1 := engineid_conformance_eq_one b
  rcases engineid_conformance_cases b with hc | hc
  · constructor
    · intro _
      by_contra hb
      have := h1.2 (by omega)
      omega
    · intro _
      exact hc
  · constructor
    · intro h
      omega
    · intro hb
      have := h1.1 hc
      omega

/-- C27: conforming engine IDs are consumed exactly.  For an engine ID that lies in the
buffer: a legacy one (byte 0 below `0x80`) of 12 bytes returns `offset + 12` and logs
the 8-byte trailer; an RFC 3411 one with format IPv4 and 9 bytes, IPv6 and 21 bytes,
or MAC and 11 bytes logs the address over the 4, 16 or 6 bytes after the format byte
and returns `offset + len`.  The logs are given in full: none holds a text on data
that does not conform. -/
theorem C27_conforming_consumed (tvb : Bytes) (offset len : Int) (h0 : 0 ≤ offset)
    (hin : offset + len ≤ tvb.length) :
    (tvb.getD offset.toNat 0 < 0x80 → len = 12 →
      dissect_snmp_engineid tvb offset len
        = some { ret := offset + 12,
                 items := [
                   .add_item .hf_snmp_engineid_conform offset 1,
                   .add_uint .hf_snmp_engineid_enterprise offset 4
                     (engineid_enterprise 0 (beNat ((tvb.drop offset.toNat).take 4))),
                   .add_text (offset + 4) 8 "AgentID Trailer: 0x%s"
                     ((tvb.drop (offset.toNat + 4)).take 8)] })
    ∧ (0x80 ≤ tvb.getD offset.toNat 0 → tvb.getD (offset.toNat + 4) 0 = 1 → len = 9 →
      dissect_snmp_engineid tvb offset len
        = some { ret := offset + 9,
                 items := [
                   .add_item .hf_snmp_engineid_conform offset 1,
                   .add_uint .hf_snmp_engineid_enterprise offset 4
                     (engineid_enterprise 1 (beNat ((tvb.drop offset.toNat).take 4))),
                   .add_uint_format .hf_snmp_engineid_format (offset + 4) 1 1
                     "Engine ID Format: %s (%d)" "IPv4 address",
                   .add_item .hf_snmp_engineid_ipv4 (offset + 5) 4] })
    ∧ (0x80 ≤ tvb.getD offset.toNat 0 → tvb.getD (offset.toNat + 4) 0 = 2 → len = 21 →
      dissect_snmp_engineid tvb offset len
        = some { ret := offset + 21,
                 items := [
                   .add_item .hf_snmp_engineid_conform offset 1,
                   .add_uint .hf_snmp_engineid_enterprise offset 4
                     (engineid_enterprise 1 (beNat ((tvb.drop offset.toNat).take 4))),
                   .add_uint_format .hf_snmp_engineid_format (offset + 4) 1 2
                     "Engine ID Format: %s (%d)" "IPv6 address",
                   .add_item .hf_snmp_engineid_ipv6 (offset + 5) 16] })
    ∧ (0x80 ≤ tvb.getD offset.toNat 0 → tvb.getD (offset.toNat + 4) 0 = 3 → len = 11 →
      dissect_snmp_engineid tvb offset len
        = some { ret := offset + 11,
                 items := [
                   .add_item .hf_snmp_engineid_conform offset 1,
                   .add_uint .hf_snmp_engineid_enterprise offset 4
                     (engineid_enterprise 1 (beNat ((tvb.drop offset.toNat).take 4))),
                   .add_uint_format .hf_snmp_engineid_format (offset + 4) 1 3
                     "Engine ID Format: %s (%d)" "MAC address",
                   .add_item .hf_snmp_engineid_mac (offset + 5) 6] }) := by
  obtain ⟨n, rfl⟩ := Int.eq_ofNat_of_zero_le h0
  simp only [Int.toNat_ofNat]
  have e5 : (n : Int) + 4 + 1 = n + 5 := by omega
  refine ⟨fun hb hl => ?_, fun hb hf hl => ?_, fun hb hf hl => ?_, fun hb hf hl => ?_⟩
  · subst hl
    have hc := (engineid_conformance_eq_zero _).2 hb
    rw [dissect_snmp_engineid_eq tvb n 12 n 12 rfl rfl (by decide) (by omega), hc,
      if_pos rfl, if_pos (by decide)]
    have e : (n : Int) + 4 + 8 = n + 12 := by omega
    rw [e]
    rfl
  · subst hl
    have hc := (engineid_conformance_eq_one _).2 hb
    rw [dissect_snmp_engineid_eq tvb n 9 n 9 rfl rfl (by decide) (by omega), hc,
      if_neg (by decide), if_neg (by decide), hf, e5]
    have e : (n : Int) + 5 + 4 = n + 9 := by omega
    simp [engineid_format, engineid_rest, SNMP_ENGINEID_FORMAT_IPV4, e]
    rfl
  · subst hl
    have hc := (engineid_conformance_eq_one _).2 hb
    rw [dissect_snmp_engineid_eq tvb n 21 n 21 rfl rfl (by decide) (by omega), hc,
      if_neg (by decide), if_neg (by decide), hf, e5]
    have e : (n : Int) + 5 + 16 = n + 21 := by omega
    simp [engineid_format, engineid_rest, SNMP_ENGINEID_FORMAT_IPV4,
      SNMP_ENGINEID_FORMAT_IPV6, e]
    rfl
  · subst hl
    have hc := (engineid_conformance_eq_one _).2 hb
    rw [dissect_snmp_engineid_eq tvb n 11 n 11 rfl rfl (by decide) (by omega), hc,
      if_neg (by decide), if_neg (by decide), hf, e5]
    have e : (n : Int) + 5 + 6 = n + 11 := by omega
    simp [engineid_format, engineid_rest, SNMP_ENGINEID_FORMAT_IPV4,
      SNMP_ENGINEID_FORMAT_IPV6, SNMP_ENGINEID_FORMAT_MACADDRESS, e]
    rfl

/-- Witness of C27 on the four example engine IDs. -/
theorem C27_conforming_consumed_witness :
    dissect_snmp_engineid exampleEngineLegacy 0 12
        = some { ret := 12,
                 items := [
                   .add_item .hf_snmp_engineid_conform 0 1,
                   .add_uint .hf_snmp_engineid_enterprise 0 4 9,
                   .add_text 4 8 "AgentID Trailer: 0x%s" [1, 2, 3, 4, 5, 6, 7, 8]] }
    ∧ dissect_snmp_engineid exampleEngineIPv4 0 9
        = some { ret := 9,
                 items := [
                   .add_item .hf_snmp_engineid_conform 0 1,
                   .add_uint .hf_snmp_engineid_enterprise 0 4 9,
                   .add_uint_format .hf_snmp_engineid_format 4 1 1
                     "Engine ID Format: %s (%d)" "IPv4 address",
                   .add_item .hf_snmp_engineid_ipv4 5 4] }
    ∧ (dissect_snmp_engineid exampleEngineIPv6 0 21).map EngineIdOut.ret = some 21
    ∧ (dissect_snmp_engineid exampleEngineMac 0 11).map EngineIdOut.ret = some 11 :=
  ⟨((C27_conforming_consumed exampleEngineLegacy 0 12 (by decide) (by decide)).1
      (by decide) rfl).trans (by decide),
   ((C27_conforming_consumed exampleEngineIPv4 0 9 (by decide) (by decide)).2.1
      (by decide) (by decide) rfl).trans (by decide),
   (congrArg (Option.map EngineIdOut.ret)
      ((C27_conforming_consumed exampleEngineIPv6 0 21 (by decide) (by decide)).2.2.1
        (by decide) (by decide) rfl)).trans (by decide),
   (congrArg (Option.map EngineIdOut.ret)
      ((C27_conforming_consumed exampleEngineMac 0 11 (by decide) (by decide)).2.2.2
        (by decide) (by decide) rfl)).trans (by decide)⟩

/-- C28: a legacy engine ID of 5 bytes at offset 0 (enterprise 9, then one byte): the
decoder reports the byte after the enterprise number as not conforming and returns 4,
not 5.  The same holds for every legacy engine ID in the buffer whose length is at
least 4 and not 12: the bytes after the enterprise number are reported and the
returned offset is `offset + 4`. -/
theorem C28_legacy_returns_after_enterprise :
    dissect_snmp_engineid exampleEngineLegacyShort 0 5
        = some { ret := 4,
                 items := [
                   .add_item .hf_snmp_engineid_conform 0 1,
                   .add_uint .hf_snmp_engineid_enterprise 0 4 9,
                   .add_text 4 1 "<Data not conforming to RFC1910>" []] }
    ∧ ∀ (tvb : Bytes) (offset len : Int), 0 ≤ offset → 4 ≤ len → len ≠ 12 →
        offset + len ≤ tvb.length → tvb.getD offset.toNat 0 < 0x80 →
        ∃ out, dissect_snmp_engineid tvb offset len = some out
          ∧ out.ret = offset + 4
          ∧ reportsData out "<Data not conforming to RFC1910>" (offset + 4) (len - 4) := by
  refine ⟨by decide, ?_⟩
  intro tvb offset len h0 h4 h12 hin hb
  obtain ⟨n, rfl⟩ := Int.eq_ofNat_of_zero_le h0
  obtain ⟨m, rfl⟩ := Int.eq_ofNat_of_zero_le (show 0 ≤ len by omega)
  simp only [Int.toNat_ofNat] at hb
  have hc := (engineid_conformance_eq_zero _).2 hb
  rw [dissect_snmp_engineid_eq tvb n m n m rfl rfl (by omega) (by omega), hc, if_pos rfl,
    if_neg (by omega)]
  exact ⟨_, rfl, rfl, by simp [reportsData]⟩

/-- C29: an RFC 3411 engine ID (byte 0 at least `0x80`) of at least 4 bytes that lies in
the buffer is decoded to the end: the decoder returns `offset + len`.  With
`r = len - 5` the payload length, the text on data that does not conform is logged
exactly over the `r` payload bytes and exactly when `0 < r` and the branch of the
format byte did not take the payload: IPv4 with `r ≠ 4`, IPv6 with `r ≠ 16`, MAC with
`r ≠ 6`, format 128 unless the enterprise is 2021 or 8072 and `r = 8`, any other
format (Text and Octets included) with `27 < r`.  Text and Octets with `r ≤ 27` log
their field over all `r` bytes. -/
theorem C29_rfc3411_consumes_all (tvb : Bytes) (offset len : Int) (h0 : 0 ≤ offset)
    (h4 : 4 ≤ len) (hin : offset + len ≤ tvb.length)
    (hconf : 0x80 ≤ tvb.getD offset.toNat 0) :
    ∃ out, dissect_snmp_engineid tvb offset len = some out
      ∧ out.ret = offset + len
      ∧ (∀ start length,
          reportsData out "<Data not conforming to RFC3411>" start length
            ↔ start = offset + 5 ∧ length = len - 5 ∧ 0 < len - 5
              ∧ (tvb.getD (offset.toNat + 4) 0 = 1 ∧ len - 5 ≠ 4
                ∨ tvb.getD (offset.toNat + 4) 0 = 2 ∧ len - 5 ≠ 16
                ∨ tvb.getD (offset.toNat + 4) 0 = 3 ∧ len - 5 ≠ 6
                ∨ tvb.getD (offset.toNat + 4) 0 = 128
                  ∧ ¬ ((engineid_enterprise 1 (beNat ((tvb.drop offset.toNat).take 4)) = 2021
                      ∨ engineid_enterprise 1 (beNat ((tvb.drop offset.toNat).take 4)) = 8072)
                    ∧ len - 5 = 8)
                ∨ (tvb.getD (offset.toNat + 4) 0 ≠ 1 ∧ tvb.getD (offset.toNat + 4) 0 ≠ 2
                    ∧ tvb.getD (offset.toNat + 4) 0 ≠ 3
                    ∧ tvb.getD (offset.toNat + 4) 0 ≠ 128) ∧ 27 < len - 5))
      ∧ (tvb.getD (offset.toNat + 4) 0 = 4 → 5 ≤ len → len - 5 ≤ 27 →
          .add_item .hf_snmp_engineid_text (offset + 5) (len - 5) ∈ out.items)
      ∧ (tvb.getD (offset.toNat + 4) 0 = 5 → 5 ≤ len → len - 5 ≤ 27 →
          .add_item .hf_snmp_engineid_data (offset + 5) (len - 5) ∈ out.items) := by
  obtain ⟨n, rfl⟩ := Int.eq_ofNat_of_zero_le h0
  obtain ⟨m, rfl⟩ := Int.eq_ofNat_of_zero_le (show 0 ≤ len by omega)
  simp only [Int.toNat_ofNat] at hconf ⊢
  have hc := (engineid_conformance_eq_one _).2 hconf
  have e5 : (n : Int) + 4 + 1 = n + 5 := by omega
  have e6 : (m : Int) - 4 - 1 = m - 5 := by omega
  rw [dissect_snmp_engineid_eq tvb n m n m rfl rfl (by omega) (by omega), hc,
    if_neg (by decide), e5, e6]
  by_cases h1 : (m : Int) - 4 < 1
  · rw [if_pos h1]
    refine ⟨_, rfl, ?_, fun start length => ?_, fun _ h5 _ => ?_, fun _ h5 _ => ?_⟩
    · show (n : Int) + 4 = n + m
      omega
    · constructor
      · intro h
        simp [reportsData] at h
      · intro h
        omega
    · omega
    · omega
  · rw [if_neg h1]
    obtain ⟨out, ho, hret, hmem, ht, hd⟩ := engineid_format_spec tvb
      ([.add_item .hf_snmp_engineid_conform n 1]
        ++ [.add_uint .hf_snmp_engineid_enterprise n 4
          (engineid_enterprise 1 (beNat ((tvb.drop n).take 4)))]
        ++ [.add_uint_format .hf_snmp_engineid_format ((n : Int) + 4) 1
          (tvb.getD (n + 4) 0) "Engine ID Format: %s (%d)"
          (val_to_str (tvb.getD (n + 4) 0) snmp_engineid_format_vals
            "Reserved/Enterprise-specific")])
      (engineid_enterprise 1 (beNat ((tvb.drop n).take 4))) (tvb.getD (n + 4) 0)
      ((n : Int) + 5) ((m : Int) - 5) (by omega)
      (by
        intro h8
        unfold tvb_get_letohl
        rw [tvb_bytes_to_str_eq tvb _ 4 (n + 9) 4 (by omega) rfl (by omega)]
        exact ⟨_, rfl⟩)
      (by
        intro start length
        simp)
    refine ⟨out, ho, by omega, hmem, fun hf _ h27 => ht hf h27, fun hf _ h27 => hd hf h27⟩

/-- Witness of C29 on a Net-SNMP engine ID cut to 12 bytes: format 128 with 7 payload
bytes, which are reported, and the decoder returns 12. -/
theorem C29_rfc3411_consumes_all_witness :
    (dissect_snmp_engineid exampleEngineNetSnmp 0 12).map EngineIdOut.ret = some 12
    ∧ EngineItem.add_text 5 7 "<Data not conforming to RFC3411>" []
        ∈ ((dissect_snmp_engineid exampleEngineNetSnmp 0 12).map EngineIdOut.items).getD [] := by
  obtain ⟨out, ho, hret, hmem, _, _⟩ :=
    C29_rfc3411_consumes_all exampleEngineNetSnmp 0 12 (by decide) (by decide) (by decide)
      (by decide)
  rw [ho]
  exact ⟨congrArg some hret, (hmem 5 7).2 (by decide)⟩

/-- C30: for an engine ID of at least 4 bytes that lies in a buffer of bytes, with
`byte0` its first byte and `word` the big-endian value of its first four bytes: the
conformance value is 1 exactly when `byte0 ≥ 0x80`, and is 0 otherwise; when it is
not 0 then `0x80000000 ≤ word`, so the subtraction does not wrap; the enterprise
number that the decoder computes is `word &&& 0x7fffffff`, which is below `2 ^ 31`; and the
decoder returns a log that starts with the conformance item and this enterprise
number. -/
theorem C30_conformance_and_enterprise (tvb : Bytes) (offset len : Int) (h0 : 0 ≤ offset)
    (h4 : 4 ≤ len) (hin : offset + len ≤ tvb.length) (hbytes : ∀ b ∈ tvb, b < 256) :
    (engineid_conformance (tvb.getD offset.toNat 0) = 1 ↔ 0x80 ≤ tvb.getD offset.toNat 0)
    ∧ (engineid_conformance (tvb.getD offset.toNat 0) = 0 ↔ tvb.getD offset.toNat 0 < 0x80)
    ∧ (engineid_conformance (tvb.getD offset.toNat 0) ≠ 0 →
        (0x80000000 : Int) ≤ beNat ((tvb.drop offset.toNat).take 4))
    ∧ engineid_enterprise (engineid_conformance (tvb.getD offset.toNat 0))
          (beNat ((tvb.drop offset.toNat).take 4))
        = beNat ((tvb.drop offset.toNat).take 4) &&& 0x7fffffff
    ∧ beNat ((tvb.drop offset.toNat).take 4) &&& 0x7fffffff < 2 ^ 31
    ∧ ∃ out, dissect_snmp_engineid tvb offset len = some out
        ∧ out.items.take 2
          = [.add_item .hf_snmp_engineid_conform offset 1,
             .add_uint .hf_snmp_engineid_enterprise offset 4
               (beNat ((tvb.drop offset.toNat).take 4) &&& 0x7fffffff)] := by
  obtain ⟨n, rfl⟩ := Int.eq_ofNat_of_zero_le h0
  obtain ⟨m, rfl⟩ := Int.eq_ofNat_of_zero_le (show 0 ≤ len by omega)
  simp only [Int.toNat_ofNat]
  have hw := take_four tvb n (by omega)
  obtain ⟨hu, he, hlt⟩ := engineid_enterprise_eq (tvb.getD n 0) (tvb.getD (n + 1) 0)
    (tvb.getD (n + 2) 0) (tvb.getD (n + 3) 0) (getD_lt tvb hbytes _) (getD_lt tvb hbytes _)
    (getD_lt tvb hbytes _) (getD_lt tvb hbytes _)
  rw [← hw] at hu he hlt
  refine ⟨engineid_conformance_eq_one _, engineid_conformance_eq_zero _, hu, he, hlt, ?_⟩
  rw [dissect_snmp_engineid_eq tvb n m n m rfl rfl (by omega) (by omega), he]
  split_ifs with c1 c2 c3
  · refine ⟨_, rfl, ?_⟩
    rw [engineid_rest_items]
    rfl
  · exact ⟨_, rfl, rfl⟩
  · exact ⟨_, rfl, rfl⟩
  · obtain ⟨out, ho, _⟩ := engineid_format_spec tvb
      ([.add_item .hf_snmp_engineid_conform n 1]
        ++ [.add_uint .hf_snmp_engineid_enterprise n 4
          (beNat ((tvb.drop n).take 4) &&& 0x7fffffff)]
        ++ [.add_uint_format .hf_snmp_engineid_format ((n : Int) + 4) 1
          (tvb.getD (n + 4) 0) "Engine ID Format: %s (%d)"
          (val_to_str (tvb.getD (n + 4) 0) snmp_engineid_format_vals
            "Reserved/Enterprise-specific")])
      (beNat ((tvb.drop n).take 4) &&& 0x7fffffff) (tvb.getD (n + 4) 0)
      ((n : Int) + 4 + 1) ((m : Int) - 4 - 1) (by omega)
      (by
        intro h8
        unfold tvb_get_letohl
        rw [tvb_bytes_to_str_eq tvb _ 4 (n + 9) 4 (by omega) rfl (by omega)]
        exact ⟨_, rfl⟩)
      (by
        intro start length
        simp)
    obtain ⟨extra, hx⟩ := engineid_format_extends _ _ _ _ _ _ _ ho
    exact ⟨out, ho, by rw [hx]; rfl⟩

/-- Witness of C30 on the IPv4 example: byte 0 is `0x80`, the word is `0x80000009`, the
enterprise number is 9. -/
theorem C30_conformance_and_enterprise_witness :
    engineid_conformance 0x80 = 1
    ∧ engineid_enterprise (engineid_conformance 0x80) (beNat [0x80, 0, 0, 9]) = 9 :=
  ⟨(C30_conformance_and_enterprise exampleEngineIPv4 0 9 (by decide) (by decide) (by decide)
      (by decide)).1.2 (by decide),
   (C30_conformance_and_enterprise exampleEngineIPv4 0 9 (by decide) (by decide) (by decide)
      (by decide)).2.2.2.1.trans (by decide)⟩

/-- C31: with `len < 4`, zero and negative values included, `dissect_snmp_engineid`
returns the offset it was given and logs nothing, whatever the buffer and the offset
are: it reads no byte, so an empty buffer or an offset outside it makes no
difference. -/
theorem C31_short_engineid (tvb : Bytes) (offset len : Int) (h : len < 4) :
    dissect_snmp_engineid tvb offset len = some { ret := offset, items := [] } := by
  unfold dissect_snmp_engineid
  simp only [if_pos h]

/-- Witness of C31: length 3 on the IPv4 example, and length -1 at offset -5 of an
empty buffer. -/
theorem C31_short_engineid_witness :
    dissect_snmp_engineid exampleEngineIPv4 0 3 = some { ret := 0, items := [] }
    ∧ dissect_snmp_engineid [] (-5) (-1) = some { ret := -5, items := [] } :=
  ⟨C31_short_engineid exampleEngineIPv4 0 3 (by decide),
   C31_short_engineid [] (-5) (-1) (by decide)⟩

/-- C38: an RFC 3411 engine ID with format byte 128 that lies in the buffer.  When the
enterprise is 2021 or 8072 and exactly 8 payload bytes are left, the decoder logs 4
bytes of data and the creation time, read as the little-endian value of payload bytes
4 to 7, and returns `offset + 13`.  In every other case it logs no data item and no
time: after the format item (and the vendor name when the enterprise is 2021 or
8072) the log holds only the text on data not conforming to RFC 3411 over all
`len - 5` payload bytes, if there are any, and the decoder returns `offset + len`. -/
theorem C38_format_128 (tvb : Bytes) (offset len : Int) (h0 : 0 ≤ offset) (h5 : 5 ≤ len)
    (hin : offset + len ≤ tvb.length) (hconf : 0x80 ≤ tvb.getD offset.toNat 0)
    (hfmt : tvb.getD (offset.toNat + 4) 0 = 128) :
    (((engineid_enterprise 1 (beNat ((tvb.drop offset.toNat).take 4)) = 2021
        ∨ engineid_enterprise 1 (beNat ((tvb.drop offset.toNat).take 4)) = 8072)
      ∧ len - 5 = 8) →
      dissect_snmp_engineid tvb offset len
        = some { ret := offset + 13,
                 items := [
                   .add_item .hf_snmp_engineid_conform offset 1,
                   .add_uint .hf_snmp_engineid_enterprise offset 4
                     (engineid_enterprise 1 (beNat ((tvb.drop offset.toNat).take 4))),
                   .add_uint_format .hf_snmp_engineid_format (offset + 4) 1 128
                     "Engine ID Format: %s (%d)" "Reserved/Enterprise-specific",
                   .append_text
                     (if engineid_enterprise 1 (beNat ((tvb.drop offset.toNat).take 4)) = 2021
                      then ": UCD-SNMP Random" else ": Net-SNMP Random"),
                   .add_item .hf_snmp_engineid_data (offset + 5) 4,
                   .add_time_format .hf_snmp_engineid_time (offset + 9) 4
                     (leNat ((tvb.drop (offset.toNat + 9)).take 4))
                     "Engine ID Data: Creation Time: %s"] })
    ∧ (¬ ((engineid_enterprise 1 (beNat ((tvb.drop offset.toNat).take 4)) = 2021
          ∨ engineid_enterprise 1 (beNat ((tvb.drop offset.toNat).take 4)) = 8072)
        ∧ len - 5 = 8) →
      dissect_snmp_engineid tvb offset len
        = some { ret := offset + len,
                 items := [
                   .add_item .hf_snmp_engineid_conform offset 1,
                   .add_uint .hf_snmp_engineid_enterprise offset 4
                     (engineid_enterprise 1 (beNat ((tvb.drop offset.toNat).take 4))),
                   .add_uint_format .hf_snmp_engineid_format (offset + 4) 1 128
                     "Engine ID Format: %s (%d)" "Reserved/Enterprise-specific"]
                   ++ (if engineid_enterprise 1 (beNat ((tvb.drop offset.toNat).take 4)) = 2021
                         ∨ engineid_enterprise 1 (beNat ((tvb.drop offset.toNat).take 4)) = 8072
                       then [.append_text
                         (if engineid_enterprise 1 (beNat ((tvb.drop offset.toNat).take 4))
                             = 2021
                          then ": UCD-SNMP Random" else ": Net-SNMP Random")]
                       else [])
                   ++ (if 0 < len - 5 then
                         [.add_text (offset + 5) (len - 5)
                           "<Data not conforming to RFC3411>" []]
                       else []) }) := by
  obtain ⟨n, rfl⟩ := Int.eq_ofNat_of_zero_le h0
  obtain ⟨m, rfl⟩ := Int.eq_ofNat_of_zero_le (show 0 ≤ len by omega)
  simp only [Int.toNat_ofNat] at hconf hfmt ⊢
  have hc := (engineid_conformance_eq_one _).2 hconf
  have e5 : (n : Int) + 4 + 1 = n + 5 := by omega
  have e6 : (m : Int) - 4 - 1 = m - 5 := by omega
  rw [dissect_snmp_engineid_eq tvb n m n m rfl rfl (by omega) (by omega), hc,
    if_neg (by decide), if_neg (by omega), hfmt, e5, e6]
  obtain ⟨eid, heid⟩ : ∃ eid, engineid_enterprise 1 (beNat ((tvb.drop n).take 4)) = eid :=
    ⟨_, rfl⟩
  simp only [heid]
  unfold engineid_format
  simp only [SNMP_ENGINEID_FORMAT_IPV4, SNMP_ENGINEID_FORMAT_IPV6,
    SNMP_ENGINEID_FORMAT_MACADDRESS, SNMP_ENGINEID_FORMAT_TEXT,
    show ((128 : Nat) = 1) = False from by decide, show ((128 : Nat) = 2) = False from by decide,
    show ((128 : Nat) = 3) = False from by decide, show ((128 : Nat) = 4) = False from by decide,
    if_false, if_true]
  refine ⟨fun h => ?_, fun h => ?_⟩
  · have hl : tvb_get_letohl tvb ((n : Int) + 5 + 4) = some (leNat ((tvb.drop (n + 9)).take 4)) := by
      unfold tvb_get_letohl
      rw [tvb_bytes_to_str_eq tvb _ 4 (n + 9) 4 (by omega) rfl (by omega)]
      rfl
    have e9 : (n : Int) + 5 + 4 = n + 9 := by omega
    have e13 : (n : Int) + 5 + 8 = n + 13 := by omega
    rw [if_pos h.1, if_pos h.2, hl, e9, e13]
    simp [engineid_rest, val_to_str, snmp_engineid_format_vals, SNMP_ENGINEID_FORMAT_IPV4,
      SNMP_ENGINEID_FORMAT_IPV6, SNMP_ENGINEID_FORMAT_MACADDRESS, SNMP_ENGINEID_FORMAT_TEXT,
      SNMP_ENGINEID_FORMAT_OCTETS]
  · have hv : val_to_str 128 snmp_engineid_format_vals "Reserved/Enterprise-specific"
        = "Reserved/Enterprise-specific" := by decide
    rw [hv]
    by_cases he : eid = 2021 ∨ eid = 8072
    · have h8 : ¬ ((m : Int) - 5 = 8) := fun h8 => h ⟨he, h8⟩
      rw [if_pos he, if_neg h8, if_pos he]
      unfold engineid_rest
      by_cases hr : (m : Int) - 5 > 0
      · rw [if_pos hr, if_pos hr]
        have e : (n : Int) + 5 + (m - 5) = n + m := by omega
        rw [e]
        simp
      · rw [if_neg hr, if_neg hr]
        have e : (n : Int) + 5 = n + m := by omega
        rw [e]
        simp
    · rw [if_neg he, if_neg he]
      unfold engineid_rest
      by_cases hr : (m : Int) - 5 > 0
      · rw [if_pos hr, if_pos hr]
        have e : (n : Int) + 5 + (m - 5) = n + m := by omega
        rw [e]
        simp
      · rw [if_neg hr, if_neg hr]
        have e : (n : Int) + 5 = n + m := by omega
        rw [e]
        simp

/-- Witness of C38 on the Net-SNMP example: with all 13 bytes the time is decoded; cut
to 12 bytes the 7 payload bytes are reported and no data item is logged. -/
theorem C38_format_128_witness :
    dissect_snmp_engineid exampleEngineNetSnmp 0 13
        = some { ret := 13,
                 items := [
                   .add_item .hf_snmp_engineid_conform 0 1,
                   .add_uint .hf_snmp_engineid_enterprise 0 4 8072,
                   .add_uint_format .hf_snmp_engineid_format 4 1 128
                     "Engine ID Format: %s (%d)" "Reserved/Enterprise-specific",
                   .append_text ": Net-SNMP Random",
                   .add_item .hf_snmp_engineid_data 5 4,
                   .add_time_format .hf_snmp_engineid_time 9 4 16777216
                     "Engine ID Data: Creation Time: %s"] }
    ∧ dissect_snmp_engineid exampleEngineNetSnmp 0 12
        = some { ret := 12,
                 items := [
                   .add_item .hf_snmp_engineid_conform 0 1,
                   .add_uint .hf_snmp_engineid_enterprise 0 4 8072,
                   .add_uint_format .hf_snmp_engineid_format 4 1 128
                     "Engine ID Format: %s (%d)" "Reserved/Enterprise-specific",
                   .append_text ": Net-SNMP Random",
                   .add_text 5 7 "<Data not conforming to RFC3411>" []] } :=
  ⟨((C38_format_128 exampleEngineNetSnmp 0 13 (by decide) (by decide) (by decide)
      (by decide) (by decide)).1 (by decide)).trans (by decide),
   ((C38_format_128 exampleEngineNetSnmp 0 12 (by decide) (by decide) (by decide)
      (by decide) (by decide)).2 (by decide)).trans (by decide)⟩

/-- C37: on a VarBind whose headers pass, the value is checked against the value type
of the registry when the registry reports one sub-identifier left, the class of the
value is not the context class and its tag is not 5: the decoder then ends in
`expected_different`, in `expected_other_size`, or goes on with the registry item.
When the tag is 5 (whatever the class), when the number of sub-identifiers left is
not 1 (zero, two or more), or when the class is the context class, the decoder goes
straight to the generic dispatch with the plain `VarBind` text and the bounds
`0, 0`; the value type of the registry does not occur in the result. -/
theorem C37_descriptor_trigger (B : Epan) (tvb : Bytes) (offset : Int)
    (hok : headersOk B tvb offset) :
    (((oidLookup B tvb offset).oid_left = 1
        ∧ (valueId B tvb offset).ber_class ≠ BER_CLASS_CON
        ∧ (valueId B tvb offset).tag ≠ 5) →
      dissect_snmp_VarBind B tvb offset
        = if ((oidLookup B tvb offset).oid_info.value_type.ber_class ≠ BER_CLASS_ANY
                ∧ (valueId B tvb offset).ber_class
                    ≠ (oidLookup B tvb offset).oid_info.value_type.ber_class)
              ∨ ((oidLookup B tvb offset).oid_info.value_type.ber_tag ≠ BER_TAG_ANY
                ∧ (valueId B tvb offset).tag
                    ≠ (oidLookup B tvb offset).oid_info.value_type.ber_tag) then
            expected_different B tvb [] (valueStart B tvb offset)
              (oidLookup B tvb offset).oid_info (valueId B tvb offset).ber_class
              (valueId B tvb offset).tag
          else if toInt32 (valueLn B tvb offset).length
                    < (oidLookup B tvb offset).oid_info.value_type.min_len
                ∨ toInt32 (valueLn B tvb offset).length
                    > (if (oidLookup B tvb offset).oid_info.value_type.max_len = -1
                       then 0xffffff
                       else (oidLookup B tvb offset).oid_info.value_type.max_len) then
            expected_other_size B tvb [] (valueStart B tvb offset)
              (valueLn B tvb offset).length
              (oidLookup B tvb offset).oid_info.value_type.min_len
              (if (oidLookup B tvb offset).oid_info.value_type.max_len = -1 then 0xffffff
               else (oidLookup B tvb offset).oid_info.value_type.max_len)
          else
            dissect_value B tvb
              [.item (.registered (oidLookup B tvb offset).oid_info.value_hfid)
                 (valueLn B tvb offset).offset (valueLn B tvb offset).length,
               .item .hf_snmp_objectname (nameLn B tvb offset).offset
                 (nameLn B tvb offset).length]
              offset (seqLen B tvb offset) (valueStart B tvb offset)
              (valueLn B tvb offset).offset (valueLn B tvb offset).length
              (valueId B tvb offset).ber_class (valueId B tvb offset).tag
              (oidLookup B tvb offset).oid_info.value_type.min_len
              (if (oidLookup B tvb offset).oid_info.value_type.max_len = -1 then 0xffffff
               else (oidLookup B tvb offset).oid_info.value_type.max_len)
              (oidLookup B tvb offset).oid_left)
    ∧ (((valueId B tvb offset).tag = 5 ∨ (oidLookup B tvb offset).oid_left ≠ 1
        ∨ (valueId B tvb offset).ber_class = BER_CLASS_CON) →
      dissect_snmp_VarBind B tvb offset
        = dissect_value B tvb
            [.text offset (seqLen B tvb offset) "VarBind" [],
             .item .hf_snmp_objectname (nameLn B tvb offset).offset
               (nameLn B tvb offset).length]
            offset (seqLen B tvb offset) (valueStart B tvb offset)
            (valueLn B tvb offset).offset (valueLn B tvb offset).length
            (valueId B tvb offset).ber_class (valueId B tvb offset).tag 0 0
            (oidLookup B tvb offset).oid_left) := by
  constructor
  · intro h
    exact dissect_snmp_VarBind_validated B tvb offset hok h
  · intro h
    apply dissect_snmp_VarBind_unvalidated B tvb offset hok
    rintro ⟨h1, h2, h3⟩
    rcases h with h | h | h
    · exact h3 h
    · exact h h1
    · exact h2 h

/-- Witness of C37.  The name of `exampleVarBindNsap` is resolved with one
sub-identifier left as a universal INTEGER of 1 to 4 bytes; its value has the
application class and tag 5, is not checked and is added as NsapAddress.  The name
of `exampleVarBindInt5` has two sub-identifiers left; its five-byte INTEGER is not
checked either. -/
theorem C37_descriptor_trigger_witness :
    (oidLookup exampleEpan exampleVarBindNsap 0).oid_left = 1
    ∧ (oidLookup exampleEpan exampleVarBindNsap 0).oid_info.value_type
        = { ber_class := BER_CLASS_UNI, ber_tag := BER_UNI_TAG_INTEGER,
            min_len := 1, max_len := 4 }
    ∧ (valueId exampleEpan exampleVarBindNsap 0).ber_class = BER_CLASS_APP
    ∧ dissect_snmp_VarBind exampleEpan exampleVarBindNsap 0
        = { ret := 16,
            items := [.text 0 16 "VarBind" [], .item .hf_snmp_objectname 4 8,
                      .item .hf_snmp_nsap_value 14 2] }
    ∧ (oidLookup exampleEpan exampleVarBindInt5 0).oid_left = 2
    ∧ dissect_snmp_VarBind exampleEpan exampleVarBindInt5 0
        = { ret := 13,
            items := [.text 0 13 "VarBind" [], .item .hf_snmp_objectname 4 2,
                      .item .hf_snmp_integer32_value 8 5, .set_text] } :=
  ⟨by decide, by decide, by decide,
   ((C37_descriptor_trigger exampleEpan exampleVarBindNsap 0 (by decide)).2
      (Or.inl (by decide))).trans (by decide),
   by decide,
   ((C37_descriptor_trigger exampleEpan exampleVarBindInt5 0 (by decide)).2
      (Or.inr (Or.inl (by decide)))).trans (by decide)⟩

/-! ## The callback of the user table -/

/-- Cutting the separator off a string that ends with it. -/
theorem g_string_truncate_append (s : String) :
    g_string_truncate (s ++ ", ") ((s ++ ", ").length - 2) = s := by
  unfold g_string_truncate
  apply String.ext
  show List.take ((s ++ ", ").data.length - 2) (s ++ ", ").data = s.data
  rw [String.data_append]
  have h : (", " : String).data = [',', ' '] := rfl
  rw [h, List.length_append]
  show List.take (s.data.length + 2 - 2) (s.data ++ [',', ' ']) = s.data
  rw [Nat.add_sub_cancel, List.take_left]

/-- The text of `%d` for a length below 8. -/
theorem printf_d_small (n : Nat) (h : n < 8) : printf_d n = toString n := by
  rw [printf_d, if_pos (by omega)]

/-- The end of the callback on a string that ends with the separator. -/
theorem update_cb_result (ue : snmp_ue_assoc_t) (es S : String) (h : es = S ++ ", ") :
    (if es.length ≠ 0 then (ue, some (g_string_truncate es (es.length - 2))) else (ue, none))
      = (ue, some S) := by
  subst h
  have hl : (S ++ ", ").length ≠ 0 := by
    rw [String.length_append]
    have : (", " : String).length = 2 := rfl
    omega
  rw [if_pos hl, g_string_truncate_append]

/-- The callback in terms of the list of failing checks. -/
theorem snmp_users_update_cb_eq (ue : snmp_ue_assoc_t) :
    snmp_users_update_cb ue
      = (ue, if spec_failing_checks ue = [] then none
             else some (String.intercalate ", " (spec_failing_checks ue))) := by
  have hn : (ue.user.userName.length = 0) = (ue.user.userName = []) :=
    propext List.length_eq_zero
  unfold snmp_users_update_cb spec_failing_checks
  simp only [hn]
  by_cases hu : ue.user.userName = []
  · have hu2 := eq_true hu
    by_cases ha : ue.user.authPassword.length < 8
    · have ha2 := eq_true ha
      by_cases hp : ue.user.privPassword.length < 8
      · have hp2 := eq_true hp
        simp only [hu2, ha2, hp2, if_true, if_false, List.append_nil, List.nil_append,
          List.singleton_append, List.cons_append, String.empty_append, reduceCtorEq]
        rw [printf_d_small _ ha, printf_d_small _ hp]
        apply update_cb_result
        apply String.ext
        simp only [String.intercalate, String.intercalate.go, String.data_append,
          List.append_assoc]
        rfl
      · have hp2 := eq_false hp
        simp only [hu2, ha2, hp2, if_true, if_false, List.append_nil, List.nil_append,
          List.singleton_append, List.cons_append, String.empty_append, reduceCtorEq]
        rw [printf_d_small _ ha]
        apply update_cb_result
        apply String.ext
        simp only [String.intercalate, String.intercalate.go, String.data_append,
          List.append_assoc]
        rfl
    · have ha2 := eq_false ha
      by_cases hp : ue.user.privPassword.length < 8
      · have hp2 := eq_true hp
        simp only [hu2, ha2, hp2, if_true, if_false, List.append_nil, List.nil_append,
          List.singleton_append, List.cons_append, String.empty_append, reduceCtorEq]
        rw [printf_d_small _ hp]
        apply update_cb_result
        apply String.ext
        simp only [String.intercalate, String.intercalate.go, String.data_append,
          List.append_assoc]
        rfl
      · have hp2 := eq_false hp
        simp only [hu2, ha2, hp2, if_true, if_false, List.append_nil, List.nil_append,
          List.singleton_append, List.cons_append, String.empty_append, reduceCtorEq]
        apply update_cb_result
        apply String.ext
        simp only [String.intercalate, String.intercalate.go, String.data_append,
          List.append_assoc]
        rfl
  · have hu2 := eq_false hu
    by_cases ha : ue.user.authPassword.length < 8
    · have ha2 := eq_true ha
      by_cases hp : ue.user.privPassword.length < 8
      · have hp2 := eq_true hp
        simp only [hu2, ha2, hp2, if_true, if_false, List.append_nil, List.nil_append,
          List.singleton_append, List.cons_append, String.empty_append, reduceCtorEq]
        rw [printf_d_small _ ha, printf_d_small _ hp]
        apply update_cb_result
        apply String.ext
        simp only [String.intercalate, String.intercalate.go, String.data_append,
          List.append_assoc]
        rfl
      · have hp2 := eq_false hp
        simp only [hu2, ha2, hp2, if_true, if_false, List.append_nil, List.nil_append,
          List.singleton_append, List.cons_append, String.empty_append, reduceCtorEq]
        rw [printf_d_small _ ha]
        apply update_cb_result
        apply String.ext
        simp only [String.intercalate, String.intercalate.go, String.data_append,
          List.append_assoc]
        rfl
    · have ha2 := eq_false ha
      by_cases hp : ue.user.privPassword.length < 8
      · have hp2 := eq_true hp
        simp only [hu2, ha2, hp2, if_true, if_false, List.append_nil, List.nil_append,
          List.singleton_append, List.cons_append, String.empty_append, reduceCtorEq]
        rw [printf_d_small _ hp]
        apply update_cb_result
        apply String.ext
        simp only [String.intercalate, String.intercalate.go, String.data_append,
          List.append_assoc]
        rfl
      · have hp2 := eq_false hp
        simp only [hu2, ha2, hp2, if_true, if_false, List.append_nil, List.nil_append,
          List.singleton_append, List.cons_append, String.empty_append, reduceCtorEq]
        rfl

/-- No check of the callback fails exactly when the user name is not empty and both
passwords have at least 8 bytes. -/
theorem spec_failing_checks_nil (ue : snmp_ue_assoc_t) :
    spec_failing_checks ue = []
      ↔ ue.user.userName ≠ [] ∧ 8 ≤ ue.user.authPassword.length
        ∧ 8 ≤ ue.user.privPassword.length := by
  unfold spec_failing_checks
  by_cases hu : ue.user.userName = []
  · simp [hu]
  · by_cases ha : ue.user.authPassword.length < 8
    · simp [hu, ha]
    · by_cases hp : ue.user.privPassword.length < 8
      · simp [hu, ha, hp]
      · simp [hu, ha, hp]
        omega

/-- C32: `snmp_users_update_cb` leaves the row as it is.  It stores no error exactly
when the user name is not empty and both passwords have at least 8 bytes.  Otherwise
the error is the list of the failing checks, `no userName`, `short authPassword (n)`,
`short privPassword (n)` with `n` the length, in this order and joined by `", "`,
without a separator at the end.  A row with an empty name, a three-byte
authentication password and an empty privacy password is evaluated. -/
theorem C32_update_cb_advisory (ue : snmp_ue_assoc_t) :
    (snmp_users_update_cb ue).1 = ue
    ∧ ((snmp_users_update_cb ue).2 = none
        ↔ ue.user.userName ≠ [] ∧ 8 ≤ ue.user.authPassword.length
          ∧ 8 ≤ ue.user.privPassword.length)
    ∧ (spec_failing_checks ue ≠ [] →
        (snmp_users_update_cb ue).2
          = some (String.intercalate ", " (spec_failing_checks ue)))
    ∧ spec_failing_checks ue
        = (if ue.user.userName = [] then ["no userName"] else [])
          ++ (if ue.user.authPassword.length < 8 then
                ["short authPassword (" ++ toString ue.user.authPassword.length ++ ")"]
              else [])
          ++ (if ue.user.privPassword.length < 8 then
                ["short privPassword (" ++ toString ue.user.privPassword.length ++ ")"]
              else [])
    ∧ (snmp_users_update_cb exampleRowShort).2
        = some "no userName, short authPassword (3), short privPassword (0)"
    ∧ (snmp_users_update_cb exampleTemplate).2 = none := by
  rw [snmp_users_update_cb_eq]
  refine ⟨rfl, ?_, ?_, rfl, by decide, by decide⟩
  · rw [← spec_failing_checks_nil]
    by_cases h : spec_failing_checks ue = []
    · simp [h]
    · simp [h]
  · intro h
    simp [h]

/-! ## Password to key without its preconditions -/

/-- With an empty password the first read of the fill loop divides by zero. -/
theorem fillBuf_nil (n cp : Nat) (buf : Bytes) (idx : Nat) :
    fillBuf [] (n + 1) cp buf idx = none := rfl

/-- With an empty password the loop of the first stage faults in its first round. -/
theorem keyLoop_nil (H : HashLib) (MD : H.Ctx) (buf : Bytes) (idx : Nat) :
    keyLoop H [] MD buf idx 0 = none := by
  rw [keyLoop, if_pos (by decide), fillBuf_nil 63 0 buf idx]

/-- The MD5 function on an empty password. -/
theorem password_to_key_md5_nil (H : HashLib) (engineID key : Bytes) :
    snmp_usm_password_to_key_md5 H [] engineID key = none := by
  unfold snmp_usm_password_to_key_md5
  simp only [keyLoop_nil, Option.bind_eq_bind, Option.none_bind]

/-- The SHA1 function on an empty password. -/
theorem password_to_key_sha1_nil (H : HashLib) (engineID key : Bytes) :
    snmp_usm_password_to_key_sha1 H [] engineID key = none := by
  unfold snmp_usm_password_to_key_sha1
  simp only [keyLoop_nil, Option.bind_eq_bind, Option.none_bind]

/-- The `pass2key` of either model on an empty password. -/
theorem pass2key_nil (L : Crypt) (m : AuthModelRef) (engineID key : Bytes) :
    (m.deref L).pass2key [] engineID key = none := by
  cases m
  · exact password_to_key_md5_nil L.md5 engineID key
  · exact password_to_key_sha1_nil L.sha1 engineID key

/-- The function `set_ue_keys` on an association with an empty password. -/
theorem set_ue_keys_empty_password (L : Crypt) (n : snmp_ue_assoc_t)
    (h : n.user.authPassword = [] ∨ n.user.privPassword = []) : set_ue_keys L n = none := by
  unfold set_ue_keys
  rcases h with h | h
  · simp only [h, pass2key_nil, Option.bind_eq_bind, Option.none_bind]
  · simp only [h, pass2key_nil, Option.bind_eq_bind, Option.none_bind, Option.bind_none]

/-- A pair in relation for every element of the left list. -/
theorem forall₂_mem_left {α β : Type} (R : α → β → Prop) :
    ∀ (l : List α) (ks : List β), List.Forall₂ R l ks → ∀ u ∈ l, ∃ k ∈ ks, R u k := by
  intro l ks h
  induction h with
  | nil =>
    intro u hu
    cases hu
  | cons hr _ ih =>
    intro u hu
    rcases List.mem_cons.mp hu with rfl | hu
    · exact ⟨_, List.mem_cons_self _ _, hr⟩
    · obtain ⟨k, hk, hR⟩ := ih u hu
      exact ⟨k, List.mem_cons_of_mem _ hk, hR⟩

/-- The function `renew_ue_cache` faults when `set_ue_keys` faults on a configured
association that has an engine ID. -/
theorem renew_ue_cache_fault (L : Crypt) (ueas : List snmp_ue_assoc_t) (g : UeCache)
    (u : snmp_ue_assoc_t) (hu : u ∈ ueas) (he : u.engine ≠ [])
    (hk : set_ue_keys L u = none) : renew_ue_cache L ueas g = none := by
  rw [Option.eq_none_iff_forall_not_mem]
  intro g2 hg2
  obtain ⟨ks, hks, _⟩ := (renew_ue_cache_iff L ueas g g2).mp hg2
  have hmem : u ∈ ueas.filter fun u => decide (u.engine.length ≠ 0) := by
    rw [List.mem_filter]
    refine ⟨hu, decide_eq_true ?_⟩
    exact fun h0 => he (List.length_eq_zero.mp h0)
  obtain ⟨k, _, hR⟩ := forall₂_mem_left _ _ _ hks u hmem
  rw [hk] at hR
  cases hR

/-- The function `get_user_assoc` faults when `set_ue_keys` faults on the template it
localizes. -/
theorem get_user_assoc_fault (L : Crypt) (g : UeCache) (E U : Bytes) (a : snmp_ue_assoc_t)
    (hno : g.localized_ues.find? (fun x => decide (x.user.userName = U ∧ x.engine = E)) = none)
    (hfirst : g.unlocalized_ues.find? (fun x => decide (x.user.userName = U)) = some a)
    (hk : set_ue_keys L { a with engine := E } = none) :
    get_user_assoc L g (some E) (some U) = none := by
  rw [get_user_assoc_eq, hno]
  simp only [hfirst, hk]

/-- C33: password to key faults on an empty password (the index `i mod passwordlen`
divides by zero), for both functions, and for a non-empty password every read index
is below `passwordlen` and the loop of the first stage completes.  The cache does not
check for this: `set_ue_keys` faults on every association with an empty
authentication or privacy password, so `renew_ue_cache` faults when a configured
association with an engine ID has one, and `get_user_assoc` faults when the template
it localizes has one.  The callback of the user table only reports the short password
and leaves the row as it is. -/
theorem C33_empty_password_reaches_derivation :
    (∀ (H : HashLib) (engineID key : Bytes),
      snmp_usm_password_to_key_md5 H [] engineID key = none
      ∧ snmp_usm_password_to_key_sha1 H [] engineID key = none)
    ∧ (∀ (H : HashLib) (password : Bytes), password ≠ [] →
        (∀ i, i % password.length < password.length)
        ∧ (∃ r, keyLoop H password H.init (List.replicate 64 0) 0 0 = some r)
        ∧ (∃ r, keyLoop H password H.init (List.replicate 72 0) 0 0 = some r))
    ∧ (∀ (L : Crypt) (n : snmp_ue_assoc_t),
        n.user.authPassword = [] ∨ n.user.privPassword = [] → set_ue_keys L n = none)
    ∧ (∀ (L : Crypt) (ueas : List snmp_ue_assoc_t) (g : UeCache) (u : snmp_ue_assoc_t),
        u ∈ ueas → u.engine ≠ [] →
        u.user.authPassword = [] ∨ u.user.privPassword = [] →
        renew_ue_cache L ueas g = none)
    ∧ (∀ (L : Crypt) (g : UeCache) (E U : Bytes) (a : snmp_ue_assoc_t),
        g.localized_ues.find? (fun x => decide (x.user.userName = U ∧ x.engine = E)) = none →
        g.unlocalized_ues.find? (fun x => decide (x.user.userName = U)) = some a →
        a.user.authPassword = [] ∨ a.user.privPassword = [] →
        get_user_assoc L g (some E) (some U) = none)
    ∧ snmp_users_update_cb exampleTemplateEmptyPriv
        = (exampleTemplateEmptyPriv, some "short privPassword (0)")
    ∧ (∀ L : Crypt,
        get_user_assoc L
          { localized_ues := [], unlocalized_ues := [exampleTemplateEmptyPriv],
            set_ue_keys_calls := 0 }
          (some exampleEngine) (some [117, 115, 101, 114]) = none) := by
  refine ⟨fun H e k => ⟨password_to_key_md5_nil H e k, password_to_key_sha1_nil H e k⟩,
    fun H pw hpw => ⟨fun i => Nat.mod_lt _ (List.length_pos.mpr hpw), ?_, ?_⟩,
    set_ue_keys_empty_password,
    fun L ueas g u hu he hp =>
      renew_ue_cache_fault L ueas g u hu he (set_ue_keys_empty_password L u hp),
    fun L g E U a hno hfirst hp =>
      get_user_assoc_fault L g E U a hno hfirst (set_ue_keys_empty_password L _ hp),
    by decide,
    fun L => get_user_assoc_fault L _ _ _ exampleTemplateEmptyPriv (by decide) (by decide)
      (set_ue_keys_empty_password L _ (Or.inr rfl))⟩
  · obtain ⟨b, hb, _⟩ := keyLoop_run H pw hpw (List.replicate 64 0) (by simp)
    exact ⟨_, hb⟩
  · obtain ⟨b, hb, _⟩ := keyLoop_run H pw hpw (List.replicate 72 0) (by simp)
    exact ⟨_, hb⟩

/-! ## The working buffer of the SHA1 localization -/

/-- A successful read has the length that was asked for. -/
theorem memRead_length (buf r : Bytes) (off n : Nat) (h : memRead buf off n = some r) :
    r.length = n := by
  unfold memRead at h
  split at h
  · cases h
    simp
    omega
  · cases h

/-- The SHA1 function faults on an engine ID of more than 32 bytes: the second copy of
the digest does not fit the 72-byte buffer. -/
theorem password_to_key_sha1_long_engine (H : HashLib) (pw engineID key : Bytes)
    (heng : 32 < engineID.length) :
    snmp_usm_password_to_key_sha1 H pw engineID key = none := by
  rw [Option.eq_none_iff_forall_not_mem]
  intro k hk
  rw [Option.mem_def] at hk
  unfold snmp_usm_password_to_key_sha1 at hk
  simp only [Option.bind_eq_bind, Option.bind_eq_some] at hk
  obtain ⟨⟨SH, buf, idx, cnt⟩, hloop, key1, _, r1, _, b1, hb1, b2, hb2, r2, hr2, b3, hb3, _⟩ := hk
  have hbuf : buf.length = 72 := by
    by_cases hpw : pw = []
    · subst hpw
      rw [keyLoop_nil] at hloop
      cases hloop
    · obtain ⟨buf2, hrun, hl⟩ := keyLoop_run H pw hpw (List.replicate 72 0) (by simp)
      rw [hrun] at hloop
      simp only [Option.some.injEq, Prod.mk.injEq] at hloop
      rw [← hloop.2.1]
      simpa using hl
  have h1 : b1.length = buf.length := memWrite_length _ _ _ _ hb1
  have h2 := memWrite_length _ _ _ _ hb2
  have h3 := memRead_length _ _ _ _ hr2
  unfold memWrite at hb3
  rw [if_neg (by omega)] at hb3
  cases hb3

/-- The function `set_ue_keys` faults on a SHA1 association with an engine ID of more
than 32 bytes. -/
theorem set_ue_keys_long_engine (L : Crypt) (n : snmp_ue_assoc_t)
    (hm : n.user.authModel = .model_sha1) (heng : 32 < n.engine.length) :
    set_ue_keys L n = none := by
  unfold set_ue_keys
  have h : ∀ pw key, (n.user.authModel.deref L).pass2key pw n.engine key = none := by
    intro pw key
    rw [hm]
    exact password_to_key_sha1_long_engine L.sha1 pw n.engine key heng
  simp only [h, Option.bind_eq_bind, Option.none_bind]

/-- C34: with a digest library that has the two laws, a non-empty password and the key
buffers the caller allocates, the SHA1 function returns exactly when the engine ID
has at most 32 bytes, and then the key is the digest of `digest1 ++ engineID ++
digest1`, the `40 + engineLength` bytes assembled in the 72-byte buffer; with a
longer engine ID it faults, whatever the library is.  The MD5 function returns for
every engine ID.  `get_user_assoc` hands the engine ID of the message to the
function as it is: when it localizes a SHA1 template with an engine ID of more than
32 bytes it faults. -/
theorem C34_sha1_buffer_limit (H1 H5 : HashLib) (password engineID key1 key5 : Bytes)
    (h1s : H1.Streaming) (h1d : H1.DigestLen 20) (h5s : H5.Streaming)
    (h5d : H5.DigestLen 16) (hpw : password ≠ []) (hk1 : key1.length = 20)
    (hk5 : key5.length = 16) :
    ((snmp_usm_password_to_key_sha1 H1 password engineID key1).isSome = true
        ↔ engineID.length ≤ 32)
    ∧ (engineID.length ≤ 32 →
        snmp_usm_password_to_key_sha1 H1 password engineID key1
          = some (H1.hash (H1.hash (passwordStream password 1048576) ++ engineID
                    ++ H1.hash (passwordStream password 1048576)))
        ∧ (H1.hash (passwordStream password 1048576) ++ engineID
              ++ H1.hash (passwordStream password 1048576)).length
            = 40 + engineID.length)
    ∧ (∀ (H : HashLib) (pw key : Bytes), 32 < engineID.length →
        snmp_usm_password_to_key_sha1 H pw engineID key = none)
    ∧ snmp_usm_password_to_key_md5 H5 password engineID key5
        = some (H5.hash (H5.hash (passwordStream password 1048576) ++ engineID
                  ++ H5.hash (passwordStream password 1048576)))
    ∧ (∀ (L : Crypt) (g : UeCache) (U : Bytes) (a : snmp_ue_assoc_t),
        g.localized_ues.find? (fun x => decide (x.user.userName = U ∧ x.engine = engineID))
          = none →
        g.unlocalized_ues.find? (fun x => decide (x.user.userName = U)) = some a →
        a.user.authModel = .model_sha1 → 32 < engineID.length →
        get_user_assoc L g (some engineID) (some U) = none) := by
  have hsome := password_to_key_sha1_eq H1 h1s h1d password engineID key1 hpw hk1
  refine ⟨⟨fun h => ?_, fun h => ?_⟩, fun h => ⟨hsome h, ?_⟩,
    fun H pw key h => password_to_key_sha1_long_engine H pw engineID key h,
    password_to_key_md5_eq H5 h5s h5d password engineID key5 hpw hk5,
    fun L g U a hno hfirst hm h =>
      get_user_assoc_fault L g engineID U a hno hfirst
        (set_ue_keys_long_engine L _ hm h)⟩
  · by_contra hc
    rw [password_to_key_sha1_long_engine H1 password engineID key1 (by omega)] at h
    cases h
  · rw [hsome h]
    rfl
  · have hl : (H1.hash (passwordStream password 1048576)).length = 20 := h1d _
    simp only [List.length_append, hl]
    omega

/-- Witness of C34 with the modelled digests, the password `"ab"` and an engine ID of 33
bytes: the SHA1 function faults, the MD5 function returns. -/
theorem C34_sha1_buffer_limit_witness :
    snmp_usm_password_to_key_sha1 sha1Lib [97, 98] (List.replicate 33 0) (se_alloc 20) = none
    ∧ (snmp_usm_password_to_key_md5 md5Lib [97, 98] (List.replicate 33 0)
        (se_alloc 16)).isSome = true
    ∧ get_user_assoc stdCrypt
        { localized_ues := [], unlocalized_ues := [exampleTemplateSha1],
          set_ue_keys_calls := 0 }
        (some (List.replicate 33 0)) (some [117, 115, 101, 114]) = none := by
  have h := C34_sha1_buffer_limit sha1Lib md5Lib [97, 98] (List.replicate 33 0)
    (se_alloc 20) (se_alloc 16) sha1Lib_streaming sha1Lib_digestLen md5Lib_streaming
    md5Lib_digestLen (by decide) (by decide) (by decide)
  refine ⟨h.2.2.1 _ _ _ (by decide), ?_, h.2.2.2.2 _ _ _ exampleTemplateSha1 (by decide)
    (by decide) rfl (by decide)⟩
  rw [h.2.2.2.1]
  rfl

/-! ## Repeated passwords -/

/-- Byte `j` of a password written `k` times is byte `j mod passwordlen` of the
password. -/
theorem replicate_flatten_getElem? (P : Bytes) (hP : P ≠ []) :
    ∀ (k j : Nat), j < k * P.length →
      (List.replicate k P).flatten[j]? = P[j % P.length]? := by
  intro k
  induction k with
  | zero =>
    intro j hj
    omega
  | succ k ih =>
    intro j hj
    have hlen : 0 < P.length := List.length_pos.mpr hP
    rw [List.replicate_succ, List.flatten_cons]
    by_cases hlt : j < P.length
    · rw [List.getElem?_append_left hlt, Nat.mod_eq_of_lt hlt]
    · have h2 : (k + 1) * P.length = k * P.length + P.length := Nat.succ_mul k P.length
      have e := Nat.mod_eq_sub_mod (show j ≥ P.length by omega)
      rw [List.getElem?_append_right (by omega), ih (j - P.length) (by omega), e]

/-- The length of a password written `k` times. -/
theorem replicate_flatten_length (P : Bytes) (k : Nat) :
    (List.replicate k P).flatten.length = k * P.length := by
  induction k with
  | zero => simp
  | succ k ih =>
    rw [List.replicate_succ, List.flatten_cons, List.length_append, ih, Nat.succ_mul]
    omega

/-- The cyclic read of a password written `k` times is the cyclic read of the
password. -/
theorem replicate_flatten_cyclic (P : Bytes) (hP : P ≠ []) (k : Nat) (hk : 1 ≤ k) (i : Nat) :
    (List.replicate k P).flatten[i % (List.replicate k P).flatten.length]?
      = P[i % P.length]? := by
  have hlen : 0 < P.length := List.length_pos.mpr hP
  have hpos : 0 < k * P.length := Nat.mul_pos (by omega) hlen
  rw [replicate_flatten_length, replicate_flatten_getElem? P hP k _ (Nat.mod_lt _ hpos),
    Nat.mod_mod_of_dvd i (Dvd.intro_left k rfl)]

/-- The fill loop reads the password only through its cyclic reads. -/
theorem fillBuf_congr (Q P : Bytes) (hlen : Q.length = 0 ↔ P.length = 0)
    (hget : ∀ i, Q[i % Q.length]? = P[i % P.length]?) :
    ∀ (n cp : Nat) (buf : Bytes) (idx : Nat),
      fillBuf Q n cp buf idx = fillBuf P n cp buf idx := by
  intro n
  induction n with
  | zero =>
    intro cp buf idx
    rfl
  | succ n ih =>
    intro cp buf idx
    rw [fillBuf, fillBuf, hget idx]
    by_cases h0 : P.length = 0
    · rw [if_pos h0, if_pos (hlen.2 h0)]
    · rw [if_neg h0, if_neg (fun h => h0 (hlen.1 h))]
      cases P[idx % P.length]? with
      | none => rfl
      | some b =>
        simp only
        split
        · exact ih _ _ _
        · rfl

/-- The loop of the first stage reads the password only through the fill loop. -/
theorem keyLoop_congr (H : HashLib) (Q P : Bytes)
    (hf : ∀ (n cp : Nat) (buf : Bytes) (idx : Nat),
      fillBuf Q n cp buf idx = fillBuf P n cp buf idx) :
    ∀ (m : Nat) (MD : H.Ctx) (buf : Bytes) (idx count : Nat), 1048576 - count = m →
      keyLoop H Q MD buf idx count = keyLoop H P MD buf idx count := by
  intro m
  induction m using Nat.strong_induction_on with
  | _ m ih =>
    intro MD buf idx count hm
    rw [keyLoop]
    conv_rhs => rw [keyLoop]
    rw [hf]
    by_cases hc : count < 1048576
    · rw [if_pos hc, if_pos hc]
      cases fillBuf P 64 0 buf idx with
      | none => rfl
      | some r =>
        obtain ⟨b, i⟩ := r
        simp only
        have hmod : (count + 64) % U32 = count + 64 :=
          Nat.mod_eq_of_lt (by simp only [U32]; omega)
        exact ih (1048576 - (count + 64) % U32) (by rw [hmod]; omega) _ _ _ _ rfl
    · rw [if_neg hc, if_neg hc]

/-- Both password-to-key functions on a password written `k` times. -/
theorem password_to_key_replicate (H : HashLib) (P engineID key : Bytes) (hP : P ≠ [])
    (k : Nat) (hk : 1 ≤ k) :
    snmp_usm_password_to_key_md5 H (List.replicate k P).flatten engineID key
        = snmp_usm_password_to_key_md5 H P engineID key
    ∧ snmp_usm_password_to_key_sha1 H (List.replicate k P).flatten engineID key
        = snmp_usm_password_to_key_sha1 H P engineID key := by
  have hlen : (List.replicate k P).flatten.length = 0 ↔ P.length = 0 := by
    rw [replicate_flatten_length]
    have : 0 < P.length := List.length_pos.mpr hP
    constructor
    · intro h
      rcases Nat.mul_eq_zero.mp h with h | h
      · omega
      · exact h
    · intro h
      omega
  have hk2 : ∀ (MD : H.Ctx) (buf : Bytes),
      keyLoop H (List.replicate k P).flatten MD buf 0 0 = keyLoop H P MD buf 0 0 :=
    fun MD buf => keyLoop_congr H _ P
      (fillBuf_congr _ P hlen (replicate_flatten_cyclic P hP k hk)) _ MD buf 0 0 rfl
  constructor
  · unfold snmp_usm_password_to_key_md5
    simp only [hk2]
  · unfold snmp_usm_password_to_key_sha1
    simp only [hk2]

/-- The stream of a password written `k` times is the stream of the password. -/
theorem passwordStream_replicate (P : Bytes) (hP : P ≠ []) (k : Nat) (hk : 1 ≤ k) (n : Nat) :
    passwordStream (List.replicate k P).flatten n = passwordStream P n := by
  unfold passwordStream
  apply List.map_congr_left
  intro i _
  have h := replicate_flatten_cyclic P hP k hk i
  rw [List.getD_eq_getElem?_getD, List.getD_eq_getElem?_getD, h]

/-- C36: for a non-empty password `P` and `k ≥ 1`, the password `P` written `k` times
gives the same one-megabyte stream as `P`, and both password-to-key functions return
for it what they return for `P`, with every digest library, engine ID and key
buffer; for MD5 with a lawful library this result is the key of the stream of `P`.
The password `"maplesyrup"` written twice is `"maplesyrupmaplesyrup"`. -/
theorem C36_password_periodicity (H5 H1 : HashLib) (P engineID key5 key1 : Bytes) (k : Nat)
    (hP : P ≠ []) (hk : 1 ≤ k) :
    passwordStream (List.replicate k P).flatten 1048576 = passwordStream P 1048576
    ∧ snmp_usm_password_to_key_md5 H5 (List.replicate k P).flatten engineID key5
        = snmp_usm_password_to_key_md5 H5 P engineID key5
    ∧ snmp_usm_password_to_key_sha1 H1 (List.replicate k P).flatten engineID key1
        = snmp_usm_password_to_key_sha1 H1 P engineID key1
    ∧ (H5.Streaming → H5.DigestLen 16 → key5.length = 16 →
        snmp_usm_password_to_key_md5 H5 (List.replicate k P).flatten engineID key5
          = some (H5.hash (H5.hash (passwordStream P 1048576) ++ engineID
                    ++ H5.hash (passwordStream P 1048576))))
    ∧ (List.replicate 2 examplePasswordOnce).flatten = examplePassword := by
  refine ⟨passwordStream_replicate P hP k hk _,
    (password_to_key_replicate H5 P engineID key5 hP k hk).1,
    (password_to_key_replicate H1 P engineID key1 hP k hk).2, fun hs hd hkey => ?_,
    by decide⟩
  rw [(password_to_key_replicate H5 P engineID key5 hP k hk).1]
  exact password_to_key_md5_eq H5 hs hd P engineID key5 hP hkey

/-- Witness of C36: `"maplesyrupmaplesyrup"` and `"maplesyrup"` with the modelled
digests and the engine ID of RFC 3414 A.3. -/
theorem C36_password_periodicity_witness :
    snmp_usm_password_to_key_md5 md5Lib examplePassword exampleEngine (se_alloc 16)
        = snmp_usm_password_to_key_md5 md5Lib examplePasswordOnce exampleEngine (se_alloc 16)
    ∧ snmp_usm_password_to_key_sha1 sha1Lib examplePassword exampleEngine (se_alloc 20)
        = snmp_usm_password_to_key_sha1 sha1Lib examplePasswordOnce exampleEngine
            (se_alloc 20) :=
  ⟨(C36_password_periodicity md5Lib sha1Lib examplePasswordOnce exampleEngine (se_alloc 16)
      (se_alloc 20) 2 (by decide) (by decide)).2.1,
   (C36_password_periodicity md5Lib sha1Lib examplePasswordOnce exampleEngine (se_alloc 16)
      (se_alloc 20) 2 (by decide) (by decide)).2.2.1⟩

/-! ## Keys of the localized associations -/

/-- The association that `set_ue_keys` returns has both keys, of the size of its
authentication model. -/
theorem set_ue_keys_hasSizedKeys (L : Crypt) (n n2 : snmp_ue_assoc_t)
    (h : set_ue_keys L n = some n2) : hasSizedKeys L n2 := by
  obtain ⟨ak, pk, hak, hpk, rfl⟩ := set_ue_keys_eq_some L n n2 h
  have h1 := pass2key_length L _ _ _ _ _ hak
  have h2 := pass2key_length L _ _ _ _ _ hpk
  have hs : (se_alloc (n.user.authModel.deref L).key_size).length
      = (n.user.authModel.deref L).key_size := by simp [se_alloc]
  rw [hs] at h1 h2
  exact ⟨congrArg some h1, congrArg some h2⟩

/-- The key size of a model is 16 or 20. -/
theorem key_size_cases (L : Crypt) (m : AuthModelRef) :
    (m.deref L).key_size = 16 ∨ (m.deref L).key_size = 20 := by
  cases m
  · exact Or.inl rfl
  · exact Or.inr rfl

/-- Every localized association of a reachable state has sized keys. -/
theorem reachable_hasSizedKeys (L : Crypt) (P : Option Bytes → Prop) (g : UeCache)
    (h : Reachable L P g) : ∀ a ∈ g.localized_ues, hasSizedKeys L a := by
  induction h with
  | renew ueas g0 g hr =>
    obtain ⟨ks, hks, rfl⟩ := (renew_ue_cache_iff L ueas g0 g).mp hr
    intro a ha
    obtain ⟨u, _, hk⟩ := forall₂_mem_right _ _ _ hks a (List.mem_reverse.mp ha)
    exact set_ue_keys_hasSizedKeys L u a hk
  | get g g2 engine_tvb user_tvb r _ _ hget ih =>
    cases user_tvb with
    | none =>
      have h0 : get_user_assoc L g engine_tvb none = some (none, g) := by
        unfold get_user_assoc
        split <;> rfl
      rw [h0] at hget
      simp only [Option.some.injEq, Prod.mk.injEq] at hget
      rw [← hget.2]
      exact ih
    | some U =>
      cases engine_tvb with
      | none =>
        have h0 : get_user_assoc L g none (some U) = some (none, g) := by
          unfold get_user_assoc
          split <;> rfl
        rw [h0] at hget
        simp only [Option.some.injEq, Prod.mk.injEq] at hget
        rw [← hget.2]
        exact ih
      | some E =>
        rw [get_user_assoc_eq] at hget
        split at hget
        · simp only [Option.some.injEq, Prod.mk.injEq] at hget
          rw [← hget.2]
          exact ih
        · split at hget
          · rename_i a _
            cases hk : set_ue_keys L { a with engine := E } with
            | none => rw [hk] at hget; cases hget
            | some n =>
              rw [hk] at hget
              simp only [Option.some.injEq, Prod.mk.injEq] at hget
              rw [← hget.2]
              intro x hx
              rcases List.mem_cons.mp hx with rfl | hx
              · exact set_ue_keys_hasSizedKeys L _ _ hk
              · exact ih x hx
          · simp only [Option.some.injEq, Prod.mk.injEq] at hget
            rw [← hget.2]
            exact ih

/-- An association that `get_user_assoc` returns is in `localized` afterwards. -/
theorem get_user_assoc_mem (L : Crypt) (g g2 : UeCache) (engine_tvb user_tvb : Option Bytes)
    (a : snmp_ue_assoc_t) (h : get_user_assoc L g engine_tvb user_tvb = some (some a, g2)) :
    a ∈ g2.localized_ues := by
  cases user_tvb with
  | none =>
    have h0 : get_user_assoc L g engine_tvb none = some (none, g) := by
      unfold get_user_assoc
      split <;> rfl
    rw [h0] at h
    simp at h
  | some U =>
    cases engine_tvb with
    | none =>
      have h0 : get_user_assoc L g none (some U) = some (none, g) := by
        unfold get_user_assoc
        split <;> rfl
      rw [h0] at h
      simp at h
    | some E =>
      rw [get_user_assoc_eq] at h
      split at h
      · rename_i x hx
        simp only [Option.some.injEq, Prod.mk.injEq] at h
        rw [← h.2, ← h.1]
        exact List.mem_of_find?_eq_some hx
      · split at h
        · rename_i t _
          cases hk : set_ue_keys L { t with engine := E } with
          | none => rw [hk] at h; cases h
          | some n =>
            rw [hk] at h
            simp only [Option.some.injEq, Prod.mk.injEq] at h
            rw [← h.2, ← h.1]
            exact List.mem_cons_self _ _
        · simp at h

/-- The authentication check never reports a missing key for a user that has one. -/
theorem snmp_usm_auth_has_key (hmac : Bytes → Bytes → Bytes) (p : snmp_usm_params_t)
    (a : snmp_ue_assoc_t) (key : Bytes) (r : AuthResult) (hp : p.user_assoc = some a)
    (hk : a.user.authKey = some key) (hr : snmp_usm_auth hmac p = some r) :
    r.error ≠ some "User has no authKey" := by
  obtain ⟨c1, _, c3, c4, _⟩ := snmp_usm_auth_cases hmac p
  cases hauth : p.auth_tvb with
  | none =>
    rw [c1 hauth] at hr
    cases hr
    decide
  | some auth =>
    by_cases h12 : auth.length = 12
    · rw [(c4 auth a key r hauth hp hk h12 hr).1]
      exact fun h => Option.noConfusion h
    · rw [c3 auth a key hauth hp hk h12] at hr
      cases hr
      decide

/-- C35: in every state reachable by `renew_ue_cache` and `get_user_assoc` calls, every
entry of `localized` has an authentication key and a privacy key, both of the
`key_size` of its authentication model, which is 16 or 20.  So has every association
that `get_user_assoc` returns from such a state; for it the reads of decryption,
`privKey[0..8)` and `privKey[8..16)` for DES and `privKey[0..16)` for AES, are inside
the key, `snmp_usm_priv_des` with an 8-byte salt reaches its length check and the
cipher, and the authentication check never ends in `User has no authKey`. -/
theorem C35_localized_keys_sized (L : Crypt) (P : Option Bytes → Prop) (g : UeCache)
    (h : Reachable L P g) :
    (∀ a ∈ g.localized_ues, hasSizedKeys L a)
    ∧ (∀ (engine_tvb user_tvb : Option Bytes) (a : snmp_ue_assoc_t) (g2 : UeCache),
        P engine_tvb →
        get_user_assoc L g engine_tvb user_tvb = some (some a, g2) →
        ∃ authKey privKey,
          a.user.authKey = some authKey ∧ a.user.privKey = some privKey
          ∧ authKey.length = (a.user.authModel.deref L).key_size
          ∧ privKey.length = (a.user.authModel.deref L).key_size
          ∧ ((a.user.authModel.deref L).key_size = 16
              ∨ (a.user.authModel.deref L).key_size = 20)
          ∧ memRead privKey 0 8 = some (privKey.take 8)
          ∧ memRead privKey 8 8 = some ((privKey.drop 8).take 8)
          ∧ memRead privKey 0 16 = some (privKey.take 16)
          ∧ (∀ (G : Gcrypt) (p : snmp_usm_params_t) (salt enc : Bytes),
              p.user_assoc = some a → p.priv_tvb = some salt → salt.length = 8 →
              snmp_usm_priv_des true G p enc
                = if enc.length % 8 ≠ 0 then
                    some { clear_tvb := none,
                           error := some "decryptionError: the length of the encrypted data is not a mutiple of 8 octets" }
                  else
                    cipher_decrypt G .GCRY_CIPHER_DES .GCRY_CIPHER_MODE_CBC
                      (spec_des_iv privKey salt) 8 (some privKey) 8 enc)
          ∧ (∀ (hmac : Bytes → Bytes → Bytes) (p : snmp_usm_params_t) (r : AuthResult),
              p.user_assoc = some a → snmp_usm_auth hmac p = some r →
              r.error ≠ some "User has no authKey")) := by
  refine ⟨reachable_hasSizedKeys L P g h, ?_⟩
  intro engine_tvb user_tvb a g2 hP hget
  have hmem := get_user_assoc_mem L g g2 engine_tvb user_tvb a hget
  have hkeys := reachable_hasSizedKeys L P g2
    (Reachable.get g g2 engine_tvb user_tvb (some a) h hP hget) a hmem
  obtain ⟨h1, h2⟩ := hkeys
  cases hak : a.user.authKey with
  | none => rw [hak] at h1; cases h1
  | some ak =>
    cases hpk : a.user.privKey with
    | none => rw [hpk] at h2; cases h2
    | some pk =>
      rw [hak] at h1
      rw [hpk] at h2
      have e1 : ak.length = (a.user.authModel.deref L).key_size := Option.some.inj h1
      have e2 : pk.length = (a.user.authModel.deref L).key_size := Option.some.inj h2
      have hsz := key_size_cases L a.user.authModel
      have h16 : 16 ≤ pk.length := by omega
      refine ⟨ak, pk, rfl, rfl, e1, e2, hsz, ?_, ?_, ?_, ?_, ?_⟩
      · unfold memRead
        rw [if_pos (by omega)]
        rfl
      · unfold memRead
        rw [if_pos (by omega)]
      · unfold memRead
        rw [if_pos (by omega)]
        rfl
      · intro G p salt enc hp hs hl
        exact snmp_usm_priv_des_eq G p a pk salt enc hp hpk h16 hs hl
      · intro hmac p r hp hr
        exact snmp_usm_auth_has_key hmac p a ak r hp hak hr

/-- Witness of C35 with the modelled digests: after the table with `exampleTemplate` is
loaded, the user is resolved for the engine ID of RFC 3414 A.3, and the association
returned has two keys of 16 bytes. -/
theorem C35_localized_keys_sized_witness :
    ∃ n g1 authKey privKey,
      get_user_assoc stdCrypt exampleCache (some exampleEngine) (some [117, 115, 101, 114])
        = some (some n, g1)
      ∧ n.user.authKey = some authKey ∧ n.user.privKey = some privKey
      ∧ authKey.length = 16 ∧ privKey.length = 16 := by
  obtain ⟨n, hn⟩ := set_ue_keys_returns stdCrypt
    { exampleTemplate with engine := exampleEngine }
    md5Lib_streaming md5Lib_digestLen sha1Lib_streaming sha1Lib_digestLen
    (by decide) (by decide) (by decide)
  have h0 : Reachable stdCrypt (fun _ => True) exampleCache :=
    Reachable.renew [exampleTemplate] exampleCache exampleCache (by decide)
  have h1 : get_user_assoc stdCrypt exampleCache (some exampleEngine)
      (some [117, 115, 101, 114])
      = some (some n, { exampleCache with localized_ues := [n], set_ue_keys_calls := 1 }) :=
    get_user_assoc_miss _ _ _ _ exampleTemplate n (by decide) (by decide) hn
  obtain ⟨ak, pk, hak, hpk, e1, e2, _⟩ :=
    (C35_localized_keys_sized stdCrypt (fun _ => True) exampleCache h0).2 _ _ n _ trivial h1
  have hm : n.user.authModel = .model_md5 := by
    obtain ⟨_, _, _, _, rfl⟩ := set_ue_keys_eq_some stdCrypt _ n hn
    rfl
  rw [hm] at e1 e2
  exact ⟨n, _, ak, pk, h1, hak, hpk, e1, e2⟩

/-! ## The offset that the VarBind decoder returns -/

/-- The two ways `dissect_value` ends, with the format of the error. -/
theorem dissect_value_err (P : VarBindOut → Prop) (B : Epan) (tvb : Bytes)
    (items : List Item) (so : Int) (sl : Nat) (vs vo : Int) (vl : Nat) (c t mn mx : Int)
    (ol : Nat)
    (hemit : ∀ hf, P (emit_value items hf so sl vo vl ol))
    (herr : ∀ f a m, f ∈ valueErrorTexts → P (structural_error B tvb items 0 0 f a m vs)) :
    P (dissect_value B tvb items so sl vs vo vl c t mn mx ol) := by
  unfold dissect_value
  dsimp only
  repeat' apply ite_ind
  all_goals
    first
      | exact hemit _
      | exact herr _ _ _ (by decide)

/-- The two ways `dissect_checked` ends, with the format of the error. -/
theorem dissect_checked_err (P : VarBindOut → Prop) (B : Epan) (tvb : Bytes) (so : Int)
    (sl : Nat) (no : Int) (nl : Nat) (vs : Int) (vid : BerIdentifier) (vln : BerLength)
    (hemit : ∀ items hf ol, (∀ i ∈ items, i.isExpert = false) →
      P (emit_value items hf so sl vln.offset vln.length ol))
    (herr : ∀ items f a m, f ∈ valueErrorTexts →
      P (structural_error B tvb items 0 0 f a m vs)) :
    P (dissect_checked B tvb so sl no nl vs vid vln) := by
  unfold dissect_checked
  dsimp only
  repeat' apply ite_ind
  all_goals
    first
      | exact herr _ _ _ _ (by decide)
      | exact hemit _ _ _ (two_items_not_expert _ _ _ _ _ _)
      | exact hemit _ _ _ (text_item_not_expert _ _ _ _ _ _ _)

/-- When a header check fires, the decoder ends in the error of that check, with the raw
decode started at the VarBind. -/
theorem dissect_snmp_VarBind_header_error (B : Epan) (tvb : Bytes) (offset : Int)
    (h : ¬ headersOk B tvb offset) :
    ∃ f m, f ∈ headerErrorTexts
      ∧ dissect_snmp_VarBind B tvb offset
          = structural_error B tvb [] offset (seqLen B tvb offset) f [] m offset := by
  rw [dissect_snmp_VarBind_eq]
  by_cases c1 : (seqId B tvb offset).pc = false ∧ (seqId B tvb offset).ber_class = BER_CLASS_UNI
      ∧ (seqId B tvb offset).tag = BER_UNI_TAG_SEQUENCE
  · rw [if_pos c1]
    exact ⟨_, _, by decide, rfl⟩
  · rw [if_neg c1]
    by_cases c2 : (seqLn B tvb offset).ind = true
    · rw [if_pos c2]
      exact ⟨_, _, by decide, rfl⟩
    · rw [if_neg c2]
      by_cases c3 : ¬ ((nameId B tvb offset).pc = false
          ∧ (nameId B tvb offset).ber_class = BER_CLASS_UNI
          ∧ (nameId B tvb offset).tag = BER_UNI_TAG_OID)
      · rw [if_pos c3]
        exact ⟨_, _, by decide, rfl⟩
      · rw [if_neg c3]
        by_cases c4 : (nameLn B tvb offset).ind = true
        · rw [if_pos c4]
          exact ⟨_, _, by decide, rfl⟩
        · rw [if_neg c4]
          by_cases c5 : ¬ ((valueId B tvb offset).pc = false)
          · rw [if_pos c5]
            exact ⟨_, _, by decide, rfl⟩
          · exfalso
            exact h ⟨c1, Bool.eq_false_iff.mpr c2, not_not.mp c3, Bool.eq_false_iff.mpr c4,
              not_not.mp c5⟩

/-- C15, amended.  When `dissect_snmp_VarBind` reports no structural error it returns
`seq_offset + seq_len`, which is the offset past the VarBind (the end of its header
plus the declared content length) whenever that offset is below `2^31`.  When it
reports a structural error it returns what `dissect_unknown_ber` returns, and that raw
decode starts at the start of the VarBind or at the header of the value.  Which of
the two is decided by the kind of the error.  When one of the five header checks
fires (the header and length of the VarBind, the header and length of the ObjectName,
the encoding of the value), the decoder ends in an error of `headerErrorTexts`, the
raw decode starts at the start of the VarBind, and its result is returned.  When the
headers pass and an error is reported, it is an error of `valueErrorTexts` (wrong
length, wrong class or tag, wrong tag of an exception value), the raw decode starts
at the header of the value, and its result is returned. -/
theorem C15_return_offset (B : Epan) (tvb : Bytes) (offset : Int) :
    ((dissect_snmp_VarBind B tvb offset).hasError = false →
      (dissect_snmp_VarBind B tvb offset).ret = toInt32 (offset + seqLen B tvb offset))
    ∧ ((dissect_snmp_VarBind B tvb offset).hasError = true →
      ∃ at_offset, (at_offset = offset ∨ at_offset = valueStart B tvb offset)
        ∧ (dissect_snmp_VarBind B tvb offset).items.getLast? = some (.unknown_ber at_offset)
        ∧ (dissect_snmp_VarBind B tvb offset).ret = B.dissect_unknown_ber tvb at_offset)
    ∧ (0 ≤ offset → offset ≤ (seqLn B tvb offset).offset →
        (seqLn B tvb offset).offset + (seqLn B tvb offset).length < 2147483648 →
        toInt32 (offset + seqLen B tvb offset)
          = (seqLn B tvb offset).offset + (seqLn B tvb offset).length)
    ∧ (¬ headersOk B tvb offset →
        (dissect_snmp_VarBind B tvb offset).hasError = true
        ∧ (∃ f m, f ∈ headerErrorTexts
            ∧ dissect_snmp_VarBind B tvb offset
                = structural_error B tvb [] offset (seqLen B tvb offset) f [] m offset)
        ∧ (dissect_snmp_VarBind B tvb offset).items.getLast? = some (.unknown_ber offset)
        ∧ (dissect_snmp_VarBind B tvb offset).ret = B.dissect_unknown_ber tvb offset)
    ∧ (headersOk B tvb offset → (dissect_snmp_VarBind B tvb offset).hasError = true →
        (∃ items f a m, f ∈ valueErrorTexts
            ∧ dissect_snmp_VarBind B tvb offset
                = structural_error B tvb items 0 0 f a m (valueStart B tvb offset))
        ∧ (dissect_snmp_VarBind B tvb offset).items.getLast?
            = some (.unknown_ber (valueStart B tvb offset))
        ∧ (dissect_snmp_VarBind B tvb offset).ret
            = B.dissect_unknown_ber tvb (valueStart B tvb offset))
    ∧ (∀ f, f ∈ headerErrorTexts → f ∉ valueErrorTexts) := by
  refine ⟨?_, ?_, ?_, ?_, ?_, by decide⟩
  · apply dissect_snmp_VarBind_ind
      (fun out => out.hasError = false → out.ret = toInt32 (offset + seqLen B tvb offset))
    · intro items hf vo vl ol _ _
      rfl
    · intro items s l f a m at_offset _ h
      rw [structural_error_hasError] at h
      cases h
  · apply dissect_snmp_VarBind_ind
      (fun out => out.hasError = true →
        ∃ at_offset, (at_offset = offset ∨ at_offset = valueStart B tvb offset)
          ∧ out.items.getLast? = some (.unknown_ber at_offset)
          ∧ out.ret = B.dissect_unknown_ber tvb at_offset)
    · intro items hf vo vl ol hi h
      rw [emit_value_hasError _ _ _ _ _ _ _ hi] at h
      cases h
    · intro items s l f a m at_offset hat _
      exact ⟨at_offset, hat, structural_error_getLast _ _ _ _ _ _ _ _ _, rfl⟩
  · intro h0 h1 h2
    unfold seqLen toU32 toInt32
    omega
  · intro hno
    obtain ⟨f, m, hf, he⟩ := dissect_snmp_VarBind_header_error B tvb offset hno
    refine ⟨?_, ⟨f, m, hf, he⟩, ?_, ?_⟩
    · rw [he]
      exact structural_error_hasError _ _ _ _ _ _ _ _ _
    · rw [he]
      exact structural_error_getLast _ _ _ _ _ _ _ _ _
    · rw [he]
      rfl
  · intro hok
    rw [dissect_snmp_VarBind_ok B tvb offset hok]
    apply dissect_checked_err
      (fun out => out.hasError = true →
        (∃ items f a m, f ∈ valueErrorTexts
            ∧ out = structural_error B tvb items 0 0 f a m (valueStart B tvb offset))
        ∧ out.items.getLast? = some (.unknown_ber (valueStart B tvb offset))
        ∧ out.ret = B.dissect_unknown_ber tvb (valueStart B tvb offset))
    · intro items hf ol hi h
      rw [emit_value_hasError _ _ _ _ _ _ _ hi] at h
      cases h
    · intro items f a m hf _
      exact ⟨⟨items, f, a, m, hf, rfl⟩, structural_error_getLast _ _ _ _ _ _ _ _ _, rfl⟩

end Snmp
